import Mathlib

/-!
# Six Sines: the per-voice matrix nodes of `src/dsp/matrix_node.h`

A shallow embedding of the six node kinds of `matrix_node.h` (inter-operator node,
feedback node, mixer node, main-pan node, fine-tune node, output node) and a set of
theorems about them.

Conventions of the embedding.

* `float` / `double` values are exact rationals (`ℚ`): every arithmetic step of the source
  is kept, in the source's order, but without rounding error.
* `int32_t` values are integers (`Int`).  A float-to-`int32_t` conversion truncates toward
  zero; a conversion or an `int32_t` addition whose result leaves the signed 32-bit range is
  undefined in C++ and is `none` here, so the block routines that perform them return an
  `Option`.
* A block buffer `float x[blockSize]` is a function `Nat → ℚ`; loops touch the indices below
  `blockSize` only.
* A nullable `const float *` is an `Option ℚ`: `none` for the null pointer, `some v` for a
  pointer whose pointee currently holds `v`.
* The base classes `EnvelopeSupport`, `LFOSupport` and `ModulationSupport` live in
  `dsp/node_support.h`, which is not part of the sources at hand.  Their member functions are
  the fields of `Collab`; the members the nodes read or write directly are the fields of
  `NodeSupport`, and whatever else they keep is the abstract state `S`.
-/

namespace SixSines

/-- A buffer `float x[blockSize]`. -/
abbrev Block := Nat → ℚ

/-- A buffer `int32_t x[blockSize]`. -/
abbrev IBlock := Nat → Int

/-- The function `std::clamp(v, lo, hi)`. -/
def clamp (v lo hi : ℚ) : ℚ := if v < lo then lo else if hi < v then hi else v

/-- The function `std::round`: nearest integer, halfway cases away from zero. -/
def cround (x : ℚ) : Int := if 0 ≤ x then ⌊x + 1 / 2⌋ else ⌈x - 1 / 2⌉

/-- Truncation toward zero, the value of a C++ float-to-integer conversion. -/
def truncToInt (x : ℚ) : Int := if 0 ≤ x then ⌊x⌋ else ⌈x⌉

/-- Smallest `int32_t`. -/
def INT32_MIN : Int := -2147483648

/-- Largest `int32_t`. -/
def INT32_MAX : Int := 2147483647

/-- Whether an integer is representable as `int32_t`. -/
def inInt32 (z : Int) : Bool := decide (INT32_MIN ≤ z) && decide (z ≤ INT32_MAX)

/-- The conversion `(int32_t)x` / `(int)x` of a float: truncation toward zero, undefined
(`none`) when the truncated value is not representable. -/
def castInt32 (x : ℚ) : Option Int :=
  if inInt32 (truncToInt x) then some (truncToInt x) else none

/-- Addition of two `int32_t` values: undefined (`none`) on signed overflow. -/
def addInt32 (a b : Int) : Option Int :=
  if inInt32 (a + b) then some (a + b) else none

/-- A loop `for (j = 0; j < bs; ++j) buf[j] = f(j)` over an `int32_t` buffer whose body may be
undefined: defined when every iteration is. -/
def writeInt32 (bs : Nat) (old : IBlock) (f : Nat → Option Int) : Option IBlock :=
  if (List.range bs).all (fun j => (f j).isSome) then
    some (fun j => if j < bs then (f j).getD 0 else old j)
  else none

namespace mech

/-- Block operation `mech::scale_by<N>(const float *scale, float *target)` of sst-basic-blocks:
`target[i] *= scale[i]`. -/
def scale_by (bs : Nat) (scale target : Block) : Block :=
  fun i => if i < bs then target i * scale i else target i

/-- Block operation `mech::scale_by<N>(float scale, float *target)`: `target[i] *= scale`. -/
def scale_by_const (bs : Nat) (scale : ℚ) (target : Block) : Block :=
  fun i => if i < bs then target i * scale else target i

/-- Block operation `mech::mul_block<N>(a, b, out)`: `out[i] = a[i] * b[i]`. -/
def mul_block (bs : Nat) (a b out : Block) : Block :=
  fun i => if i < bs then a i * b i else out i

/-- Block operation `mech::mul_block<N>(a, float b, out)`: `out[i] = a[i] * b`. -/
def mul_block_const (bs : Nat) (a : Block) (b : ℚ) (out : Block) : Block :=
  fun i => if i < bs then a i * b else out i

/-- Block operation `mech::accumulate_from_to<N>(src, dst)`: `dst[i] += src[i]`. -/
def accumulate_from_to (bs : Nat) (src dst : Block) : Block :=
  fun i => if i < bs then dst i + src i else dst i

/-- Block operation `mech::copy_from_to<N>(src, dst)`: `dst[i] = src[i]`. -/
def copy_from_to (bs : Nat) (src dst : Block) : Block :=
  fun i => if i < bs then src i else dst i

end mech

/-- The members of the envelope object `env` that the nodes read. -/
structure Env where
  outputCache : Block
  outBlock0 : ℚ

/-- The member of the LFO object `lfo` that the nodes read and rescale. -/
structure Lfo where
  outputBlock : Block

/-- The state a node inherits from `EnvelopeSupport`, `LFOSupport` and `ModulationSupport`:
the members the nodes use by name, and the rest of the collaborators' state as `inner`. -/
structure NodeSupport (S : Type) where
  env : Env
  envIsMult : Bool
  lfo : Lfo
  lfoIsEnveloped : Bool
  lfoUsedAsModulationSource : Bool
  sourcePointers : Nat → Option ℚ
  depthPointers : Nat → Option ℚ
  anySources : Bool
  inner : S

/-- The declarations `matrix_node.h` uses without defining: the compile-time constants
`blockSize` and `numModsPer`, the member functions of the three support base classes, the
power-of-two table of `MonoValues`, the DC blocker and the pan laws of sst-basic-blocks.
The modulation-reset functions and the two slot hooks act on the collaborators' own state;
`lfoAttack` and `lfoProcess` receive the answer of the node's `checkLfoUsed()`;
`envProcess` receives the arguments written at the call. -/
structure Collab (S D : Type) where
  blockSize : Nat
  numModsPer : Nat
  envResetMod : S → S
  envAttack : NodeSupport S → NodeSupport S
  envProcess : List Bool → NodeSupport S → NodeSupport S
  envHandleModulationValue : Int → ℚ → ℚ → S → Bool × S
  lfoResetMod : S → S
  lfoAttack : Bool → NodeSupport S → NodeSupport S
  lfoProcess : Bool → NodeSupport S → NodeSupport S
  lfoHandleModulationValue : Int → ℚ → ℚ → S → Bool × S
  bindModulation : NodeSupport S → NodeSupport S
  twoToThe : ℚ → ℚ
  dcReset : D → D
  dcFilter : D → Block → D × Block
  monoEqualPower : ℚ → Nat → ℚ
  stereoEqualPower : ℚ → Nat → ℚ

/-- The operator object `OpSource` (declared in `dsp/op_source.h`): the accumulators the
nodes write, the rendered output they read, and the flags they test. -/
structure OpSource where
  phaseInput : IBlock
  fmAmount : Block
  rmLevel : Block
  feedbackLevel : IBlock
  output : Block
  waveForm : Int
  rmAssigned : Bool
  operatorOutputsToMain : Bool
  unisonParticipatesPan : Bool

/-- The members of `VoiceValues` read by the nodes. -/
structure VoiceValues where
  uniPanShift : ℚ
  velocityLag : ℚ
  noteExpressionPanBipolar : ℚ

/-- The guard and the two hooks every `calculateModulation()` loop body starts with, for
slot `i` with target `target`: the slot is skipped when the source pointer is null, when the
target is `noneId`, or when the depth pointer is null; otherwise the depth is offered to
`envHandleModulationValue` and, if that declines, to `lfoHandleModulationValue`.  The result
is `some (d, source)` when the node-local `switch` has to run, and the collaborators' state. -/
def offerSlot {S D : Type} (c : Collab S D) (noneId target : Int) (i : Nat)
    (s : NodeSupport S) : Option (ℚ × ℚ) × S :=
  match s.sourcePointers i with
  | none => (none, s.inner)
  | some sv =>
    if target = noneId then (none, s.inner)
    else
      match s.depthPointers i with
      | none => (none, s.inner)
      | some d =>
        let e := c.envHandleModulationValue target d sv s.inner
        if e.1 then (none, e.2)
        else
          let l := c.lfoHandleModulationValue target d sv e.2
          if l.1 then (none, l.2) else (some (d, sv), l.2)

/-- The factor an attenuation target multiplies into its accumulator:
`1.0 - d * (1.0 - std::clamp(*source, 0.f, 1.f))`. -/
def attenFactor (d sv : ℚ) : ℚ := 1 - d * (1 - clamp sv 0 1)

/-! ## Patch nodes (declared in `synth/patch.h`): the parameters the nodes read -/

/-- The enumeration `Patch::MatrixNode::TargetID`: the enumerators named in `matrix_node.h`.
The three `case` labels of one `switch` are distinct, as C++ requires. -/
structure Patch.MatrixNode.TargetID where
  NONE : Int
  DIRECT : Int
  DEPTH_ATTEN : Int
  LFO_DEPTH_ATTEN : Int
  distinct : [DIRECT, DEPTH_ATTEN, LFO_DEPTH_ATTEN].Nodup

/-- The enumeration `Patch::SelfNode::TargetID`. -/
structure Patch.SelfNode.TargetID where
  NONE : Int
  DIRECT : Int
  DEPTH_ATTEN : Int
  LFO_DEPTH_ATTEN : Int
  distinct : [DIRECT, DEPTH_ATTEN, LFO_DEPTH_ATTEN].Nodup

/-- The enumeration `Patch::MixerNode::TargetID`. -/
structure Patch.MixerNode.TargetID where
  NONE : Int
  DIRECT : Int
  PAN : Int
  DEPTH_ATTEN : Int
  LFO_DEPTH_ATTEN : Int
  LFO_DEPTH_PAN_ATTEN : Int
  distinct : [DIRECT, PAN, DEPTH_ATTEN, LFO_DEPTH_ATTEN, LFO_DEPTH_PAN_ATTEN].Nodup

/-- The enumeration `Patch::MainPanNode::TargetID`. -/
structure Patch.MainPanNode.TargetID where
  NONE : Int
  DIRECT : Int
  ENVDEP_DIR : Int
  LFODEP_DIR : Int
  DEPTH_ATTEN : Int
  LFO_DEPTH_ATTEN : Int
  distinct : [DIRECT, ENVDEP_DIR, LFODEP_DIR, DEPTH_ATTEN, LFO_DEPTH_ATTEN].Nodup

/-- The enumeration `Patch::FineTuneNode::TargetID`. -/
structure Patch.FineTuneNode.TargetID where
  NONE : Int
  DIRECT : Int
  ENVDEP_DIR : Int
  LFODEP_DIR : Int
  DEPTH_ATTEN : Int
  LFO_DEPTH_ATTEN : Int
  COARSE : Int
  distinct : [DIRECT, ENVDEP_DIR, LFODEP_DIR, DEPTH_ATTEN, LFO_DEPTH_ATTEN, COARSE].Nodup

/-- The enumeration `Patch::OutputNode::TargetID`. -/
structure Patch.OutputNode.TargetID where
  NONE : Int
  PAN : Int
  DIRECT : Int
  DEPTH_ATTEN : Int
  LFO_DEPTH_ATTEN : Int
  distinct : [PAN, DIRECT, DEPTH_ATTEN, LFO_DEPTH_ATTEN].Nodup

/-- The enumerators of `SinTable::WaveForm` named in `MixerNode::attack`. -/
structure SinTable.WaveForm where
  TX3 : Int
  TX4 : Int
  TX7 : Int
  TX8 : Int
  SPIKY_TX4 : Int
  SPIKY_TX8 : Int

/-- The parameters of `Patch::MatrixNode` bound by the `MatrixNodeFrom` constructor;
`modtarget i` is `modtarget[i].value` read as the integer the casts in the source produce. -/
structure Patch.MatrixNode where
  level : ℚ
  active : ℚ
  modulationMode : ℚ
  modulationScale : ℚ
  lfoToDepth : ℚ
  envToLevel : ℚ
  overdrive : ℚ
  modtarget : Nat → Int

/-- The parameters of `Patch::SelfNode` bound by the `MatrixNodeSelf` constructor. -/
structure Patch.SelfNode where
  fbLevel : ℚ
  lfoToFB : ℚ
  active : ℚ
  envToFB : ℚ
  overdrive : ℚ
  modtarget : Nat → Int

/-- The parameters of `Patch::MixerNode` bound by the `MixerNode` constructor, and the flag
`isMutedDueToSoloAway`. -/
structure Patch.MixerNode where
  pan : ℚ
  level : ℚ
  active : ℚ
  lfoToLevel : ℚ
  lfoToPan : ℚ
  envToLevel : ℚ
  isMutedDueToSoloAway : Bool
  modtarget : Nat → Int

/-- The parameters of `Patch::MainPanNode` bound by the `MainPanNode` constructor. -/
structure Patch.MainPanNode where
  lfoDepth : ℚ
  envDepth : ℚ
  modtarget : Nat → Int

/-- The parameters of `Patch::FineTuneNode` bound by the `FineTuneNode` constructor. -/
structure Patch.FineTuneNode where
  coarseTune : ℚ
  lfoDepth : ℚ
  envDepth : ℚ
  lfoCoarseDepth : ℚ
  envCoarseDepth : ℚ
  modtarget : Nat → Int

/-- The parameters of `Patch::OutputNode` bound by the `OutputNode` constructor. -/
structure Patch.OutputNode where
  level : ℚ
  velSensitivity : ℚ
  bendUp : ℚ
  bendDown : ℚ
  octTranspose : ℚ
  pan : ℚ
  fineTune : ℚ
  lfoDepth : ℚ
  defaultTrigger : ℚ
  modtarget : Nat → Int

/-! ## MatrixNodeFrom -/

/-- The node `struct MatrixNodeFrom`.  The referenced operators `onto` and `from` are passed
to the member functions; the parameter references `level`, `activeV`, `modmodeV`, `rmScaleV`,
`lfoToDepth`, `envToLevel`, `overdriveV` are the fields of `matrixNode`. -/
structure MatrixNodeFrom (S : Type) extends NodeSupport S where
  matrixNode : Patch.MatrixNode
  active : Bool
  modMode : Int
  rmScale : Int
  overdriveFactor : ℚ
  applyMod : ℚ
  depthAtten : ℚ
  lfoAtten : ℚ

namespace MatrixNodeFrom
variable {S D : Type}

/-- Member `MatrixNodeFrom::resetModulation`. -/
def resetModulation (n : MatrixNodeFrom S) : MatrixNodeFrom S :=
  { n with depthAtten := 1, lfoAtten := 1, applyMod := 0 }

/-- Member `MatrixNodeFrom::checkLfoUsed`. -/
def checkLfoUsed (n : MatrixNodeFrom S) : Bool :=
  decide (n.matrixNode.lfoToDepth ≠ 0) || n.lfoUsedAsModulationSource

/-- One iteration of the slot loop of `MatrixNodeFrom::calculateModulation`.  The guard
compares the target with `Patch::SelfNode::TargetID::NONE`, as the source does. -/
def slotStep (c : Collab S D) (tid : Patch.MatrixNode.TargetID)
    (stid : Patch.SelfNode.TargetID) (n : MatrixNodeFrom S) (i : Nat) : MatrixNodeFrom S :=
  let t := n.matrixNode.modtarget i
  match offerSlot c stid.NONE t i n.toNodeSupport with
  | (none, s) => { n with inner := s }
  | (some (d, sv), s) =>
    if t = tid.DIRECT then { n with inner := s, applyMod := n.applyMod + d * sv }
    else if t = tid.DEPTH_ATTEN then
      { n with inner := s, depthAtten := n.depthAtten * attenFactor d sv }
    else if t = tid.LFO_DEPTH_ATTEN then
      { n with inner := s, lfoAtten := n.lfoAtten * attenFactor d sv }
    else { n with inner := s }

/-- Member `MatrixNodeFrom::calculateModulation`. -/
def calculateModulation (c : Collab S D) (tid : Patch.MatrixNode.TargetID)
    (stid : Patch.SelfNode.TargetID) (n : MatrixNodeFrom S) : MatrixNodeFrom S :=
  let n := n.resetModulation
  let n := { n with inner := c.lfoResetMod (c.envResetMod n.inner) }
  if !n.anySources then n
  else (List.range c.numModsPer).foldl (slotStep c tid stid) n

/-- Member `MatrixNodeFrom::attack`.  The two `(int)std::round(...)` conversions are
undefined when the rounded parameter is not representable. -/
def attack (c : Collab S D) (tid : Patch.MatrixNode.TargetID)
    (stid : Patch.SelfNode.TargetID) (n : MatrixNodeFrom S) : Option (MatrixNodeFrom S) :=
  let n := n.resetModulation
  let n := { n with inner := c.lfoResetMod (c.envResetMod n.inner) }
  let n := { n with active := decide (n.matrixNode.active > 1 / 2) }
  match castInt32 (cround n.matrixNode.modulationMode),
        castInt32 (cround n.matrixNode.modulationScale) with
  | some mm, some rs =>
    let n := { n with modMode := mm, rmScale := rs }
    if n.active then
      let n := { n with toNodeSupport := c.bindModulation n.toNodeSupport }
      let n := n.calculateModulation c tid stid
      let n := { n with toNodeSupport := c.envAttack n.toNodeSupport }
      let n := { n with toNodeSupport := c.lfoAttack n.checkLfoUsed n.toNodeSupport }
      let n := { n with overdriveFactor := if n.matrixNode.overdrive > 1 / 2 then 10 else 1 }
      if n.modMode = 3 then
        some { n with overdriveFactor := if n.matrixNode.overdrive > 1 / 2 then 3 else 1 }
      else some n
    else some n
  | _, _ => none

/-- The first part of `MatrixNodeFrom::applyBlock` on an active node: `calculateModulation()`,
`envProcess()`, `lfoProcess()`, and the rescaling of the LFO block by the envelope when
`lfoIsEnveloped`.  (The function-local `static float la` that follows in the source is
written and compared but never otherwise read.) -/
def blockState (c : Collab S D) (tid : Patch.MatrixNode.TargetID)
    (stid : Patch.SelfNode.TargetID) (n : MatrixNodeFrom S) : MatrixNodeFrom S :=
  let n := n.calculateModulation c tid stid
  let n := { n with toNodeSupport := c.envProcess [] n.toNodeSupport }
  let n := { n with toNodeSupport := c.lfoProcess n.checkLfoUsed n.toNodeSupport }
  if n.lfoIsEnveloped then
    { n with lfo := ⟨mech.scale_by c.blockSize n.env.outputCache n.lfo.outputBlock⟩ }
  else n

/-- The local buffer `modlev` of `MatrixNodeFrom::applyBlock`, from the node state reached by
`blockState`. -/
def modlev (n : MatrixNodeFrom S) : Block :=
  let l2d := n.matrixNode.lfoToDepth * n.lfoAtten
  if n.envIsMult then
    let e2d := n.matrixNode.level * n.depthAtten
    fun i => n.applyMod + l2d * n.lfo.outputBlock i + e2d * n.env.outputCache i
  else
    let e2d := n.matrixNode.envToLevel * n.depthAtten
    fun i => n.applyMod + n.matrixNode.level + l2d * n.lfo.outputBlock i
      + e2d * n.env.outputCache i

/-- The phase increment of sample `j` in the phase-modulation branch:
`(int32_t)((1 << 27) * (overdriveFactor * mod[j]))`. -/
def phaseDelta (n : MatrixNodeFrom S) (mod : Block) (j : Nat) : Option Int :=
  castInt32 (((1 <<< 27 : Nat) : ℚ) * (n.overdriveFactor * mod j))

/-- Member `MatrixNodeFrom::applyBlock`; `onto` is the destination operator, `src` the
operator `from`.  The result is the node and the destination operator after the call. -/
def applyBlock (c : Collab S D) (tid : Patch.MatrixNode.TargetID)
    (stid : Patch.SelfNode.TargetID) (n : MatrixNodeFrom S) (onto src : OpSource) :
    Option (MatrixNodeFrom S × OpSource) :=
  if !n.active then some (n, onto)
  else
    let n := n.blockState c tid stid
    let bs := c.blockSize
    let modlev := n.modlev
    if n.modMode = 1 then
      if n.rmScale = 2 then
        let r : Block := fun i =>
          if i < bs then onto.rmLevel i + modlev i * (1 / 2 * (src.output i + 1) - 1)
          else onto.rmLevel i
        some (n, { onto with rmLevel := r })
      else if n.rmScale = 1 then
        let r : Block := fun i =>
          if i < bs then onto.rmLevel i + modlev i * (|src.output i| - 1)
          else onto.rmLevel i
        some (n, { onto with rmLevel := r })
      else
        let r : Block := fun i =>
          if i < bs then onto.rmLevel i + modlev i * (src.output i - 1)
          else onto.rmLevel i
        some (n, { onto with rmLevel := r })
    else if n.modMode = 2 then
      let mod := mech.mul_block bs modlev src.output (fun _ => 0)
      let r : Block := fun j =>
        if j < bs then onto.fmAmount j + n.overdriveFactor * mod j else onto.fmAmount j
      some (n, { onto with fmAmount := r })
    else if n.modMode = 3 then
      let mod := mech.mul_block bs modlev src.output (fun _ => 0)
      let r : Block := fun j =>
        if j < bs then onto.fmAmount j + (c.twoToThe (n.overdriveFactor * mod j) - 1)
        else onto.fmAmount j
      some (n, { onto with fmAmount := r })
    else
      let mod := mech.mul_block bs modlev src.output (fun _ => 0)
      match writeInt32 bs onto.phaseInput
          (fun j => (n.phaseDelta mod j).bind (addInt32 (onto.phaseInput j))) with
      | some p => some (n, { onto with phaseInput := p })
      | none => none

end MatrixNodeFrom

/-! ## MatrixNodeSelf -/

/-- The node `struct MatrixNodeSelf`.  The referenced operator `onto` is passed to
`applyBlock`; the parameter references `fbBase`, `lfoToFB`, `activeV`, `envToFB`, `overdriveV`
are the fields `fbLevel`, `lfoToFB`, `active`, `envToFB`, `overdrive` of `selfNode`. -/
structure MatrixNodeSelf (S : Type) extends NodeSupport S where
  selfNode : Patch.SelfNode
  active : Bool
  lfoMul : Bool
  overdriveFactor : ℚ
  fbMod : ℚ
  depthAtten : ℚ
  lfoAtten : ℚ

namespace MatrixNodeSelf
variable {S D : Type}

/-- Member `MatrixNodeSelf::resetModulation`. -/
def resetModulation (n : MatrixNodeSelf S) : MatrixNodeSelf S :=
  { n with depthAtten := 1, lfoAtten := 1, fbMod := 0 }

/-- Member `MatrixNodeSelf::checkLfoUsed`. -/
def checkLfoUsed (n : MatrixNodeSelf S) : Bool :=
  decide (n.selfNode.lfoToFB ≠ 0) || n.lfoUsedAsModulationSource

/-- One iteration of the slot loop of `MatrixNodeSelf::calculateModulation`. -/
def slotStep (c : Collab S D) (tid : Patch.SelfNode.TargetID) (n : MatrixNodeSelf S)
    (i : Nat) : MatrixNodeSelf S :=
  let t := n.selfNode.modtarget i
  match offerSlot c tid.NONE t i n.toNodeSupport with
  | (none, s) => { n with inner := s }
  | (some (d, sv), s) =>
    if t = tid.DIRECT then { n with inner := s, fbMod := n.fbMod + d * sv }
    else if t = tid.DEPTH_ATTEN then
      { n with inner := s, depthAtten := n.depthAtten * attenFactor d sv }
    else if t = tid.LFO_DEPTH_ATTEN then
      { n with inner := s, lfoAtten := n.lfoAtten * attenFactor d sv }
    else { n with inner := s }

/-- Member `MatrixNodeSelf::calculateModulation`. -/
def calculateModulation (c : Collab S D) (tid : Patch.SelfNode.TargetID)
    (n : MatrixNodeSelf S) : MatrixNodeSelf S :=
  let n := n.resetModulation
  let n := { n with inner := c.lfoResetMod (c.envResetMod n.inner) }
  if !n.anySources then n
  else (List.range c.numModsPer).foldl (slotStep c tid) n

/-- Member `MatrixNodeSelf::attack`. -/
def attack (c : Collab S D) (tid : Patch.SelfNode.TargetID) (n : MatrixNodeSelf S) :
    MatrixNodeSelf S :=
  let n := n.resetModulation
  let n := { n with inner := c.lfoResetMod (c.envResetMod n.inner) }
  let n := { n with active := decide (n.selfNode.active > 1 / 2) }
  if n.active then
    let n := { n with toNodeSupport := c.bindModulation n.toNodeSupport }
    let n := n.calculateModulation c tid
    let n := { n with toNodeSupport := c.envAttack n.toNodeSupport }
    let n := { n with toNodeSupport := c.lfoAttack n.checkLfoUsed n.toNodeSupport }
    { n with overdriveFactor := if n.selfNode.overdrive > 1 / 2 then 10 else 1 }
  else n

/-- The first part of `MatrixNodeSelf::applyBlock` on an active node: `calculateModulation()`,
`envProcess()`, `lfoProcess()`, and the rescaling of the LFO block by the envelope when
`lfoIsEnveloped`. -/
def blockState (c : Collab S D) (tid : Patch.SelfNode.TargetID) (n : MatrixNodeSelf S) :
    MatrixNodeSelf S :=
  let n := n.calculateModulation c tid
  let n := { n with toNodeSupport := c.envProcess [] n.toNodeSupport }
  let n := { n with toNodeSupport := c.lfoProcess n.checkLfoUsed n.toNodeSupport }
  if n.lfoIsEnveloped then
    { n with lfo := ⟨mech.scale_by c.blockSize n.env.outputCache n.lfo.outputBlock⟩ }
  else n

/-- The local buffer `modlev` of `MatrixNodeSelf::applyBlock`, from the node state reached by
`blockState`. -/
def modlev (n : MatrixNodeSelf S) : Block :=
  let l2f := n.selfNode.lfoToFB * n.lfoAtten
  if n.envIsMult then
    let e2f := n.selfNode.fbLevel * n.depthAtten
    fun i => l2f * n.lfo.outputBlock i + e2f * n.env.outputCache i + n.fbMod
  else
    let e2f := n.selfNode.envToFB * n.depthAtten
    fun i => n.selfNode.fbLevel + l2f * n.lfo.outputBlock i + e2f * n.env.outputCache i
      + n.fbMod

/-- The value written to `feedbackLevel[j]`:
`(int32_t)((1 << 24) * modlev[j] * overdriveFactor)`. -/
def feedbackValue (n : MatrixNodeSelf S) (j : Nat) : Option Int :=
  castInt32 (((1 <<< 24 : Nat) : ℚ) * n.modlev j * n.overdriveFactor)

/-- Member `MatrixNodeSelf::applyBlock`; `onto` is the node's operator.  The result is the
node and the operator after the call. -/
def applyBlock (c : Collab S D) (tid : Patch.SelfNode.TargetID) (n : MatrixNodeSelf S)
    (onto : OpSource) : Option (MatrixNodeSelf S × OpSource) :=
  if !n.active then some (n, onto)
  else
    let n := n.blockState c tid
    match writeInt32 c.blockSize onto.feedbackLevel n.feedbackValue with
    | some f => some (n, { onto with feedbackLevel := f })
    | none => none

end MatrixNodeSelf

/-! ## MixerNode -/

/-- The node `struct MixerNode`.  The referenced operator `from` is passed to the member
functions as `src`; the parameter references are the fields of `mixerNode`; `output c` is
the row `output[c]`.  The member `doBlock` is declared `float` in the source. -/
structure MixerNode (S D : Type) extends NodeSupport S where
  output : Nat → Block
  mixerNode : Patch.MixerNode
  active : Bool
  doBlock : ℚ
  dcBlocker : D
  levMod : ℚ
  depthAtten : ℚ
  lfoAtten : ℚ
  lfoPanAtten : ℚ
  panMod : ℚ

namespace MixerNode
variable {S D : Type}

/-- Member `MixerNode::resetModulation`. -/
def resetModulation (n : MixerNode S D) : MixerNode S D :=
  { n with depthAtten := 1, lfoAtten := 1, levMod := 0, panMod := 0, lfoPanAtten := 1 }

/-- Member `MixerNode::checkLfoUsed`. -/
def checkLfoUsed (n : MixerNode S D) : Bool :=
  (n.lfoUsedAsModulationSource || decide (n.mixerNode.lfoToLevel ≠ 0))
    || decide (n.mixerNode.lfoToPan ≠ 0)

/-- One iteration of the slot loop of `MixerNode::calculateModulation`. -/
def slotStep (c : Collab S D) (tid : Patch.MixerNode.TargetID) (n : MixerNode S D)
    (i : Nat) : MixerNode S D :=
  let t := n.mixerNode.modtarget i
  match offerSlot c tid.NONE t i n.toNodeSupport with
  | (none, s) => { n with inner := s }
  | (some (d, sv), s) =>
    if t = tid.DIRECT then { n with inner := s, levMod := n.levMod + d * sv }
    else if t = tid.PAN then { n with inner := s, panMod := n.panMod + d * sv }
    else if t = tid.DEPTH_ATTEN then
      { n with inner := s, depthAtten := n.depthAtten * attenFactor d sv }
    else if t = tid.LFO_DEPTH_ATTEN then
      { n with inner := s, lfoAtten := n.lfoAtten * attenFactor d sv }
    else if t = tid.LFO_DEPTH_PAN_ATTEN then
      { n with inner := s, lfoPanAtten := n.lfoPanAtten * attenFactor d sv }
    else { n with inner := s }

/-- Member `MixerNode::calculateModulation`. -/
def calculateModulation (c : Collab S D) (tid : Patch.MixerNode.TargetID)
    (n : MixerNode S D) : MixerNode S D :=
  let n := n.resetModulation
  let n := { n with inner := c.lfoResetMod (c.envResetMod n.inner) }
  if !n.anySources then n
  else (List.range c.numModsPer).foldl (slotStep c tid) n

/-- Member `MixerNode::attack`; `src` is the operator `from`. -/
def attack (c : Collab S D) (tid : Patch.MixerNode.TargetID) (wfs : SinTable.WaveForm)
    (n : MixerNode S D) (src : OpSource) : MixerNode S D :=
  let n := n.resetModulation
  let n := { n with inner := c.lfoResetMod (c.envResetMod n.inner) }
  let n := { n with active := decide (n.mixerNode.active > 1 / 2) }
  let n := { n with output := fun _ _ => 0 }
  if n.active then
    let n := { n with toNodeSupport := c.bindModulation n.toNodeSupport }
    let n := n.calculateModulation c tid
    let n := { n with toNodeSupport := c.envAttack n.toNodeSupport }
    let n := { n with toNodeSupport := c.lfoAttack n.checkLfoUsed n.toNodeSupport }
    let n := { n with dcBlocker := c.dcReset n.dcBlocker }
    let n := { n with output := fun _ _ => 0 }
    let wf := src.waveForm
    if wf = wfs.TX3 ∨ wf = wfs.TX4 ∨ wf = wfs.TX7 ∨ wf = wfs.TX8 ∨ wf = wfs.SPIKY_TX4
        ∨ wf = wfs.SPIKY_TX8 then
      { n with doBlock := 1 }
    else n
  else n

/-- The first part of `MixerNode::renderBlock` on an active node: `calculateModulation()`,
`envProcess()`, `lfoProcess()`. -/
def blockState (c : Collab S D) (tid : Patch.MixerNode.TargetID) (n : MixerNode S D) :
    MixerNode S D :=
  let n := n.calculateModulation c tid
  let n := { n with toNodeSupport := c.envProcess [] n.toNodeSupport }
  { n with toNodeSupport := c.lfoProcess n.checkLfoUsed n.toNodeSupport }

/-- The DC-blocking step of `MixerNode::renderBlock`: when `from.rmAssigned || doBlock`, the
operator output is run through `dcBlocker.filter` and the filtered block is used; otherwise
the operator output itself.  The result is the node and the block `useOut`. -/
def dcStage (c : Collab S D) (n : MixerNode S D) (src : OpSource) : MixerNode S D × Block :=
  if src.rmAssigned || decide (n.doBlock ≠ 0) then
    ({ n with dcBlocker := (c.dcFilter n.dcBlocker src.output).1 },
      (c.dcFilter n.dcBlocker src.output).2)
  else (n, src.output)

/-- The step `if (lfoIsEnveloped) mech::scale_by<blockSize>(env.outputCache, lfo.outputBlock)`
of `MixerNode::renderBlock`. -/
def lfoStage (bs : Nat) (n : MixerNode S D) : MixerNode S D :=
  if n.lfoIsEnveloped then
    { n with lfo := ⟨mech.scale_by bs n.env.outputCache n.lfo.outputBlock⟩ }
  else n

/-- The local buffer `vSum` of `MixerNode::renderBlock`. -/
def vSum (n : MixerNode S D) (useOut : Block) : Block :=
  let lv := clamp (n.mixerNode.level + n.levMod) 0 1 * n.depthAtten
  if n.envIsMult then
    fun j => (lv * n.env.outputCache j
      + n.lfoAtten * n.mixerNode.lfoToLevel * n.lfo.outputBlock j) * useOut j
  else
    fun j => (lv + n.mixerNode.envToLevel * n.env.outputCache j
      + n.lfoAtten * n.mixerNode.lfoToLevel * n.lfo.outputBlock j) * useOut j

/-- The local value `pn` of `MixerNode::renderBlock` before the pan law is applied. -/
def pn (bs : Nat) (vv : VoiceValues) (n : MixerNode S D) (src : OpSource) : ℚ :=
  clamp (n.mixerNode.pan
      + n.lfoPanAtten * n.mixerNode.lfoToPan * n.lfo.outputBlock (bs - 1)
      + (if src.unisonParticipatesPan then vv.uniPanShift else 0) + n.panMod) (-1) 1

/-- The panning step of `MixerNode::renderBlock`: the rows of `output` after `vSum` has been
written to them, through `monoEqualPower` when `pn != 0` and by plain copy otherwise. -/
def panStage (c : Collab S D) (vv : VoiceValues) (n : MixerNode S D) (src : OpSource)
    (vs : Block) : Nat → Block :=
  let bs := c.blockSize
  if n.pn bs vv src ≠ 0 then
    let pmat := c.monoEqualPower ((n.pn bs vv src + 1) * (1 / 2))
    fun ch =>
      if ch = 0 then mech.mul_block_const bs vs (pmat 0) (n.output 0)
      else if ch = 1 then mech.mul_block_const bs vs (pmat 3) (n.output 1)
      else n.output ch
  else
    fun ch =>
      if ch = 0 then mech.copy_from_to bs vs (n.output 0)
      else if ch = 1 then mech.copy_from_to bs vs (n.output 1)
      else n.output ch

/-- Member `MixerNode::renderBlock`; `src` is the operator `from`. -/
def renderBlock (c : Collab S D) (tid : Patch.MixerNode.TargetID) (vv : VoiceValues)
    (n : MixerNode S D) (src : OpSource) : MixerNode S D :=
  if !n.active then n
  else
    let n := n.blockState c tid
    let useOut := (dcStage c n src).2
    let n := lfoStage c.blockSize (dcStage c n src).1
    let n := { n with output := panStage c vv n src (n.vSum useOut) }
    if n.mixerNode.isMutedDueToSoloAway then { n with output := fun _ _ => 0 }
    else n

end MixerNode

/-! ## MainPanNode -/

/-- The node `struct MainPanNode`; the parameter references `lfoD`, `envD` are the fields
`lfoDepth`, `envDepth` of `modNode`. -/
structure MainPanNode (S : Type) extends NodeSupport S where
  level : ℚ
  modNode : Patch.MainPanNode
  active : Bool
  lfoAtten : ℚ
  directMod : ℚ
  envAtten : ℚ
  edMod : ℚ
  ldMod : ℚ

namespace MainPanNode
variable {S D : Type}

/-- Member `MainPanNode::resetModulation`. -/
def resetModulation (n : MainPanNode S) : MainPanNode S :=
  { n with lfoAtten := 1, envAtten := 1, directMod := 0, edMod := 0, ldMod := 0 }

/-- Member `MainPanNode::checkLfoUsed`. -/
def checkLfoUsed (n : MainPanNode S) : Bool :=
  decide (n.modNode.lfoDepth ≠ 0) || n.lfoUsedAsModulationSource

/-- One iteration of the slot loop of `MainPanNode::calculateModulation`. -/
def slotStep (c : Collab S D) (tid : Patch.MainPanNode.TargetID) (n : MainPanNode S)
    (i : Nat) : MainPanNode S :=
  let t := n.modNode.modtarget i
  match offerSlot c tid.NONE t i n.toNodeSupport with
  | (none, s) => { n with inner := s }
  | (some (d, sv), s) =>
    if t = tid.DIRECT then { n with inner := s, directMod := n.directMod + d * sv }
    else if t = tid.ENVDEP_DIR then { n with inner := s, edMod := n.edMod + d * sv }
    else if t = tid.LFODEP_DIR then { n with inner := s, ldMod := n.ldMod + d * sv }
    else if t = tid.DEPTH_ATTEN then
      { n with inner := s, envAtten := n.envAtten * attenFactor d sv }
    else if t = tid.LFO_DEPTH_ATTEN then
      { n with inner := s, lfoAtten := n.lfoAtten * attenFactor d sv }
    else { n with inner := s }

/-- Member `MainPanNode::calculateModulation`. -/
def calculateModulation (c : Collab S D) (tid : Patch.MainPanNode.TargetID)
    (n : MainPanNode S) : MainPanNode S :=
  let n := n.resetModulation
  let n := { n with inner := c.lfoResetMod (c.envResetMod n.inner) }
  if !n.anySources then n
  else (List.range c.numModsPer).foldl (slotStep c tid) n

/-- Member `MainPanNode::attack`.  The array `sourcePointers` has `numModsPer` entries. -/
def attack (c : Collab S D) (tid : Patch.MainPanNode.TargetID) (n : MainPanNode S) :
    MainPanNode S :=
  let n := n.resetModulation
  let n := { n with inner := c.lfoResetMod (c.envResetMod n.inner) }
  let n := { n with toNodeSupport := c.bindModulation n.toNodeSupport }
  let n := { n with active := true }
  let n :=
    if |n.modNode.lfoDepth| < 1 / 100000000 ∧ |n.modNode.envDepth| < 1 / 100000000 then
      (List.range c.numModsPer).foldl
        (fun m i => if (m.sourcePointers i).isSome then { m with active := true } else m)
        { n with active := false }
    else n
  let n := { n with level := 0 }
  if !n.active then n
  else
    let n := n.calculateModulation c tid
    let n := { n with toNodeSupport := c.envAttack n.toNodeSupport }
    { n with toNodeSupport := c.lfoAttack n.checkLfoUsed n.toNodeSupport }

/-- Member `MainPanNode::modProcess`. -/
def modProcess (c : Collab S D) (tid : Patch.MainPanNode.TargetID) (n : MainPanNode S) :
    MainPanNode S :=
  if !n.active then n
  else
    let n := n.calculateModulation c tid
    let n := { n with toNodeSupport := c.envProcess [true, false] n.toNodeSupport }
    let n := { n with toNodeSupport := c.lfoProcess n.checkLfoUsed n.toNodeSupport }
    let lfoLev := n.lfo.outputBlock (c.blockSize - 1)
    let lfoLev := if n.lfoIsEnveloped then lfoLev * n.env.outBlock0 else lfoLev
    { n with level := n.directMod + n.env.outBlock0 * (n.modNode.envDepth + n.edMod) * n.envAtten
        + lfoLev * (n.modNode.lfoDepth + n.ldMod) * n.lfoAtten }

end MainPanNode

/-! ## FineTuneNode -/

/-- The node `struct FineTuneNode`; the parameter references `lfoD`, `envD`, `coarseTune`,
`lfoCoarseD`, `envCoarseD` are the fields of `modNode`. -/
structure FineTuneNode (S : Type) extends NodeSupport S where
  level : ℚ
  coarseLevel : ℚ
  modNode : Patch.FineTuneNode
  active : Bool
  lfoAtten : ℚ
  directMod : ℚ
  directCoarseMod : ℚ
  envAtten : ℚ
  edMod : ℚ
  ldMod : ℚ

namespace FineTuneNode
variable {S D : Type}

/-- Member `FineTuneNode::resetModulation`. -/
def resetModulation (n : FineTuneNode S) : FineTuneNode S :=
  { n with lfoAtten := 1, envAtten := 1, directMod := 0, directCoarseMod := 0, edMod := 0,
           ldMod := 0 }

/-- Member `FineTuneNode::checkLfoUsed`. -/
def checkLfoUsed (n : FineTuneNode S) : Bool :=
  (decide (n.modNode.lfoDepth ≠ 0) || decide (n.modNode.lfoCoarseDepth ≠ 0))
    || n.lfoUsedAsModulationSource

/-- One iteration of the slot loop of `FineTuneNode::calculateModulation`. -/
def slotStep (c : Collab S D) (tid : Patch.FineTuneNode.TargetID) (n : FineTuneNode S)
    (i : Nat) : FineTuneNode S :=
  let t := n.modNode.modtarget i
  match offerSlot c tid.NONE t i n.toNodeSupport with
  | (none, s) => { n with inner := s }
  | (some (d, sv), s) =>
    if t = tid.DIRECT then { n with inner := s, directMod := n.directMod + d * sv }
    else if t = tid.ENVDEP_DIR then { n with inner := s, edMod := n.edMod + d * sv }
    else if t = tid.LFODEP_DIR then { n with inner := s, ldMod := n.ldMod + d * sv }
    else if t = tid.DEPTH_ATTEN then
      { n with inner := s, envAtten := n.envAtten * attenFactor d sv }
    else if t = tid.LFO_DEPTH_ATTEN then
      { n with inner := s, lfoAtten := n.lfoAtten * attenFactor d sv }
    else if t = tid.COARSE then
      { n with inner := s, directCoarseMod := n.directCoarseMod + d * sv }
    else { n with inner := s }

/-- Member `FineTuneNode::calculateModulation`. -/
def calculateModulation (c : Collab S D) (tid : Patch.FineTuneNode.TargetID)
    (n : FineTuneNode S) : FineTuneNode S :=
  let n := n.resetModulation
  let n := { n with inner := c.lfoResetMod (c.envResetMod n.inner) }
  if !n.anySources then n
  else (List.range c.numModsPer).foldl (slotStep c tid) n

/-- Member `FineTuneNode::attack`.  The array `sourcePointers` has `numModsPer` entries. -/
def attack (c : Collab S D) (tid : Patch.FineTuneNode.TargetID) (n : FineTuneNode S) :
    FineTuneNode S :=
  let n := n.resetModulation
  let n := { n with inner := c.lfoResetMod (c.envResetMod n.inner) }
  let n := { n with toNodeSupport := c.bindModulation n.toNodeSupport }
  let n := { n with active := true }
  let n :=
    if |n.modNode.lfoDepth| < 1 / 100000000 ∧ |n.modNode.envDepth| < 1 / 100000000
        ∧ |n.modNode.lfoCoarseDepth| < 1 / 100000000
        ∧ |n.modNode.envCoarseDepth| < 1 / 100000000 then
      (List.range c.numModsPer).foldl
        (fun m i => if (m.sourcePointers i).isSome then { m with active := true } else m)
        { n with active := false }
    else n
  let n := { n with level := 0 }
  let n := { n with coarseLevel := 0 }
  if !n.active then n
  else
    let n := n.calculateModulation c tid
    let n := { n with toNodeSupport := c.envAttack n.toNodeSupport }
    { n with toNodeSupport := c.lfoAttack n.checkLfoUsed n.toNodeSupport }

/-- Member `FineTuneNode::modProcess`. -/
def modProcess (c : Collab S D) (tid : Patch.FineTuneNode.TargetID) (n : FineTuneNode S) :
    FineTuneNode S :=
  if !n.active then n
  else
    let n := n.calculateModulation c tid
    let n := { n with toNodeSupport := c.envProcess [true, false] n.toNodeSupport }
    let n := { n with toNodeSupport := c.lfoProcess n.checkLfoUsed n.toNodeSupport }
    let lfoLev := n.lfo.outputBlock (c.blockSize - 1)
    let lfoLev := if n.lfoIsEnveloped then lfoLev * n.env.outBlock0 else lfoLev
    let n := { n with level := n.directMod
        + n.env.outBlock0 * (n.modNode.envDepth + n.edMod) * n.envAtten
        + lfoLev * (n.modNode.lfoDepth + n.ldMod) * n.lfoAtten }
    let n := { n with coarseLevel := n.directCoarseMod
        + n.env.outBlock0 * (n.modNode.envCoarseDepth + n.edMod) * n.envAtten
        + lfoLev * (n.modNode.lfoCoarseDepth + n.ldMod) * n.lfoAtten }
    { n with coarseLevel := n.coarseLevel * 24 }

end FineTuneNode

/-! ## OutputNode -/

/-- The node `struct OutputNode`.  The referenced array `fromArr` of mixer nodes is passed to
`renderBlock`; the parameter references are the fields of `outputNode`; `output c` is the
row `output[c]`. -/
structure OutputNode (S : Type) extends NodeSupport S where
  output : Nat → Block
  outputNode : Patch.OutputNode
  defaultTrigger : Int
  panModNode : MainPanNode S
  ftModNode : FineTuneNode S
  finalEnvLevel : Block
  levMod : ℚ
  panMod : ℚ
  depthAtten : ℚ
  lfoAtten : ℚ

namespace OutputNode
variable {S D : Type}

/-- Member `OutputNode::resetModulation`. -/
def resetModulation (n : OutputNode S) : OutputNode S :=
  { n with depthAtten := 1, panMod := 0, levMod := 0, lfoAtten := 1 }

/-- Member `OutputNode::checkLfoUsed`. -/
def checkLfoUsed (n : OutputNode S) : Bool :=
  decide (n.outputNode.lfoDepth ≠ 0) || n.lfoUsedAsModulationSource

/-- One iteration of the slot loop of `OutputNode::calculateModulation`. -/
def slotStep (c : Collab S D) (tid : Patch.OutputNode.TargetID) (n : OutputNode S)
    (i : Nat) : OutputNode S :=
  let t := n.outputNode.modtarget i
  match offerSlot c tid.NONE t i n.toNodeSupport with
  | (none, s) => { n with inner := s }
  | (some (d, sv), s) =>
    if t = tid.PAN then { n with inner := s, panMod := n.panMod + d * sv }
    else if t = tid.DIRECT then { n with inner := s, levMod := n.levMod + d * sv }
    else if t = tid.DEPTH_ATTEN then
      { n with inner := s, depthAtten := n.depthAtten * attenFactor d sv }
    else if t = tid.LFO_DEPTH_ATTEN then
      { n with inner := s, lfoAtten := n.lfoAtten * attenFactor d sv }
    else { n with inner := s }

/-- Member `OutputNode::calculateModulation`. -/
def calculateModulation (c : Collab S D) (tid : Patch.OutputNode.TargetID)
    (n : OutputNode S) : OutputNode S :=
  let n := n.resetModulation
  let n := { n with inner := c.lfoResetMod (c.envResetMod n.inner) }
  if !n.anySources then n
  else (List.range c.numModsPer).foldl (slotStep c tid) n

/-- Member `OutputNode::attack`.  The conversion `(TriggerMode)std::round(defTrigV)` is
undefined when the rounded parameter is not representable. -/
def attack (c : Collab S D) (tid : Patch.OutputNode.TargetID)
    (ptid : Patch.MainPanNode.TargetID) (ftid : Patch.FineTuneNode.TargetID)
    (n : OutputNode S) : Option (OutputNode S) :=
  let n := n.resetModulation
  let n := { n with inner := c.lfoResetMod (c.envResetMod n.inner) }
  let n := { n with output := fun _ _ => 0 }
  match castInt32 (cround n.outputNode.defaultTrigger) with
  | none => none
  | some dt =>
    let n := { n with defaultTrigger := dt }
    let n := { n with toNodeSupport := c.bindModulation n.toNodeSupport }
    let n := n.calculateModulation c tid
    let n := { n with toNodeSupport := c.envAttack n.toNodeSupport }
    let n := { n with toNodeSupport := c.lfoAttack n.checkLfoUsed n.toNodeSupport }
    let n := { n with ftModNode := n.ftModNode.attack c ftid }
    some { n with panModNode := n.panModNode.attack c ptid }

/-- The first loop of `OutputNode::renderBlock`: the rows of every mixer node whose operator
has `operatorOutputsToMain` are accumulated into `output`. -/
def sumMixers (bs : Nat) (fromArr : List (MixerNode S D × OpSource)) (out : Nat → Block) :
    Nat → Block :=
  fromArr.foldl
    (fun o m =>
      if m.2.operatorOutputsToMain then
        let o0 := mech.accumulate_from_to bs (m.1.output 0) (o 0)
        let o1 := mech.accumulate_from_to bs (m.1.output 1) (o 1)
        fun ch => if ch = 0 then o0 else if ch = 1 then o1 else o ch
      else o)
    out

/-- The first part of `OutputNode::renderBlock`: `calculateModulation()`, the accumulation
of the mixer rows, `envProcess(false)`, `lfoProcess()`, and `modProcess()` of the two
embedded nodes. -/
def blockState (c : Collab S D) (tid : Patch.OutputNode.TargetID)
    (ptid : Patch.MainPanNode.TargetID) (ftid : Patch.FineTuneNode.TargetID)
    (fromArr : List (MixerNode S D × OpSource)) (n : OutputNode S) : OutputNode S :=
  let n := n.calculateModulation c tid
  let n := { n with output := sumMixers c.blockSize fromArr n.output }
  let n := { n with toNodeSupport := c.envProcess [false] n.toNodeSupport }
  let n := { n with toNodeSupport := c.lfoProcess n.checkLfoUsed n.toNodeSupport }
  let n := { n with ftModNode := n.ftModNode.modProcess c ftid }
  { n with panModNode := n.panModNode.modProcess c ptid }

/-- The second part of `OutputNode::renderBlock`: the buffer `finalEnvLevel` is built from
the envelope block, `depthAtten`, the LFO block (rescaled in place) and the level and
velocity gain. -/
def gainState (bs : Nat) (vv : VoiceValues) (n : OutputNode S) : OutputNode S :=
  let fe := mech.copy_from_to bs n.env.outputCache n.finalEnvLevel
  let fe := mech.scale_by_const bs n.depthAtten fe
  let lb := if n.lfoIsEnveloped then mech.scale_by bs n.env.outputCache n.lfo.outputBlock
    else n.lfo.outputBlock
  let l2f := n.outputNode.lfoDepth * n.lfoAtten
  let lb := mech.mul_block_const bs lb l2f lb
  let fe := mech.accumulate_from_to bs lb fe
  let lv := clamp (n.outputNode.level + n.levMod) 0 1
  let v := 1 - n.outputNode.velSensitivity * (1 - vv.velocityLag)
  let lv := 15 / 100 * clamp (v * lv * lv * lv) 0 1
  let fe := mech.scale_by_const bs lv fe
  { n with lfo := ⟨lb⟩, finalEnvLevel := fe }

/-- Member `OutputNode::renderBlock`; each entry of `fromArr` is a mixer node with its
operator `from`. -/
def renderBlock (c : Collab S D) (tid : Patch.OutputNode.TargetID)
    (ptid : Patch.MainPanNode.TargetID) (ftid : Patch.FineTuneNode.TargetID)
    (vv : VoiceValues) (fromArr : List (MixerNode S D × OpSource)) (n : OutputNode S) :
    OutputNode S :=
  let bs := c.blockSize
  let n := gainState bs vv (n.blockState c tid ptid ftid fromArr)
  let s0 := mech.scale_by bs n.finalEnvLevel (n.output 0)
  let s1 := mech.scale_by bs n.finalEnvLevel (n.output 1)
  let pn := clamp (n.panMod + n.outputNode.pan + n.panModNode.level
      + vv.noteExpressionPanBipolar) (-1) 1
  if pn ≠ 0 then
    let pn := (pn + 1) * (1 / 2)
    let pmat := c.stereoEqualPower pn
    let o0 : Block := fun i => if i < bs then pmat 0 * s0 i + pmat 2 * s1 i else s0 i
    let o1 : Block := fun i => if i < bs then pmat 3 * s0 i + pmat 1 * s1 i else s1 i
    { n with output := fun ch => if ch = 0 then o0 else if ch = 1 then o1 else n.output ch }
  else
    { n with output := fun ch => if ch = 0 then s0 else if ch = 1 then s1 else n.output ch }

end OutputNode

/-! ## The slots that reach a node's local switch -/

/-- The slots, among the indices `is` taken in order, for which `offerSlot` hands the depth
to the node-local `switch`: slot index, depth and source value.  The collaborators' state is
threaded through the hooks exactly as the loop threads it. -/
def localSlots {S D : Type} (c : Collab S D) (noneId : Int) (tgt : Nat → Int) :
    List Nat → NodeSupport S → List (Nat × ℚ × ℚ)
  | [], _ => []
  | i :: is, sup =>
    match (offerSlot c noneId (tgt i) i sup).1 with
    | none => localSlots c noneId tgt is { sup with inner := (offerSlot c noneId (tgt i) i sup).2 }
    | some (d, sv) =>
      (i, d, sv) ::
        localSlots c noneId tgt is { sup with inner := (offerSlot c noneId (tgt i) i sup).2 }

/-- The slots of one `calculateModulation()` pass that reach the node-local `switch`: the
loop runs over the `numModsPer` slots after `envResetMod()` and `lfoResetMod()`. -/
def resolvedSlots {S D : Type} (c : Collab S D) (noneId : Int) (tgt : Nat → Int)
    (sup : NodeSupport S) : List (Nat × ℚ × ℚ) :=
  localSlots c noneId tgt (List.range c.numModsPer)
    { sup with inner := c.lfoResetMod (c.envResetMod sup.inner) }

/-- The product of `1 - depth * (1 - clamp(source, 0, 1))` over the listed slots whose target
is `t`; the empty product is 1. -/
def attenProduct (tgt : Nat → Int) (t : Int) (l : List (Nat × ℚ × ℚ)) : ℚ :=
  ((l.filter (fun x => decide (tgt x.1 = t))).map (fun x => attenFactor x.2.1 x.2.2)).prod

/-- The effect of one slot on the accumulator of attenuation target `t`. -/
def attenStep (ti t : Int) (r : Option (ℚ × ℚ)) (a : ℚ) : ℚ :=
  match r with
  | some (d, sv) => if ti = t then a * attenFactor d sv else a
  | none => a

/-- Every bound depth of a slot (among the `numModsPer` slots) whose target is one of the
attenuation targets `ts` lies in `[0, 1]`. -/
def attenDepthsInUnit (numModsPer : Nat) (depthPointers : Nat → Option ℚ) (tgt : Nat → Int)
    (ts : List Int) : Prop :=
  ∀ i, i < numModsPer → ∀ d, depthPointers i = some d → tgt i ∈ ts → 0 ≤ d ∧ d ≤ 1

/-- One note on a mixer node as the driver plays it: `attack()` followed by one
`renderBlock()`, with the voice values and the operator `from` of that note. -/
def MixerNode.attackRender {S D : Type} (c : Collab S D) (tid : Patch.MixerNode.TargetID)
    (wfs : SinTable.WaveForm) (n : MixerNode S D) (x : VoiceValues × OpSource) :
    MixerNode S D :=
  (n.attack c tid wfs x.2).renderBlock c tid x.1 x.2

/-- The exact product `(1 << 27) * (overdriveFactor * (modlev[j] * from.output[j]))` that the
phase-modulation branch of `MatrixNodeFrom::applyBlock` converts to `int32_t`; `n` is the
node state reached by `blockState`. -/
def MatrixNodeFrom.phaseProduct {S : Type} (n : MatrixNodeFrom S) (src : OpSource) (j : Nat) :
    ℚ :=
  ((1 <<< 27 : Nat) : ℚ) * (n.overdriveFactor * (n.modlev j * src.output j))

/-- No sample of the phase-modulation loop leaves the `int32_t` range: neither the converted
increment nor the sum with the previous `phaseInput` sample; `n` is the node state reached by
`blockState`. -/
def MatrixNodeFrom.phaseInRange {S : Type} (bs : Nat) (n : MatrixNodeFrom S)
    (onto src : OpSource) : Prop :=
  ∀ j, j < bs → inInt32 (truncToInt (n.phaseProduct src j)) = true ∧
    inInt32 (onto.phaseInput j + truncToInt (n.phaseProduct src j)) = true

/-- The exact product `(1 << 24) * modlev[j] * overdriveFactor` that
`MatrixNodeSelf::applyBlock` converts to `int32_t`; `n` is the node state reached by
`blockState`. -/
def MatrixNodeSelf.feedbackProduct {S : Type} (n : MatrixNodeSelf S) (j : Nat) : ℚ :=
  ((1 <<< 24 : Nat) : ℚ) * n.modlev j * n.overdriveFactor

/-! ## Concrete instances -/

namespace Demo

/-- A concrete set of collaborators: two samples per block, three slots per node, an
envelope hook that claims target 40, an LFO hook that claims target 50, and collaborators
that otherwise leave the node state as it is. -/
def collab : Collab Unit Unit where
  blockSize := 2
  numModsPer := 3
  envResetMod := id
  envAttack := id
  envProcess := fun _ s => s
  envHandleModulationValue := fun t _ _ s => (decide (t = 40), s)
  lfoResetMod := id
  lfoAttack := fun _ s => s
  lfoProcess := fun _ s => s
  lfoHandleModulationValue := fun t _ _ s => (decide (t = 50), s)
  bindModulation := id
  twoToThe := fun x => 1 + x
  dcReset := id
  dcFilter := fun d b => (d, b)
  monoEqualPower := fun p k => if k = 0 then 1 - p else if k = 3 then p else 0
  stereoEqualPower := fun p k => if k = 0 then 1 - p else if k = 1 then p else 0

/-- Target identifiers of the inter-operator node. -/
def matrixIds : Patch.MatrixNode.TargetID :=
  { NONE := 0, DIRECT := 10, DEPTH_ATTEN := 20, LFO_DEPTH_ATTEN := 30, distinct := by decide }

/-- Target identifiers of the feedback node. -/
def selfIds : Patch.SelfNode.TargetID :=
  { NONE := 0, DIRECT := 10, DEPTH_ATTEN := 20, LFO_DEPTH_ATTEN := 30, distinct := by decide }

/-- Target identifiers of the mixer node. -/
def mixerIds : Patch.MixerNode.TargetID :=
  { NONE := 0, DIRECT := 10, PAN := 15, DEPTH_ATTEN := 20, LFO_DEPTH_ATTEN := 30,
    LFO_DEPTH_PAN_ATTEN := 35, distinct := by decide }

/-- Target identifiers of the main-pan node. -/
def panIds : Patch.MainPanNode.TargetID :=
  { NONE := 0, DIRECT := 10, ENVDEP_DIR := 12, LFODEP_DIR := 14, DEPTH_ATTEN := 20,
    LFO_DEPTH_ATTEN := 30, distinct := by decide }

/-- Target identifiers of the fine-tune node. -/
def fineIds : Patch.FineTuneNode.TargetID :=
  { NONE := 0, DIRECT := 10, ENVDEP_DIR := 12, LFODEP_DIR := 14, DEPTH_ATTEN := 20,
    LFO_DEPTH_ATTEN := 30, COARSE := 16, distinct := by decide }

/-- Target identifiers of the output node. -/
def outputIds : Patch.OutputNode.TargetID :=
  { NONE := 0, PAN := 15, DIRECT := 10, DEPTH_ATTEN := 20, LFO_DEPTH_ATTEN := 30,
    distinct := by decide }

/-- Waveform identifiers. -/
def waveForms : SinTable.WaveForm :=
  { TX3 := 3, TX4 := 4, TX7 := 7, TX8 := 8, SPIKY_TX4 := 12, SPIKY_TX8 := 16 }

/-- Support state with three bound slots: sources 1/2, 2 and 1/4, depths 1/2, 1 and 1/2;
the envelope block is constantly 1 and the LFO block constantly 0. -/
def boundSupport : NodeSupport Unit where
  env := ⟨fun _ => 1, 1⟩
  envIsMult := false
  lfo := ⟨fun _ => 0⟩
  lfoIsEnveloped := false
  lfoUsedAsModulationSource := false
  sourcePointers := fun i => if i = 0 then some (1 / 2) else if i = 1 then some 2
    else if i = 2 then some (1 / 4) else none
  depthPointers := fun i => if i = 0 then some (1 / 2) else if i = 1 then some 1
    else if i = 2 then some (1 / 2) else none
  anySources := true
  inner := ()

/-- Support state without any bound slot; the envelope block is constantly 1 and the LFO
block constantly 0. -/
def plainSupport : NodeSupport Unit where
  env := ⟨fun _ => 1, 1⟩
  envIsMult := false
  lfo := ⟨fun _ => 0⟩
  lfoIsEnveloped := false
  lfoUsedAsModulationSource := false
  sourcePointers := fun _ => none
  depthPointers := fun _ => none
  anySources := false
  inner := ()

/-- Slot targets: slot 0 and slot 2 attenuate the depth, slot 1 attenuates the LFO. -/
def targets : Nat → Int := fun i => if i = 1 then 30 else 20

/-- Slot targets of the mixer: depth, LFO and LFO-pan attenuation. -/
def mixerTargets : Nat → Int := fun i => if i = 0 then 20 else if i = 1 then 30 else 35

/-- An active inter-operator node with three bound slots. -/
def fromNode : MatrixNodeFrom Unit where
  toNodeSupport := boundSupport
  matrixNode := { level := 1, active := 1, modulationMode := 0, modulationScale := 0,
                  lfoToDepth := 0, envToLevel := 0, overdrive := 0, modtarget := targets }
  active := true
  modMode := 0
  rmScale := 0
  overdriveFactor := 1
  applyMod := 0
  depthAtten := 1
  lfoAtten := 1

/-- An active feedback node with three bound slots. -/
def selfNode : MatrixNodeSelf Unit where
  toNodeSupport := boundSupport
  selfNode := { fbLevel := 1, lfoToFB := 0, active := 1, envToFB := 0, overdrive := 0,
                modtarget := targets }
  active := true
  lfoMul := false
  overdriveFactor := 1
  fbMod := 0
  depthAtten := 1
  lfoAtten := 1

/-- An active mixer node with three bound slots. -/
def mixerNode : MixerNode Unit Unit where
  toNodeSupport := boundSupport
  output := fun _ _ => 0
  mixerNode := { pan := 0, level := 1, active := 1, lfoToLevel := 0, lfoToPan := 0,
                 envToLevel := 0, isMutedDueToSoloAway := false, modtarget := mixerTargets }
  active := true
  doBlock := 0
  dcBlocker := ()
  levMod := 0
  depthAtten := 1
  lfoAtten := 1
  lfoPanAtten := 1
  panMod := 0

/-- An active main-pan node with three bound slots. -/
def panNode : MainPanNode Unit where
  toNodeSupport := boundSupport
  level := 0
  modNode := { lfoDepth := 0, envDepth := 0, modtarget := targets }
  active := true
  lfoAtten := 1
  directMod := 0
  envAtten := 1
  edMod := 0
  ldMod := 0

/-- An active fine-tune node with three bound slots. -/
def fineNode : FineTuneNode Unit where
  toNodeSupport := boundSupport
  level := 0
  coarseLevel := 0
  modNode := { coarseTune := 0, lfoDepth := 0, envDepth := 0, lfoCoarseDepth := 0,
               envCoarseDepth := 0, modtarget := targets }
  active := true
  lfoAtten := 1
  directMod := 0
  directCoarseMod := 0
  envAtten := 1
  edMod := 0
  ldMod := 0

/-- A main-pan node without bound slots and with zero depths. -/
def idlePanNode : MainPanNode Unit :=
  { panNode with toNodeSupport := plainSupport, active := false }

/-- A fine-tune node without bound slots and with zero depths. -/
def idleFineNode : FineTuneNode Unit :=
  { fineNode with toNodeSupport := plainSupport, active := false }

/-- An output node with three bound slots. -/
def outputNode : OutputNode Unit where
  toNodeSupport := boundSupport
  output := fun _ _ => 0
  outputNode := { level := 1, velSensitivity := 0, bendUp := 2, bendDown := 2,
                  octTranspose := 0, pan := 0, fineTune := 0, lfoDepth := 0,
                  defaultTrigger := 0, modtarget := targets }
  defaultTrigger := 0
  panModNode := idlePanNode
  ftModNode := idleFineNode
  finalEnvLevel := fun _ => 0
  levMod := 0
  panMod := 0
  depthAtten := 1
  lfoAtten := 1

/-- An operator with all accumulators zero and a constant output of 1/2. -/
def op : OpSource where
  phaseInput := fun _ => 0
  fmAmount := fun _ => 0
  rmLevel := fun _ => 0
  feedbackLevel := fun _ => 0
  output := fun _ => 1 / 2
  waveForm := 0
  rmAssigned := false
  operatorOutputsToMain := true
  unisonParticipatesPan := false

/-- Voice values of a note played at full velocity without pan offsets. -/
def voice : VoiceValues := { uniPanShift := 0, velocityLag := 1, noteExpressionPanBipolar := 0 }

/-- An inter-operator node whose `active` flag is false. -/
def idleFromNode : MatrixNodeFrom Unit := { fromNode with active := false }

/-- A feedback node whose `active` flag is false. -/
def idleSelfNode : MatrixNodeSelf Unit := { selfNode with active := false }

/-- A mixer node whose `active` parameter is 0 and whose output buffer still holds the
value 1 in every sample. -/
def staleMixerNode : MixerNode Unit Unit :=
  { mixerNode with
    output := fun _ _ => 1
    mixerNode := { mixerNode.mixerNode with active := 0 } }

/-- An active inter-operator node without bound slots, with level 1 and no envelope or LFO
depth, so that `modlev` is 1 in every sample; phase modulation, overdrive factor 1. -/
def pmNode : MatrixNodeFrom Unit := { fromNode with toNodeSupport := plainSupport }

/-- The node `pmNode` in ring-modulation mode with scale 0. -/
def rmNode : MatrixNodeFrom Unit := { pmNode with modMode := 1 }

/-- The node `pmNode` with overdrive factor 10. -/
def pmOverdriveNode : MatrixNodeFrom Unit := { pmNode with overdriveFactor := 10 }

/-- An operator whose output is 1 in every sample. -/
def unitOp : OpSource := { op with output := fun _ => 1 }

/-- An operator whose output is `7 / 2^29` in every sample. -/
def quietOp : OpSource := { op with output := fun _ => 7 / 536870912 }

/-- A feedback node without bound slots, with feedback level `7 / 2^26`, no envelope or LFO
depth and the overdrive flag clear. -/
def fbNode : MatrixNodeSelf Unit :=
  { selfNode with
    toNodeSupport := plainSupport
    selfNode := { selfNode.selfNode with fbLevel := 7 / 67108864 } }

/-- An operator whose `feedbackLevel` buffer holds 99 in every sample. -/
def usedOp : OpSource := { op with feedbackLevel := fun _ => 99 }

/-- An output node without bound slots: level 1, no velocity sensitivity, centre pan, zero
LFO depth, and an all-zero output buffer, as `attack()` leaves it. -/
def plainOutputNode : OutputNode Unit := { outputNode with toNodeSupport := plainSupport }

/-- A mixer node whose output buffer holds 1 in every sample of both rows. -/
def loudMixerNode : MixerNode Unit Unit := { mixerNode with output := fun _ _ => 1 }

/-- A mixer array with a single mixer node, routed to the main bus. -/
def mixers : List (MixerNode Unit Unit × OpSource) := [(loudMixerNode, op)]

/-- The output node after one `renderBlock()` on `plainOutputNode`. -/
def secondBlockNode : OutputNode Unit :=
  plainOutputNode.renderBlock collab outputIds panIds fineIds voice mixers

/-- An active mixer node that is muted because another node is soloed. -/
def mutedMixerNode : MixerNode Unit Unit :=
  { loudMixerNode with
    toNodeSupport := plainSupport
    mixerNode := { mixerNode.mixerNode with isMutedDueToSoloAway := true } }

end Demo

namespace Demo

/-- An inter-operator node whose patch selects linear FM (mode 2) with the overdrive flag
set, without bound slots; level 1. -/
def fmNode : MatrixNodeFrom Unit :=
  { pmNode with
    matrixNode := { pmNode.matrixNode with modulationMode := 2, overdrive := 1 } }

end Demo

namespace Demo

/-- The node `pmNode` with the mode selector 7, a value outside `{1, 2, 3}`. -/
def oddModeNode : MatrixNodeFrom Unit := { pmNode with modMode := 7 }

end Demo

/-! ## A pass of `calculateModulation()` with one slot left out -/

/-- The four ways in which a slot with target `t`, source pointer `src` and depth pointer
`dep` is inert: the source is unbound, the depth is unbound, the target is `noneId`, or the
target is declined by both hooks (which then leave their state as it is) and is none of the
`case` labels of the node's `switch`. -/
def slotInert {S D : Type} (c : Collab S D) (noneId t : Int) (labels : List Int)
    (src dep : Option ℚ) : Prop :=
  src = none ∨ dep = none ∨ t = noneId ∨
    ((∀ d sv s, c.envHandleModulationValue t d sv s = (false, s)) ∧
      (∀ d sv s, c.lfoHandleModulationValue t d sv s = (false, s)) ∧ t ∉ labels)

/-- The function `MatrixNodeFrom::calculateModulation` run with slot `k` absent: the loop passes over
every slot index but `k`. -/
def MatrixNodeFrom.calculateModulationWithout {S D : Type} (c : Collab S D)
    (tid : Patch.MatrixNode.TargetID) (stid : Patch.SelfNode.TargetID) (k : Nat)
    (n : MatrixNodeFrom S) : MatrixNodeFrom S :=
  let n := n.resetModulation
  let n := { n with inner := c.lfoResetMod (c.envResetMod n.inner) }
  if !n.anySources then n
  else ((List.range c.numModsPer).filter (fun i => decide (i ≠ k))).foldl (slotStep c tid stid) n

/-- The function `MatrixNodeSelf::calculateModulation` run with slot `k` absent: the loop passes over
every slot index but `k`. -/
def MatrixNodeSelf.calculateModulationWithout {S D : Type} (c : Collab S D)
    (tid : Patch.SelfNode.TargetID) (k : Nat)
    (n : MatrixNodeSelf S) : MatrixNodeSelf S :=
  let n := n.resetModulation
  let n := { n with inner := c.lfoResetMod (c.envResetMod n.inner) }
  if !n.anySources then n
  else ((List.range c.numModsPer).filter (fun i => decide (i ≠ k))).foldl (slotStep c tid) n

/-- The function `MixerNode::calculateModulation` run with slot `k` absent: the loop passes over
every slot index but `k`. -/
def MixerNode.calculateModulationWithout {S D : Type} (c : Collab S D)
    (tid : Patch.MixerNode.TargetID) (k : Nat)
    (n : MixerNode S D) : MixerNode S D :=
  let n := n.resetModulation
  let n := { n with inner := c.lfoResetMod (c.envResetMod n.inner) }
  if !n.anySources then n
  else ((List.range c.numModsPer).filter (fun i => decide (i ≠ k))).foldl (slotStep c tid) n

/-- The function `MainPanNode::calculateModulation` run with slot `k` absent: the loop passes over
every slot index but `k`. -/
def MainPanNode.calculateModulationWithout {S D : Type} (c : Collab S D)
    (tid : Patch.MainPanNode.TargetID) (k : Nat)
    (n : MainPanNode S) : MainPanNode S :=
  let n := n.resetModulation
  let n := { n with inner := c.lfoResetMod (c.envResetMod n.inner) }
  if !n.anySources then n
  else ((List.range c.numModsPer).filter (fun i => decide (i ≠ k))).foldl (slotStep c tid) n

/-- The function `FineTuneNode::calculateModulation` run with slot `k` absent: the loop passes over
every slot index but `k`. -/
def FineTuneNode.calculateModulationWithout {S D : Type} (c : Collab S D)
    (tid : Patch.FineTuneNode.TargetID) (k : Nat)
    (n : FineTuneNode S) : FineTuneNode S :=
  let n := n.resetModulation
  let n := { n with inner := c.lfoResetMod (c.envResetMod n.inner) }
  if !n.anySources then n
  else ((List.range c.numModsPer).filter (fun i => decide (i ≠ k))).foldl (slotStep c tid) n

/-- The function `OutputNode::calculateModulation` run with slot `k` absent: the loop passes over
every slot index but `k`. -/
def OutputNode.calculateModulationWithout {S D : Type} (c : Collab S D)
    (tid : Patch.OutputNode.TargetID) (k : Nat)
    (n : OutputNode S) : OutputNode S :=
  let n := n.resetModulation
  let n := { n with inner := c.lfoResetMod (c.envResetMod n.inner) }
  if !n.anySources then n
  else ((List.range c.numModsPer).filter (fun i => decide (i ≠ k))).foldl (slotStep c tid) n

namespace Demo

/-- The support state `boundSupport` with the source pointer of slot 1 unbound. -/
def gapSupport : NodeSupport Unit :=
  { boundSupport with
    sourcePointers := fun i => if i = 1 then none else boundSupport.sourcePointers i }

/-- The support state `boundSupport` with the depth pointer of slot 1 unbound. -/
def noDepthSupport : NodeSupport Unit :=
  { boundSupport with
    depthPointers := fun i => if i = 1 then none else boundSupport.depthPointers i }

/-- An inter-operator node whose slot 1 has no source. -/
def gapFromNode : MatrixNodeFrom Unit := { fromNode with toNodeSupport := gapSupport }

/-- A feedback node whose slot 1 has no depth. -/
def noDepthSelfNode : MatrixNodeSelf Unit := { selfNode with toNodeSupport := noDepthSupport }

/-- A mixer node whose slot 1 has the target `NONE`. -/
def noneSlotMixerNode : MixerNode Unit Unit :=
  { mixerNode with
    mixerNode := { mixerNode.mixerNode with
                   modtarget := fun i => if i = 1 then 0 else mixerTargets i } }

/-- Slot targets with the value 99 in slot 1, which neither hook of `collab` claims and no
node recognises. -/
def oddTargets : Nat → Int := fun i => if i = 1 then 99 else targets i

/-- A main-pan node whose slot 1 has the unrecognised target 99. -/
def oddPanNode : MainPanNode Unit :=
  { panNode with modNode := { panNode.modNode with modtarget := oddTargets } }

/-- A fine-tune node whose slot 1 has the unrecognised target 99. -/
def oddFineNode : FineTuneNode Unit :=
  { fineNode with modNode := { fineNode.modNode with modtarget := oddTargets } }

/-- An output node whose slot 1 has the unrecognised target 99. -/
def oddOutputNode : OutputNode Unit :=
  { outputNode with outputNode := { outputNode.outputNode with modtarget := oddTargets } }

end Demo

/-! ## The mixer's mono signal and pan, in terms of the node state after `blockState` -/

namespace MixerNode
variable {S D : Type}

/-- The signal `in` of the mixer: the operator output, run through the DC blocker when
`from.rmAssigned || doBlock`; `b` is the node state reached by `blockState`. -/
def inputSignal (c : Collab S D) (b : MixerNode S D) (src : OpSource) : Block :=
  if src.rmAssigned || decide (b.doBlock ≠ 0) then (c.dcFilter b.dcBlocker src.output).2
  else src.output

/-- The LFO block the mixer uses: `lfo.outputBlock`, multiplied sample by sample by the
envelope block when `lfoIsEnveloped`; `b` is the node state reached by `blockState`. -/
def lfoSignal (bs : Nat) (b : MixerNode S D) : Block :=
  if b.lfoIsEnveloped then fun j => if j < bs then b.lfo.outputBlock j * b.env.outputCache j
    else b.lfo.outputBlock j
  else b.lfo.outputBlock

/-- The amplitude `amp[j]` of the mixer: with `lv = clamp(level + levMod, 0, 1) * depthAtten`,
`lv * env[j] + lfoAtten * lfoToLevel * lfo[j]` when the envelope is a multiplier and
`lv + envToLevel * env[j] + lfoAtten * lfoToLevel * lfo[j]` otherwise; `b` is the node state
reached by `blockState`. -/
def ampSignal (bs : Nat) (b : MixerNode S D) : Block :=
  fun j =>
    if b.envIsMult then
      clamp (b.mixerNode.level + b.levMod) 0 1 * b.depthAtten * b.env.outputCache j
        + b.lfoAtten * b.mixerNode.lfoToLevel * lfoSignal bs b j
    else
      clamp (b.mixerNode.level + b.levMod) 0 1 * b.depthAtten
        + b.mixerNode.envToLevel * b.env.outputCache j
        + b.lfoAtten * b.mixerNode.lfoToLevel * lfoSignal bs b j

/-- The pan value of the mixer: `clamp(pan + lfoPanAtten * lfoToPan * lfo[blockSize - 1] +
(uniPanShift if the operator participates in unison pan, else 0) + panMod, -1, 1)`; `b` is
the node state reached by `blockState`. -/
def panValue (bs : Nat) (vv : VoiceValues) (b : MixerNode S D) (src : OpSource) : ℚ :=
  clamp (b.mixerNode.pan + b.lfoPanAtten * b.mixerNode.lfoToPan * lfoSignal bs b (bs - 1)
    + (if src.unisonParticipatesPan then vv.uniPanShift else 0) + b.panMod) (-1) 1

end MixerNode

namespace Demo

/-- An active mixer node without bound slots: level 1, centre pan, no LFO depth. -/
def plainMixerNode : MixerNode Unit Unit := { mixerNode with toNodeSupport := plainSupport }

/-- The node `plainMixerNode` panned hard right. -/
def rightMixerNode : MixerNode Unit Unit :=
  { plainMixerNode with mixerNode := { plainMixerNode.mixerNode with pan := 1 } }

end Demo

namespace Demo

/-- The collaborators of `collab` with a DC blocker whose filtered block is all-zero. -/
def dcCollab : Collab Unit Unit := { collab with dcFilter := fun d _ => (d, fun _ => 0) }

/-- An operator with the waveform `TX3` and a constant output of 1/2. -/
def txOp : OpSource := { op with waveForm := 3 }

/-- The mixer node `plainMixerNode` after the `attack()` of a note on the `TX3` operator. -/
def afterTxNoteMixerNode : MixerNode Unit Unit :=
  plainMixerNode.attack dcCollab mixerIds waveForms txOp

/-- The node `afterTxNoteMixerNode` after the `attack()` of a next note, on the operator `op`,
whose waveform is none of the listed ones and which has no ring modulation assigned. -/
def nextNoteMixerNode : MixerNode Unit Unit :=
  afterTxNoteMixerNode.attack dcCollab mixerIds waveForms op

end Demo

/-! ## The scalar nodes: the support state bound at `attack()` and the state of a block -/

/-- The support state `attack()` of a scalar node reads its source pointers from: the
collaborators' modulation state reset by `envResetMod()` and `lfoResetMod()`, then
`bindModulation()`. -/
def boundAtAttack {S D : Type} (c : Collab S D) (s : NodeSupport S) : NodeSupport S :=
  c.bindModulation { s with inner := c.lfoResetMod (c.envResetMod s.inner) }

/-- Some entry of `sourcePointers`, among the `numModsPer` entries, is not null. -/
def anySourceBound {S : Type} (numModsPer : Nat) (s : NodeSupport S) : Prop :=
  ∃ i, i < numModsPer ∧ (s.sourcePointers i).isSome = true

namespace MainPanNode
variable {S D : Type}

/-- The first part of `MainPanNode::modProcess` on an active node: `calculateModulation()`,
`envProcess(true, false)` and `lfoProcess()`. -/
def blockState (c : Collab S D) (tid : Patch.MainPanNode.TargetID) (n : MainPanNode S) : MainPanNode S :=
  let n := n.calculateModulation c tid
  let n := { n with toNodeSupport := c.envProcess [true, false] n.toNodeSupport }
  { n with toNodeSupport := c.lfoProcess n.checkLfoUsed n.toNodeSupport }

/-- The value `l` of `MainPanNode::modProcess`: the last sample `lfo.outputBlock[blockSize - 1]`,
times `env.outBlock0` when `lfoIsEnveloped`; `b` is the node state reached by `blockState`. -/
def lfoLast (bs : Nat) (b : MainPanNode S) : ℚ :=
  if b.lfoIsEnveloped then b.lfo.outputBlock (bs - 1) * b.env.outBlock0
  else b.lfo.outputBlock (bs - 1)

end MainPanNode

namespace FineTuneNode
variable {S D : Type}

/-- The first part of `FineTuneNode::modProcess` on an active node: `calculateModulation()`,
`envProcess(true, false)` and `lfoProcess()`. -/
def blockState (c : Collab S D) (tid : Patch.FineTuneNode.TargetID) (n : FineTuneNode S) : FineTuneNode S :=
  let n := n.calculateModulation c tid
  let n := { n with toNodeSupport := c.envProcess [true, false] n.toNodeSupport }
  { n with toNodeSupport := c.lfoProcess n.checkLfoUsed n.toNodeSupport }

/-- The value `l` of `FineTuneNode::modProcess`: the last sample `lfo.outputBlock[blockSize - 1]`,
times `env.outBlock0` when `lfoIsEnveloped`; `b` is the node state reached by `blockState`. -/
def lfoLast (bs : Nat) (b : FineTuneNode S) : ℚ :=
  if b.lfoIsEnveloped then b.lfo.outputBlock (bs - 1) * b.env.outBlock0
  else b.lfo.outputBlock (bs - 1)

end FineTuneNode

namespace Demo

/-- A main-pan node without bound slots whose LFO depth is 1e-9: non-zero, below the
`1e-8` threshold of `attack()`. -/
def faintPanNode : MainPanNode Unit :=
  { idlePanNode with modNode := { idlePanNode.modNode with lfoDepth := 1 / 1000000000 } }

/-- A fine-tune node without bound slots whose coarse envelope depth is 1e-9. -/
def faintFineNode : FineTuneNode Unit :=
  { idleFineNode with
    modNode := { idleFineNode.modNode with envCoarseDepth := 1 / 1000000000 } }

/-- Support state with three bound slots, an envelope whose block scalar is 1/2 and an
enveloped LFO whose last sample of the block is 1/2. -/
def livelySupport : NodeSupport Unit :=
  { boundSupport with
    env := ⟨fun _ => 1 / 2, 1 / 2⟩
    lfo := ⟨fun j => if j = 1 then 1 / 2 else 0⟩
    lfoIsEnveloped := true }

/-- Slot targets of the scalar nodes: slot 0 is `DIRECT`, slot 1 `ENVDEP_DIR`, slot 2
`COARSE` (which the main-pan node does not recognise). -/
def scalarTargets : Nat → Int := fun i => if i = 0 then 10 else if i = 1 then 12 else 16

/-- An active main-pan node on `livelySupport` with envelope depth 1/2 and LFO depth 1. -/
def livelyPanNode : MainPanNode Unit :=
  { panNode with
    toNodeSupport := livelySupport
    modNode := { lfoDepth := 1, envDepth := 1 / 2, modtarget := scalarTargets } }

/-- An active fine-tune node on `livelySupport` with fine depths 1/2 and 1 and coarse
depths 1 and 2. -/
def livelyFineNode : FineTuneNode Unit :=
  { fineNode with
    toNodeSupport := livelySupport
    modNode := { coarseTune := 0, lfoDepth := 1, envDepth := 1 / 2, lfoCoarseDepth := 2,
                 envCoarseDepth := 1, modtarget := scalarTargets } }

end Demo

/-! ## The output node's buffer, gain and pan, in terms of the state after `blockState` -/

namespace OutputNode
variable {S D : Type}

/-- The LFO block the output node adds to its gain: `lfo.outputBlock`, multiplied sample by
sample by the envelope block when `lfoIsEnveloped`; `b` is the node state reached by
`blockState`. -/
def lfoSignal (bs : Nat) (b : OutputNode S) : Block :=
  if b.lfoIsEnveloped then fun i => if i < bs then b.lfo.outputBlock i * b.env.outputCache i
    else b.lfo.outputBlock i
  else b.lfo.outputBlock

/-- The gain `g = 0.15 * clamp(v * L^3, 0, 1)` with `L = clamp(level + levMod, 0, 1)` and
`v = 1 - velSensitivity * (1 - velocityLag)`; `b` is the node state reached by `blockState`. -/
def levelGain (vv : VoiceValues) (b : OutputNode S) : ℚ :=
  15 / 100 * clamp ((1 - b.outputNode.velSensitivity * (1 - vv.velocityLag))
    * clamp (b.outputNode.level + b.levMod) 0 1 ^ 3) 0 1

/-- The pan value of the output node:
`clamp(panMod + pan + panModNode.level + noteExpressionPanBipolar, -1, 1)`; `b` is the node
state reached by `blockState`. -/
def panValue (vv : VoiceValues) (b : OutputNode S) : ℚ :=
  clamp (b.panMod + b.outputNode.pan + b.panModNode.level + vv.noteExpressionPanBipolar) (-1) 1

/-- Sample `i` of channel `ch` after the gain block `fe` and the pan matrix are applied to
the summed buffer `b.output`: the scaled sample itself at centre pan, and otherwise
`pmat[0]*L + pmat[2]*R` on channel 0 and `pmat[3]*L + pmat[1]*R` on channel 1, where `L`
and `R` are the scaled samples and `pmat` is the stereo equal-power matrix at
`(pn + 1) * 0.5`. -/
def gainPan (c : Collab S D) (vv : VoiceValues) (b : OutputNode S) (fe : Block)
    (ch i : Nat) : ℚ :=
  if panValue vv b = 0 then b.output ch i * fe i
  else if ch = 0 then
    c.stereoEqualPower ((panValue vv b + 1) * (1 / 2)) 0 * (b.output 0 i * fe i)
      + c.stereoEqualPower ((panValue vv b + 1) * (1 / 2)) 2 * (b.output 1 i * fe i)
  else
    c.stereoEqualPower ((panValue vv b + 1) * (1 / 2)) 3 * (b.output 0 i * fe i)
      + c.stereoEqualPower ((panValue vv b + 1) * (1 / 2)) 1 * (b.output 1 i * fe i)

end OutputNode

namespace Demo

/-- The operator `op` without the flag `operatorOutputsToMain`. -/
def sideOp : OpSource := { op with operatorOutputsToMain := false }

/-- A mixer array with one mixer routed to the main bus and one that is not; both hold 1
in every sample of both rows. -/
def mixersA : List (MixerNode Unit Unit × OpSource) :=
  [(loudMixerNode, op), (loudMixerNode, sideOp)]

/-- The array `mixersA` with the buffer of the mixer that is not routed to the main bus
replaced by zeros. -/
def mixersB : List (MixerNode Unit Unit × OpSource) :=
  [(loudMixerNode, op), (mixerNode, sideOp)]

/-- An output node without bound slots, with level 1/2, velocity sensitivity 1/2, LFO depth
1, an envelope block of 1/2 and an enveloped LFO block of 1. -/
def softOutputNode : OutputNode Unit :=
  { plainOutputNode with
    toNodeSupport := { plainSupport with
                       env := ⟨fun _ => 1 / 2, 1 / 2⟩
                       lfo := ⟨fun _ => 1⟩
                       lfoIsEnveloped := true }
    outputNode := { plainOutputNode.outputNode with
                    level := 1 / 2, velSensitivity := 1 / 2, lfoDepth := 1 } }

/-- Voice values of a note whose lagged velocity is 1/2. -/
def softVoice : VoiceValues := { voice with velocityLag := 1 / 2 }

end Demo

/-! ## The modulation level of the inter-operator node as the specification words it -/

namespace MatrixNodeFrom
variable {S : Type}

/-- Modelled from the spec: the per-sample modulation level, `level * env[i] + lfoToDepth *
lfoAtten * lfo[i]` when the envelope is a multiplier and `applyMod + level + lfoToDepth *
lfoAtten * lfo[i] + envToLevel * env[i]` otherwise; `b` is the node state reached by
`blockState`. -/
def specModlev (b : MatrixNodeFrom S) : Block :=
  fun i =>
    if b.envIsMult then
      b.matrixNode.level * b.env.outputCache i
        + b.matrixNode.lfoToDepth * b.lfoAtten * b.lfo.outputBlock i
    else
      b.applyMod + b.matrixNode.level
        + b.matrixNode.lfoToDepth * b.lfoAtten * b.lfo.outputBlock i
        + b.matrixNode.envToLevel * b.env.outputCache i

end MatrixNodeFrom

namespace Demo

/-- The support state `boundSupport` with the envelope acting as a multiplier. -/
def multSupport : NodeSupport Unit := { boundSupport with envIsMult := true }

/-- An active inter-operator node in linear-FM mode with three bound slots, whose envelope
is a multiplier: level 1, no LFO depth. -/
def multFromNode : MatrixNodeFrom Unit :=
  { fromNode with toNodeSupport := multSupport, modMode := 2 }

end Demo

/-! ## Slot resolution: the hooks' decision and an evaluated slot -/

/-- The two slot hooks decide from the target, the depth and the source value whether they
claim a slot: the answer does not depend on the collaborators' own modulation state. -/
def hooksDecideByTarget {S D : Type} (c : Collab S D) : Prop :=
  (∀ t d sv s s', (c.envHandleModulationValue t d sv s).1
      = (c.envHandleModulationValue t d sv s').1) ∧
    (∀ t d sv s s', (c.lfoHandleModulationValue t d sv s).1
      = (c.lfoHandleModulationValue t d sv s').1)

/-- Slot `i` is evaluated: its source pointer is bound to the value `sv`, its depth pointer to
the value `d`, and its target `t` is not `noneId`. -/
def slotLive {S : Type} (noneId t : Int) (sup : NodeSupport S) (i : Nat) (d sv : ℚ) : Prop :=
  sup.sourcePointers i = some sv ∧ sup.depthPointers i = some d ∧ t ≠ noneId

namespace Demo

/-- The collaborators of `collab` with hooks that claim case labels of the nodes: the
envelope hook claims the target 20 (`DEPTH_ATTEN`), the LFO hook the target 30
(`LFO_DEPTH_ATTEN`). -/
def greedyCollab : Collab Unit Unit :=
  { collab with
    envHandleModulationValue := fun t _ _ s => (decide (t = 20), s)
    lfoHandleModulationValue := fun t _ _ s => (decide (t = 30), s) }

end Demo

/-! ## The pan step of the output node on one pair of samples -/

namespace OutputNode
variable {S D : Type}

/-- The pan step at the end of `OutputNode::renderBlock` on the scaled samples `l`
(channel 0) and `r` (channel 1): the samples themselves when `pn = 0`, and otherwise
`pmat[0]*l + pmat[2]*r` on channel 0 and `pmat[3]*l + pmat[1]*r` on channel 1, with `pmat`
the stereo equal-power matrix at `(pn + 1) * 0.5`. -/
def panned (c : Collab S D) (pn l r : ℚ) (ch : Nat) : ℚ :=
  if pn = 0 then (if ch = 0 then l else r)
  else if ch = 0 then
    c.stereoEqualPower ((pn + 1) * (1 / 2)) 0 * l + c.stereoEqualPower ((pn + 1) * (1 / 2)) 2 * r
  else
    c.stereoEqualPower ((pn + 1) * (1 / 2)) 3 * l + c.stereoEqualPower ((pn + 1) * (1 / 2)) 1 * r

/-- The sum over the mixers that are routed to the main bus, in array order, of sample `i`
of channel `ch` of their output. -/
def mainSum (fromArr : List (MixerNode S D × OpSource)) (ch i : Nat) : ℚ :=
  ((fromArr.filter (fun m => m.2.operatorOutputsToMain)).map (fun m => m.1.output ch i)).sum

end OutputNode

namespace Demo

/-- The node `rmNode` (ring modulation, `modlev = 1`) with the scale selector 5, a value
outside `{1, 2}`. -/
def oddScaleNode : MatrixNodeFrom Unit := { rmNode with rmScale := 5 }

end Demo

/-! # Theorems -/

section lemmas
variable {S D : Type}

theorem offerSlot_eq_some_iff (c : Collab S D) (noneId target : Int) (i : Nat)
    (s : NodeSupport S) (d sv : ℚ) :
    (offerSlot c noneId target i s).1 = some (d, sv) ↔
      s.sourcePointers i = some sv ∧ s.depthPointers i = some d ∧ target ≠ noneId ∧
      (c.envHandleModulationValue target d sv s.inner).1 = false ∧
      (c.lfoHandleModulationValue target d sv
        (c.envHandleModulationValue target d sv s.inner).2).1 = false := by
  unfold offerSlot
  cases hs : s.sourcePointers i with
  | none => simp
  | some sv0 =>
    by_cases ht : target = noneId
    · simp [ht]
    · cases hd : s.depthPointers i with
      | none => simp [ht]
      | some d0 =>
        simp only [ht, if_false]
        by_cases he : (c.envHandleModulationValue target d0 sv0 s.inner).1 = true
        · simp only [he, if_true]
          constructor
          · intro h; cases h
          · rintro ⟨h1, h2, -, h4, -⟩
            cases h1; cases h2
            rw [he] at h4; cases h4
        · by_cases hl : (c.lfoHandleModulationValue target d0 sv0
              (c.envHandleModulationValue target d0 sv0 s.inner).2).1 = true
          · simp only [he, hl, if_true, if_false]
            constructor
            · intro h; cases h
            · rintro ⟨h1, h2, -, -, h5⟩
              cases h1; cases h2
              rw [hl] at h5; cases h5
          · simp only [he, hl, if_false]
            constructor
            · intro h
              cases h
              simp at he hl
              exact ⟨rfl, rfl, ht, he, hl⟩
            · rintro ⟨h1, h2, -, -, -⟩
              cases h1; cases h2; rfl

theorem attenProduct_nil (tgt : Nat → Int) (t : Int) : attenProduct tgt t [] = 1 := by
  simp [attenProduct]

theorem attenProduct_cons (tgt : Nat → Int) (t : Int) (i : Nat) (d sv : ℚ)
    (l : List (Nat × ℚ × ℚ)) :
    attenProduct tgt t ((i, d, sv) :: l) =
      if tgt i = t then attenFactor d sv * attenProduct tgt t l else attenProduct tgt t l := by
  unfold attenProduct
  by_cases h : tgt i = t
  · simp [List.filter_cons, h]
  · simp [List.filter_cons, h]

theorem localSlots_cons_none (c : Collab S D) (noneId : Int) (tgt : Nat → Int) (i : Nat)
    (is : List Nat) (sup : NodeSupport S) (h : (offerSlot c noneId (tgt i) i sup).1 = none) :
    localSlots c noneId tgt (i :: is) sup =
      localSlots c noneId tgt is
        { sup with inner := (offerSlot c noneId (tgt i) i sup).2 } := by
  rw [localSlots]
  simp only [h]

theorem localSlots_cons_some (c : Collab S D) (noneId : Int) (tgt : Nat → Int) (i : Nat)
    (is : List Nat) (sup : NodeSupport S) (d sv : ℚ)
    (h : (offerSlot c noneId (tgt i) i sup).1 = some (d, sv)) :
    localSlots c noneId tgt (i :: is) sup =
      (i, d, sv) :: localSlots c noneId tgt is
        { sup with inner := (offerSlot c noneId (tgt i) i sup).2 } := by
  rw [localSlots]
  simp only [h]

/-- A fold of slot steps multiplies the accumulator of target `t` by the product over the
slots that reach the local switch with that target. -/
theorem foldl_atten {N : Type} (c : Collab S D) (noneId t : Int)
    (step : N → Nat → N) (sup : N → NodeSupport S) (tgt : N → Nat → Int) (acc : N → ℚ)
    (htgt : ∀ n i, tgt (step n i) = tgt n)
    (hsup : ∀ n i, sup (step n i) =
      { sup n with inner := (offerSlot c noneId (tgt n i) i (sup n)).2 })
    (hacc : ∀ n i, acc (step n i) =
      attenStep (tgt n i) t (offerSlot c noneId (tgt n i) i (sup n)).1 (acc n))
    (is : List Nat) (n : N) :
    acc (is.foldl step n) =
      acc n * attenProduct (tgt n) t (localSlots c noneId (tgt n) is (sup n)) := by
  induction is generalizing n with
  | nil => simp [localSlots, attenProduct_nil]
  | cons i is ih =>
    rw [List.foldl_cons, ih, htgt, hsup, hacc]
    cases h : (offerSlot c noneId (tgt n i) i (sup n)).1 with
    | none => rw [localSlots_cons_none c noneId (tgt n) i is (sup n) h]; simp [attenStep]
    | some p =>
      obtain ⟨d, sv⟩ := p
      rw [localSlots_cons_some c noneId (tgt n) i is (sup n) d sv h]
      simp only [attenStep, attenProduct_cons]
      split_ifs <;> ring

theorem clamp_mem (v lo hi : ℚ) (h : lo ≤ hi) : lo ≤ clamp v lo hi ∧ clamp v lo hi ≤ hi := by
  unfold clamp
  split_ifs with h1 h2
  · exact ⟨le_refl _, h⟩
  · exact ⟨h, le_refl _⟩
  · exact ⟨not_lt.mp h1, not_lt.mp h2⟩

theorem clamp_eq_self (v lo hi : ℚ) (h1 : lo ≤ v) (h2 : v ≤ hi) : clamp v lo hi = v := by
  unfold clamp
  rw [if_neg (not_lt.mpr h1), if_neg (not_lt.mpr h2)]

theorem attenFactor_mem (d sv : ℚ) (h0 : 0 ≤ d) (h1 : d ≤ 1) :
    0 ≤ attenFactor d sv ∧ attenFactor d sv ≤ 1 := by
  obtain ⟨c0, c1⟩ := clamp_mem sv 0 1 (by norm_num)
  unfold attenFactor
  constructor
  · nlinarith
  · nlinarith

theorem attenProduct_mem (tgt : Nat → Int) (t : Int) (l : List (Nat × ℚ × ℚ))
    (h : ∀ x ∈ l, tgt x.1 = t → 0 ≤ x.2.1 ∧ x.2.1 ≤ 1) :
    0 ≤ attenProduct tgt t l ∧ attenProduct tgt t l ≤ 1 := by
  induction l with
  | nil => rw [attenProduct_nil]; norm_num
  | cons x l ih =>
    obtain ⟨i, d, sv⟩ := x
    have ih1 := ih (fun y hy => h y (List.mem_cons_of_mem _ hy))
    rw [attenProduct_cons]
    split_ifs with ht
    · obtain ⟨f0, f1⟩ := attenFactor_mem d sv (h (i, d, sv) (List.mem_cons_self _ _) ht).1
        (h (i, d, sv) (List.mem_cons_self _ _) ht).2
      exact ⟨mul_nonneg f0 ih1.1, mul_le_one₀ f1 ih1.1 ih1.2⟩
    · exact ih1

theorem mem_localSlots (c : Collab S D) (noneId : Int) (tgt : Nat → Int) (is : List Nat)
    (sup : NodeSupport S) (x : Nat × ℚ × ℚ) (hx : x ∈ localSlots c noneId tgt is sup) :
    x.1 ∈ is ∧ sup.depthPointers x.1 = some x.2.1 ∧ sup.sourcePointers x.1 = some x.2.2 := by
  induction is generalizing sup with
  | nil => simp [localSlots] at hx
  | cons i is ih =>
    cases h : (offerSlot c noneId (tgt i) i sup).1 with
    | none =>
      rw [localSlots_cons_none c noneId tgt i is sup h] at hx
      obtain ⟨h1, h2, h3⟩ := ih _ hx
      exact ⟨List.mem_cons_of_mem _ h1, h2, h3⟩
    | some p =>
      obtain ⟨d, sv⟩ := p
      rw [localSlots_cons_some c noneId tgt i is sup d sv h] at hx
      rcases List.mem_cons.mp hx with hx | hx
      · subst hx
        obtain ⟨h1, h2, -⟩ := (offerSlot_eq_some_iff c noneId (tgt i) i sup d sv).mp h
        exact ⟨List.mem_cons_self _ _, h2, h1⟩
      · obtain ⟨h1, h2, h3⟩ := ih _ hx
        exact ⟨List.mem_cons_of_mem _ h1, h2, h3⟩

theorem mem_resolvedSlots (c : Collab S D) (noneId : Int) (tgt : Nat → Int)
    (sup : NodeSupport S) (x : Nat × ℚ × ℚ) (hx : x ∈ resolvedSlots c noneId tgt sup) :
    x.1 < c.numModsPer ∧ sup.depthPointers x.1 = some x.2.1 ∧
      sup.sourcePointers x.1 = some x.2.2 := by
  obtain ⟨h1, h2, h3⟩ := mem_localSlots c noneId tgt _ _ x hx
  exact ⟨List.mem_range.mp h1, h2, h3⟩

theorem resolvedProduct_mem (c : Collab S D) (noneId t : Int) (tgt : Nat → Int)
    (sup : NodeSupport S) (ts : List Int) (ht : t ∈ ts)
    (h : attenDepthsInUnit c.numModsPer sup.depthPointers tgt ts) :
    0 ≤ attenProduct tgt t (resolvedSlots c noneId tgt sup) ∧
      attenProduct tgt t (resolvedSlots c noneId tgt sup) ≤ 1 := by
  apply attenProduct_mem
  intro x hx hxt
  obtain ⟨h1, h2, -⟩ := mem_resolvedSlots c noneId tgt sup x hx
  exact h x.1 h1 x.2.1 h2 (hxt ▸ ht)

theorem foldl_rel {N : Type} (R : N → N → Prop) (hrefl : ∀ n, R n n)
    (htrans : ∀ a b d, R a b → R b d → R a d) (step : N → Nat → N)
    (hstep : ∀ n i, R n (step n i)) (is : List Nat) (n : N) : R n (is.foldl step n) := by
  induction is generalizing n with
  | nil => exact hrefl n
  | cons i is ih => exact htrans _ _ _ (hstep n i) (ih (step n i))

theorem Demo.range_three : List.range 3 = [0, 1, 2] := by decide

theorem Demo.bound_depths_in_unit (k : Nat) (tgt : Nat → Int) (ts : List Int) :
    attenDepthsInUnit k Demo.boundSupport.depthPointers tgt ts := by
  intro i _ d hd _
  simp only [Demo.boundSupport] at hd
  split_ifs at hd <;> simp at hd <;> subst hd <;> norm_num

end lemmas

namespace MatrixNodeFrom
variable {S D : Type}

theorem mfrom_slotStep_sup (c : Collab S D) (tid : Patch.MatrixNode.TargetID) (stid : Patch.SelfNode.TargetID)
    (n : MatrixNodeFrom S) (i : Nat) :
    (slotStep c tid stid n i).toNodeSupport =
      { n.toNodeSupport with
        inner := (offerSlot c stid.NONE (n.matrixNode.modtarget i) i n.toNodeSupport).2 } := by
  simp only [slotStep]
  split <;> rename_i h <;> simp only [h] <;> (try split_ifs) <;> rfl

theorem mfrom_slotStep_patch (c : Collab S D) (tid : Patch.MatrixNode.TargetID) (stid : Patch.SelfNode.TargetID)
    (n : MatrixNodeFrom S) (i : Nat) :
    (slotStep c tid stid n i).matrixNode = n.matrixNode := by
  simp only [slotStep]
  split <;> (try split_ifs) <;> rfl

theorem mfrom_slotStep_depthAtten (c : Collab S D) (tid : Patch.MatrixNode.TargetID) (stid : Patch.SelfNode.TargetID)
    (n : MatrixNodeFrom S) (i : Nat) :
    (slotStep c tid stid n i).depthAtten =
      attenStep (n.matrixNode.modtarget i) tid.DEPTH_ATTEN
        (offerSlot c stid.NONE (n.matrixNode.modtarget i) i n.toNodeSupport).1 n.depthAtten := by
  have hd := tid.distinct
  simp only [List.nodup_cons, List.mem_cons, List.mem_singleton, not_or] at hd
  simp only [slotStep]
  split <;> rename_i h <;> simp only [h, attenStep] <;> (try split_ifs) <;> simp_all

/-- After `calculateModulation()` on a node with `anySources`, `depthAtten` is the product of the
attenuation factors of the slots that reach the local switch with target `DEPTH_ATTEN`. -/
theorem mfrom_calculateModulation_depthAtten (c : Collab S D) (tid : Patch.MatrixNode.TargetID) (stid : Patch.SelfNode.TargetID)
    (n : MatrixNodeFrom S) (h : n.anySources = true) :
    (n.calculateModulation c tid stid).depthAtten =
      attenProduct n.matrixNode.modtarget tid.DEPTH_ATTEN
        (resolvedSlots c stid.NONE n.matrixNode.modtarget n.toNodeSupport) := by
  simp only [calculateModulation, resetModulation, h, Bool.not_true, Bool.false_eq_true,
    if_false]
  rw [foldl_atten c stid.NONE tid.DEPTH_ATTEN (slotStep c tid stid) (fun m => m.toNodeSupport)
    (fun m => m.matrixNode.modtarget) (fun m => m.depthAtten)
    (fun m i => by simp only [mfrom_slotStep_patch]) (fun m i => mfrom_slotStep_sup c tid stid m i)
    (fun m i => mfrom_slotStep_depthAtten c tid stid m i)]
  simp [resolvedSlots, h]

/-- After `calculateModulation()` on a node without `anySources`, `depthAtten` is 1. -/
theorem mfrom_calculateModulation_depthAtten_of_not_anySources (c : Collab S D) (tid : Patch.MatrixNode.TargetID) (stid : Patch.SelfNode.TargetID)
    (n : MatrixNodeFrom S)
    (h : n.anySources = false) : (n.calculateModulation c tid stid).depthAtten = 1 := by
  simp [calculateModulation, resetModulation, h]

/-- After `calculateModulation()`, `depthAtten` lies in `[0, 1]` when the bound depths of the
attenuation slots do. -/
theorem mfrom_calculateModulation_depthAtten_mem (c : Collab S D) (tid : Patch.MatrixNode.TargetID) (stid : Patch.SelfNode.TargetID)
    (n : MatrixNodeFrom S) (ts : List Int)
    (ht : tid.DEPTH_ATTEN ∈ ts)
    (h : attenDepthsInUnit c.numModsPer n.depthPointers n.matrixNode.modtarget ts) :
    0 ≤ (n.calculateModulation c tid stid).depthAtten ∧ (n.calculateModulation c tid stid).depthAtten ≤ 1 := by
  cases hA : n.anySources with
  | false =>
    rw [mfrom_calculateModulation_depthAtten_of_not_anySources c tid stid n hA]
    norm_num
  | true =>
    rw [mfrom_calculateModulation_depthAtten c tid stid n hA]
    exact resolvedProduct_mem c stid.NONE tid.DEPTH_ATTEN _ n.toNodeSupport ts ht h

theorem mfrom_slotStep_lfoAtten (c : Collab S D) (tid : Patch.MatrixNode.TargetID) (stid : Patch.SelfNode.TargetID)
    (n : MatrixNodeFrom S) (i : Nat) :
    (slotStep c tid stid n i).lfoAtten =
      attenStep (n.matrixNode.modtarget i) tid.LFO_DEPTH_ATTEN
        (offerSlot c stid.NONE (n.matrixNode.modtarget i) i n.toNodeSupport).1 n.lfoAtten := by
  have hd := tid.distinct
  simp only [List.nodup_cons, List.mem_cons, List.mem_singleton, not_or] at hd
  simp only [slotStep]
  split <;> rename_i h <;> simp only [h, attenStep] <;> (try split_ifs) <;> simp_all

/-- After `calculateModulation()` on a node with `anySources`, `lfoAtten` is the product of the
attenuation factors of the slots that reach the local switch with target `LFO_DEPTH_ATTEN`. -/
theorem mfrom_calculateModulation_lfoAtten (c : Collab S D) (tid : Patch.MatrixNode.TargetID) (stid : Patch.SelfNode.TargetID)
    (n : MatrixNodeFrom S) (h : n.anySources = true) :
    (n.calculateModulation c tid stid).lfoAtten =
      attenProduct n.matrixNode.modtarget tid.LFO_DEPTH_ATTEN
        (resolvedSlots c stid.NONE n.matrixNode.modtarget n.toNodeSupport) := by
  simp only [calculateModulation, resetModulation, h, Bool.not_true, Bool.false_eq_true,
    if_false]
  rw [foldl_atten c stid.NONE tid.LFO_DEPTH_ATTEN (slotStep c tid stid) (fun m => m.toNodeSupport)
    (fun m => m.matrixNode.modtarget) (fun m => m.lfoAtten)
    (fun m i => by simp only [mfrom_slotStep_patch]) (fun m i => mfrom_slotStep_sup c tid stid m i)
    (fun m i => mfrom_slotStep_lfoAtten c tid stid m i)]
  simp [resolvedSlots, h]

/-- After `calculateModulation()` on a node without `anySources`, `lfoAtten` is 1. -/
theorem mfrom_calculateModulation_lfoAtten_of_not_anySources (c : Collab S D) (tid : Patch.MatrixNode.TargetID) (stid : Patch.SelfNode.TargetID)
    (n : MatrixNodeFrom S)
    (h : n.anySources = false) : (n.calculateModulation c tid stid).lfoAtten = 1 := by
  simp [calculateModulation, resetModulation, h]

/-- After `calculateModulation()`, `lfoAtten` lies in `[0, 1]` when the bound depths of the
attenuation slots do. -/
theorem mfrom_calculateModulation_lfoAtten_mem (c : Collab S D) (tid : Patch.MatrixNode.TargetID) (stid : Patch.SelfNode.TargetID)
    (n : MatrixNodeFrom S) (ts : List Int)
    (ht : tid.LFO_DEPTH_ATTEN ∈ ts)
    (h : attenDepthsInUnit c.numModsPer n.depthPointers n.matrixNode.modtarget ts) :
    0 ≤ (n.calculateModulation c tid stid).lfoAtten ∧ (n.calculateModulation c tid stid).lfoAtten ≤ 1 := by
  cases hA : n.anySources with
  | false =>
    rw [mfrom_calculateModulation_lfoAtten_of_not_anySources c tid stid n hA]
    norm_num
  | true =>
    rw [mfrom_calculateModulation_lfoAtten c tid stid n hA]
    exact resolvedProduct_mem c stid.NONE tid.LFO_DEPTH_ATTEN _ n.toNodeSupport ts ht h

/-- The function `calculateModulation()` changes the collaborators' state and the modulation
accumulators only. -/
theorem mfrom_calculateModulation_shape (c : Collab S D) (tid : Patch.MatrixNode.TargetID) (stid : Patch.SelfNode.TargetID)
    (n : MatrixNodeFrom S) :
    ∃ (s : S) (x0 x1 x2 : ℚ), n.calculateModulation c tid stid = { n with inner := s, applyMod := x0, depthAtten := x1, lfoAtten := x2 } := by
  simp only [calculateModulation, resetModulation]
  split_ifs
  · exact ⟨_, _, _, _, rfl⟩
  · obtain ⟨s, x0, x1, x2, h⟩ := foldl_rel
      (fun (a b : MatrixNodeFrom S) => ∃ (s : S) (x0 x1 x2 : ℚ), b = { a with inner := s, applyMod := x0, depthAtten := x1, lfoAtten := x2 })
      (fun a => ⟨_, _, _, _, rfl⟩)
      (by rintro a b d ⟨s, x0, x1, x2, rfl⟩ ⟨t, y0, y1, y2, rfl⟩; exact ⟨_, _, _, _, rfl⟩)
      (slotStep c tid stid)
      (by
        intro a i
        simp only [slotStep]
        split <;> (try split_ifs) <;> exact ⟨_, _, _, _, rfl⟩)
      (List.range c.numModsPer)
      ({ n with inner := c.lfoResetMod (c.envResetMod n.inner),
                applyMod := 0, depthAtten := 1, lfoAtten := 1 } : MatrixNodeFrom S)
    rw [h]
    exact ⟨_, _, _, _, rfl⟩

theorem mfrom_calculateModulation_matrixNode (c : Collab S D) (tid : Patch.MatrixNode.TargetID) (stid : Patch.SelfNode.TargetID)
    (n : MatrixNodeFrom S) :
    (n.calculateModulation c tid stid).matrixNode = n.matrixNode := by
  obtain ⟨s, x0, x1, x2, h⟩ := mfrom_calculateModulation_shape c tid stid n
  rw [h]

theorem mfrom_calculateModulation_active (c : Collab S D) (tid : Patch.MatrixNode.TargetID) (stid : Patch.SelfNode.TargetID)
    (n : MatrixNodeFrom S) :
    (n.calculateModulation c tid stid).active = n.active := by
  obtain ⟨s, x0, x1, x2, h⟩ := mfrom_calculateModulation_shape c tid stid n
  rw [h]

theorem mfrom_calculateModulation_modMode (c : Collab S D) (tid : Patch.MatrixNode.TargetID) (stid : Patch.SelfNode.TargetID)
    (n : MatrixNodeFrom S) :
    (n.calculateModulation c tid stid).modMode = n.modMode := by
  obtain ⟨s, x0, x1, x2, h⟩ := mfrom_calculateModulation_shape c tid stid n
  rw [h]

theorem mfrom_calculateModulation_rmScale (c : Collab S D) (tid : Patch.MatrixNode.TargetID) (stid : Patch.SelfNode.TargetID)
    (n : MatrixNodeFrom S) :
    (n.calculateModulation c tid stid).rmScale = n.rmScale := by
  obtain ⟨s, x0, x1, x2, h⟩ := mfrom_calculateModulation_shape c tid stid n
  rw [h]

theorem mfrom_calculateModulation_overdriveFactor (c : Collab S D) (tid : Patch.MatrixNode.TargetID) (stid : Patch.SelfNode.TargetID)
    (n : MatrixNodeFrom S) :
    (n.calculateModulation c tid stid).overdriveFactor = n.overdriveFactor := by
  obtain ⟨s, x0, x1, x2, h⟩ := mfrom_calculateModulation_shape c tid stid n
  rw [h]

theorem mfrom_calculateModulation_env (c : Collab S D) (tid : Patch.MatrixNode.TargetID) (stid : Patch.SelfNode.TargetID)
    (n : MatrixNodeFrom S) :
    (n.calculateModulation c tid stid).env = n.env := by
  obtain ⟨s, x0, x1, x2, h⟩ := mfrom_calculateModulation_shape c tid stid n
  rw [h]

theorem mfrom_calculateModulation_envIsMult (c : Collab S D) (tid : Patch.MatrixNode.TargetID) (stid : Patch.SelfNode.TargetID)
    (n : MatrixNodeFrom S) :
    (n.calculateModulation c tid stid).envIsMult = n.envIsMult := by
  obtain ⟨s, x0, x1, x2, h⟩ := mfrom_calculateModulation_shape c tid stid n
  rw [h]

theorem mfrom_calculateModulation_lfo (c : Collab S D) (tid : Patch.MatrixNode.TargetID) (stid : Patch.SelfNode.TargetID)
    (n : MatrixNodeFrom S) :
    (n.calculateModulation c tid stid).lfo = n.lfo := by
  obtain ⟨s, x0, x1, x2, h⟩ := mfrom_calculateModulation_shape c tid stid n
  rw [h]

theorem mfrom_calculateModulation_lfoIsEnveloped (c : Collab S D) (tid : Patch.MatrixNode.TargetID) (stid : Patch.SelfNode.TargetID)
    (n : MatrixNodeFrom S) :
    (n.calculateModulation c tid stid).lfoIsEnveloped = n.lfoIsEnveloped := by
  obtain ⟨s, x0, x1, x2, h⟩ := mfrom_calculateModulation_shape c tid stid n
  rw [h]

theorem mfrom_calculateModulation_lfoUsedAsModulationSource (c : Collab S D) (tid : Patch.MatrixNode.TargetID) (stid : Patch.SelfNode.TargetID)
    (n : MatrixNodeFrom S) :
    (n.calculateModulation c tid stid).lfoUsedAsModulationSource = n.lfoUsedAsModulationSource := by
  obtain ⟨s, x0, x1, x2, h⟩ := mfrom_calculateModulation_shape c tid stid n
  rw [h]

theorem mfrom_calculateModulation_sourcePointers (c : Collab S D) (tid : Patch.MatrixNode.TargetID) (stid : Patch.SelfNode.TargetID)
    (n : MatrixNodeFrom S) :
    (n.calculateModulation c tid stid).sourcePointers = n.sourcePointers := by
  obtain ⟨s, x0, x1, x2, h⟩ := mfrom_calculateModulation_shape c tid stid n
  rw [h]

theorem mfrom_calculateModulation_depthPointers (c : Collab S D) (tid : Patch.MatrixNode.TargetID) (stid : Patch.SelfNode.TargetID)
    (n : MatrixNodeFrom S) :
    (n.calculateModulation c tid stid).depthPointers = n.depthPointers := by
  obtain ⟨s, x0, x1, x2, h⟩ := mfrom_calculateModulation_shape c tid stid n
  rw [h]

theorem mfrom_calculateModulation_anySources (c : Collab S D) (tid : Patch.MatrixNode.TargetID) (stid : Patch.SelfNode.TargetID)
    (n : MatrixNodeFrom S) :
    (n.calculateModulation c tid stid).anySources = n.anySources := by
  obtain ⟨s, x0, x1, x2, h⟩ := mfrom_calculateModulation_shape c tid stid n
  rw [h]

end MatrixNodeFrom

namespace MatrixNodeSelf
variable {S D : Type}

theorem mself_slotStep_sup (c : Collab S D) (tid : Patch.SelfNode.TargetID)
    (n : MatrixNodeSelf S) (i : Nat) :
    (slotStep c tid n i).toNodeSupport =
      { n.toNodeSupport with
        inner := (offerSlot c tid.NONE (n.selfNode.modtarget i) i n.toNodeSupport).2 } := by
  simp only [slotStep]
  split <;> rename_i h <;> simp only [h] <;> (try split_ifs) <;> rfl

theorem mself_slotStep_patch (c : Collab S D) (tid : Patch.SelfNode.TargetID)
    (n : MatrixNodeSelf S) (i : Nat) :
    (slotStep c tid n i).selfNode = n.selfNode := by
  simp only [slotStep]
  split <;> (try split_ifs) <;> rfl

theorem mself_slotStep_depthAtten (c : Collab S D) (tid : Patch.SelfNode.TargetID)
    (n : MatrixNodeSelf S) (i : Nat) :
    (slotStep c tid n i).depthAtten =
      attenStep (n.selfNode.modtarget i) tid.DEPTH_ATTEN
        (offerSlot c tid.NONE (n.selfNode.modtarget i) i n.toNodeSupport).1 n.depthAtten := by
  have hd := tid.distinct
  simp only [List.nodup_cons, List.mem_cons, List.mem_singleton, not_or] at hd
  simp only [slotStep]
  split <;> rename_i h <;> simp only [h, attenStep] <;> (try split_ifs) <;> simp_all

/-- After `calculateModulation()` on a node with `anySources`, `depthAtten` is the product of the
attenuation factors of the slots that reach the local switch with target `DEPTH_ATTEN`. -/
theorem mself_calculateModulation_depthAtten (c : Collab S D) (tid : Patch.SelfNode.TargetID)
    (n : MatrixNodeSelf S) (h : n.anySources = true) :
    (n.calculateModulation c tid).depthAtten =
      attenProduct n.selfNode.modtarget tid.DEPTH_ATTEN
        (resolvedSlots c tid.NONE n.selfNode.modtarget n.toNodeSupport) := by
  simp only [calculateModulation, resetModulation, h, Bool.not_true, Bool.false_eq_true,
    if_false]
  rw [foldl_atten c tid.NONE tid.DEPTH_ATTEN (slotStep c tid) (fun m => m.toNodeSupport)
    (fun m => m.selfNode.modtarget) (fun m => m.depthAtten)
    (fun m i => by simp only [mself_slotStep_patch]) (fun m i => mself_slotStep_sup c tid m i)
    (fun m i => mself_slotStep_depthAtten c tid m i)]
  simp [resolvedSlots, h]

/-- After `calculateModulation()` on a node without `anySources`, `depthAtten` is 1. -/
theorem mself_calculateModulation_depthAtten_of_not_anySources (c : Collab S D) (tid : Patch.SelfNode.TargetID)
    (n : MatrixNodeSelf S)
    (h : n.anySources = false) : (n.calculateModulation c tid).depthAtten = 1 := by
  simp [calculateModulation, resetModulation, h]

/-- After `calculateModulation()`, `depthAtten` lies in `[0, 1]` when the bound depths of the
attenuation slots do. -/
theorem mself_calculateModulation_depthAtten_mem (c : Collab S D) (tid : Patch.SelfNode.TargetID)
    (n : MatrixNodeSelf S) (ts : List Int)
    (ht : tid.DEPTH_ATTEN ∈ ts)
    (h : attenDepthsInUnit c.numModsPer n.depthPointers n.selfNode.modtarget ts) :
    0 ≤ (n.calculateModulation c tid).depthAtten ∧ (n.calculateModulation c tid).depthAtten ≤ 1 := by
  cases hA : n.anySources with
  | false =>
    rw [mself_calculateModulation_depthAtten_of_not_anySources c tid n hA]
    norm_num
  | true =>
    rw [mself_calculateModulation_depthAtten c tid n hA]
    exact resolvedProduct_mem c tid.NONE tid.DEPTH_ATTEN _ n.toNodeSupport ts ht h

theorem mself_slotStep_lfoAtten (c : Collab S D) (tid : Patch.SelfNode.TargetID)
    (n : MatrixNodeSelf S) (i : Nat) :
    (slotStep c tid n i).lfoAtten =
      attenStep (n.selfNode.modtarget i) tid.LFO_DEPTH_ATTEN
        (offerSlot c tid.NONE (n.selfNode.modtarget i) i n.toNodeSupport).1 n.lfoAtten := by
  have hd := tid.distinct
  simp only [List.nodup_cons, List.mem_cons, List.mem_singleton, not_or] at hd
  simp only [slotStep]
  split <;> rename_i h <;> simp only [h, attenStep] <;> (try split_ifs) <;> simp_all

/-- After `calculateModulation()` on a node with `anySources`, `lfoAtten` is the product of the
attenuation factors of the slots that reach the local switch with target `LFO_DEPTH_ATTEN`. -/
theorem mself_calculateModulation_lfoAtten (c : Collab S D) (tid : Patch.SelfNode.TargetID)
    (n : MatrixNodeSelf S) (h : n.anySources = true) :
    (n.calculateModulation c tid).lfoAtten =
      attenProduct n.selfNode.modtarget tid.LFO_DEPTH_ATTEN
        (resolvedSlots c tid.NONE n.selfNode.modtarget n.toNodeSupport) := by
  simp only [calculateModulation, resetModulation, h, Bool.not_true, Bool.false_eq_true,
    if_false]
  rw [foldl_atten c tid.NONE tid.LFO_DEPTH_ATTEN (slotStep c tid) (fun m => m.toNodeSupport)
    (fun m => m.selfNode.modtarget) (fun m => m.lfoAtten)
    (fun m i => by simp only [mself_slotStep_patch]) (fun m i => mself_slotStep_sup c tid m i)
    (fun m i => mself_slotStep_lfoAtten c tid m i)]
  simp [resolvedSlots, h]

/-- After `calculateModulation()` on a node without `anySources`, `lfoAtten` is 1. -/
theorem mself_calculateModulation_lfoAtten_of_not_anySources (c : Collab S D) (tid : Patch.SelfNode.TargetID)
    (n : MatrixNodeSelf S)
    (h : n.anySources = false) : (n.calculateModulation c tid).lfoAtten = 1 := by
  simp [calculateModulation, resetModulation, h]

/-- After `calculateModulation()`, `lfoAtten` lies in `[0, 1]` when the bound depths of the
attenuation slots do. -/
theorem mself_calculateModulation_lfoAtten_mem (c : Collab S D) (tid : Patch.SelfNode.TargetID)
    (n : MatrixNodeSelf S) (ts : List Int)
    (ht : tid.LFO_DEPTH_ATTEN ∈ ts)
    (h : attenDepthsInUnit c.numModsPer n.depthPointers n.selfNode.modtarget ts) :
    0 ≤ (n.calculateModulation c tid).lfoAtten ∧ (n.calculateModulation c tid).lfoAtten ≤ 1 := by
  cases hA : n.anySources with
  | false =>
    rw [mself_calculateModulation_lfoAtten_of_not_anySources c tid n hA]
    norm_num
  | true =>
    rw [mself_calculateModulation_lfoAtten c tid n hA]
    exact resolvedProduct_mem c tid.NONE tid.LFO_DEPTH_ATTEN _ n.toNodeSupport ts ht h

/-- The function `calculateModulation()` changes the collaborators' state and the modulation
accumulators only. -/
theorem mself_calculateModulation_shape (c : Collab S D) (tid : Patch.SelfNode.TargetID)
    (n : MatrixNodeSelf S) :
    ∃ (s : S) (x0 x1 x2 : ℚ), n.calculateModulation c tid = { n with inner := s, fbMod := x0, depthAtten := x1, lfoAtten := x2 } := by
  simp only [calculateModulation, resetModulation]
  split_ifs
  · exact ⟨_, _, _, _, rfl⟩
  · obtain ⟨s, x0, x1, x2, h⟩ := foldl_rel
      (fun (a b : MatrixNodeSelf S) => ∃ (s : S) (x0 x1 x2 : ℚ), b = { a with inner := s, fbMod := x0, depthAtten := x1, lfoAtten := x2 })
      (fun a => ⟨_, _, _, _, rfl⟩)
      (by rintro a b d ⟨s, x0, x1, x2, rfl⟩ ⟨t, y0, y1, y2, rfl⟩; exact ⟨_, _, _, _, rfl⟩)
      (slotStep c tid)
      (by
        intro a i
        simp only [slotStep]
        split <;> (try split_ifs) <;> exact ⟨_, _, _, _, rfl⟩)
      (List.range c.numModsPer)
      ({ n with inner := c.lfoResetMod (c.envResetMod n.inner),
                fbMod := 0, depthAtten := 1, lfoAtten := 1 } : MatrixNodeSelf S)
    rw [h]
    exact ⟨_, _, _, _, rfl⟩

theorem mself_calculateModulation_selfNode (c : Collab S D) (tid : Patch.SelfNode.TargetID)
    (n : MatrixNodeSelf S) :
    (n.calculateModulation c tid).selfNode = n.selfNode := by
  obtain ⟨s, x0, x1, x2, h⟩ := mself_calculateModulation_shape c tid n
  rw [h]

theorem mself_calculateModulation_active (c : Collab S D) (tid : Patch.SelfNode.TargetID)
    (n : MatrixNodeSelf S) :
    (n.calculateModulation c tid).active = n.active := by
  obtain ⟨s, x0, x1, x2, h⟩ := mself_calculateModulation_shape c tid n
  rw [h]

theorem mself_calculateModulation_lfoMul (c : Collab S D) (tid : Patch.SelfNode.TargetID)
    (n : MatrixNodeSelf S) :
    (n.calculateModulation c tid).lfoMul = n.lfoMul := by
  obtain ⟨s, x0, x1, x2, h⟩ := mself_calculateModulation_shape c tid n
  rw [h]

theorem mself_calculateModulation_overdriveFactor (c : Collab S D) (tid : Patch.SelfNode.TargetID)
    (n : MatrixNodeSelf S) :
    (n.calculateModulation c tid).overdriveFactor = n.overdriveFactor := by
  obtain ⟨s, x0, x1, x2, h⟩ := mself_calculateModulation_shape c tid n
  rw [h]

theorem mself_calculateModulation_env (c : Collab S D) (tid : Patch.SelfNode.TargetID)
    (n : MatrixNodeSelf S) :
    (n.calculateModulation c tid).env = n.env := by
  obtain ⟨s, x0, x1, x2, h⟩ := mself_calculateModulation_shape c tid n
  rw [h]

theorem mself_calculateModulation_envIsMult (c : Collab S D) (tid : Patch.SelfNode.TargetID)
    (n : MatrixNodeSelf S) :
    (n.calculateModulation c tid).envIsMult = n.envIsMult := by
  obtain ⟨s, x0, x1, x2, h⟩ := mself_calculateModulation_shape c tid n
  rw [h]

theorem mself_calculateModulation_lfo (c : Collab S D) (tid : Patch.SelfNode.TargetID)
    (n : MatrixNodeSelf S) :
    (n.calculateModulation c tid).lfo = n.lfo := by
  obtain ⟨s, x0, x1, x2, h⟩ := mself_calculateModulation_shape c tid n
  rw [h]

theorem mself_calculateModulation_lfoIsEnveloped (c : Collab S D) (tid : Patch.SelfNode.TargetID)
    (n : MatrixNodeSelf S) :
    (n.calculateModulation c tid).lfoIsEnveloped = n.lfoIsEnveloped := by
  obtain ⟨s, x0, x1, x2, h⟩ := mself_calculateModulation_shape c tid n
  rw [h]

theorem mself_calculateModulation_lfoUsedAsModulationSource (c : Collab S D) (tid : Patch.SelfNode.TargetID)
    (n : MatrixNodeSelf S) :
    (n.calculateModulation c tid).lfoUsedAsModulationSource = n.lfoUsedAsModulationSource := by
  obtain ⟨s, x0, x1, x2, h⟩ := mself_calculateModulation_shape c tid n
  rw [h]

theorem mself_calculateModulation_sourcePointers (c : Collab S D) (tid : Patch.SelfNode.TargetID)
    (n : MatrixNodeSelf S) :
    (n.calculateModulation c tid).sourcePointers = n.sourcePointers := by
  obtain ⟨s, x0, x1, x2, h⟩ := mself_calculateModulation_shape c tid n
  rw [h]

theorem mself_calculateModulation_depthPointers (c : Collab S D) (tid : Patch.SelfNode.TargetID)
    (n : MatrixNodeSelf S) :
    (n.calculateModulation c tid).depthPointers = n.depthPointers := by
  obtain ⟨s, x0, x1, x2, h⟩ := mself_calculateModulation_shape c tid n
  rw [h]

theorem mself_calculateModulation_anySources (c : Collab S D) (tid : Patch.SelfNode.TargetID)
    (n : MatrixNodeSelf S) :
    (n.calculateModulation c tid).anySources = n.anySources := by
  obtain ⟨s, x0, x1, x2, h⟩ := mself_calculateModulation_shape c tid n
  rw [h]

end MatrixNodeSelf

namespace MixerNode
variable {S D : Type}

theorem mixer_slotStep_sup (c : Collab S D) (tid : Patch.MixerNode.TargetID)
    (n : MixerNode S D) (i : Nat) :
    (slotStep c tid n i).toNodeSupport =
      { n.toNodeSupport with
        inner := (offerSlot c tid.NONE (n.mixerNode.modtarget i) i n.toNodeSupport).2 } := by
  simp only [slotStep]
  split <;> rename_i h <;> simp only [h] <;> (try split_ifs) <;> rfl

theorem mixer_slotStep_patch (c : Collab S D) (tid : Patch.MixerNode.TargetID)
    (n : MixerNode S D) (i : Nat) :
    (slotStep c tid n i).mixerNode = n.mixerNode := by
  simp only [slotStep]
  split <;> (try split_ifs) <;> rfl

theorem mixer_slotStep_depthAtten (c : Collab S D) (tid : Patch.MixerNode.TargetID)
    (n : MixerNode S D) (i : Nat) :
    (slotStep c tid n i).depthAtten =
      attenStep (n.mixerNode.modtarget i) tid.DEPTH_ATTEN
        (offerSlot c tid.NONE (n.mixerNode.modtarget i) i n.toNodeSupport).1 n.depthAtten := by
  have hd := tid.distinct
  simp only [List.nodup_cons, List.mem_cons, List.mem_singleton, not_or] at hd
  simp only [slotStep]
  split <;> rename_i h <;> simp only [h, attenStep] <;> (try split_ifs) <;> simp_all

/-- After `calculateModulation()` on a node with `anySources`, `depthAtten` is the product of the
attenuation factors of the slots that reach the local switch with target `DEPTH_ATTEN`. -/
theorem mixer_calculateModulation_depthAtten (c : Collab S D) (tid : Patch.MixerNode.TargetID)
    (n : MixerNode S D) (h : n.anySources = true) :
    (n.calculateModulation c tid).depthAtten =
      attenProduct n.mixerNode.modtarget tid.DEPTH_ATTEN
        (resolvedSlots c tid.NONE n.mixerNode.modtarget n.toNodeSupport) := by
  simp only [calculateModulation, resetModulation, h, Bool.not_true, Bool.false_eq_true,
    if_false]
  rw [foldl_atten c tid.NONE tid.DEPTH_ATTEN (slotStep c tid) (fun m => m.toNodeSupport)
    (fun m => m.mixerNode.modtarget) (fun m => m.depthAtten)
    (fun m i => by simp only [mixer_slotStep_patch]) (fun m i => mixer_slotStep_sup c tid m i)
    (fun m i => mixer_slotStep_depthAtten c tid m i)]
  simp [resolvedSlots, h]

/-- After `calculateModulation()` on a node without `anySources`, `depthAtten` is 1. -/
theorem mixer_calculateModulation_depthAtten_of_not_anySources (c : Collab S D) (tid : Patch.MixerNode.TargetID)
    (n : MixerNode S D)
    (h : n.anySources = false) : (n.calculateModulation c tid).depthAtten = 1 := by
  simp [calculateModulation, resetModulation, h]

/-- After `calculateModulation()`, `depthAtten` lies in `[0, 1]` when the bound depths of the
attenuation slots do. -/
theorem mixer_calculateModulation_depthAtten_mem (c : Collab S D) (tid : Patch.MixerNode.TargetID)
    (n : MixerNode S D) (ts : List Int)
    (ht : tid.DEPTH_ATTEN ∈ ts)
    (h : attenDepthsInUnit c.numModsPer n.depthPointers n.mixerNode.modtarget ts) :
    0 ≤ (n.calculateModulation c tid).depthAtten ∧ (n.calculateModulation c tid).depthAtten ≤ 1 := by
  cases hA : n.anySources with
  | false =>
    rw [mixer_calculateModulation_depthAtten_of_not_anySources c tid n hA]
    norm_num
  | true =>
    rw [mixer_calculateModulation_depthAtten c tid n hA]
    exact resolvedProduct_mem c tid.NONE tid.DEPTH_ATTEN _ n.toNodeSupport ts ht h

theorem mixer_slotStep_lfoAtten (c : Collab S D) (tid : Patch.MixerNode.TargetID)
    (n : MixerNode S D) (i : Nat) :
    (slotStep c tid n i).lfoAtten =
      attenStep (n.mixerNode.modtarget i) tid.LFO_DEPTH_ATTEN
        (offerSlot c tid.NONE (n.mixerNode.modtarget i) i n.toNodeSupport).1 n.lfoAtten := by
  have hd := tid.distinct
  simp only [List.nodup_cons, List.mem_cons, List.mem_singleton, not_or] at hd
  simp only [slotStep]
  split <;> rename_i h <;> simp only [h, attenStep] <;> (try split_ifs) <;> simp_all

/-- After `calculateModulation()` on a node with `anySources`, `lfoAtten` is the product of the
attenuation factors of the slots that reach the local switch with target `LFO_DEPTH_ATTEN`. -/
theorem mixer_calculateModulation_lfoAtten (c : Collab S D) (tid : Patch.MixerNode.TargetID)
    (n : MixerNode S D) (h : n.anySources = true) :
    (n.calculateModulation c tid).lfoAtten =
      attenProduct n.mixerNode.modtarget tid.LFO_DEPTH_ATTEN
        (resolvedSlots c tid.NONE n.mixerNode.modtarget n.toNodeSupport) := by
  simp only [calculateModulation, resetModulation, h, Bool.not_true, Bool.false_eq_true,
    if_false]
  rw [foldl_atten c tid.NONE tid.LFO_DEPTH_ATTEN (slotStep c tid) (fun m => m.toNodeSupport)
    (fun m => m.mixerNode.modtarget) (fun m => m.lfoAtten)
    (fun m i => by simp only [mixer_slotStep_patch]) (fun m i => mixer_slotStep_sup c tid m i)
    (fun m i => mixer_slotStep_lfoAtten c tid m i)]
  simp [resolvedSlots, h]

/-- After `calculateModulation()` on a node without `anySources`, `lfoAtten` is 1. -/
theorem mixer_calculateModulation_lfoAtten_of_not_anySources (c : Collab S D) (tid : Patch.MixerNode.TargetID)
    (n : MixerNode S D)
    (h : n.anySources = false) : (n.calculateModulation c tid).lfoAtten = 1 := by
  simp [calculateModulation, resetModulation, h]

/-- After `calculateModulation()`, `lfoAtten` lies in `[0, 1]` when the bound depths of the
attenuation slots do. -/
theorem mixer_calculateModulation_lfoAtten_mem (c : Collab S D) (tid : Patch.MixerNode.TargetID)
    (n : MixerNode S D) (ts : List Int)
    (ht : tid.LFO_DEPTH_ATTEN ∈ ts)
    (h : attenDepthsInUnit c.numModsPer n.depthPointers n.mixerNode.modtarget ts) :
    0 ≤ (n.calculateModulation c tid).lfoAtten ∧ (n.calculateModulation c tid).lfoAtten ≤ 1 := by
  cases hA : n.anySources with
  | false =>
    rw [mixer_calculateModulation_lfoAtten_of_not_anySources c tid n hA]
    norm_num
  | true =>
    rw [mixer_calculateModulation_lfoAtten c tid n hA]
    exact resolvedProduct_mem c tid.NONE tid.LFO_DEPTH_ATTEN _ n.toNodeSupport ts ht h

theorem mixer_slotStep_lfoPanAtten (c : Collab S D) (tid : Patch.MixerNode.TargetID)
    (n : MixerNode S D) (i : Nat) :
    (slotStep c tid n i).lfoPanAtten =
      attenStep (n.mixerNode.modtarget i) tid.LFO_DEPTH_PAN_ATTEN
        (offerSlot c tid.NONE (n.mixerNode.modtarget i) i n.toNodeSupport).1 n.lfoPanAtten := by
  have hd := tid.distinct
  simp only [List.nodup_cons, List.mem_cons, List.mem_singleton, not_or] at hd
  simp only [slotStep]
  split <;> rename_i h <;> simp only [h, attenStep] <;> (try split_ifs) <;> simp_all

/-- After `calculateModulation()` on a node with `anySources`, `lfoPanAtten` is the product of the
attenuation factors of the slots that reach the local switch with target `LFO_DEPTH_PAN_ATTEN`. -/
theorem mixer_calculateModulation_lfoPanAtten (c : Collab S D) (tid : Patch.MixerNode.TargetID)
    (n : MixerNode S D) (h : n.anySources = true) :
    (n.calculateModulation c tid).lfoPanAtten =
      attenProduct n.mixerNode.modtarget tid.LFO_DEPTH_PAN_ATTEN
        (resolvedSlots c tid.NONE n.mixerNode.modtarget n.toNodeSupport) := by
  simp only [calculateModulation, resetModulation, h, Bool.not_true, Bool.false_eq_true,
    if_false]
  rw [foldl_atten c tid.NONE tid.LFO_DEPTH_PAN_ATTEN (slotStep c tid) (fun m => m.toNodeSupport)
    (fun m => m.mixerNode.modtarget) (fun m => m.lfoPanAtten)
    (fun m i => by simp only [mixer_slotStep_patch]) (fun m i => mixer_slotStep_sup c tid m i)
    (fun m i => mixer_slotStep_lfoPanAtten c tid m i)]
  simp [resolvedSlots, h]

/-- After `calculateModulation()` on a node without `anySources`, `lfoPanAtten` is 1. -/
theorem mixer_calculateModulation_lfoPanAtten_of_not_anySources (c : Collab S D) (tid : Patch.MixerNode.TargetID)
    (n : MixerNode S D)
    (h : n.anySources = false) : (n.calculateModulation c tid).lfoPanAtten = 1 := by
  simp [calculateModulation, resetModulation, h]

/-- After `calculateModulation()`, `lfoPanAtten` lies in `[0, 1]` when the bound depths of the
attenuation slots do. -/
theorem mixer_calculateModulation_lfoPanAtten_mem (c : Collab S D) (tid : Patch.MixerNode.TargetID)
    (n : MixerNode S D) (ts : List Int)
    (ht : tid.LFO_DEPTH_PAN_ATTEN ∈ ts)
    (h : attenDepthsInUnit c.numModsPer n.depthPointers n.mixerNode.modtarget ts) :
    0 ≤ (n.calculateModulation c tid).lfoPanAtten ∧ (n.calculateModulation c tid).lfoPanAtten ≤ 1 := by
  cases hA : n.anySources with
  | false =>
    rw [mixer_calculateModulation_lfoPanAtten_of_not_anySources c tid n hA]
    norm_num
  | true =>
    rw [mixer_calculateModulation_lfoPanAtten c tid n hA]
    exact resolvedProduct_mem c tid.NONE tid.LFO_DEPTH_PAN_ATTEN _ n.toNodeSupport ts ht h

/-- The function `calculateModulation()` changes the collaborators' state and the modulation
accumulators only. -/
theorem mixer_calculateModulation_shape (c : Collab S D) (tid : Patch.MixerNode.TargetID)
    (n : MixerNode S D) :
    ∃ (s : S) (x0 x1 x2 x3 x4 : ℚ), n.calculateModulation c tid = { n with inner := s, levMod := x0, depthAtten := x1, lfoAtten := x2, lfoPanAtten := x3, panMod := x4 } := by
  simp only [calculateModulation, resetModulation]
  split_ifs
  · exact ⟨_, _, _, _, _, _, rfl⟩
  · obtain ⟨s, x0, x1, x2, x3, x4, h⟩ := foldl_rel
      (fun (a b : MixerNode S D) => ∃ (s : S) (x0 x1 x2 x3 x4 : ℚ), b = { a with inner := s, levMod := x0, depthAtten := x1, lfoAtten := x2, lfoPanAtten := x3, panMod := x4 })
      (fun a => ⟨_, _, _, _, _, _, rfl⟩)
      (by rintro a b d ⟨s, x0, x1, x2, x3, x4, rfl⟩ ⟨t, y0, y1, y2, y3, y4, rfl⟩; exact ⟨_, _, _, _, _, _, rfl⟩)
      (slotStep c tid)
      (by
        intro a i
        simp only [slotStep]
        split <;> (try split_ifs) <;> exact ⟨_, _, _, _, _, _, rfl⟩)
      (List.range c.numModsPer)
      ({ n with inner := c.lfoResetMod (c.envResetMod n.inner),
                levMod := 0, depthAtten := 1, lfoAtten := 1, lfoPanAtten := 1, panMod := 0 } : MixerNode S D)
    rw [h]
    exact ⟨_, _, _, _, _, _, rfl⟩

theorem mixer_calculateModulation_output (c : Collab S D) (tid : Patch.MixerNode.TargetID)
    (n : MixerNode S D) :
    (n.calculateModulation c tid).output = n.output := by
  obtain ⟨s, x0, x1, x2, x3, x4, h⟩ := mixer_calculateModulation_shape c tid n
  rw [h]

theorem mixer_calculateModulation_mixerNode (c : Collab S D) (tid : Patch.MixerNode.TargetID)
    (n : MixerNode S D) :
    (n.calculateModulation c tid).mixerNode = n.mixerNode := by
  obtain ⟨s, x0, x1, x2, x3, x4, h⟩ := mixer_calculateModulation_shape c tid n
  rw [h]

theorem mixer_calculateModulation_active (c : Collab S D) (tid : Patch.MixerNode.TargetID)
    (n : MixerNode S D) :
    (n.calculateModulation c tid).active = n.active := by
  obtain ⟨s, x0, x1, x2, x3, x4, h⟩ := mixer_calculateModulation_shape c tid n
  rw [h]

theorem mixer_calculateModulation_doBlock (c : Collab S D) (tid : Patch.MixerNode.TargetID)
    (n : MixerNode S D) :
    (n.calculateModulation c tid).doBlock = n.doBlock := by
  obtain ⟨s, x0, x1, x2, x3, x4, h⟩ := mixer_calculateModulation_shape c tid n
  rw [h]

theorem mixer_calculateModulation_dcBlocker (c : Collab S D) (tid : Patch.MixerNode.TargetID)
    (n : MixerNode S D) :
    (n.calculateModulation c tid).dcBlocker = n.dcBlocker := by
  obtain ⟨s, x0, x1, x2, x3, x4, h⟩ := mixer_calculateModulation_shape c tid n
  rw [h]

theorem mixer_calculateModulation_env (c : Collab S D) (tid : Patch.MixerNode.TargetID)
    (n : MixerNode S D) :
    (n.calculateModulation c tid).env = n.env := by
  obtain ⟨s, x0, x1, x2, x3, x4, h⟩ := mixer_calculateModulation_shape c tid n
  rw [h]

theorem mixer_calculateModulation_envIsMult (c : Collab S D) (tid : Patch.MixerNode.TargetID)
    (n : MixerNode S D) :
    (n.calculateModulation c tid).envIsMult = n.envIsMult := by
  obtain ⟨s, x0, x1, x2, x3, x4, h⟩ := mixer_calculateModulation_shape c tid n
  rw [h]

theorem mixer_calculateModulation_lfo (c : Collab S D) (tid : Patch.MixerNode.TargetID)
    (n : MixerNode S D) :
    (n.calculateModulation c tid).lfo = n.lfo := by
  obtain ⟨s, x0, x1, x2, x3, x4, h⟩ := mixer_calculateModulation_shape c tid n
  rw [h]

theorem mixer_calculateModulation_lfoIsEnveloped (c : Collab S D) (tid : Patch.MixerNode.TargetID)
    (n : MixerNode S D) :
    (n.calculateModulation c tid).lfoIsEnveloped = n.lfoIsEnveloped := by
  obtain ⟨s, x0, x1, x2, x3, x4, h⟩ := mixer_calculateModulation_shape c tid n
  rw [h]

theorem mixer_calculateModulation_lfoUsedAsModulationSource (c : Collab S D) (tid : Patch.MixerNode.TargetID)
    (n : MixerNode S D) :
    (n.calculateModulation c tid).lfoUsedAsModulationSource = n.lfoUsedAsModulationSource := by
  obtain ⟨s, x0, x1, x2, x3, x4, h⟩ := mixer_calculateModulation_shape c tid n
  rw [h]

theorem mixer_calculateModulation_sourcePointers (c : Collab S D) (tid : Patch.MixerNode.TargetID)
    (n : MixerNode S D) :
    (n.calculateModulation c tid).sourcePointers = n.sourcePointers := by
  obtain ⟨s, x0, x1, x2, x3, x4, h⟩ := mixer_calculateModulation_shape c tid n
  rw [h]

theorem mixer_calculateModulation_depthPointers (c : Collab S D) (tid : Patch.MixerNode.TargetID)
    (n : MixerNode S D) :
    (n.calculateModulation c tid).depthPointers = n.depthPointers := by
  obtain ⟨s, x0, x1, x2, x3, x4, h⟩ := mixer_calculateModulation_shape c tid n
  rw [h]

theorem mixer_calculateModulation_anySources (c : Collab S D) (tid : Patch.MixerNode.TargetID)
    (n : MixerNode S D) :
    (n.calculateModulation c tid).anySources = n.anySources := by
  obtain ⟨s, x0, x1, x2, x3, x4, h⟩ := mixer_calculateModulation_shape c tid n
  rw [h]

end MixerNode

namespace MainPanNode
variable {S D : Type}

theorem mpan_slotStep_sup (c : Collab S D) (tid : Patch.MainPanNode.TargetID)
    (n : MainPanNode S) (i : Nat) :
    (slotStep c tid n i).toNodeSupport =
      { n.toNodeSupport with
        inner := (offerSlot c tid.NONE (n.modNode.modtarget i) i n.toNodeSupport).2 } := by
  simp only [slotStep]
  split <;> rename_i h <;> simp only [h] <;> (try split_ifs) <;> rfl

theorem mpan_slotStep_patch (c : Collab S D) (tid : Patch.MainPanNode.TargetID)
    (n : MainPanNode S) (i : Nat) :
    (slotStep c tid n i).modNode = n.modNode := by
  simp only [slotStep]
  split <;> (try split_ifs) <;> rfl

theorem mpan_slotStep_envAtten (c : Collab S D) (tid : Patch.MainPanNode.TargetID)
    (n : MainPanNode S) (i : Nat) :
    (slotStep c tid n i).envAtten =
      attenStep (n.modNode.modtarget i) tid.DEPTH_ATTEN
        (offerSlot c tid.NONE (n.modNode.modtarget i) i n.toNodeSupport).1 n.envAtten := by
  have hd := tid.distinct
  simp only [List.nodup_cons, List.mem_cons, List.mem_singleton, not_or] at hd
  simp only [slotStep]
  split <;> rename_i h <;> simp only [h, attenStep] <;> (try split_ifs) <;> simp_all

/-- After `calculateModulation()` on a node with `anySources`, `envAtten` is the product of the
attenuation factors of the slots that reach the local switch with target `DEPTH_ATTEN`. -/
theorem mpan_calculateModulation_envAtten (c : Collab S D) (tid : Patch.MainPanNode.TargetID)
    (n : MainPanNode S) (h : n.anySources = true) :
    (n.calculateModulation c tid).envAtten =
      attenProduct n.modNode.modtarget tid.DEPTH_ATTEN
        (resolvedSlots c tid.NONE n.modNode.modtarget n.toNodeSupport) := by
  simp only [calculateModulation, resetModulation, h, Bool.not_true, Bool.false_eq_true,
    if_false]
  rw [foldl_atten c tid.NONE tid.DEPTH_ATTEN (slotStep c tid) (fun m => m.toNodeSupport)
    (fun m => m.modNode.modtarget) (fun m => m.envAtten)
    (fun m i => by simp only [mpan_slotStep_patch]) (fun m i => mpan_slotStep_sup c tid m i)
    (fun m i => mpan_slotStep_envAtten c tid m i)]
  simp [resolvedSlots, h]

/-- After `calculateModulation()` on a node without `anySources`, `envAtten` is 1. -/
theorem mpan_calculateModulation_envAtten_of_not_anySources (c : Collab S D) (tid : Patch.MainPanNode.TargetID)
    (n : MainPanNode S)
    (h : n.anySources = false) : (n.calculateModulation c tid).envAtten = 1 := by
  simp [calculateModulation, resetModulation, h]

/-- After `calculateModulation()`, `envAtten` lies in `[0, 1]` when the bound depths of the
attenuation slots do. -/
theorem mpan_calculateModulation_envAtten_mem (c : Collab S D) (tid : Patch.MainPanNode.TargetID)
    (n : MainPanNode S) (ts : List Int)
    (ht : tid.DEPTH_ATTEN ∈ ts)
    (h : attenDepthsInUnit c.numModsPer n.depthPointers n.modNode.modtarget ts) :
    0 ≤ (n.calculateModulation c tid).envAtten ∧ (n.calculateModulation c tid).envAtten ≤ 1 := by
  cases hA : n.anySources with
  | false =>
    rw [mpan_calculateModulation_envAtten_of_not_anySources c tid n hA]
    norm_num
  | true =>
    rw [mpan_calculateModulation_envAtten c tid n hA]
    exact resolvedProduct_mem c tid.NONE tid.DEPTH_ATTEN _ n.toNodeSupport ts ht h

theorem mpan_slotStep_lfoAtten (c : Collab S D) (tid : Patch.MainPanNode.TargetID)
    (n : MainPanNode S) (i : Nat) :
    (slotStep c tid n i).lfoAtten =
      attenStep (n.modNode.modtarget i) tid.LFO_DEPTH_ATTEN
        (offerSlot c tid.NONE (n.modNode.modtarget i) i n.toNodeSupport).1 n.lfoAtten := by
  have hd := tid.distinct
  simp only [List.nodup_cons, List.mem_cons, List.mem_singleton, not_or] at hd
  simp only [slotStep]
  split <;> rename_i h <;> simp only [h, attenStep] <;> (try split_ifs) <;> simp_all

/-- After `calculateModulation()` on a node with `anySources`, `lfoAtten` is the product of the
attenuation factors of the slots that reach the local switch with target `LFO_DEPTH_ATTEN`. -/
theorem mpan_calculateModulation_lfoAtten (c : Collab S D) (tid : Patch.MainPanNode.TargetID)
    (n : MainPanNode S) (h : n.anySources = true) :
    (n.calculateModulation c tid).lfoAtten =
      attenProduct n.modNode.modtarget tid.LFO_DEPTH_ATTEN
        (resolvedSlots c tid.NONE n.modNode.modtarget n.toNodeSupport) := by
  simp only [calculateModulation, resetModulation, h, Bool.not_true, Bool.false_eq_true,
    if_false]
  rw [foldl_atten c tid.NONE tid.LFO_DEPTH_ATTEN (slotStep c tid) (fun m => m.toNodeSupport)
    (fun m => m.modNode.modtarget) (fun m => m.lfoAtten)
    (fun m i => by simp only [mpan_slotStep_patch]) (fun m i => mpan_slotStep_sup c tid m i)
    (fun m i => mpan_slotStep_lfoAtten c tid m i)]
  simp [resolvedSlots, h]

/-- After `calculateModulation()` on a node without `anySources`, `lfoAtten` is 1. -/
theorem mpan_calculateModulation_lfoAtten_of_not_anySources (c : Collab S D) (tid : Patch.MainPanNode.TargetID)
    (n : MainPanNode S)
    (h : n.anySources = false) : (n.calculateModulation c tid).lfoAtten = 1 := by
  simp [calculateModulation, resetModulation, h]

/-- After `calculateModulation()`, `lfoAtten` lies in `[0, 1]` when the bound depths of the
attenuation slots do. -/
theorem mpan_calculateModulation_lfoAtten_mem (c : Collab S D) (tid : Patch.MainPanNode.TargetID)
    (n : MainPanNode S) (ts : List Int)
    (ht : tid.LFO_DEPTH_ATTEN ∈ ts)
    (h : attenDepthsInUnit c.numModsPer n.depthPointers n.modNode.modtarget ts) :
    0 ≤ (n.calculateModulation c tid).lfoAtten ∧ (n.calculateModulation c tid).lfoAtten ≤ 1 := by
  cases hA : n.anySources with
  | false =>
    rw [mpan_calculateModulation_lfoAtten_of_not_anySources c tid n hA]
    norm_num
  | true =>
    rw [mpan_calculateModulation_lfoAtten c tid n hA]
    exact resolvedProduct_mem c tid.NONE tid.LFO_DEPTH_ATTEN _ n.toNodeSupport ts ht h

/-- The function `calculateModulation()` changes the collaborators' state and the modulation
accumulators only. -/
theorem mpan_calculateModulation_shape (c : Collab S D) (tid : Patch.MainPanNode.TargetID)
    (n : MainPanNode S) :
    ∃ (s : S) (x0 x1 x2 x3 x4 : ℚ), n.calculateModulation c tid = { n with inner := s, lfoAtten := x0, directMod := x1, envAtten := x2, edMod := x3, ldMod := x4 } := by
  simp only [calculateModulation, resetModulation]
  split_ifs
  · exact ⟨_, _, _, _, _, _, rfl⟩
  · obtain ⟨s, x0, x1, x2, x3, x4, h⟩ := foldl_rel
      (fun (a b : MainPanNode S) => ∃ (s : S) (x0 x1 x2 x3 x4 : ℚ), b = { a with inner := s, lfoAtten := x0, directMod := x1, envAtten := x2, edMod := x3, ldMod := x4 })
      (fun a => ⟨_, _, _, _, _, _, rfl⟩)
      (by rintro a b d ⟨s, x0, x1, x2, x3, x4, rfl⟩ ⟨t, y0, y1, y2, y3, y4, rfl⟩; exact ⟨_, _, _, _, _, _, rfl⟩)
      (slotStep c tid)
      (by
        intro a i
        simp only [slotStep]
        split <;> (try split_ifs) <;> exact ⟨_, _, _, _, _, _, rfl⟩)
      (List.range c.numModsPer)
      ({ n with inner := c.lfoResetMod (c.envResetMod n.inner),
                lfoAtten := 1, directMod := 0, envAtten := 1, edMod := 0, ldMod := 0 } : MainPanNode S)
    rw [h]
    exact ⟨_, _, _, _, _, _, rfl⟩

theorem mpan_calculateModulation_level (c : Collab S D) (tid : Patch.MainPanNode.TargetID)
    (n : MainPanNode S) :
    (n.calculateModulation c tid).level = n.level := by
  obtain ⟨s, x0, x1, x2, x3, x4, h⟩ := mpan_calculateModulation_shape c tid n
  rw [h]

theorem mpan_calculateModulation_modNode (c : Collab S D) (tid : Patch.MainPanNode.TargetID)
    (n : MainPanNode S) :
    (n.calculateModulation c tid).modNode = n.modNode := by
  obtain ⟨s, x0, x1, x2, x3, x4, h⟩ := mpan_calculateModulation_shape c tid n
  rw [h]

theorem mpan_calculateModulation_active (c : Collab S D) (tid : Patch.MainPanNode.TargetID)
    (n : MainPanNode S) :
    (n.calculateModulation c tid).active = n.active := by
  obtain ⟨s, x0, x1, x2, x3, x4, h⟩ := mpan_calculateModulation_shape c tid n
  rw [h]

theorem mpan_calculateModulation_env (c : Collab S D) (tid : Patch.MainPanNode.TargetID)
    (n : MainPanNode S) :
    (n.calculateModulation c tid).env = n.env := by
  obtain ⟨s, x0, x1, x2, x3, x4, h⟩ := mpan_calculateModulation_shape c tid n
  rw [h]

theorem mpan_calculateModulation_envIsMult (c : Collab S D) (tid : Patch.MainPanNode.TargetID)
    (n : MainPanNode S) :
    (n.calculateModulation c tid).envIsMult = n.envIsMult := by
  obtain ⟨s, x0, x1, x2, x3, x4, h⟩ := mpan_calculateModulation_shape c tid n
  rw [h]

theorem mpan_calculateModulation_lfo (c : Collab S D) (tid : Patch.MainPanNode.TargetID)
    (n : MainPanNode S) :
    (n.calculateModulation c tid).lfo = n.lfo := by
  obtain ⟨s, x0, x1, x2, x3, x4, h⟩ := mpan_calculateModulation_shape c tid n
  rw [h]

theorem mpan_calculateModulation_lfoIsEnveloped (c : Collab S D) (tid : Patch.MainPanNode.TargetID)
    (n : MainPanNode S) :
    (n.calculateModulation c tid).lfoIsEnveloped = n.lfoIsEnveloped := by
  obtain ⟨s, x0, x1, x2, x3, x4, h⟩ := mpan_calculateModulation_shape c tid n
  rw [h]

theorem mpan_calculateModulation_lfoUsedAsModulationSource (c : Collab S D) (tid : Patch.MainPanNode.TargetID)
    (n : MainPanNode S) :
    (n.calculateModulation c tid).lfoUsedAsModulationSource = n.lfoUsedAsModulationSource := by
  obtain ⟨s, x0, x1, x2, x3, x4, h⟩ := mpan_calculateModulation_shape c tid n
  rw [h]

theorem mpan_calculateModulation_sourcePointers (c : Collab S D) (tid : Patch.MainPanNode.TargetID)
    (n : MainPanNode S) :
    (n.calculateModulation c tid).sourcePointers = n.sourcePointers := by
  obtain ⟨s, x0, x1, x2, x3, x4, h⟩ := mpan_calculateModulation_shape c tid n
  rw [h]

theorem mpan_calculateModulation_depthPointers (c : Collab S D) (tid : Patch.MainPanNode.TargetID)
    (n : MainPanNode S) :
    (n.calculateModulation c tid).depthPointers = n.depthPointers := by
  obtain ⟨s, x0, x1, x2, x3, x4, h⟩ := mpan_calculateModulation_shape c tid n
  rw [h]

theorem mpan_calculateModulation_anySources (c : Collab S D) (tid : Patch.MainPanNode.TargetID)
    (n : MainPanNode S) :
    (n.calculateModulation c tid).anySources = n.anySources := by
  obtain ⟨s, x0, x1, x2, x3, x4, h⟩ := mpan_calculateModulation_shape c tid n
  rw [h]

end MainPanNode

namespace FineTuneNode
variable {S D : Type}

theorem ftune_slotStep_sup (c : Collab S D) (tid : Patch.FineTuneNode.TargetID)
    (n : FineTuneNode S) (i : Nat) :
    (slotStep c tid n i).toNodeSupport =
      { n.toNodeSupport with
        inner := (offerSlot c tid.NONE (n.modNode.modtarget i) i n.toNodeSupport).2 } := by
  simp only [slotStep]
  split <;> rename_i h <;> simp only [h] <;> (try split_ifs) <;> rfl

theorem ftune_slotStep_patch (c : Collab S D) (tid : Patch.FineTuneNode.TargetID)
    (n : FineTuneNode S) (i : Nat) :
    (slotStep c tid n i).modNode = n.modNode := by
  simp only [slotStep]
  split <;> (try split_ifs) <;> rfl

theorem ftune_slotStep_envAtten (c : Collab S D) (tid : Patch.FineTuneNode.TargetID)
    (n : FineTuneNode S) (i : Nat) :
    (slotStep c tid n i).envAtten =
      attenStep (n.modNode.modtarget i) tid.DEPTH_ATTEN
        (offerSlot c tid.NONE (n.modNode.modtarget i) i n.toNodeSupport).1 n.envAtten := by
  have hd := tid.distinct
  simp only [List.nodup_cons, List.mem_cons, List.mem_singleton, not_or] at hd
  simp only [slotStep]
  split <;> rename_i h <;> simp only [h, attenStep] <;> (try split_ifs) <;> simp_all

/-- After `calculateModulation()` on a node with `anySources`, `envAtten` is the product of the
attenuation factors of the slots that reach the local switch with target `DEPTH_ATTEN`. -/
theorem ftune_calculateModulation_envAtten (c : Collab S D) (tid : Patch.FineTuneNode.TargetID)
    (n : FineTuneNode S) (h : n.anySources = true) :
    (n.calculateModulation c tid).envAtten =
      attenProduct n.modNode.modtarget tid.DEPTH_ATTEN
        (resolvedSlots c tid.NONE n.modNode.modtarget n.toNodeSupport) := by
  simp only [calculateModulation, resetModulation, h, Bool.not_true, Bool.false_eq_true,
    if_false]
  rw [foldl_atten c tid.NONE tid.DEPTH_ATTEN (slotStep c tid) (fun m => m.toNodeSupport)
    (fun m => m.modNode.modtarget) (fun m => m.envAtten)
    (fun m i => by simp only [ftune_slotStep_patch]) (fun m i => ftune_slotStep_sup c tid m i)
    (fun m i => ftune_slotStep_envAtten c tid m i)]
  simp [resolvedSlots, h]

/-- After `calculateModulation()` on a node without `anySources`, `envAtten` is 1. -/
theorem ftune_calculateModulation_envAtten_of_not_anySources (c : Collab S D) (tid : Patch.FineTuneNode.TargetID)
    (n : FineTuneNode S)
    (h : n.anySources = false) : (n.calculateModulation c tid).envAtten = 1 := by
  simp [calculateModulation, resetModulation, h]

/-- After `calculateModulation()`, `envAtten` lies in `[0, 1]` when the bound depths of the
attenuation slots do. -/
theorem ftune_calculateModulation_envAtten_mem (c : Collab S D) (tid : Patch.FineTuneNode.TargetID)
    (n : FineTuneNode S) (ts : List Int)
    (ht : tid.DEPTH_ATTEN ∈ ts)
    (h : attenDepthsInUnit c.numModsPer n.depthPointers n.modNode.modtarget ts) :
    0 ≤ (n.calculateModulation c tid).envAtten ∧ (n.calculateModulation c tid).envAtten ≤ 1 := by
  cases hA : n.anySources with
  | false =>
    rw [ftune_calculateModulation_envAtten_of_not_anySources c tid n hA]
    norm_num
  | true =>
    rw [ftune_calculateModulation_envAtten c tid n hA]
    exact resolvedProduct_mem c tid.NONE tid.DEPTH_ATTEN _ n.toNodeSupport ts ht h

theorem ftune_slotStep_lfoAtten (c : Collab S D) (tid : Patch.FineTuneNode.TargetID)
    (n : FineTuneNode S) (i : Nat) :
    (slotStep c tid n i).lfoAtten =
      attenStep (n.modNode.modtarget i) tid.LFO_DEPTH_ATTEN
        (offerSlot c tid.NONE (n.modNode.modtarget i) i n.toNodeSupport).1 n.lfoAtten := by
  have hd := tid.distinct
  simp only [List.nodup_cons, List.mem_cons, List.mem_singleton, not_or] at hd
  simp only [slotStep]
  split <;> rename_i h <;> simp only [h, attenStep] <;> (try split_ifs) <;> simp_all

/-- After `calculateModulation()` on a node with `anySources`, `lfoAtten` is the product of the
attenuation factors of the slots that reach the local switch with target `LFO_DEPTH_ATTEN`. -/
theorem ftune_calculateModulation_lfoAtten (c : Collab S D) (tid : Patch.FineTuneNode.TargetID)
    (n : FineTuneNode S) (h : n.anySources = true) :
    (n.calculateModulation c tid).lfoAtten =
      attenProduct n.modNode.modtarget tid.LFO_DEPTH_ATTEN
        (resolvedSlots c tid.NONE n.modNode.modtarget n.toNodeSupport) := by
  simp only [calculateModulation, resetModulation, h, Bool.not_true, Bool.false_eq_true,
    if_false]
  rw [foldl_atten c tid.NONE tid.LFO_DEPTH_ATTEN (slotStep c tid) (fun m => m.toNodeSupport)
    (fun m => m.modNode.modtarget) (fun m => m.lfoAtten)
    (fun m i => by simp only [ftune_slotStep_patch]) (fun m i => ftune_slotStep_sup c tid m i)
    (fun m i => ftune_slotStep_lfoAtten c tid m i)]
  simp [resolvedSlots, h]

/-- After `calculateModulation()` on a node without `anySources`, `lfoAtten` is 1. -/
theorem ftune_calculateModulation_lfoAtten_of_not_anySources (c : Collab S D) (tid : Patch.FineTuneNode.TargetID)
    (n : FineTuneNode S)
    (h : n.anySources = false) : (n.calculateModulation c tid).lfoAtten = 1 := by
  simp [calculateModulation, resetModulation, h]

/-- After `calculateModulation()`, `lfoAtten` lies in `[0, 1]` when the bound depths of the
attenuation slots do. -/
theorem ftune_calculateModulation_lfoAtten_mem (c : Collab S D) (tid : Patch.FineTuneNode.TargetID)
    (n : FineTuneNode S) (ts : List Int)
    (ht : tid.LFO_DEPTH_ATTEN ∈ ts)
    (h : attenDepthsInUnit c.numModsPer n.depthPointers n.modNode.modtarget ts) :
    0 ≤ (n.calculateModulation c tid).lfoAtten ∧ (n.calculateModulation c tid).lfoAtten ≤ 1 := by
  cases hA : n.anySources with
  | false =>
    rw [ftune_calculateModulation_lfoAtten_of_not_anySources c tid n hA]
    norm_num
  | true =>
    rw [ftune_calculateModulation_lfoAtten c tid n hA]
    exact resolvedProduct_mem c tid.NONE tid.LFO_DEPTH_ATTEN _ n.toNodeSupport ts ht h

/-- The function `calculateModulation()` changes the collaborators' state and the modulation
accumulators only. -/
theorem ftune_calculateModulation_shape (c : Collab S D) (tid : Patch.FineTuneNode.TargetID)
    (n : FineTuneNode S) :
    ∃ (s : S) (x0 x1 x2 x3 x4 x5 : ℚ), n.calculateModulation c tid = { n with inner := s, lfoAtten := x0, directMod := x1, directCoarseMod := x2, envAtten := x3, edMod := x4, ldMod := x5 } := by
  simp only [calculateModulation, resetModulation]
  split_ifs
  · exact ⟨_, _, _, _, _, _, _, rfl⟩
  · obtain ⟨s, x0, x1, x2, x3, x4, x5, h⟩ := foldl_rel
      (fun (a b : FineTuneNode S) => ∃ (s : S) (x0 x1 x2 x3 x4 x5 : ℚ), b = { a with inner := s, lfoAtten := x0, directMod := x1, directCoarseMod := x2, envAtten := x3, edMod := x4, ldMod := x5 })
      (fun a => ⟨_, _, _, _, _, _, _, rfl⟩)
      (by rintro a b d ⟨s, x0, x1, x2, x3, x4, x5, rfl⟩ ⟨t, y0, y1, y2, y3, y4, y5, rfl⟩; exact ⟨_, _, _, _, _, _, _, rfl⟩)
      (slotStep c tid)
      (by
        intro a i
        simp only [slotStep]
        split <;> (try split_ifs) <;> exact ⟨_, _, _, _, _, _, _, rfl⟩)
      (List.range c.numModsPer)
      ({ n with inner := c.lfoResetMod (c.envResetMod n.inner),
                lfoAtten := 1, directMod := 0, directCoarseMod := 0, envAtten := 1, edMod := 0, ldMod := 0 } : FineTuneNode S)
    rw [h]
    exact ⟨_, _, _, _, _, _, _, rfl⟩

theorem ftune_calculateModulation_level (c : Collab S D) (tid : Patch.FineTuneNode.TargetID)
    (n : FineTuneNode S) :
    (n.calculateModulation c tid).level = n.level := by
  obtain ⟨s, x0, x1, x2, x3, x4, x5, h⟩ := ftune_calculateModulation_shape c tid n
  rw [h]

theorem ftune_calculateModulation_coarseLevel (c : Collab S D) (tid : Patch.FineTuneNode.TargetID)
    (n : FineTuneNode S) :
    (n.calculateModulation c tid).coarseLevel = n.coarseLevel := by
  obtain ⟨s, x0, x1, x2, x3, x4, x5, h⟩ := ftune_calculateModulation_shape c tid n
  rw [h]

theorem ftune_calculateModulation_modNode (c : Collab S D) (tid : Patch.FineTuneNode.TargetID)
    (n : FineTuneNode S) :
    (n.calculateModulation c tid).modNode = n.modNode := by
  obtain ⟨s, x0, x1, x2, x3, x4, x5, h⟩ := ftune_calculateModulation_shape c tid n
  rw [h]

theorem ftune_calculateModulation_active (c : Collab S D) (tid : Patch.FineTuneNode.TargetID)
    (n : FineTuneNode S) :
    (n.calculateModulation c tid).active = n.active := by
  obtain ⟨s, x0, x1, x2, x3, x4, x5, h⟩ := ftune_calculateModulation_shape c tid n
  rw [h]

theorem ftune_calculateModulation_env (c : Collab S D) (tid : Patch.FineTuneNode.TargetID)
    (n : FineTuneNode S) :
    (n.calculateModulation c tid).env = n.env := by
  obtain ⟨s, x0, x1, x2, x3, x4, x5, h⟩ := ftune_calculateModulation_shape c tid n
  rw [h]

theorem ftune_calculateModulation_envIsMult (c : Collab S D) (tid : Patch.FineTuneNode.TargetID)
    (n : FineTuneNode S) :
    (n.calculateModulation c tid).envIsMult = n.envIsMult := by
  obtain ⟨s, x0, x1, x2, x3, x4, x5, h⟩ := ftune_calculateModulation_shape c tid n
  rw [h]

theorem ftune_calculateModulation_lfo (c : Collab S D) (tid : Patch.FineTuneNode.TargetID)
    (n : FineTuneNode S) :
    (n.calculateModulation c tid).lfo = n.lfo := by
  obtain ⟨s, x0, x1, x2, x3, x4, x5, h⟩ := ftune_calculateModulation_shape c tid n
  rw [h]

theorem ftune_calculateModulation_lfoIsEnveloped (c : Collab S D) (tid : Patch.FineTuneNode.TargetID)
    (n : FineTuneNode S) :
    (n.calculateModulation c tid).lfoIsEnveloped = n.lfoIsEnveloped := by
  obtain ⟨s, x0, x1, x2, x3, x4, x5, h⟩ := ftune_calculateModulation_shape c tid n
  rw [h]

theorem ftune_calculateModulation_lfoUsedAsModulationSource (c : Collab S D) (tid : Patch.FineTuneNode.TargetID)
    (n : FineTuneNode S) :
    (n.calculateModulation c tid).lfoUsedAsModulationSource = n.lfoUsedAsModulationSource := by
  obtain ⟨s, x0, x1, x2, x3, x4, x5, h⟩ := ftune_calculateModulation_shape c tid n
  rw [h]

theorem ftune_calculateModulation_sourcePointers (c : Collab S D) (tid : Patch.FineTuneNode.TargetID)
    (n : FineTuneNode S) :
    (n.calculateModulation c tid).sourcePointers = n.sourcePointers := by
  obtain ⟨s, x0, x1, x2, x3, x4, x5, h⟩ := ftune_calculateModulation_shape c tid n
  rw [h]

theorem ftune_calculateModulation_depthPointers (c : Collab S D) (tid : Patch.FineTuneNode.TargetID)
    (n : FineTuneNode S) :
    (n.calculateModulation c tid).depthPointers = n.depthPointers := by
  obtain ⟨s, x0, x1, x2, x3, x4, x5, h⟩ := ftune_calculateModulation_shape c tid n
  rw [h]

theorem ftune_calculateModulation_anySources (c : Collab S D) (tid : Patch.FineTuneNode.TargetID)
    (n : FineTuneNode S) :
    (n.calculateModulation c tid).anySources = n.anySources := by
  obtain ⟨s, x0, x1, x2, x3, x4, x5, h⟩ := ftune_calculateModulation_shape c tid n
  rw [h]

end FineTuneNode

namespace OutputNode
variable {S D : Type}

theorem outn_slotStep_sup (c : Collab S D) (tid : Patch.OutputNode.TargetID)
    (n : OutputNode S) (i : Nat) :
    (slotStep c tid n i).toNodeSupport =
      { n.toNodeSupport with
        inner := (offerSlot c tid.NONE (n.outputNode.modtarget i) i n.toNodeSupport).2 } := by
  simp only [slotStep]
  split <;> rename_i h <;> simp only [h] <;> (try split_ifs) <;> rfl

theorem outn_slotStep_patch (c : Collab S D) (tid : Patch.OutputNode.TargetID)
    (n : OutputNode S) (i : Nat) :
    (slotStep c tid n i).outputNode = n.outputNode := by
  simp only [slotStep]
  split <;> (try split_ifs) <;> rfl

theorem outn_slotStep_depthAtten (c : Collab S D) (tid : Patch.OutputNode.TargetID)
    (n : OutputNode S) (i : Nat) :
    (slotStep c tid n i).depthAtten =
      attenStep (n.outputNode.modtarget i) tid.DEPTH_ATTEN
        (offerSlot c tid.NONE (n.outputNode.modtarget i) i n.toNodeSupport).1 n.depthAtten := by
  have hd := tid.distinct
  simp only [List.nodup_cons, List.mem_cons, List.mem_singleton, not_or] at hd
  simp only [slotStep]
  split <;> rename_i h <;> simp only [h, attenStep] <;> (try split_ifs) <;> simp_all

/-- After `calculateModulation()` on a node with `anySources`, `depthAtten` is the product of the
attenuation factors of the slots that reach the local switch with target `DEPTH_ATTEN`. -/
theorem outn_calculateModulation_depthAtten (c : Collab S D) (tid : Patch.OutputNode.TargetID)
    (n : OutputNode S) (h : n.anySources = true) :
    (n.calculateModulation c tid).depthAtten =
      attenProduct n.outputNode.modtarget tid.DEPTH_ATTEN
        (resolvedSlots c tid.NONE n.outputNode.modtarget n.toNodeSupport) := by
  simp only [calculateModulation, resetModulation, h, Bool.not_true, Bool.false_eq_true,
    if_false]
  rw [foldl_atten c tid.NONE tid.DEPTH_ATTEN (slotStep c tid) (fun m => m.toNodeSupport)
    (fun m => m.outputNode.modtarget) (fun m => m.depthAtten)
    (fun m i => by simp only [outn_slotStep_patch]) (fun m i => outn_slotStep_sup c tid m i)
    (fun m i => outn_slotStep_depthAtten c tid m i)]
  simp [resolvedSlots, h]

/-- After `calculateModulation()` on a node without `anySources`, `depthAtten` is 1. -/
theorem outn_calculateModulation_depthAtten_of_not_anySources (c : Collab S D) (tid : Patch.OutputNode.TargetID)
    (n : OutputNode S)
    (h : n.anySources = false) : (n.calculateModulation c tid).depthAtten = 1 := by
  simp [calculateModulation, resetModulation, h]

/-- After `calculateModulation()`, `depthAtten` lies in `[0, 1]` when the bound depths of the
attenuation slots do. -/
theorem outn_calculateModulation_depthAtten_mem (c : Collab S D) (tid : Patch.OutputNode.TargetID)
    (n : OutputNode S) (ts : List Int)
    (ht : tid.DEPTH_ATTEN ∈ ts)
    (h : attenDepthsInUnit c.numModsPer n.depthPointers n.outputNode.modtarget ts) :
    0 ≤ (n.calculateModulation c tid).depthAtten ∧ (n.calculateModulation c tid).depthAtten ≤ 1 := by
  cases hA : n.anySources with
  | false =>
    rw [outn_calculateModulation_depthAtten_of_not_anySources c tid n hA]
    norm_num
  | true =>
    rw [outn_calculateModulation_depthAtten c tid n hA]
    exact resolvedProduct_mem c tid.NONE tid.DEPTH_ATTEN _ n.toNodeSupport ts ht h

theorem outn_slotStep_lfoAtten (c : Collab S D) (tid : Patch.OutputNode.TargetID)
    (n : OutputNode S) (i : Nat) :
    (slotStep c tid n i).lfoAtten =
      attenStep (n.outputNode.modtarget i) tid.LFO_DEPTH_ATTEN
        (offerSlot c tid.NONE (n.outputNode.modtarget i) i n.toNodeSupport).1 n.lfoAtten := by
  have hd := tid.distinct
  simp only [List.nodup_cons, List.mem_cons, List.mem_singleton, not_or] at hd
  simp only [slotStep]
  split <;> rename_i h <;> simp only [h, attenStep] <;> (try split_ifs) <;> simp_all

/-- After `calculateModulation()` on a node with `anySources`, `lfoAtten` is the product of the
attenuation factors of the slots that reach the local switch with target `LFO_DEPTH_ATTEN`. -/
theorem outn_calculateModulation_lfoAtten (c : Collab S D) (tid : Patch.OutputNode.TargetID)
    (n : OutputNode S) (h : n.anySources = true) :
    (n.calculateModulation c tid).lfoAtten =
      attenProduct n.outputNode.modtarget tid.LFO_DEPTH_ATTEN
        (resolvedSlots c tid.NONE n.outputNode.modtarget n.toNodeSupport) := by
  simp only [calculateModulation, resetModulation, h, Bool.not_true, Bool.false_eq_true,
    if_false]
  rw [foldl_atten c tid.NONE tid.LFO_DEPTH_ATTEN (slotStep c tid) (fun m => m.toNodeSupport)
    (fun m => m.outputNode.modtarget) (fun m => m.lfoAtten)
    (fun m i => by simp only [outn_slotStep_patch]) (fun m i => outn_slotStep_sup c tid m i)
    (fun m i => outn_slotStep_lfoAtten c tid m i)]
  simp [resolvedSlots, h]

/-- After `calculateModulation()` on a node without `anySources`, `lfoAtten` is 1. -/
theorem outn_calculateModulation_lfoAtten_of_not_anySources (c : Collab S D) (tid : Patch.OutputNode.TargetID)
    (n : OutputNode S)
    (h : n.anySources = false) : (n.calculateModulation c tid).lfoAtten = 1 := by
  simp [calculateModulation, resetModulation, h]

/-- After `calculateModulation()`, `lfoAtten` lies in `[0, 1]` when the bound depths of the
attenuation slots do. -/
theorem outn_calculateModulation_lfoAtten_mem (c : Collab S D) (tid : Patch.OutputNode.TargetID)
    (n : OutputNode S) (ts : List Int)
    (ht : tid.LFO_DEPTH_ATTEN ∈ ts)
    (h : attenDepthsInUnit c.numModsPer n.depthPointers n.outputNode.modtarget ts) :
    0 ≤ (n.calculateModulation c tid).lfoAtten ∧ (n.calculateModulation c tid).lfoAtten ≤ 1 := by
  cases hA : n.anySources with
  | false =>
    rw [outn_calculateModulation_lfoAtten_of_not_anySources c tid n hA]
    norm_num
  | true =>
    rw [outn_calculateModulation_lfoAtten c tid n hA]
    exact resolvedProduct_mem c tid.NONE tid.LFO_DEPTH_ATTEN _ n.toNodeSupport ts ht h

/-- The function `calculateModulation()` changes the collaborators' state and the modulation
accumulators only. -/
theorem outn_calculateModulation_shape (c : Collab S D) (tid : Patch.OutputNode.TargetID)
    (n : OutputNode S) :
    ∃ (s : S) (x0 x1 x2 x3 : ℚ), n.calculateModulation c tid = { n with inner := s, levMod := x0, panMod := x1, depthAtten := x2, lfoAtten := x3 } := by
  simp only [calculateModulation, resetModulation]
  split_ifs
  · exact ⟨_, _, _, _, _, rfl⟩
  · obtain ⟨s, x0, x1, x2, x3, h⟩ := foldl_rel
      (fun (a b : OutputNode S) => ∃ (s : S) (x0 x1 x2 x3 : ℚ), b = { a with inner := s, levMod := x0, panMod := x1, depthAtten := x2, lfoAtten := x3 })
      (fun a => ⟨_, _, _, _, _, rfl⟩)
      (by rintro a b d ⟨s, x0, x1, x2, x3, rfl⟩ ⟨t, y0, y1, y2, y3, rfl⟩; exact ⟨_, _, _, _, _, rfl⟩)
      (slotStep c tid)
      (by
        intro a i
        simp only [slotStep]
        split <;> (try split_ifs) <;> exact ⟨_, _, _, _, _, rfl⟩)
      (List.range c.numModsPer)
      ({ n with inner := c.lfoResetMod (c.envResetMod n.inner),
                levMod := 0, panMod := 0, depthAtten := 1, lfoAtten := 1 } : OutputNode S)
    rw [h]
    exact ⟨_, _, _, _, _, rfl⟩

theorem outn_calculateModulation_output (c : Collab S D) (tid : Patch.OutputNode.TargetID)
    (n : OutputNode S) :
    (n.calculateModulation c tid).output = n.output := by
  obtain ⟨s, x0, x1, x2, x3, h⟩ := outn_calculateModulation_shape c tid n
  rw [h]

theorem outn_calculateModulation_outputNode (c : Collab S D) (tid : Patch.OutputNode.TargetID)
    (n : OutputNode S) :
    (n.calculateModulation c tid).outputNode = n.outputNode := by
  obtain ⟨s, x0, x1, x2, x3, h⟩ := outn_calculateModulation_shape c tid n
  rw [h]

theorem outn_calculateModulation_defaultTrigger (c : Collab S D) (tid : Patch.OutputNode.TargetID)
    (n : OutputNode S) :
    (n.calculateModulation c tid).defaultTrigger = n.defaultTrigger := by
  obtain ⟨s, x0, x1, x2, x3, h⟩ := outn_calculateModulation_shape c tid n
  rw [h]

theorem outn_calculateModulation_panModNode (c : Collab S D) (tid : Patch.OutputNode.TargetID)
    (n : OutputNode S) :
    (n.calculateModulation c tid).panModNode = n.panModNode := by
  obtain ⟨s, x0, x1, x2, x3, h⟩ := outn_calculateModulation_shape c tid n
  rw [h]

theorem outn_calculateModulation_ftModNode (c : Collab S D) (tid : Patch.OutputNode.TargetID)
    (n : OutputNode S) :
    (n.calculateModulation c tid).ftModNode = n.ftModNode := by
  obtain ⟨s, x0, x1, x2, x3, h⟩ := outn_calculateModulation_shape c tid n
  rw [h]

theorem outn_calculateModulation_finalEnvLevel (c : Collab S D) (tid : Patch.OutputNode.TargetID)
    (n : OutputNode S) :
    (n.calculateModulation c tid).finalEnvLevel = n.finalEnvLevel := by
  obtain ⟨s, x0, x1, x2, x3, h⟩ := outn_calculateModulation_shape c tid n
  rw [h]

theorem outn_calculateModulation_env (c : Collab S D) (tid : Patch.OutputNode.TargetID)
    (n : OutputNode S) :
    (n.calculateModulation c tid).env = n.env := by
  obtain ⟨s, x0, x1, x2, x3, h⟩ := outn_calculateModulation_shape c tid n
  rw [h]

theorem outn_calculateModulation_envIsMult (c : Collab S D) (tid : Patch.OutputNode.TargetID)
    (n : OutputNode S) :
    (n.calculateModulation c tid).envIsMult = n.envIsMult := by
  obtain ⟨s, x0, x1, x2, x3, h⟩ := outn_calculateModulation_shape c tid n
  rw [h]

theorem outn_calculateModulation_lfo (c : Collab S D) (tid : Patch.OutputNode.TargetID)
    (n : OutputNode S) :
    (n.calculateModulation c tid).lfo = n.lfo := by
  obtain ⟨s, x0, x1, x2, x3, h⟩ := outn_calculateModulation_shape c tid n
  rw [h]

theorem outn_calculateModulation_lfoIsEnveloped (c : Collab S D) (tid : Patch.OutputNode.TargetID)
    (n : OutputNode S) :
    (n.calculateModulation c tid).lfoIsEnveloped = n.lfoIsEnveloped := by
  obtain ⟨s, x0, x1, x2, x3, h⟩ := outn_calculateModulation_shape c tid n
  rw [h]

theorem outn_calculateModulation_lfoUsedAsModulationSource (c : Collab S D) (tid : Patch.OutputNode.TargetID)
    (n : OutputNode S) :
    (n.calculateModulation c tid).lfoUsedAsModulationSource = n.lfoUsedAsModulationSource := by
  obtain ⟨s, x0, x1, x2, x3, h⟩ := outn_calculateModulation_shape c tid n
  rw [h]

theorem outn_calculateModulation_sourcePointers (c : Collab S D) (tid : Patch.OutputNode.TargetID)
    (n : OutputNode S) :
    (n.calculateModulation c tid).sourcePointers = n.sourcePointers := by
  obtain ⟨s, x0, x1, x2, x3, h⟩ := outn_calculateModulation_shape c tid n
  rw [h]

theorem outn_calculateModulation_depthPointers (c : Collab S D) (tid : Patch.OutputNode.TargetID)
    (n : OutputNode S) :
    (n.calculateModulation c tid).depthPointers = n.depthPointers := by
  obtain ⟨s, x0, x1, x2, x3, h⟩ := outn_calculateModulation_shape c tid n
  rw [h]

theorem outn_calculateModulation_anySources (c : Collab S D) (tid : Patch.OutputNode.TargetID)
    (n : OutputNode S) :
    (n.calculateModulation c tid).anySources = n.anySources := by
  obtain ⟨s, x0, x1, x2, x3, h⟩ := outn_calculateModulation_shape c tid n
  rw [h]

end OutputNode

namespace MixerNode
variable {S D : Type}

theorem attack_of_inactive (c : Collab S D) (tid : Patch.MixerNode.TargetID)
    (wfs : SinTable.WaveForm) (n : MixerNode S D) (src : OpSource)
    (h : n.mixerNode.active ≤ 1 / 2) :
    (n.attack c tid wfs src).active = false ∧
      (n.attack c tid wfs src).output = (fun _ _ => 0) ∧
      (n.attack c tid wfs src).mixerNode = n.mixerNode := by
  have hd : decide (n.mixerNode.active > 1 / 2) = false := decide_eq_false (not_lt.mpr h)
  simp only [attack, resetModulation, hd, Bool.false_eq_true, if_false]
  exact ⟨trivial, trivial, trivial⟩

theorem attackRender_of_inactive (c : Collab S D) (tid : Patch.MixerNode.TargetID)
    (wfs : SinTable.WaveForm) (n : MixerNode S D) (x : VoiceValues × OpSource)
    (h : n.mixerNode.active ≤ 1 / 2) :
    (n.attackRender c tid wfs x).output = (fun _ _ => 0) ∧
      (n.attackRender c tid wfs x).mixerNode = n.mixerNode := by
  obtain ⟨h1, h2, h3⟩ := attack_of_inactive c tid wfs n x.2 h
  simp only [attackRender, renderBlock, h1, Bool.not_false, if_true]
  exact ⟨h2, h3⟩

theorem foldl_attackRender_mixerNode (c : Collab S D) (tid : Patch.MixerNode.TargetID)
    (wfs : SinTable.WaveForm) (xs : List (VoiceValues × OpSource)) (n : MixerNode S D)
    (h : n.mixerNode.active ≤ 1 / 2) :
    (xs.foldl (attackRender c tid wfs) n).mixerNode = n.mixerNode := by
  induction xs generalizing n with
  | nil => rfl
  | cons x xs ih =>
    have hx := (attackRender_of_inactive c tid wfs n x h).2
    rw [List.foldl_cons, ih _ (by rw [hx]; exact h), hx]


theorem mixer_blockState_frame (c : Collab S D) (tid : Patch.MixerNode.TargetID)
    (n : MixerNode S D) :
    (n.blockState c tid).mixerNode = n.mixerNode ∧ (n.blockState c tid).output = n.output ∧
      (n.blockState c tid).doBlock = n.doBlock ∧ (n.blockState c tid).active = n.active := by
  simp only [blockState, mixer_calculateModulation_mixerNode, mixer_calculateModulation_output,
    mixer_calculateModulation_doBlock, mixer_calculateModulation_active]
  exact ⟨trivial, trivial, trivial, trivial⟩

theorem mixer_dcStage_frame (c : Collab S D) (n : MixerNode S D) (src : OpSource) :
    (dcStage c n src).1.mixerNode = n.mixerNode ∧ (dcStage c n src).1.output = n.output ∧
      (dcStage c n src).1.toNodeSupport = n.toNodeSupport ∧
      (dcStage c n src).1.levMod = n.levMod ∧ (dcStage c n src).1.panMod = n.panMod ∧
      (dcStage c n src).1.depthAtten = n.depthAtten ∧
      (dcStage c n src).1.lfoAtten = n.lfoAtten ∧
      (dcStage c n src).1.lfoPanAtten = n.lfoPanAtten := by
  unfold dcStage
  split_ifs <;> exact ⟨rfl, rfl, rfl, rfl, rfl, rfl, rfl, rfl⟩

theorem mixer_lfoStage_frame (bs : Nat) (n : MixerNode S D) :
    (lfoStage bs n).mixerNode = n.mixerNode ∧ (lfoStage bs n).output = n.output ∧
      (lfoStage bs n).env = n.env ∧ (lfoStage bs n).envIsMult = n.envIsMult ∧
      (lfoStage bs n).levMod = n.levMod ∧ (lfoStage bs n).panMod = n.panMod ∧
      (lfoStage bs n).depthAtten = n.depthAtten ∧ (lfoStage bs n).lfoAtten = n.lfoAtten ∧
      (lfoStage bs n).lfoPanAtten = n.lfoPanAtten := by
  unfold lfoStage
  split_ifs <;> exact ⟨rfl, rfl, rfl, rfl, rfl, rfl, rfl, rfl, rfl⟩

theorem mixer_renderBlock_mixerNode (c : Collab S D) (tid : Patch.MixerNode.TargetID)
    (vv : VoiceValues) (n : MixerNode S D) (src : OpSource) :
    (n.renderBlock c tid vv src).mixerNode = n.mixerNode := by
  have h : (lfoStage c.blockSize (dcStage c (n.blockState c tid) src).1).mixerNode
      = n.mixerNode := by
    rw [(mixer_lfoStage_frame _ _).1, (mixer_dcStage_frame _ _ _).1,
      (mixer_blockState_frame _ _ _).1]
  simp only [renderBlock]
  split_ifs <;> first | rfl | exact h

theorem mixer_renderBlock_muted (c : Collab S D) (tid : Patch.MixerNode.TargetID)
    (vv : VoiceValues) (n : MixerNode S D) (src : OpSource) (ha : n.active = true)
    (hm : n.mixerNode.isMutedDueToSoloAway = true) :
    (n.renderBlock c tid vv src).output = fun _ _ => 0 := by
  have h : (lfoStage c.blockSize (dcStage c (n.blockState c tid) src).1).mixerNode
      = n.mixerNode := by
    rw [(mixer_lfoStage_frame _ _).1, (mixer_dcStage_frame _ _ _).1,
      (mixer_blockState_frame _ _ _).1]
  simp only [renderBlock, ha, Bool.not_true, Bool.false_eq_true, if_false, h, hm, if_true]

end MixerNode

section int32
theorem writeInt32_eq_some (bs : Nat) (old : IBlock) (f : Nat → Option Int) (g : Nat → Int)
    (h : ∀ j, j < bs → f j = some (g j)) :
    writeInt32 bs old f = some (fun j => if j < bs then g j else old j) := by
  unfold writeInt32
  rw [if_pos]
  · congr 1
    funext j
    split_ifs with hj
    · rw [h j hj]; rfl
    · rfl
  · rw [List.all_eq_true]
    intro j hj
    rw [h j (List.mem_range.mp hj)]
    rfl

theorem truncToInt_intCast (z : Int) : truncToInt (z : ℚ) = z := by
  unfold truncToInt
  split_ifs <;> simp

theorem castInt32_of_inInt32 (x : ℚ) (h : inInt32 (truncToInt x) = true) :
    castInt32 x = some (truncToInt x) := by
  unfold castInt32
  rw [if_pos h]

theorem addInt32_of_inInt32 (a b : Int) (h : inInt32 (a + b) = true) :
    addInt32 a b = some (a + b) := by
  unfold addInt32
  rw [if_pos h]

end int32

namespace MatrixNodeFrom
variable {S D : Type}

theorem mfrom_blockState_frame (c : Collab S D) (tid : Patch.MatrixNode.TargetID)
    (stid : Patch.SelfNode.TargetID) (n : MatrixNodeFrom S) :
    (n.blockState c tid stid).modMode = n.modMode ∧
      (n.blockState c tid stid).rmScale = n.rmScale ∧
      (n.blockState c tid stid).overdriveFactor = n.overdriveFactor ∧
      (n.blockState c tid stid).matrixNode = n.matrixNode ∧
      (n.blockState c tid stid).active = n.active := by
  obtain ⟨s, x0, x1, x2, h⟩ := mfrom_calculateModulation_shape c tid stid n
  simp only [blockState, h]
  split_ifs <;> exact ⟨rfl, rfl, rfl, rfl, rfl⟩

/-- The phase-modulation branch of `applyBlock()`: when no sample leaves the `int32_t` range,
the call returns and every `phaseInput` sample grows by the truncated product. -/
theorem mfrom_applyBlock_phase (c : Collab S D) (tid : Patch.MatrixNode.TargetID)
    (stid : Patch.SelfNode.TargetID) (n : MatrixNodeFrom S) (onto src : OpSource)
    (ha : n.active = true) (h1 : n.modMode ≠ 1) (h2 : n.modMode ≠ 2) (h3 : n.modMode ≠ 3)
    (hr : phaseInRange c.blockSize (n.blockState c tid stid) onto src) :
    n.applyBlock c tid stid onto src =
      some (n.blockState c tid stid,
        { onto with phaseInput := fun j =>
            if j < c.blockSize then
              onto.phaseInput j + truncToInt ((n.blockState c tid stid).phaseProduct src j)
            else onto.phaseInput j }) := by
  obtain ⟨f1, -, -, -, -⟩ := mfrom_blockState_frame c tid stid n
  simp only [applyBlock, ha, Bool.not_true, Bool.false_eq_true, if_false, f1, h1, h2, h3]
  rw [writeInt32_eq_some c.blockSize onto.phaseInput _
    (fun j => onto.phaseInput j + truncToInt ((n.blockState c tid stid).phaseProduct src j))]
  intro j hj
  obtain ⟨r1, r2⟩ := hr j hj
  have hm : mech.mul_block c.blockSize (n.blockState c tid stid).modlev src.output
      (fun _ => 0) j = (n.blockState c tid stid).modlev j * src.output j := by
    simp [mech.mul_block, hj]
  simp only [phaseDelta, hm]
  rw [show ((1 <<< 27 : Nat) : ℚ) * ((n.blockState c tid stid).overdriveFactor *
      ((n.blockState c tid stid).modlev j * src.output j))
      = (n.blockState c tid stid).phaseProduct src j from rfl]
  rw [castInt32_of_inInt32 _ r1]
  exact addInt32_of_inInt32 _ _ r2

theorem mfrom_plain_modlev (n : MatrixNodeFrom Unit) (h : n.toNodeSupport = Demo.plainSupport)
    (hp : n.matrixNode = Demo.fromNode.matrixNode) (j : Nat) :
    (n.blockState Demo.collab Demo.matrixIds Demo.selfIds).modlev j = 1 := by
  obtain ⟨sup, mn, a, mm, rs, o, am, da, la⟩ := n
  simp only at h hp
  subst h hp
  simp [blockState, calculateModulation, resetModulation, modlev, Demo.plainSupport,
    Demo.collab, Demo.fromNode]

end MatrixNodeFrom
theorem Demo.pmOverdrive_inRange :
    MatrixNodeFrom.phaseInRange Demo.collab.blockSize
      (Demo.pmOverdriveNode.blockState Demo.collab Demo.matrixIds Demo.selfIds) Demo.op
      Demo.unitOp := by
  intro j _
  have hp : (Demo.pmOverdriveNode.blockState Demo.collab Demo.matrixIds
      Demo.selfIds).phaseProduct Demo.unitOp j = ((1342177280 : Int) : ℚ) := by
    obtain ⟨-, -, f3, -, -⟩ := MatrixNodeFrom.mfrom_blockState_frame Demo.collab Demo.matrixIds
      Demo.selfIds Demo.pmOverdriveNode
    simp only [MatrixNodeFrom.phaseProduct, f3, MatrixNodeFrom.mfrom_plain_modlev Demo.pmOverdriveNode rfl rfl j]
    norm_num [Nat.shiftLeft_eq, Demo.pmOverdriveNode, Demo.unitOp]
  rw [hp, truncToInt_intCast]
  refine ⟨by decide, ?_⟩
  show inInt32 (0 + 1342177280) = true
  decide

namespace MatrixNodeSelf
variable {S D : Type}

theorem mself_blockState_frame (c : Collab S D) (tid : Patch.SelfNode.TargetID)
    (n : MatrixNodeSelf S) :
    (n.blockState c tid).overdriveFactor = n.overdriveFactor ∧
      (n.blockState c tid).selfNode = n.selfNode ∧
      (n.blockState c tid).active = n.active := by
  obtain ⟨s, x0, x1, x2, h⟩ := mself_calculateModulation_shape c tid n
  simp only [blockState, h]
  split_ifs <;> exact ⟨rfl, rfl, rfl⟩

theorem mself_attack_of_active (c : Collab S D) (tid : Patch.SelfNode.TargetID)
    (n : MatrixNodeSelf S) (h : n.selfNode.active > 1 / 2) :
    (n.attack c tid).active = true ∧ (n.attack c tid).selfNode = n.selfNode ∧
      (n.attack c tid).overdriveFactor = (if n.selfNode.overdrive > 1 / 2 then 10 else 1) := by
  have hd : decide (n.selfNode.active > 1 / 2) = true := decide_eq_true h
  simp only [attack, resetModulation, hd, if_true, mself_calculateModulation_selfNode,
    mself_calculateModulation_active]
  exact ⟨trivial, trivial, trivial⟩

/-- On an active node, when no converted sample leaves the `int32_t` range, `applyBlock()`
returns and overwrites every `feedbackLevel` sample with the truncated product. -/
theorem mself_applyBlock_active (c : Collab S D) (tid : Patch.SelfNode.TargetID)
    (n : MatrixNodeSelf S) (onto : OpSource) (ha : n.active = true)
    (hr : ∀ j, j < c.blockSize →
      inInt32 (truncToInt ((n.blockState c tid).feedbackProduct j)) = true) :
    n.applyBlock c tid onto =
      some (n.blockState c tid,
        { onto with feedbackLevel := fun j =>
            if j < c.blockSize then truncToInt ((n.blockState c tid).feedbackProduct j)
            else onto.feedbackLevel j }) := by
  simp only [applyBlock, ha, Bool.not_true, Bool.false_eq_true, if_false]
  rw [writeInt32_eq_some c.blockSize onto.feedbackLevel _
    (fun j => truncToInt ((n.blockState c tid).feedbackProduct j))]
  intro j hj
  exact castInt32_of_inInt32 _ (hr j hj)

end MatrixNodeSelf
theorem Demo.pm_phaseProduct (j : Nat) :
    (Demo.pmNode.blockState Demo.collab Demo.matrixIds Demo.selfIds).phaseProduct
      Demo.quietOp j = 7 / 4 := by
  obtain ⟨-, -, f3, -, -⟩ := MatrixNodeFrom.mfrom_blockState_frame Demo.collab Demo.matrixIds
    Demo.selfIds Demo.pmNode
  simp only [MatrixNodeFrom.phaseProduct, f3, MatrixNodeFrom.mfrom_plain_modlev Demo.pmNode rfl rfl j]
  norm_num [Nat.shiftLeft_eq, Demo.pmNode, Demo.fromNode, Demo.quietOp]

theorem truncToInt_seven_quarters : truncToInt (7 / 4) = 1 := by
  unfold truncToInt
  rw [if_pos (by norm_num), Int.floor_eq_iff]
  constructor <;> norm_num

theorem cround_seven_quarters : cround (7 / 4) = 2 := by
  unfold cround
  rw [if_pos (by norm_num), Int.floor_eq_iff]
  constructor <;> norm_num

theorem Demo.pm_inRange :
    MatrixNodeFrom.phaseInRange Demo.collab.blockSize
      (Demo.pmNode.blockState Demo.collab Demo.matrixIds Demo.selfIds) Demo.op
      Demo.quietOp := by
  intro j _
  rw [Demo.pm_phaseProduct, truncToInt_seven_quarters]
  refine ⟨by decide, ?_⟩
  show inInt32 (0 + 1) = true
  decide

theorem Demo.fb_modlev (j : Nat) :
    ((Demo.fbNode.attack Demo.collab Demo.selfIds).blockState Demo.collab Demo.selfIds).modlev j
      = 7 / 67108864 := by
  norm_num [MatrixNodeSelf.attack, MatrixNodeSelf.blockState, MatrixNodeSelf.calculateModulation,
    MatrixNodeSelf.resetModulation, MatrixNodeSelf.modlev, Demo.fbNode, Demo.selfNode,
    Demo.plainSupport, Demo.collab, MatrixNodeSelf.checkLfoUsed]

theorem Demo.fb_product (j : Nat) :
    ((1 <<< 24 : Nat) : ℚ) *
      ((Demo.fbNode.attack Demo.collab Demo.selfIds).blockState Demo.collab Demo.selfIds).modlev j
      * (if Demo.fbNode.selfNode.overdrive > 1 / 2 then 10 else 1) = 7 / 4 := by
  rw [Demo.fb_modlev]
  norm_num [Nat.shiftLeft_eq, Demo.fbNode, Demo.selfNode]
namespace OutputNode
variable {S D : Type}

theorem sumMixers_apply (bs : Nat) (fromArr : List (MixerNode S D × OpSource))
    (out : Nat → Block) (ch i : Nat) (hch : ch < 2) (hi : i < bs) :
    sumMixers bs fromArr out ch i =
      out ch i + ((fromArr.filter (fun m => m.2.operatorOutputsToMain)).map
        (fun m => m.1.output ch i)).sum := by
  induction fromArr generalizing out with
  | nil => simp [sumMixers]
  | cons m ms ih =>
    have hstep : sumMixers bs (m :: ms) out = sumMixers bs ms
        (if m.2.operatorOutputsToMain then
          fun ch => if ch = 0 then mech.accumulate_from_to bs (m.1.output 0) (out 0)
            else if ch = 1 then mech.accumulate_from_to bs (m.1.output 1) (out 1) else out ch
        else out) := by
      simp only [sumMixers, List.foldl_cons]
    rw [hstep, ih]
    by_cases hr : m.2.operatorOutputsToMain = true
    · simp only [hr, if_true, List.filter_cons_of_pos, List.map_cons, List.sum_cons]
      have h01 : ch = 0 ∨ ch = 1 := by omega
      rcases h01 with h | h <;> subst h <;> simp [mech.accumulate_from_to, hi] <;> ring
    · simp only [hr, Bool.false_eq_true, if_false]
      rw [List.filter_cons_of_neg (by simpa using hr)]

theorem outn_blockState_of_not_anySources (c : Collab S D) (tid : Patch.OutputNode.TargetID)
    (ptid : Patch.MainPanNode.TargetID) (ftid : Patch.FineTuneNode.TargetID)
    (fromArr : List (MixerNode S D × OpSource)) (n : OutputNode S)
    (h : n.anySources = false) :
    (n.blockState c tid ptid ftid fromArr).depthAtten = 1 ∧
      (n.blockState c tid ptid ftid fromArr).levMod = 0 ∧
      (n.blockState c tid ptid ftid fromArr).panMod = 0 ∧
      (n.blockState c tid ptid ftid fromArr).lfoAtten = 1 ∧
      (n.blockState c tid ptid ftid fromArr).outputNode = n.outputNode ∧
      (n.blockState c tid ptid ftid fromArr).output = sumMixers c.blockSize fromArr n.output ∧
      (n.blockState c tid ptid ftid fromArr).panModNode = n.panModNode.modProcess c ptid := by
  simp [blockState, calculateModulation, resetModulation, h]

/-- The output of `renderBlock()` on a node without bound sources, with zero LFO depth, unity
velocity response, centre pan and a level in `[0, 1]`: the accumulated buffer times
`0.15 * level^3 * envelope`. -/
theorem outn_renderBlock_plain (c : Collab S D) (tid : Patch.OutputNode.TargetID)
    (ptid : Patch.MainPanNode.TargetID) (ftid : Patch.FineTuneNode.TargetID)
    (vv : VoiceValues) (fromArr : List (MixerNode S D × OpSource)) (n : OutputNode S)
    (hsrc : n.anySources = false) (hlfo : n.outputNode.lfoDepth = 0)
    (hv : 1 - n.outputNode.velSensitivity * (1 - vv.velocityLag) = 1)
    (hpan : n.outputNode.pan = 0) (hne : vv.noteExpressionPanBipolar = 0)
    (hpm : (n.panModNode.modProcess c ptid).level = 0)
    (hl0 : 0 ≤ n.outputNode.level) (hl1 : n.outputNode.level ≤ 1)
    (ch i : Nat) (hch : ch < 2) (hi : i < c.blockSize) :
    (n.renderBlock c tid ptid ftid vv fromArr).output ch i =
      15 / 100 * n.outputNode.level ^ 3 *
        (n.blockState c tid ptid ftid fromArr).env.outputCache i *
        (n.output ch i + ((fromArr.filter (fun m => m.2.operatorOutputsToMain)).map
          (fun m => m.1.output ch i)).sum) := by
  obtain ⟨b1, b2, b3, b4, b5, b6, b7⟩ :=
    outn_blockState_of_not_anySources c tid ptid ftid fromArr n hsrc
  have hL : clamp (n.outputNode.level + 0) 0 1 = n.outputNode.level := by
    rw [add_zero]; exact clamp_eq_self _ _ _ hl0 hl1
  have hL3 : clamp (1 * n.outputNode.level * n.outputNode.level * n.outputNode.level) 0 1
      = n.outputNode.level ^ 3 := by
    rw [clamp_eq_self]
    · ring
    · positivity
    · have : n.outputNode.level * n.outputNode.level ≤ 1 := mul_le_one₀ hl1 hl0 hl1
      nlinarith
  have hpn : clamp (0 + 0 + 0 + 0) (-1) 1 = (0 : ℚ) := by norm_num [clamp]
  have h01 : ch = 0 ∨ ch = 1 := by omega
  simp only [renderBlock, gainState, b1, b2, b3, b4, b5, b7, hlfo, hv, hpan, hne, hpm, hL, hL3,
    hpn, ne_eq, not_true_eq_false, if_false]
  rw [b6]
  rcases h01 with h | h
  · subst h
    simp [mech.scale_by, mech.scale_by_const, mech.copy_from_to, mech.accumulate_from_to,
      mech.mul_block_const, hi]
    rw [sumMixers_apply c.blockSize fromArr n.output 0 i (by decide) hi]
    ring
  · subst h
    simp [mech.scale_by, mech.scale_by_const, mech.copy_from_to, mech.accumulate_from_to,
      mech.mul_block_const, hi]
    rw [sumMixers_apply c.blockSize fromArr n.output 1 i (by decide) hi]
    ring

end OutputNode
theorem Demo.secondBlock_facts :
    Demo.secondBlockNode.anySources = false ∧
      Demo.secondBlockNode.outputNode = Demo.plainOutputNode.outputNode ∧
      Demo.secondBlockNode.panModNode = Demo.idlePanNode ∧
      Demo.secondBlockNode.output 0 0 = 3 / 20 ∧
      (Demo.secondBlockNode.blockState Demo.collab Demo.outputIds Demo.panIds Demo.fineIds
        Demo.mixers).env.outputCache 0 = 1 := by
  norm_num [Demo.secondBlockNode, OutputNode.renderBlock, OutputNode.gainState,
    OutputNode.blockState, OutputNode.calculateModulation, OutputNode.resetModulation,
    Demo.plainOutputNode, Demo.outputNode, Demo.plainSupport, Demo.collab,
    MainPanNode.modProcess, Demo.idlePanNode, FineTuneNode.modProcess, Demo.idleFineNode,
    Demo.panNode, Demo.voice, clamp, OutputNode.sumMixers, Demo.mixers, Demo.loudMixerNode,
    Demo.mixerNode, Demo.op, mech.scale_by, mech.scale_by_const, mech.copy_from_to,
    mech.accumulate_from_to, mech.mul_block_const]
theorem cround_zero : cround 0 = 0 := by
  unfold cround
  rw [if_pos (le_refl _), Int.floor_eq_iff]
  constructor <;> norm_num

theorem Demo.plainOutputNode_attack :
    Demo.plainOutputNode.attack Demo.collab Demo.outputIds Demo.panIds Demo.fineIds
      = some Demo.plainOutputNode := by
  have h0 : castInt32 (cround Demo.plainOutputNode.outputNode.defaultTrigger : ℚ) = some 0 := by
    show castInt32 ((cround 0 : Int) : ℚ) = some 0
    rw [cround_zero]
    simp [castInt32, truncToInt, inInt32, INT32_MIN, INT32_MAX]
  unfold OutputNode.attack
  simp only [OutputNode.resetModulation, h0]
  norm_num [Demo.plainOutputNode, Demo.outputNode, Demo.plainSupport, Demo.collab,
    OutputNode.calculateModulation, OutputNode.resetModulation, MainPanNode.attack,
    FineTuneNode.attack, MainPanNode.resetModulation, FineTuneNode.resetModulation,
    Demo.idlePanNode, Demo.idleFineNode, Demo.panNode, Demo.fineNode, Demo.range_three]

namespace MatrixNodeFrom
variable {S D : Type}

theorem castInt32_intCast (z : Int) (h : inInt32 z = true) : castInt32 (z : ℚ) = some z := by
  unfold castInt32
  rw [truncToInt_intCast, if_pos h]

/-- The state `attack()` leaves on a node whose `active` parameter is above 0.5. -/
theorem mfrom_attack_of_active (c : Collab S D) (tid : Patch.MatrixNode.TargetID)
    (stid : Patch.SelfNode.TargetID) (n : MatrixNodeFrom S) (ha : n.matrixNode.active > 1 / 2)
    (hm : inInt32 (cround n.matrixNode.modulationMode) = true)
    (hs : inInt32 (cround n.matrixNode.modulationScale) = true) :
    ∃ n1, n.attack c tid stid = some n1 ∧ n1.active = true ∧
      n1.modMode = cround n.matrixNode.modulationMode ∧
      n1.rmScale = cround n.matrixNode.modulationScale ∧
      n1.matrixNode = n.matrixNode ∧
      n1.overdriveFactor =
        (if cround n.matrixNode.modulationMode = 3 then
          (if n.matrixNode.overdrive > 1 / 2 then 3 else 1)
        else (if n.matrixNode.overdrive > 1 / 2 then 10 else 1)) := by
  have hd : decide (n.matrixNode.active > 1 / 2) = true := decide_eq_true ha
  unfold attack
  simp only [resetModulation, castInt32_intCast _ hm, castInt32_intCast _ hs, hd, if_true,
    mfrom_calculateModulation_modMode, mfrom_calculateModulation_matrixNode]
  split_ifs <;> refine ⟨_, rfl, ?_, ?_, ?_, ?_, ?_⟩ <;>
    first
    | rfl
    | simp only [mfrom_calculateModulation_active, mfrom_calculateModulation_modMode,
        mfrom_calculateModulation_rmScale, mfrom_calculateModulation_matrixNode]

/-- The linear-FM branch of `applyBlock()`. -/
theorem mfrom_applyBlock_linear (c : Collab S D) (tid : Patch.MatrixNode.TargetID)
    (stid : Patch.SelfNode.TargetID) (n : MatrixNodeFrom S) (onto src : OpSource)
    (ha : n.active = true) (hm : n.modMode = 2) :
    ∃ r, n.applyBlock c tid stid onto src = some r ∧
      r.2.phaseInput = onto.phaseInput ∧ r.2.rmLevel = onto.rmLevel ∧
      r.2.feedbackLevel = onto.feedbackLevel ∧ r.2.output = onto.output ∧
      ∀ j, j < c.blockSize → r.2.fmAmount j = onto.fmAmount j +
        n.overdriveFactor * ((n.blockState c tid stid).modlev j * src.output j) := by
  obtain ⟨f1, -, f3, -, -⟩ := mfrom_blockState_frame c tid stid n
  refine ⟨_, by
    simp only [applyBlock, ha, Bool.not_true, Bool.false_eq_true, if_false, f1, hm, f3]
    rfl, rfl, rfl, rfl, rfl, ?_⟩
  intro j hj
  simp [mech.mul_block, hj]

/-- The exponential-FM branch of `applyBlock()`. -/
theorem mfrom_applyBlock_exponential (c : Collab S D) (tid : Patch.MatrixNode.TargetID)
    (stid : Patch.SelfNode.TargetID) (n : MatrixNodeFrom S) (onto src : OpSource)
    (ha : n.active = true) (hm : n.modMode = 3) :
    ∃ r, n.applyBlock c tid stid onto src = some r ∧
      r.2.phaseInput = onto.phaseInput ∧ r.2.rmLevel = onto.rmLevel ∧
      r.2.feedbackLevel = onto.feedbackLevel ∧ r.2.output = onto.output ∧
      ∀ j, j < c.blockSize → r.2.fmAmount j = onto.fmAmount j +
        (c.twoToThe (n.overdriveFactor * ((n.blockState c tid stid).modlev j * src.output j))
          - 1) := by
  obtain ⟨f1, -, f3, -, -⟩ := mfrom_blockState_frame c tid stid n
  refine ⟨_, by
    simp only [applyBlock, ha, Bool.not_true, Bool.false_eq_true, if_false, f1, hm, f3]
    rfl, rfl, rfl, rfl, rfl, ?_⟩
  intro j hj
  simp [mech.mul_block, hj]

end MatrixNodeFrom

theorem foldl_comm {N : Type} (step : N → Nat → N) (f : N → N)
    (h : ∀ n i, step (f n) i = f (step n i)) (is : List Nat) (n : N) :
    is.foldl step (f n) = f (is.foldl step n) := by
  induction is generalizing n with
  | nil => rfl
  | cons i is ih => rw [List.foldl_cons, List.foldl_cons, h, ih]

namespace MatrixNodeFrom
variable {S D : Type}

theorem mfrom_slotStep_setMode (c : Collab S D) (tid : Patch.MatrixNode.TargetID)
    (stid : Patch.SelfNode.TargetID) (m : Int) (n : MatrixNodeFrom S) (i : Nat) :
    slotStep c tid stid { n with modMode := m } i =
      { slotStep c tid stid n i with modMode := m } := by
  simp only [slotStep]
  split <;> (try split_ifs) <;> rfl

theorem mfrom_calculateModulation_setMode (c : Collab S D) (tid : Patch.MatrixNode.TargetID)
    (stid : Patch.SelfNode.TargetID) (m : Int) (n : MatrixNodeFrom S) :
    calculateModulation c tid stid { n with modMode := m } =
      { calculateModulation c tid stid n with modMode := m } := by
  simp only [calculateModulation, resetModulation]
  split_ifs
  · rfl
  · exact foldl_comm (slotStep c tid stid) (fun a => { a with modMode := m })
      (fun a i => mfrom_slotStep_setMode c tid stid m a i) (List.range c.numModsPer)
      ({ n with inner := c.lfoResetMod (c.envResetMod n.inner), applyMod := 0,
                depthAtten := 1, lfoAtten := 1 } : MatrixNodeFrom S)

theorem mfrom_blockState_setMode (c : Collab S D) (tid : Patch.MatrixNode.TargetID)
    (stid : Patch.SelfNode.TargetID) (m : Int) (n : MatrixNodeFrom S) :
    blockState c tid stid { n with modMode := m } =
      { blockState c tid stid n with modMode := m } := by
  simp only [blockState, mfrom_calculateModulation_setMode, checkLfoUsed]
  split_ifs <;> rfl

/-- The phase-modulation branch of `applyBlock()` as one expression. -/
theorem mfrom_applyBlock_default (c : Collab S D) (tid : Patch.MatrixNode.TargetID)
    (stid : Patch.SelfNode.TargetID) (n : MatrixNodeFrom S) (onto src : OpSource)
    (ha : n.active = true) (h1 : n.modMode ≠ 1) (h2 : n.modMode ≠ 2) (h3 : n.modMode ≠ 3) :
    (n.applyBlock c tid stid onto src).map Prod.snd =
      (writeInt32 c.blockSize onto.phaseInput
        (fun j => (castInt32 (((1 <<< 27 : Nat) : ℚ) * ((n.blockState c tid stid).overdriveFactor *
          mech.mul_block c.blockSize (n.blockState c tid stid).modlev src.output (fun _ => 0) j))).bind
            (addInt32 (onto.phaseInput j)))).map
        (fun p => { onto with phaseInput := p }) := by
  obtain ⟨f1, -, -, -, -⟩ := mfrom_blockState_frame c tid stid n
  simp only [applyBlock, ha, Bool.not_true, Bool.false_eq_true, if_false, f1, h1, h2, h3,
    phaseDelta]
  split <;> rename_i h <;> rw [h] <;> rfl

/-- The phase-modulation branch of `applyBlock()` does not read `modMode` beyond the three
tests that select it: the operator it leaves is the one the mode-0 node leaves. -/
theorem mfrom_applyBlock_default_eq_mode0 (c : Collab S D) (tid : Patch.MatrixNode.TargetID)
    (stid : Patch.SelfNode.TargetID) (n : MatrixNodeFrom S) (onto src : OpSource)
    (ha : n.active = true) (h1 : n.modMode ≠ 1) (h2 : n.modMode ≠ 2) (h3 : n.modMode ≠ 3) :
    (n.applyBlock c tid stid onto src).map Prod.snd =
      (applyBlock c tid stid { n with modMode := 0 } onto src).map Prod.snd := by
  rw [mfrom_applyBlock_default c tid stid n onto src ha h1 h2 h3,
    mfrom_applyBlock_default c tid stid { n with modMode := 0 } onto src ha
      (show (0 : Int) ≠ 1 by decide) (show (0 : Int) ≠ 2 by decide)
      (show (0 : Int) ≠ 3 by decide), mfrom_blockState_setMode c tid stid 0 n]
  rfl

/-- In the phase-modulation branch `applyBlock()` leaves every member of the destination
operator other than `phaseInput` as it was. -/
theorem mfrom_applyBlock_default_frame (c : Collab S D) (tid : Patch.MatrixNode.TargetID)
    (stid : Patch.SelfNode.TargetID) (n : MatrixNodeFrom S) (onto src : OpSource)
    (ha : n.active = true) (h1 : n.modMode ≠ 1) (h2 : n.modMode ≠ 2) (h3 : n.modMode ≠ 3)
    (r : MatrixNodeFrom S × OpSource) (hr : n.applyBlock c tid stid onto src = some r) :
    r.2.fmAmount = onto.fmAmount ∧ r.2.rmLevel = onto.rmLevel ∧
      r.2.feedbackLevel = onto.feedbackLevel ∧ r.2.output = onto.output := by
  obtain ⟨f1, -, -, -, -⟩ := mfrom_blockState_frame c tid stid n
  simp only [applyBlock, ha, Bool.not_true, Bool.false_eq_true, if_false, f1, h1, h2, h3] at hr
  split at hr
  · cases hr
    exact ⟨rfl, rfl, rfl, rfl⟩
  · cases hr

end MatrixNodeFrom

theorem cround_intCast (z : Int) : cround (z : ℚ) = z := by
  unfold cround
  split_ifs
  · rw [Int.floor_eq_iff]
    constructor <;> simp <;> norm_num
  · rw [Int.ceil_eq_iff]
    constructor <;> simp <;> norm_num

theorem cround_two : cround 2 = 2 := by
  have h := cround_intCast 2
  simpa using h

namespace MatrixNodeFrom

theorem mfrom_plain_phaseProduct (n : MatrixNodeFrom Unit)
    (h : n.toNodeSupport = Demo.plainSupport) (hp : n.matrixNode = Demo.fromNode.matrixNode)
    (ho : n.overdriveFactor = 1) (j : Nat) :
    (n.blockState Demo.collab Demo.matrixIds Demo.selfIds).phaseProduct Demo.quietOp j
      = 7 / 4 := by
  obtain ⟨-, -, f3, -, -⟩ := mfrom_blockState_frame Demo.collab Demo.matrixIds Demo.selfIds n
  simp only [phaseProduct, f3, ho, mfrom_plain_modlev n h hp j]
  norm_num [Nat.shiftLeft_eq, Demo.quietOp]

theorem mfrom_plain_inRange (n : MatrixNodeFrom Unit)
    (h : n.toNodeSupport = Demo.plainSupport) (hp : n.matrixNode = Demo.fromNode.matrixNode)
    (ho : n.overdriveFactor = 1) :
    phaseInRange Demo.collab.blockSize (n.blockState Demo.collab Demo.matrixIds Demo.selfIds)
      Demo.op Demo.quietOp := by
  intro j _
  rw [mfrom_plain_phaseProduct n h hp ho, truncToInt_seven_quarters]
  refine ⟨by decide, ?_⟩
  show inInt32 (0 + 1) = true
  decide

end MatrixNodeFrom

section inert
variable {S D : Type}

theorem foldl_filter_noop {N : Type} (step : N → Nat → N) (k : Nat) (Inv : N → Prop)
    (hinv : ∀ n i, Inv n → Inv (step n i)) (hk : ∀ n, Inv n → step n k = n)
    (is : List Nat) (n : N) (h : Inv n) :
    is.foldl step n = (is.filter (fun i => decide (i ≠ k))).foldl step n := by
  induction is generalizing n with
  | nil => rfl
  | cons i is ih =>
    by_cases hik : i = k
    · subst hik
      rw [List.foldl_cons, hk n h, List.filter_cons_of_neg (by simp)]
      exact ih n h
    · rw [List.foldl_cons, List.filter_cons_of_pos (by simpa using hik), List.foldl_cons]
      exact ih _ (hinv n i h)

/-- A slot with an unbound source, an unbound depth or the target `noneId` is skipped before
the hooks: `offerSlot` returns the collaborators' state it was given, whatever the hooks are. -/
theorem offerSlot_skip (c : Collab S D) (noneId t : Int) (k : Nat) (sup : NodeSupport S)
    (h : sup.sourcePointers k = none ∨ sup.depthPointers k = none ∨ t = noneId) :
    offerSlot c noneId t k sup = (none, sup.inner) := by
  unfold offerSlot
  cases hs : sup.sourcePointers k with
  | none => rfl
  | some sv =>
    by_cases ht : t = noneId
    · simp [ht]
    · cases hd : sup.depthPointers k with
      | none => simp [ht]
      | some d =>
        rcases h with h | h | h
        · rw [hs] at h; cases h
        · rw [hd] at h; cases h
        · exact absurd h ht

theorem offerSlot_of_inert (c : Collab S D) (noneId t : Int) (labels : List Int) (k : Nat)
    (sup : NodeSupport S)
    (h : slotInert c noneId t labels (sup.sourcePointers k) (sup.depthPointers k)) :
    (offerSlot c noneId t k sup).2 = sup.inner ∧
      ∀ d sv, (offerSlot c noneId t k sup).1 = some (d, sv) → t ∉ labels := by
  rcases h with h | h | h | ⟨he, hl, hn⟩
  · rw [offerSlot_skip c noneId t k sup (Or.inl h)]
    exact ⟨rfl, fun d sv hh => by cases hh⟩
  · rw [offerSlot_skip c noneId t k sup (Or.inr (Or.inl h))]
    exact ⟨rfl, fun d sv hh => by cases hh⟩
  · rw [offerSlot_skip c noneId t k sup (Or.inr (Or.inr h))]
    exact ⟨rfl, fun d sv hh => by cases hh⟩
  · refine ⟨?_, fun _ _ _ => hn⟩
    unfold offerSlot
    cases hs : sup.sourcePointers k with
    | none => rfl
    | some sv =>
      by_cases ht : t = noneId
      · simp [ht]
      · cases hd : sup.depthPointers k with
        | none => simp [ht]
        | some d => simp [ht, he, hl]

end inert

namespace MatrixNodeFrom
variable {S D : Type}

theorem mfrom_slotStep_inert (c : Collab S D) (tid : Patch.MatrixNode.TargetID) (stid : Patch.SelfNode.TargetID)
    (n : MatrixNodeFrom S) (k : Nat)
    (h : slotInert c stid.NONE (n.matrixNode.modtarget k) [tid.DIRECT, tid.DEPTH_ATTEN, tid.LFO_DEPTH_ATTEN]
      (n.sourcePointers k) (n.depthPointers k)) :
    slotStep c tid stid n k = n := by
  obtain ⟨h2, h1⟩ := offerSlot_of_inert c stid.NONE (n.matrixNode.modtarget k) [tid.DIRECT, tid.DEPTH_ATTEN, tid.LFO_DEPTH_ATTEN] k
    n.toNodeSupport h
  simp only [slotStep]
  split
  · rename_i s heq
    rw [heq] at h2
    simp only at h2
    subst h2
    rfl
  · rename_i d sv s heq
    rw [heq] at h2
    simp only at h2
    subst h2
    have hl := h1 d sv (by rw [heq])
    simp only [List.mem_cons, List.mem_singleton, not_or, List.not_mem_nil, not_false_eq_true,
      and_true] at hl
    simp only [hl, if_false]

/-- A slot that is inert can be left out of `calculateModulation()`: the node state after
the call is the state after the pass without that slot. -/
theorem mfrom_calculateModulation_without (c : Collab S D) (tid : Patch.MatrixNode.TargetID) (stid : Patch.SelfNode.TargetID)
    (n : MatrixNodeFrom S) (k : Nat)
    (h : slotInert c stid.NONE (n.matrixNode.modtarget k) [tid.DIRECT, tid.DEPTH_ATTEN, tid.LFO_DEPTH_ATTEN]
      (n.sourcePointers k) (n.depthPointers k)) :
    n.calculateModulation c tid stid = n.calculateModulationWithout c tid stid k := by
  simp only [calculateModulation, calculateModulationWithout, resetModulation]
  split_ifs
  · rfl
  · exact foldl_filter_noop (slotStep c tid stid) k
      (fun m => m.sourcePointers k = n.sourcePointers k ∧ m.depthPointers k = n.depthPointers k
        ∧ m.matrixNode = n.matrixNode)
      (fun m i hm => by
        have hs := mfrom_slotStep_sup c tid stid m i
        have hp := mfrom_slotStep_patch c tid stid m i
        exact ⟨(congrArg (fun s => s.sourcePointers k) hs).trans hm.1,
          (congrArg (fun s => s.depthPointers k) hs).trans hm.2.1, hp.trans hm.2.2⟩)
      (fun m hm => mfrom_slotStep_inert c tid stid m k (by
        obtain ⟨a1, a2, a3⟩ := hm
        rw [a1, a2, a3]
        exact h))
      (List.range c.numModsPer)
      ({ n with inner := c.lfoResetMod (c.envResetMod n.inner), applyMod := 0, depthAtten := 1, lfoAtten := 1 } : MatrixNodeFrom S)
      ⟨rfl, rfl, rfl⟩

end MatrixNodeFrom

namespace MatrixNodeSelf
variable {S D : Type}

theorem mself_slotStep_inert (c : Collab S D) (tid : Patch.SelfNode.TargetID)
    (n : MatrixNodeSelf S) (k : Nat)
    (h : slotInert c tid.NONE (n.selfNode.modtarget k) [tid.DIRECT, tid.DEPTH_ATTEN, tid.LFO_DEPTH_ATTEN]
      (n.sourcePointers k) (n.depthPointers k)) :
    slotStep c tid n k = n := by
  obtain ⟨h2, h1⟩ := offerSlot_of_inert c tid.NONE (n.selfNode.modtarget k) [tid.DIRECT, tid.DEPTH_ATTEN, tid.LFO_DEPTH_ATTEN] k
    n.toNodeSupport h
  simp only [slotStep]
  split
  · rename_i s heq
    rw [heq] at h2
    simp only at h2
    subst h2
    rfl
  · rename_i d sv s heq
    rw [heq] at h2
    simp only at h2
    subst h2
    have hl := h1 d sv (by rw [heq])
    simp only [List.mem_cons, List.mem_singleton, not_or, List.not_mem_nil, not_false_eq_true,
      and_true] at hl
    simp only [hl, if_false]

/-- A slot that is inert can be left out of `calculateModulation()`: the node state after
the call is the state after the pass without that slot. -/
theorem mself_calculateModulation_without (c : Collab S D) (tid : Patch.SelfNode.TargetID)
    (n : MatrixNodeSelf S) (k : Nat)
    (h : slotInert c tid.NONE (n.selfNode.modtarget k) [tid.DIRECT, tid.DEPTH_ATTEN, tid.LFO_DEPTH_ATTEN]
      (n.sourcePointers k) (n.depthPointers k)) :
    n.calculateModulation c tid = n.calculateModulationWithout c tid k := by
  simp only [calculateModulation, calculateModulationWithout, resetModulation]
  split_ifs
  · rfl
  · exact foldl_filter_noop (slotStep c tid) k
      (fun m => m.sourcePointers k = n.sourcePointers k ∧ m.depthPointers k = n.depthPointers k
        ∧ m.selfNode = n.selfNode)
      (fun m i hm => by
        have hs := mself_slotStep_sup c tid m i
        have hp := mself_slotStep_patch c tid m i
        exact ⟨(congrArg (fun s => s.sourcePointers k) hs).trans hm.1,
          (congrArg (fun s => s.depthPointers k) hs).trans hm.2.1, hp.trans hm.2.2⟩)
      (fun m hm => mself_slotStep_inert c tid m k (by
        obtain ⟨a1, a2, a3⟩ := hm
        rw [a1, a2, a3]
        exact h))
      (List.range c.numModsPer)
      ({ n with inner := c.lfoResetMod (c.envResetMod n.inner), fbMod := 0, depthAtten := 1, lfoAtten := 1 } : MatrixNodeSelf S)
      ⟨rfl, rfl, rfl⟩

end MatrixNodeSelf

namespace MixerNode
variable {S D : Type}

theorem mixer_slotStep_inert (c : Collab S D) (tid : Patch.MixerNode.TargetID)
    (n : MixerNode S D) (k : Nat)
    (h : slotInert c tid.NONE (n.mixerNode.modtarget k) [tid.DIRECT, tid.PAN, tid.DEPTH_ATTEN, tid.LFO_DEPTH_ATTEN, tid.LFO_DEPTH_PAN_ATTEN]
      (n.sourcePointers k) (n.depthPointers k)) :
    slotStep c tid n k = n := by
  obtain ⟨h2, h1⟩ := offerSlot_of_inert c tid.NONE (n.mixerNode.modtarget k) [tid.DIRECT, tid.PAN, tid.DEPTH_ATTEN, tid.LFO_DEPTH_ATTEN, tid.LFO_DEPTH_PAN_ATTEN] k
    n.toNodeSupport h
  simp only [slotStep]
  split
  · rename_i s heq
    rw [heq] at h2
    simp only at h2
    subst h2
    rfl
  · rename_i d sv s heq
    rw [heq] at h2
    simp only at h2
    subst h2
    have hl := h1 d sv (by rw [heq])
    simp only [List.mem_cons, List.mem_singleton, not_or, List.not_mem_nil, not_false_eq_true,
      and_true] at hl
    simp only [hl, if_false]

/-- A slot that is inert can be left out of `calculateModulation()`: the node state after
the call is the state after the pass without that slot. -/
theorem mixer_calculateModulation_without (c : Collab S D) (tid : Patch.MixerNode.TargetID)
    (n : MixerNode S D) (k : Nat)
    (h : slotInert c tid.NONE (n.mixerNode.modtarget k) [tid.DIRECT, tid.PAN, tid.DEPTH_ATTEN, tid.LFO_DEPTH_ATTEN, tid.LFO_DEPTH_PAN_ATTEN]
      (n.sourcePointers k) (n.depthPointers k)) :
    n.calculateModulation c tid = n.calculateModulationWithout c tid k := by
  simp only [calculateModulation, calculateModulationWithout, resetModulation]
  split_ifs
  · rfl
  · exact foldl_filter_noop (slotStep c tid) k
      (fun m => m.sourcePointers k = n.sourcePointers k ∧ m.depthPointers k = n.depthPointers k
        ∧ m.mixerNode = n.mixerNode)
      (fun m i hm => by
        have hs := mixer_slotStep_sup c tid m i
        have hp := mixer_slotStep_patch c tid m i
        exact ⟨(congrArg (fun s => s.sourcePointers k) hs).trans hm.1,
          (congrArg (fun s => s.depthPointers k) hs).trans hm.2.1, hp.trans hm.2.2⟩)
      (fun m hm => mixer_slotStep_inert c tid m k (by
        obtain ⟨a1, a2, a3⟩ := hm
        rw [a1, a2, a3]
        exact h))
      (List.range c.numModsPer)
      ({ n with inner := c.lfoResetMod (c.envResetMod n.inner), levMod := 0, depthAtten := 1, lfoAtten := 1, lfoPanAtten := 1, panMod := 0 } : MixerNode S D)
      ⟨rfl, rfl, rfl⟩

end MixerNode

namespace MainPanNode
variable {S D : Type}

theorem mpan_slotStep_inert (c : Collab S D) (tid : Patch.MainPanNode.TargetID)
    (n : MainPanNode S) (k : Nat)
    (h : slotInert c tid.NONE (n.modNode.modtarget k) [tid.DIRECT, tid.ENVDEP_DIR, tid.LFODEP_DIR, tid.DEPTH_ATTEN, tid.LFO_DEPTH_ATTEN]
      (n.sourcePointers k) (n.depthPointers k)) :
    slotStep c tid n k = n := by
  obtain ⟨h2, h1⟩ := offerSlot_of_inert c tid.NONE (n.modNode.modtarget k) [tid.DIRECT, tid.ENVDEP_DIR, tid.LFODEP_DIR, tid.DEPTH_ATTEN, tid.LFO_DEPTH_ATTEN] k
    n.toNodeSupport h
  simp only [slotStep]
  split
  · rename_i s heq
    rw [heq] at h2
    simp only at h2
    subst h2
    rfl
  · rename_i d sv s heq
    rw [heq] at h2
    simp only at h2
    subst h2
    have hl := h1 d sv (by rw [heq])
    simp only [List.mem_cons, List.mem_singleton, not_or, List.not_mem_nil, not_false_eq_true,
      and_true] at hl
    simp only [hl, if_false]

/-- A slot that is inert can be left out of `calculateModulation()`: the node state after
the call is the state after the pass without that slot. -/
theorem mpan_calculateModulation_without (c : Collab S D) (tid : Patch.MainPanNode.TargetID)
    (n : MainPanNode S) (k : Nat)
    (h : slotInert c tid.NONE (n.modNode.modtarget k) [tid.DIRECT, tid.ENVDEP_DIR, tid.LFODEP_DIR, tid.DEPTH_ATTEN, tid.LFO_DEPTH_ATTEN]
      (n.sourcePointers k) (n.depthPointers k)) :
    n.calculateModulation c tid = n.calculateModulationWithout c tid k := by
  simp only [calculateModulation, calculateModulationWithout, resetModulation]
  split_ifs
  · rfl
  · exact foldl_filter_noop (slotStep c tid) k
      (fun m => m.sourcePointers k = n.sourcePointers k ∧ m.depthPointers k = n.depthPointers k
        ∧ m.modNode = n.modNode)
      (fun m i hm => by
        have hs := mpan_slotStep_sup c tid m i
        have hp := mpan_slotStep_patch c tid m i
        exact ⟨(congrArg (fun s => s.sourcePointers k) hs).trans hm.1,
          (congrArg (fun s => s.depthPointers k) hs).trans hm.2.1, hp.trans hm.2.2⟩)
      (fun m hm => mpan_slotStep_inert c tid m k (by
        obtain ⟨a1, a2, a3⟩ := hm
        rw [a1, a2, a3]
        exact h))
      (List.range c.numModsPer)
      ({ n with inner := c.lfoResetMod (c.envResetMod n.inner), lfoAtten := 1, directMod := 0, envAtten := 1, edMod := 0, ldMod := 0 } : MainPanNode S)
      ⟨rfl, rfl, rfl⟩

end MainPanNode

namespace FineTuneNode
variable {S D : Type}

theorem ftune_slotStep_inert (c : Collab S D) (tid : Patch.FineTuneNode.TargetID)
    (n : FineTuneNode S) (k : Nat)
    (h : slotInert c tid.NONE (n.modNode.modtarget k) [tid.DIRECT, tid.ENVDEP_DIR, tid.LFODEP_DIR, tid.DEPTH_ATTEN, tid.LFO_DEPTH_ATTEN, tid.COARSE]
      (n.sourcePointers k) (n.depthPointers k)) :
    slotStep c tid n k = n := by
  obtain ⟨h2, h1⟩ := offerSlot_of_inert c tid.NONE (n.modNode.modtarget k) [tid.DIRECT, tid.ENVDEP_DIR, tid.LFODEP_DIR, tid.DEPTH_ATTEN, tid.LFO_DEPTH_ATTEN, tid.COARSE] k
    n.toNodeSupport h
  simp only [slotStep]
  split
  · rename_i s heq
    rw [heq] at h2
    simp only at h2
    subst h2
    rfl
  · rename_i d sv s heq
    rw [heq] at h2
    simp only at h2
    subst h2
    have hl := h1 d sv (by rw [heq])
    simp only [List.mem_cons, List.mem_singleton, not_or, List.not_mem_nil, not_false_eq_true,
      and_true] at hl
    simp only [hl, if_false]

/-- A slot that is inert can be left out of `calculateModulation()`: the node state after
the call is the state after the pass without that slot. -/
theorem ftune_calculateModulation_without (c : Collab S D) (tid : Patch.FineTuneNode.TargetID)
    (n : FineTuneNode S) (k : Nat)
    (h : slotInert c tid.NONE (n.modNode.modtarget k) [tid.DIRECT, tid.ENVDEP_DIR, tid.LFODEP_DIR, tid.DEPTH_ATTEN, tid.LFO_DEPTH_ATTEN, tid.COARSE]
      (n.sourcePointers k) (n.depthPointers k)) :
    n.calculateModulation c tid = n.calculateModulationWithout c tid k := by
  simp only [calculateModulation, calculateModulationWithout, resetModulation]
  split_ifs
  · rfl
  · exact foldl_filter_noop (slotStep c tid) k
      (fun m => m.sourcePointers k = n.sourcePointers k ∧ m.depthPointers k = n.depthPointers k
        ∧ m.modNode = n.modNode)
      (fun m i hm => by
        have hs := ftune_slotStep_sup c tid m i
        have hp := ftune_slotStep_patch c tid m i
        exact ⟨(congrArg (fun s => s.sourcePointers k) hs).trans hm.1,
          (congrArg (fun s => s.depthPointers k) hs).trans hm.2.1, hp.trans hm.2.2⟩)
      (fun m hm => ftune_slotStep_inert c tid m k (by
        obtain ⟨a1, a2, a3⟩ := hm
        rw [a1, a2, a3]
        exact h))
      (List.range c.numModsPer)
      ({ n with inner := c.lfoResetMod (c.envResetMod n.inner), lfoAtten := 1, directMod := 0, directCoarseMod := 0, envAtten := 1, edMod := 0, ldMod := 0 } : FineTuneNode S)
      ⟨rfl, rfl, rfl⟩

end FineTuneNode

namespace OutputNode
variable {S D : Type}

theorem outn_slotStep_inert (c : Collab S D) (tid : Patch.OutputNode.TargetID)
    (n : OutputNode S) (k : Nat)
    (h : slotInert c tid.NONE (n.outputNode.modtarget k) [tid.PAN, tid.DIRECT, tid.DEPTH_ATTEN, tid.LFO_DEPTH_ATTEN]
      (n.sourcePointers k) (n.depthPointers k)) :
    slotStep c tid n k = n := by
  obtain ⟨h2, h1⟩ := offerSlot_of_inert c tid.NONE (n.outputNode.modtarget k) [tid.PAN, tid.DIRECT, tid.DEPTH_ATTEN, tid.LFO_DEPTH_ATTEN] k
    n.toNodeSupport h
  simp only [slotStep]
  split
  · rename_i s heq
    rw [heq] at h2
    simp only at h2
    subst h2
    rfl
  · rename_i d sv s heq
    rw [heq] at h2
    simp only at h2
    subst h2
    have hl := h1 d sv (by rw [heq])
    simp only [List.mem_cons, List.mem_singleton, not_or, List.not_mem_nil, not_false_eq_true,
      and_true] at hl
    simp only [hl, if_false]

/-- A slot that is inert can be left out of `calculateModulation()`: the node state after
the call is the state after the pass without that slot. -/
theorem outn_calculateModulation_without (c : Collab S D) (tid : Patch.OutputNode.TargetID)
    (n : OutputNode S) (k : Nat)
    (h : slotInert c tid.NONE (n.outputNode.modtarget k) [tid.PAN, tid.DIRECT, tid.DEPTH_ATTEN, tid.LFO_DEPTH_ATTEN]
      (n.sourcePointers k) (n.depthPointers k)) :
    n.calculateModulation c tid = n.calculateModulationWithout c tid k := by
  simp only [calculateModulation, calculateModulationWithout, resetModulation]
  split_ifs
  · rfl
  · exact foldl_filter_noop (slotStep c tid) k
      (fun m => m.sourcePointers k = n.sourcePointers k ∧ m.depthPointers k = n.depthPointers k
        ∧ m.outputNode = n.outputNode)
      (fun m i hm => by
        have hs := outn_slotStep_sup c tid m i
        have hp := outn_slotStep_patch c tid m i
        exact ⟨(congrArg (fun s => s.sourcePointers k) hs).trans hm.1,
          (congrArg (fun s => s.depthPointers k) hs).trans hm.2.1, hp.trans hm.2.2⟩)
      (fun m hm => outn_slotStep_inert c tid m k (by
        obtain ⟨a1, a2, a3⟩ := hm
        rw [a1, a2, a3]
        exact h))
      (List.range c.numModsPer)
      ({ n with inner := c.lfoResetMod (c.envResetMod n.inner), levMod := 0, panMod := 0, depthAtten := 1, lfoAtten := 1 } : OutputNode S)
      ⟨rfl, rfl, rfl⟩

end OutputNode

namespace MixerNode
variable {S D : Type}

/-- On an active node that is not muted, `renderBlock()` leaves in `output` the panned
`vSum`. -/
theorem mixer_renderBlock_output (c : Collab S D) (tid : Patch.MixerNode.TargetID)
    (vv : VoiceValues) (n : MixerNode S D) (src : OpSource) (ha : n.active = true)
    (hm : n.mixerNode.isMutedDueToSoloAway = false) :
    (n.renderBlock c tid vv src).output =
      panStage c vv (lfoStage c.blockSize (dcStage c (n.blockState c tid) src).1) src
        ((lfoStage c.blockSize (dcStage c (n.blockState c tid) src).1).vSum
          (dcStage c (n.blockState c tid) src).2) := by
  have h : (lfoStage c.blockSize (dcStage c (n.blockState c tid) src).1).mixerNode
      = n.mixerNode := by
    rw [(mixer_lfoStage_frame _ _).1, (mixer_dcStage_frame _ _ _).1,
      (mixer_blockState_frame _ _ _).1]
  simp only [renderBlock, ha, Bool.not_true, Bool.false_eq_true, if_false, h, hm]

theorem mixer_dcStage_snd (c : Collab S D) (b : MixerNode S D) (src : OpSource) :
    (dcStage c b src).2 = inputSignal c b src := by
  unfold dcStage inputSignal
  split_ifs <;> rfl

theorem mixer_lfoStage_lfo (c : Collab S D) (b : MixerNode S D) (src : OpSource) (bs : Nat) :
    (lfoStage bs (dcStage c b src).1).lfo.outputBlock = lfoSignal bs b := by
  unfold lfoStage lfoSignal dcStage
  split_ifs <;> rfl

/-- The buffer `vSum` of `renderBlock()` is `amp[j] * in[j]`. -/
theorem mixer_vSum_eq (c : Collab S D) (b : MixerNode S D) (src : OpSource) (j : Nat) :
    (lfoStage c.blockSize (dcStage c b src).1).vSum (dcStage c b src).2 j =
      ampSignal c.blockSize b j * inputSignal c b src j := by
  obtain ⟨d1, -, d3, d4, d5, d6, d7, d8⟩ := mixer_dcStage_frame c b src
  obtain ⟨l1, -, l3, l4, l5, l6, l7, l8, l9⟩ :=
    mixer_lfoStage_frame c.blockSize (dcStage c b src).1
  have e1 : (dcStage c b src).1.env = b.env := by
    rw [show (dcStage c b src).1.env = (dcStage c b src).1.toNodeSupport.env from rfl, d3]
  have e2 : (dcStage c b src).1.envIsMult = b.envIsMult := by
    rw [show (dcStage c b src).1.envIsMult = (dcStage c b src).1.toNodeSupport.envIsMult
      from rfl, d3]
  simp only [vSum, ampSignal, l1, l3, l4, l5, l7, l8, d1, d4, d6, d7, e1, e2,
    mixer_lfoStage_lfo, mixer_dcStage_snd]
  split_ifs <;> rfl

/-- The value `pn` of `renderBlock()` is the clamped sum of the pan contributions. -/
theorem mixer_pn_eq (c : Collab S D) (vv : VoiceValues) (b : MixerNode S D) (src : OpSource) :
    (lfoStage c.blockSize (dcStage c b src).1).pn c.blockSize vv src =
      panValue c.blockSize vv b src := by
  obtain ⟨d1, -, d3, d4, d5, d6, d7, d8⟩ := mixer_dcStage_frame c b src
  obtain ⟨l1, -, l3, l4, l5, l6, l7, l8, l9⟩ :=
    mixer_lfoStage_frame c.blockSize (dcStage c b src).1
  simp only [pn, panValue, l1, l6, l9, d1, d5, d8, mixer_lfoStage_lfo]

end MixerNode

namespace MixerNode

theorem mixer_plain_signals (n : MixerNode Unit Unit) (h : n.toNodeSupport = Demo.plainSupport)
    (hp : n.mixerNode.level = 1 ∧ n.mixerNode.envToLevel = 0 ∧ n.mixerNode.lfoToLevel = 0 ∧
      n.mixerNode.lfoToPan = 0)
    (hd : n.doBlock = 0) (j : Nat) :
    ampSignal Demo.collab.blockSize (n.blockState Demo.collab Demo.mixerIds) j = 1 ∧
      inputSignal Demo.collab (n.blockState Demo.collab Demo.mixerIds) Demo.op j = 1 / 2 ∧
      panValue Demo.collab.blockSize Demo.voice (n.blockState Demo.collab Demo.mixerIds) Demo.op
        = clamp n.mixerNode.pan (-1) 1 := by
  obtain ⟨sup, out, mn, a, db, dc, lm, da, la, lpa, pm⟩ := n
  obtain ⟨p1, p2, p3, p4⟩ := hp
  simp only at h hd p1 p2 p3 p4
  subst h hd
  simp [ampSignal, inputSignal, panValue, lfoSignal, blockState, calculateModulation,
    resetModulation, Demo.plainSupport, Demo.collab, Demo.op, Demo.voice, p1, p2, p3, p4,
    clamp]

end MixerNode

namespace MixerNode
variable {S D : Type}

/-- The state `attack()` leaves on a mixer node whose `active` parameter is above 0.5: the
member `doBlock` is set for the listed waveforms and keeps its previous value otherwise. -/
theorem mixer_attack_of_active (c : Collab S D) (tid : Patch.MixerNode.TargetID)
    (wfs : SinTable.WaveForm) (n : MixerNode S D) (src : OpSource)
    (h : n.mixerNode.active > 1 / 2) :
    (n.attack c tid wfs src).active = true ∧
      (n.attack c tid wfs src).mixerNode = n.mixerNode ∧
      (n.attack c tid wfs src).doBlock =
        (if src.waveForm = wfs.TX3 ∨ src.waveForm = wfs.TX4 ∨ src.waveForm = wfs.TX7 ∨
            src.waveForm = wfs.TX8 ∨ src.waveForm = wfs.SPIKY_TX4 ∨
            src.waveForm = wfs.SPIKY_TX8 then 1 else n.doBlock) := by
  have hd : decide (n.mixerNode.active > 1 / 2) = true := decide_eq_true h
  unfold attack
  simp only [resetModulation, hd, if_true]
  split_ifs <;> refine ⟨?_, ?_, ?_⟩ <;>
    first
    | rfl
    | simp only [mixer_calculateModulation_active, mixer_calculateModulation_mixerNode,
        mixer_calculateModulation_doBlock]

/-- When the signal `in` is zero at sample `j` of the block, so is `output[0][j]`. -/
theorem mixer_renderBlock_of_input_zero (c : Collab S D) (tid : Patch.MixerNode.TargetID)
    (vv : VoiceValues) (n : MixerNode S D) (src : OpSource) (ha : n.active = true)
    (j : Nat) (hj : j < c.blockSize) (h0 : inputSignal c (n.blockState c tid) src j = 0) :
    (n.renderBlock c tid vv src).output 0 j = 0 := by
  cases hm : n.mixerNode.isMutedDueToSoloAway with
  | true => rw [mixer_renderBlock_muted c tid vv n src ha hm]
  | false =>
    rw [mixer_renderBlock_output c tid vv n src ha hm]
    have hvs := mixer_vSum_eq c (n.blockState c tid) src j
    rw [h0, mul_zero] at hvs
    simp only [panStage]
    split_ifs <;> simp [mech.mul_block_const, mech.copy_from_to, hj, hvs]

end MixerNode

namespace MainPanNode
variable {S D : Type}

/-- The source-pointer scan of `MainPanNode::attack`: `active` becomes true exactly when it was
true or some scanned entry is not null; nothing else changes. -/
theorem mpan_scan (l : List Nat) (m : MainPanNode S) :
    l.foldl (fun m i => if (m.sourcePointers i).isSome then { m with active := true } else m) m
      = { m with active := m.active || l.any (fun i => (m.sourcePointers i).isSome) } := by
  induction l generalizing m with
  | nil => simp
  | cons i l ih =>
    rw [List.foldl_cons, ih]
    by_cases h : (m.sourcePointers i).isSome = true
    · simp [h]
    · simp [h]

/-- The flag `active` and the parameters after `MainPanNode::attack`. -/
theorem mpan_attack_active (c : Collab S D) (tid : Patch.MainPanNode.TargetID) (n : MainPanNode S) :
    (n.attack c tid).active =
        (if |n.modNode.lfoDepth| < 1 / 100000000 ∧ |n.modNode.envDepth| < 1 / 100000000 then
          (List.range c.numModsPer).any
            (fun i => ((boundAtAttack c n.toNodeSupport).sourcePointers i).isSome)
        else true) ∧
      (n.attack c tid).modNode = n.modNode ∧ (n.attack c tid).level = 0 := by
  unfold attack
  simp only [resetModulation, mpan_scan, boundAtAttack]
  split_ifs <;>
    simp_all [mpan_calculateModulation_active, mpan_calculateModulation_modNode, mpan_calculateModulation_level]

/-- On a node whose flag `active` is false, `modProcess()` returns at once. -/
theorem mpan_modProcess_of_inactive (c : Collab S D) (tid : Patch.MainPanNode.TargetID) (n : MainPanNode S)
    (h : n.active = false) : n.modProcess c tid = n := by
  simp [modProcess, h]

/-- Any number of `modProcess()` calls leave an inactive node as it is. -/
theorem mpan_modProcess_iterate_of_inactive (c : Collab S D) (tid : Patch.MainPanNode.TargetID) (n : MainPanNode S)
    (h : n.active = false) (k : Nat) : (modProcess c tid)^[k] n = n := by
  induction k with
  | zero => rfl
  | succ k ih => rw [Function.iterate_succ_apply', ih, mpan_modProcess_of_inactive c tid n h]

/-- The parameters are left alone by `blockState`. -/
theorem mpan_blockState_modNode (c : Collab S D) (tid : Patch.MainPanNode.TargetID) (n : MainPanNode S) :
    (n.blockState c tid).modNode = n.modNode := by
  simp only [blockState, mpan_calculateModulation_modNode]

/-- The values `modProcess()` stores on an active node, in terms of `blockState`. -/
theorem mpan_modProcess_of_active (c : Collab S D) (tid : Patch.MainPanNode.TargetID) (n : MainPanNode S)
    (h : n.active = true) :
    (n.modProcess c tid).level =
        (n.blockState c tid).directMod
          + (n.blockState c tid).env.outBlock0
            * (n.modNode.envDepth + (n.blockState c tid).edMod) * (n.blockState c tid).envAtten
          + lfoLast c.blockSize (n.blockState c tid)
            * (n.modNode.lfoDepth + (n.blockState c tid).ldMod)
            * (n.blockState c tid).lfoAtten := by
  simp only [modProcess, h, Bool.not_true, Bool.false_eq_true, if_false, blockState, lfoLast,
    mpan_calculateModulation_modNode]

end MainPanNode

namespace FineTuneNode
variable {S D : Type}

/-- The source-pointer scan of `FineTuneNode::attack`: `active` becomes true exactly when it was
true or some scanned entry is not null; nothing else changes. -/
theorem ftune_scan (l : List Nat) (m : FineTuneNode S) :
    l.foldl (fun m i => if (m.sourcePointers i).isSome then { m with active := true } else m) m
      = { m with active := m.active || l.any (fun i => (m.sourcePointers i).isSome) } := by
  induction l generalizing m with
  | nil => simp
  | cons i l ih =>
    rw [List.foldl_cons, ih]
    by_cases h : (m.sourcePointers i).isSome = true
    · simp [h]
    · simp [h]

/-- The flag `active` and the parameters after `FineTuneNode::attack`. -/
theorem ftune_attack_active (c : Collab S D) (tid : Patch.FineTuneNode.TargetID) (n : FineTuneNode S) :
    (n.attack c tid).active =
        (if |n.modNode.lfoDepth| < 1 / 100000000 ∧ |n.modNode.envDepth| < 1 / 100000000
        ∧ |n.modNode.lfoCoarseDepth| < 1 / 100000000
        ∧ |n.modNode.envCoarseDepth| < 1 / 100000000 then
          (List.range c.numModsPer).any
            (fun i => ((boundAtAttack c n.toNodeSupport).sourcePointers i).isSome)
        else true) ∧
      (n.attack c tid).modNode = n.modNode ∧ (n.attack c tid).level = 0 ∧ (n.attack c tid).coarseLevel = 0 := by
  unfold attack
  simp only [resetModulation, ftune_scan, boundAtAttack]
  split_ifs <;>
    simp_all [ftune_calculateModulation_active, ftune_calculateModulation_modNode, ftune_calculateModulation_level, ftune_calculateModulation_coarseLevel]

/-- On a node whose flag `active` is false, `modProcess()` returns at once. -/
theorem ftune_modProcess_of_inactive (c : Collab S D) (tid : Patch.FineTuneNode.TargetID) (n : FineTuneNode S)
    (h : n.active = false) : n.modProcess c tid = n := by
  simp [modProcess, h]

/-- Any number of `modProcess()` calls leave an inactive node as it is. -/
theorem ftune_modProcess_iterate_of_inactive (c : Collab S D) (tid : Patch.FineTuneNode.TargetID) (n : FineTuneNode S)
    (h : n.active = false) (k : Nat) : (modProcess c tid)^[k] n = n := by
  induction k with
  | zero => rfl
  | succ k ih => rw [Function.iterate_succ_apply', ih, ftune_modProcess_of_inactive c tid n h]

/-- The parameters are left alone by `blockState`. -/
theorem ftune_blockState_modNode (c : Collab S D) (tid : Patch.FineTuneNode.TargetID) (n : FineTuneNode S) :
    (n.blockState c tid).modNode = n.modNode := by
  simp only [blockState, ftune_calculateModulation_modNode]

/-- The values `modProcess()` stores on an active node, in terms of `blockState`. -/
theorem ftune_modProcess_of_active (c : Collab S D) (tid : Patch.FineTuneNode.TargetID) (n : FineTuneNode S)
    (h : n.active = true) :
    (n.modProcess c tid).level =
        (n.blockState c tid).directMod
          + (n.blockState c tid).env.outBlock0
            * (n.modNode.envDepth + (n.blockState c tid).edMod) * (n.blockState c tid).envAtten
          + lfoLast c.blockSize (n.blockState c tid)
            * (n.modNode.lfoDepth + (n.blockState c tid).ldMod)
            * (n.blockState c tid).lfoAtten ∧
      (n.modProcess c tid).coarseLevel =
        ((n.blockState c tid).directCoarseMod
          + (n.blockState c tid).env.outBlock0
            * (n.modNode.envCoarseDepth + (n.blockState c tid).edMod)
            * (n.blockState c tid).envAtten
          + lfoLast c.blockSize (n.blockState c tid)
            * (n.modNode.lfoCoarseDepth + (n.blockState c tid).ldMod)
            * (n.blockState c tid).lfoAtten) * 24 := by
  simp only [modProcess, h, Bool.not_true, Bool.false_eq_true, if_false, blockState, lfoLast,
    ftune_calculateModulation_modNode]
  exact ⟨trivial, trivial⟩

end FineTuneNode

namespace OutputNode
variable {S D : Type}

/-- The accumulation loop reads only the buffers of the mixers whose operator is flagged. -/
theorem sumMixers_congr (bs : Nat) (arr1 arr2 : List (MixerNode S D × OpSource))
    (h : List.Forall₂ (fun a b => a.2.operatorOutputsToMain = b.2.operatorOutputsToMain ∧
      (a.2.operatorOutputsToMain = true → a.1.output = b.1.output)) arr1 arr2)
    (out : Nat → Block) : sumMixers bs arr1 out = sumMixers bs arr2 out := by
  induction arr1 generalizing arr2 out with
  | nil => cases h; rfl
  | cons a l1 ih =>
    cases h with
    | cons hab hrest =>
      rename_i b l2
      obtain ⟨hf, ho⟩ := hab
      have ih2 := ih l2 hrest
      simp only [sumMixers, List.foldl_cons] at ih2 ⊢
      by_cases ha : a.2.operatorOutputsToMain = true
      · have hb : b.2.operatorOutputsToMain = true := hf ▸ ha
        simp only [ha, hb, if_true, ← ho ha]
        exact ih2 _
      · have hb : ¬ b.2.operatorOutputsToMain = true := hf ▸ ha
        simp only [ha, hb, if_false]
        exact ih2 _

/-- The members `blockState` leaves as they are, and the buffer it builds. -/
theorem outn_blockState_frame (c : Collab S D) (tid : Patch.OutputNode.TargetID)
    (ptid : Patch.MainPanNode.TargetID) (ftid : Patch.FineTuneNode.TargetID)
    (fromArr : List (MixerNode S D × OpSource)) (n : OutputNode S) :
    (n.blockState c tid ptid ftid fromArr).outputNode = n.outputNode ∧
      (n.blockState c tid ptid ftid fromArr).output = sumMixers c.blockSize fromArr n.output := by
  simp only [blockState, outn_calculateModulation_outputNode, outn_calculateModulation_output]
  exact ⟨trivial, trivial⟩

/-- The node state `blockState` reaches depends on the mixer array through `sumMixers`
only. -/
theorem outn_blockState_congr (c : Collab S D) (tid : Patch.OutputNode.TargetID)
    (ptid : Patch.MainPanNode.TargetID) (ftid : Patch.FineTuneNode.TargetID)
    (arr1 arr2 : List (MixerNode S D × OpSource)) (n : OutputNode S)
    (h : ∀ out, sumMixers c.blockSize arr1 out = sumMixers c.blockSize arr2 out) :
    n.blockState c tid ptid ftid arr1 = n.blockState c tid ptid ftid arr2 := by
  simp only [blockState, h]

/-- The members of the node after `renderBlock`, in terms of the state after `blockState`. -/
theorem outn_renderBlock_finalEnvLevel (c : Collab S D) (tid : Patch.OutputNode.TargetID)
    (ptid : Patch.MainPanNode.TargetID) (ftid : Patch.FineTuneNode.TargetID)
    (vv : VoiceValues) (fromArr : List (MixerNode S D × OpSource)) (n : OutputNode S) :
    (n.renderBlock c tid ptid ftid vv fromArr).finalEnvLevel =
      (gainState c.blockSize vv (n.blockState c tid ptid ftid fromArr)).finalEnvLevel := by
  simp only [renderBlock]
  split_ifs <;> rfl

/-- Sample `i` of the gain block built by `gainState`. -/
theorem outn_gainState_finalEnvLevel (bs : Nat) (vv : VoiceValues) (b : OutputNode S)
    (i : Nat) (hi : i < bs) :
    (gainState bs vv b).finalEnvLevel i =
      levelGain vv b * (b.depthAtten * b.env.outputCache i
        + b.outputNode.lfoDepth * b.lfoAtten * lfoSignal bs b i) := by
  have hpow : ∀ v L : ℚ, v * L * L * L = v * L ^ 3 := fun v L => by ring
  cases he : b.lfoIsEnveloped
  · simp only [gainState, levelGain, lfoSignal, mech.scale_by_const, mech.accumulate_from_to,
      mech.mul_block_const, mech.copy_from_to, mech.scale_by, hi, he, hpow, if_true,
      Bool.false_eq_true, if_false]
    ring
  · simp only [gainState, levelGain, lfoSignal, mech.scale_by_const, mech.accumulate_from_to,
      mech.mul_block_const, mech.copy_from_to, mech.scale_by, hi, he, hpow, if_true]
    ring

/-- The gain lies between 0 and 0.15. -/
theorem outn_levelGain_mem (vv : VoiceValues) (b : OutputNode S) :
    0 ≤ levelGain vv b ∧ levelGain vv b ≤ 15 / 100 := by
  obtain ⟨h0, h1⟩ := clamp_mem ((1 - b.outputNode.velSensitivity * (1 - vv.velocityLag))
    * clamp (b.outputNode.level + b.levMod) 0 1 ^ 3) 0 1 (by norm_num)
  unfold levelGain
  constructor
  · positivity
  · linarith

/-- The output rows of `renderBlock`, in terms of the state after `blockState`. -/
theorem outn_renderBlock_output (c : Collab S D) (tid : Patch.OutputNode.TargetID)
    (ptid : Patch.MainPanNode.TargetID) (ftid : Patch.FineTuneNode.TargetID)
    (vv : VoiceValues) (fromArr : List (MixerNode S D × OpSource)) (n : OutputNode S)
    (ch i : Nat) (hch : ch < 2) (hi : i < c.blockSize) :
    (n.renderBlock c tid ptid ftid vv fromArr).output ch i =
      gainPan c vv (n.blockState c tid ptid ftid fromArr)
        (n.renderBlock c tid ptid ftid vv fromArr).finalEnvLevel ch i := by
  rw [outn_renderBlock_finalEnvLevel]
  have h01 : ch = 0 ∨ ch = 1 := by omega
  simp only [renderBlock, gainPan, panValue]
  have hg : (gainState c.blockSize vv (n.blockState c tid ptid ftid fromArr)).panMod
        = (n.blockState c tid ptid ftid fromArr).panMod ∧
      (gainState c.blockSize vv (n.blockState c tid ptid ftid fromArr)).outputNode
        = (n.blockState c tid ptid ftid fromArr).outputNode ∧
      (gainState c.blockSize vv (n.blockState c tid ptid ftid fromArr)).panModNode
        = (n.blockState c tid ptid ftid fromArr).panModNode ∧
      (gainState c.blockSize vv (n.blockState c tid ptid ftid fromArr)).output
        = (n.blockState c tid ptid ftid fromArr).output := ⟨rfl, rfl, rfl, rfl⟩
  obtain ⟨g1, g2, g3, g4⟩ := hg
  rw [g1, g2, g3, g4]
  rcases h01 with h | h <;> subst h <;> split_ifs <;>
    simp_all [mech.scale_by]

end OutputNode

section resolution
variable {S D : Type}

theorem foldl_sim {N : Type} (R : N → N → Prop) (step : N → Nat → N)
    (h : ∀ a b i, R a b → R (step a i) (step b i)) (is : List Nat) (a b : N) (hab : R a b) :
    R (is.foldl step a) (is.foldl step b) := by
  induction is generalizing a b with
  | nil => exact hab
  | cons i is ih => exact ih _ _ (h a b i hab)

/-- When the hooks decide by target, the value `offerSlot` hands to the node-local switch
does not depend on the collaborators' state. -/
theorem offerSlot_fst_inner (c : Collab S D) (hh : hooksDecideByTarget c) (noneId t : Int)
    (i : Nat) (sup : NodeSupport S) (s : S) :
    (offerSlot c noneId t i { sup with inner := s }).1 = (offerSlot c noneId t i sup).1 := by
  obtain ⟨hE, hL⟩ := hh
  unfold offerSlot
  cases hs : sup.sourcePointers i with
  | none => simp [hs]
  | some sv =>
    by_cases ht : t = noneId
    · simp [hs, ht]
    · cases hd : sup.depthPointers i with
      | none => simp [hs, hd, ht]
      | some d =>
        simp only [hs, hd, ht, if_false]
        rw [hE t d sv s sup.inner]
        cases he : (c.envHandleModulationValue t d sv sup.inner).1 with
        | true => simp
        | false =>
          simp only [Bool.false_eq_true, if_false]
          rw [hL t d sv (c.envHandleModulationValue t d sv s).2
            (c.envHandleModulationValue t d sv sup.inner).2]
          cases hl : (c.lfoHandleModulationValue t d sv
            (c.envHandleModulationValue t d sv sup.inner).2).1 <;> simp

/-- An evaluated slot that the envelope hook claims: nothing reaches the node-local switch,
the state is the one the envelope hook leaves, and the LFO hook plays no part. -/
theorem offerSlot_env_claims (c : Collab S D) (noneId t : Int) (i : Nat) (sup : NodeSupport S)
    (d sv : ℚ) (h : slotLive noneId t sup i d sv)
    (he : (c.envHandleModulationValue t d sv sup.inner).1 = true)
    (g : Int → ℚ → ℚ → S → Bool × S) :
    offerSlot { c with lfoHandleModulationValue := g } noneId t i sup
      = (none, (c.envHandleModulationValue t d sv sup.inner).2) := by
  obtain ⟨h1, h2, h3⟩ := h
  simp [offerSlot, h1, h2, h3, he]

/-- An evaluated slot that the envelope hook declines and the LFO hook claims. -/
theorem offerSlot_lfo_claims (c : Collab S D) (noneId t : Int) (i : Nat) (sup : NodeSupport S)
    (d sv : ℚ) (h : slotLive noneId t sup i d sv)
    (he : (c.envHandleModulationValue t d sv sup.inner).1 = false)
    (hl : (c.lfoHandleModulationValue t d sv
      (c.envHandleModulationValue t d sv sup.inner).2).1 = true) :
    offerSlot c noneId t i sup
      = (none, (c.lfoHandleModulationValue t d sv
          (c.envHandleModulationValue t d sv sup.inner).2).2) := by
  obtain ⟨h1, h2, h3⟩ := h
  simp [offerSlot, h1, h2, h3, he, hl]

/-- An evaluated slot that both hooks decline reaches the node-local switch. -/
theorem offerSlot_declined (c : Collab S D) (noneId t : Int) (i : Nat) (sup : NodeSupport S)
    (d sv : ℚ) (h : slotLive noneId t sup i d sv)
    (he : (c.envHandleModulationValue t d sv sup.inner).1 = false)
    (hl : (c.lfoHandleModulationValue t d sv
      (c.envHandleModulationValue t d sv sup.inner).2).1 = false) :
    offerSlot c noneId t i sup
      = (some (d, sv), (c.lfoHandleModulationValue t d sv
          (c.envHandleModulationValue t d sv sup.inner).2).2) := by
  obtain ⟨h1, h2, h3⟩ := h
  simp [offerSlot, h1, h2, h3, he, hl]

end resolution

namespace MatrixNodeFrom
variable {S D : Type}

/-- When the hooks decide by target, one slot iteration acts on the node-local members in the
same way whatever the collaborators' state is. -/
theorem mfrom_slotStep_setInner (c : Collab S D) (tid : Patch.MatrixNode.TargetID) (stid : Patch.SelfNode.TargetID) (hh : hooksDecideByTarget c)
    (m : MatrixNodeFrom S) (s : S) (i : Nat) :
    ∃ s', slotStep c tid stid { m with inner := s } i = { slotStep c tid stid m i with inner := s' } := by
  have key := offerSlot_fst_inner c hh stid.NONE (m.matrixNode.modtarget i) i m.toNodeSupport s
  simp only [slotStep]
  rcases h1 : offerSlot c stid.NONE (m.matrixNode.modtarget i) i { m.toNodeSupport with inner := s }
    with ⟨o1, s1⟩
  rcases h2 : offerSlot c stid.NONE (m.matrixNode.modtarget i) i m.toNodeSupport with ⟨o2, s2⟩
  rw [h1, h2] at key
  simp only at key
  subst key
  cases o1 with
  | none => exact ⟨_, rfl⟩
  | some q =>
    obtain ⟨d, sv⟩ := q
    simp only
    split_ifs <;> exact ⟨_, rfl⟩

/-- The function `calculateModulation()` overwrites the accumulators before the slots are
evaluated: the prior accumulator values do not reach the result. -/
theorem mfrom_calculateModulation_reset (c : Collab S D) (tid : Patch.MatrixNode.TargetID) (stid : Patch.SelfNode.TargetID) (n : MatrixNodeFrom S) (x0 x1 x2 : ℚ) :
    ({ n with applyMod := x0, depthAtten := x1, lfoAtten := x2 } : MatrixNodeFrom S).calculateModulation c tid stid
      = n.calculateModulation c tid stid := by
  simp only [calculateModulation, resetModulation]

/-- When the hooks decide by target, the node-local result of `calculateModulation()` does
not depend on the prior accumulators nor on the collaborators' prior state. -/
theorem mfrom_calculateModulation_setState (c : Collab S D) (tid : Patch.MatrixNode.TargetID) (stid : Patch.SelfNode.TargetID) (hh : hooksDecideByTarget c)
    (n : MatrixNodeFrom S) (s : S) (x0 x1 x2 : ℚ) :
    ∃ s', ({ n with inner := s, applyMod := x0, depthAtten := x1, lfoAtten := x2 } : MatrixNodeFrom S).calculateModulation c tid stid
      = { n.calculateModulation c tid stid with inner := s' } := by
  simp only [calculateModulation, resetModulation]
  split_ifs
  · exact ⟨_, rfl⟩
  · exact foldl_sim (fun (a b : MatrixNodeFrom S) => ∃ s', b = { a with inner := s' }) (slotStep c tid stid)
      (by
        rintro a b i ⟨t, rfl⟩
        exact mfrom_slotStep_setInner c tid stid hh a t i)
      (List.range c.numModsPer)
      ({ n with inner := c.lfoResetMod (c.envResetMod n.inner), applyMod := 0, depthAtten := 1, lfoAtten := 1 } : MatrixNodeFrom S)
      ({ n with inner := c.lfoResetMod (c.envResetMod s), applyMod := 0, depthAtten := 1, lfoAtten := 1 } : MatrixNodeFrom S)
      ⟨_, rfl⟩

/-- When the hooks decide by target, a second `calculateModulation()` in a row leaves the
node-local members as the first one left them. -/
theorem mfrom_calculateModulation_twice (c : Collab S D) (tid : Patch.MatrixNode.TargetID) (stid : Patch.SelfNode.TargetID) (hh : hooksDecideByTarget c)
    (n : MatrixNodeFrom S) :
    ∃ s', (n.calculateModulation c tid stid).calculateModulation c tid stid
      = { n.calculateModulation c tid stid with inner := s' } := by
  obtain ⟨s, x0, x1, x2, h⟩ := mfrom_calculateModulation_shape c tid stid n
  obtain ⟨s', h'⟩ := mfrom_calculateModulation_setState c tid stid hh n s x0 x1 x2
  exact ⟨s', by rw [h, h', ← h]⟩

/-- Without bound sources `calculateModulation()` leaves every accumulator neutral. -/
theorem mfrom_calculateModulation_neutral (c : Collab S D) (tid : Patch.MatrixNode.TargetID) (stid : Patch.SelfNode.TargetID) (n : MatrixNodeFrom S)
    (h : n.anySources = false) :
    (n.calculateModulation c tid stid).applyMod = 0 ∧
      (n.calculateModulation c tid stid).depthAtten = 1 ∧
      (n.calculateModulation c tid stid).lfoAtten = 1 := by
  simp [calculateModulation, resetModulation, h]

/-- An evaluated slot claimed by the envelope hook: the node is unchanged apart from the
state the envelope hook leaves, whatever the LFO hook is. -/
theorem mfrom_slotStep_env_claims (c : Collab S D) (tid : Patch.MatrixNode.TargetID) (stid : Patch.SelfNode.TargetID) (n : MatrixNodeFrom S) (i : Nat) (d sv : ℚ)
    (h : slotLive stid.NONE (n.matrixNode.modtarget i) n.toNodeSupport i d sv)
    (he : (c.envHandleModulationValue (n.matrixNode.modtarget i) d sv n.inner).1 = true)
    (g : Int → ℚ → ℚ → S → Bool × S) :
    slotStep { c with lfoHandleModulationValue := g } tid stid n i
      = { n with inner := (c.envHandleModulationValue (n.matrixNode.modtarget i) d sv n.inner).2 } := by
  simp only [slotStep, offerSlot_env_claims c stid.NONE (n.matrixNode.modtarget i) i n.toNodeSupport d sv
    h he g]

/-- An evaluated slot declined by the envelope hook and claimed by the LFO hook: the node
is unchanged apart from the state the hooks leave. -/
theorem mfrom_slotStep_lfo_claims (c : Collab S D) (tid : Patch.MatrixNode.TargetID) (stid : Patch.SelfNode.TargetID) (n : MatrixNodeFrom S) (i : Nat) (d sv : ℚ)
    (h : slotLive stid.NONE (n.matrixNode.modtarget i) n.toNodeSupport i d sv)
    (he : (c.envHandleModulationValue (n.matrixNode.modtarget i) d sv n.inner).1 = false)
    (hl : (c.lfoHandleModulationValue (n.matrixNode.modtarget i) d sv
        (c.envHandleModulationValue (n.matrixNode.modtarget i) d sv n.inner).2).1 = true) :
    slotStep c tid stid n i
      = { n with inner := (c.lfoHandleModulationValue (n.matrixNode.modtarget i) d sv
        (c.envHandleModulationValue (n.matrixNode.modtarget i) d sv n.inner).2).2 } := by
  simp only [slotStep, offerSlot_lfo_claims c stid.NONE (n.matrixNode.modtarget i) i n.toNodeSupport d sv
    h he hl]

/-- An evaluated slot with the target `DEPTH_ATTEN` that both hooks decline: the node-local
switch multiplies the attenuation factor into `depthAtten`. -/
theorem mfrom_slotStep_declined (c : Collab S D) (tid : Patch.MatrixNode.TargetID) (stid : Patch.SelfNode.TargetID) (n : MatrixNodeFrom S) (i : Nat) (d sv : ℚ)
    (h : slotLive stid.NONE (n.matrixNode.modtarget i) n.toNodeSupport i d sv)
    (he : (c.envHandleModulationValue (n.matrixNode.modtarget i) d sv n.inner).1 = false)
    (hl : (c.lfoHandleModulationValue (n.matrixNode.modtarget i) d sv
        (c.envHandleModulationValue (n.matrixNode.modtarget i) d sv n.inner).2).1 = false)
    (ht : n.matrixNode.modtarget i = tid.DEPTH_ATTEN) :
    slotStep c tid stid n i
      = { n with
          inner := (c.lfoHandleModulationValue (n.matrixNode.modtarget i) d sv
        (c.envHandleModulationValue (n.matrixNode.modtarget i) d sv n.inner).2).2
          depthAtten := n.depthAtten * attenFactor d sv } := by
  have hd := tid.distinct
  simp only [List.nodup_cons, List.mem_cons, List.mem_singleton, not_or] at hd
  simp only [slotStep, offerSlot_declined c stid.NONE (n.matrixNode.modtarget i) i n.toNodeSupport d sv
    h he hl]
  rw [ht]
  split_ifs <;> simp_all

end MatrixNodeFrom

namespace MatrixNodeSelf
variable {S D : Type}

/-- When the hooks decide by target, one slot iteration acts on the node-local members in the
same way whatever the collaborators' state is. -/
theorem mself_slotStep_setInner (c : Collab S D) (tid : Patch.SelfNode.TargetID) (hh : hooksDecideByTarget c)
    (m : MatrixNodeSelf S) (s : S) (i : Nat) :
    ∃ s', slotStep c tid { m with inner := s } i = { slotStep c tid m i with inner := s' } := by
  have key := offerSlot_fst_inner c hh tid.NONE (m.selfNode.modtarget i) i m.toNodeSupport s
  simp only [slotStep]
  rcases h1 : offerSlot c tid.NONE (m.selfNode.modtarget i) i { m.toNodeSupport with inner := s }
    with ⟨o1, s1⟩
  rcases h2 : offerSlot c tid.NONE (m.selfNode.modtarget i) i m.toNodeSupport with ⟨o2, s2⟩
  rw [h1, h2] at key
  simp only at key
  subst key
  cases o1 with
  | none => exact ⟨_, rfl⟩
  | some q =>
    obtain ⟨d, sv⟩ := q
    simp only
    split_ifs <;> exact ⟨_, rfl⟩

/-- The function `calculateModulation()` overwrites the accumulators before the slots are
evaluated: the prior accumulator values do not reach the result. -/
theorem mself_calculateModulation_reset (c : Collab S D) (tid : Patch.SelfNode.TargetID) (n : MatrixNodeSelf S) (x0 x1 x2 : ℚ) :
    ({ n with fbMod := x0, depthAtten := x1, lfoAtten := x2 } : MatrixNodeSelf S).calculateModulation c tid
      = n.calculateModulation c tid := by
  simp only [calculateModulation, resetModulation]

/-- When the hooks decide by target, the node-local result of `calculateModulation()` does
not depend on the prior accumulators nor on the collaborators' prior state. -/
theorem mself_calculateModulation_setState (c : Collab S D) (tid : Patch.SelfNode.TargetID) (hh : hooksDecideByTarget c)
    (n : MatrixNodeSelf S) (s : S) (x0 x1 x2 : ℚ) :
    ∃ s', ({ n with inner := s, fbMod := x0, depthAtten := x1, lfoAtten := x2 } : MatrixNodeSelf S).calculateModulation c tid
      = { n.calculateModulation c tid with inner := s' } := by
  simp only [calculateModulation, resetModulation]
  split_ifs
  · exact ⟨_, rfl⟩
  · exact foldl_sim (fun (a b : MatrixNodeSelf S) => ∃ s', b = { a with inner := s' }) (slotStep c tid)
      (by
        rintro a b i ⟨t, rfl⟩
        exact mself_slotStep_setInner c tid hh a t i)
      (List.range c.numModsPer)
      ({ n with inner := c.lfoResetMod (c.envResetMod n.inner), fbMod := 0, depthAtten := 1, lfoAtten := 1 } : MatrixNodeSelf S)
      ({ n with inner := c.lfoResetMod (c.envResetMod s), fbMod := 0, depthAtten := 1, lfoAtten := 1 } : MatrixNodeSelf S)
      ⟨_, rfl⟩

/-- When the hooks decide by target, a second `calculateModulation()` in a row leaves the
node-local members as the first one left them. -/
theorem mself_calculateModulation_twice (c : Collab S D) (tid : Patch.SelfNode.TargetID) (hh : hooksDecideByTarget c)
    (n : MatrixNodeSelf S) :
    ∃ s', (n.calculateModulation c tid).calculateModulation c tid
      = { n.calculateModulation c tid with inner := s' } := by
  obtain ⟨s, x0, x1, x2, h⟩ := mself_calculateModulation_shape c tid n
  obtain ⟨s', h'⟩ := mself_calculateModulation_setState c tid hh n s x0 x1 x2
  exact ⟨s', by rw [h, h', ← h]⟩

/-- Without bound sources `calculateModulation()` leaves every accumulator neutral. -/
theorem mself_calculateModulation_neutral (c : Collab S D) (tid : Patch.SelfNode.TargetID) (n : MatrixNodeSelf S)
    (h : n.anySources = false) :
    (n.calculateModulation c tid).fbMod = 0 ∧
      (n.calculateModulation c tid).depthAtten = 1 ∧
      (n.calculateModulation c tid).lfoAtten = 1 := by
  simp [calculateModulation, resetModulation, h]

/-- An evaluated slot claimed by the envelope hook: the node is unchanged apart from the
state the envelope hook leaves, whatever the LFO hook is. -/
theorem mself_slotStep_env_claims (c : Collab S D) (tid : Patch.SelfNode.TargetID) (n : MatrixNodeSelf S) (i : Nat) (d sv : ℚ)
    (h : slotLive tid.NONE (n.selfNode.modtarget i) n.toNodeSupport i d sv)
    (he : (c.envHandleModulationValue (n.selfNode.modtarget i) d sv n.inner).1 = true)
    (g : Int → ℚ → ℚ → S → Bool × S) :
    slotStep { c with lfoHandleModulationValue := g } tid n i
      = { n with inner := (c.envHandleModulationValue (n.selfNode.modtarget i) d sv n.inner).2 } := by
  simp only [slotStep, offerSlot_env_claims c tid.NONE (n.selfNode.modtarget i) i n.toNodeSupport d sv
    h he g]

/-- An evaluated slot declined by the envelope hook and claimed by the LFO hook: the node
is unchanged apart from the state the hooks leave. -/
theorem mself_slotStep_lfo_claims (c : Collab S D) (tid : Patch.SelfNode.TargetID) (n : MatrixNodeSelf S) (i : Nat) (d sv : ℚ)
    (h : slotLive tid.NONE (n.selfNode.modtarget i) n.toNodeSupport i d sv)
    (he : (c.envHandleModulationValue (n.selfNode.modtarget i) d sv n.inner).1 = false)
    (hl : (c.lfoHandleModulationValue (n.selfNode.modtarget i) d sv
        (c.envHandleModulationValue (n.selfNode.modtarget i) d sv n.inner).2).1 = true) :
    slotStep c tid n i
      = { n with inner := (c.lfoHandleModulationValue (n.selfNode.modtarget i) d sv
        (c.envHandleModulationValue (n.selfNode.modtarget i) d sv n.inner).2).2 } := by
  simp only [slotStep, offerSlot_lfo_claims c tid.NONE (n.selfNode.modtarget i) i n.toNodeSupport d sv
    h he hl]

/-- An evaluated slot with the target `DEPTH_ATTEN` that both hooks decline: the node-local
switch multiplies the attenuation factor into `depthAtten`. -/
theorem mself_slotStep_declined (c : Collab S D) (tid : Patch.SelfNode.TargetID) (n : MatrixNodeSelf S) (i : Nat) (d sv : ℚ)
    (h : slotLive tid.NONE (n.selfNode.modtarget i) n.toNodeSupport i d sv)
    (he : (c.envHandleModulationValue (n.selfNode.modtarget i) d sv n.inner).1 = false)
    (hl : (c.lfoHandleModulationValue (n.selfNode.modtarget i) d sv
        (c.envHandleModulationValue (n.selfNode.modtarget i) d sv n.inner).2).1 = false)
    (ht : n.selfNode.modtarget i = tid.DEPTH_ATTEN) :
    slotStep c tid n i
      = { n with
          inner := (c.lfoHandleModulationValue (n.selfNode.modtarget i) d sv
        (c.envHandleModulationValue (n.selfNode.modtarget i) d sv n.inner).2).2
          depthAtten := n.depthAtten * attenFactor d sv } := by
  have hd := tid.distinct
  simp only [List.nodup_cons, List.mem_cons, List.mem_singleton, not_or] at hd
  simp only [slotStep, offerSlot_declined c tid.NONE (n.selfNode.modtarget i) i n.toNodeSupport d sv
    h he hl]
  rw [ht]
  split_ifs <;> simp_all

end MatrixNodeSelf

namespace MixerNode
variable {S D : Type}

/-- When the hooks decide by target, one slot iteration acts on the node-local members in the
same way whatever the collaborators' state is. -/
theorem mixer_slotStep_setInner (c : Collab S D) (tid : Patch.MixerNode.TargetID) (hh : hooksDecideByTarget c)
    (m : MixerNode S D) (s : S) (i : Nat) :
    ∃ s', slotStep c tid { m with inner := s } i = { slotStep c tid m i with inner := s' } := by
  have key := offerSlot_fst_inner c hh tid.NONE (m.mixerNode.modtarget i) i m.toNodeSupport s
  simp only [slotStep]
  rcases h1 : offerSlot c tid.NONE (m.mixerNode.modtarget i) i { m.toNodeSupport with inner := s }
    with ⟨o1, s1⟩
  rcases h2 : offerSlot c tid.NONE (m.mixerNode.modtarget i) i m.toNodeSupport with ⟨o2, s2⟩
  rw [h1, h2] at key
  simp only at key
  subst key
  cases o1 with
  | none => exact ⟨_, rfl⟩
  | some q =>
    obtain ⟨d, sv⟩ := q
    simp only
    split_ifs <;> exact ⟨_, rfl⟩

/-- The function `calculateModulation()` overwrites the accumulators before the slots are
evaluated: the prior accumulator values do not reach the result. -/
theorem mixer_calculateModulation_reset (c : Collab S D) (tid : Patch.MixerNode.TargetID) (n : MixerNode S D) (x0 x1 x2 x3 x4 : ℚ) :
    ({ n with levMod := x0, depthAtten := x1, lfoAtten := x2, lfoPanAtten := x3, panMod := x4 } : MixerNode S D).calculateModulation c tid
      = n.calculateModulation c tid := by
  simp only [calculateModulation, resetModulation]

/-- When the hooks decide by target, the node-local result of `calculateModulation()` does
not depend on the prior accumulators nor on the collaborators' prior state. -/
theorem mixer_calculateModulation_setState (c : Collab S D) (tid : Patch.MixerNode.TargetID) (hh : hooksDecideByTarget c)
    (n : MixerNode S D) (s : S) (x0 x1 x2 x3 x4 : ℚ) :
    ∃ s', ({ n with inner := s, levMod := x0, depthAtten := x1, lfoAtten := x2, lfoPanAtten := x3, panMod := x4 } : MixerNode S D).calculateModulation c tid
      = { n.calculateModulation c tid with inner := s' } := by
  simp only [calculateModulation, resetModulation]
  split_ifs
  · exact ⟨_, rfl⟩
  · exact foldl_sim (fun (a b : MixerNode S D) => ∃ s', b = { a with inner := s' }) (slotStep c tid)
      (by
        rintro a b i ⟨t, rfl⟩
        exact mixer_slotStep_setInner c tid hh a t i)
      (List.range c.numModsPer)
      ({ n with inner := c.lfoResetMod (c.envResetMod n.inner), levMod := 0, depthAtten := 1, lfoAtten := 1, lfoPanAtten := 1, panMod := 0 } : MixerNode S D)
      ({ n with inner := c.lfoResetMod (c.envResetMod s), levMod := 0, depthAtten := 1, lfoAtten := 1, lfoPanAtten := 1, panMod := 0 } : MixerNode S D)
      ⟨_, rfl⟩

/-- When the hooks decide by target, a second `calculateModulation()` in a row leaves the
node-local members as the first one left them. -/
theorem mixer_calculateModulation_twice (c : Collab S D) (tid : Patch.MixerNode.TargetID) (hh : hooksDecideByTarget c)
    (n : MixerNode S D) :
    ∃ s', (n.calculateModulation c tid).calculateModulation c tid
      = { n.calculateModulation c tid with inner := s' } := by
  obtain ⟨s, x0, x1, x2, x3, x4, h⟩ := mixer_calculateModulation_shape c tid n
  obtain ⟨s', h'⟩ := mixer_calculateModulation_setState c tid hh n s x0 x1 x2 x3 x4
  exact ⟨s', by rw [h, h', ← h]⟩

/-- Without bound sources `calculateModulation()` leaves every accumulator neutral. -/
theorem mixer_calculateModulation_neutral (c : Collab S D) (tid : Patch.MixerNode.TargetID) (n : MixerNode S D)
    (h : n.anySources = false) :
    (n.calculateModulation c tid).levMod = 0 ∧
      (n.calculateModulation c tid).depthAtten = 1 ∧
      (n.calculateModulation c tid).lfoAtten = 1 ∧
      (n.calculateModulation c tid).lfoPanAtten = 1 ∧
      (n.calculateModulation c tid).panMod = 0 := by
  simp [calculateModulation, resetModulation, h]

/-- An evaluated slot claimed by the envelope hook: the node is unchanged apart from the
state the envelope hook leaves, whatever the LFO hook is. -/
theorem mixer_slotStep_env_claims (c : Collab S D) (tid : Patch.MixerNode.TargetID) (n : MixerNode S D) (i : Nat) (d sv : ℚ)
    (h : slotLive tid.NONE (n.mixerNode.modtarget i) n.toNodeSupport i d sv)
    (he : (c.envHandleModulationValue (n.mixerNode.modtarget i) d sv n.inner).1 = true)
    (g : Int → ℚ → ℚ → S → Bool × S) :
    slotStep { c with lfoHandleModulationValue := g } tid n i
      = { n with inner := (c.envHandleModulationValue (n.mixerNode.modtarget i) d sv n.inner).2 } := by
  simp only [slotStep, offerSlot_env_claims c tid.NONE (n.mixerNode.modtarget i) i n.toNodeSupport d sv
    h he g]

/-- An evaluated slot declined by the envelope hook and claimed by the LFO hook: the node
is unchanged apart from the state the hooks leave. -/
theorem mixer_slotStep_lfo_claims (c : Collab S D) (tid : Patch.MixerNode.TargetID) (n : MixerNode S D) (i : Nat) (d sv : ℚ)
    (h : slotLive tid.NONE (n.mixerNode.modtarget i) n.toNodeSupport i d sv)
    (he : (c.envHandleModulationValue (n.mixerNode.modtarget i) d sv n.inner).1 = false)
    (hl : (c.lfoHandleModulationValue (n.mixerNode.modtarget i) d sv
        (c.envHandleModulationValue (n.mixerNode.modtarget i) d sv n.inner).2).1 = true) :
    slotStep c tid n i
      = { n with inner := (c.lfoHandleModulationValue (n.mixerNode.modtarget i) d sv
        (c.envHandleModulationValue (n.mixerNode.modtarget i) d sv n.inner).2).2 } := by
  simp only [slotStep, offerSlot_lfo_claims c tid.NONE (n.mixerNode.modtarget i) i n.toNodeSupport d sv
    h he hl]

/-- An evaluated slot with the target `DEPTH_ATTEN` that both hooks decline: the node-local
switch multiplies the attenuation factor into `depthAtten`. -/
theorem mixer_slotStep_declined (c : Collab S D) (tid : Patch.MixerNode.TargetID) (n : MixerNode S D) (i : Nat) (d sv : ℚ)
    (h : slotLive tid.NONE (n.mixerNode.modtarget i) n.toNodeSupport i d sv)
    (he : (c.envHandleModulationValue (n.mixerNode.modtarget i) d sv n.inner).1 = false)
    (hl : (c.lfoHandleModulationValue (n.mixerNode.modtarget i) d sv
        (c.envHandleModulationValue (n.mixerNode.modtarget i) d sv n.inner).2).1 = false)
    (ht : n.mixerNode.modtarget i = tid.DEPTH_ATTEN) :
    slotStep c tid n i
      = { n with
          inner := (c.lfoHandleModulationValue (n.mixerNode.modtarget i) d sv
        (c.envHandleModulationValue (n.mixerNode.modtarget i) d sv n.inner).2).2
          depthAtten := n.depthAtten * attenFactor d sv } := by
  have hd := tid.distinct
  simp only [List.nodup_cons, List.mem_cons, List.mem_singleton, not_or] at hd
  simp only [slotStep, offerSlot_declined c tid.NONE (n.mixerNode.modtarget i) i n.toNodeSupport d sv
    h he hl]
  rw [ht]
  split_ifs <;> simp_all

end MixerNode

namespace MainPanNode
variable {S D : Type}

/-- When the hooks decide by target, one slot iteration acts on the node-local members in the
same way whatever the collaborators' state is. -/
theorem mpan_slotStep_setInner (c : Collab S D) (tid : Patch.MainPanNode.TargetID) (hh : hooksDecideByTarget c)
    (m : MainPanNode S) (s : S) (i : Nat) :
    ∃ s', slotStep c tid { m with inner := s } i = { slotStep c tid m i with inner := s' } := by
  have key := offerSlot_fst_inner c hh tid.NONE (m.modNode.modtarget i) i m.toNodeSupport s
  simp only [slotStep]
  rcases h1 : offerSlot c tid.NONE (m.modNode.modtarget i) i { m.toNodeSupport with inner := s }
    with ⟨o1, s1⟩
  rcases h2 : offerSlot c tid.NONE (m.modNode.modtarget i) i m.toNodeSupport with ⟨o2, s2⟩
  rw [h1, h2] at key
  simp only at key
  subst key
  cases o1 with
  | none => exact ⟨_, rfl⟩
  | some q =>
    obtain ⟨d, sv⟩ := q
    simp only
    split_ifs <;> exact ⟨_, rfl⟩

/-- The function `calculateModulation()` overwrites the accumulators before the slots are
evaluated: the prior accumulator values do not reach the result. -/
theorem mpan_calculateModulation_reset (c : Collab S D) (tid : Patch.MainPanNode.TargetID) (n : MainPanNode S) (x0 x1 x2 x3 x4 : ℚ) :
    ({ n with lfoAtten := x0, directMod := x1, envAtten := x2, edMod := x3, ldMod := x4 } : MainPanNode S).calculateModulation c tid
      = n.calculateModulation c tid := by
  simp only [calculateModulation, resetModulation]

/-- When the hooks decide by target, the node-local result of `calculateModulation()` does
not depend on the prior accumulators nor on the collaborators' prior state. -/
theorem mpan_calculateModulation_setState (c : Collab S D) (tid : Patch.MainPanNode.TargetID) (hh : hooksDecideByTarget c)
    (n : MainPanNode S) (s : S) (x0 x1 x2 x3 x4 : ℚ) :
    ∃ s', ({ n with inner := s, lfoAtten := x0, directMod := x1, envAtten := x2, edMod := x3, ldMod := x4 } : MainPanNode S).calculateModulation c tid
      = { n.calculateModulation c tid with inner := s' } := by
  simp only [calculateModulation, resetModulation]
  split_ifs
  · exact ⟨_, rfl⟩
  · exact foldl_sim (fun (a b : MainPanNode S) => ∃ s', b = { a with inner := s' }) (slotStep c tid)
      (by
        rintro a b i ⟨t, rfl⟩
        exact mpan_slotStep_setInner c tid hh a t i)
      (List.range c.numModsPer)
      ({ n with inner := c.lfoResetMod (c.envResetMod n.inner), lfoAtten := 1, directMod := 0, envAtten := 1, edMod := 0, ldMod := 0 } : MainPanNode S)
      ({ n with inner := c.lfoResetMod (c.envResetMod s), lfoAtten := 1, directMod := 0, envAtten := 1, edMod := 0, ldMod := 0 } : MainPanNode S)
      ⟨_, rfl⟩

/-- When the hooks decide by target, a second `calculateModulation()` in a row leaves the
node-local members as the first one left them. -/
theorem mpan_calculateModulation_twice (c : Collab S D) (tid : Patch.MainPanNode.TargetID) (hh : hooksDecideByTarget c)
    (n : MainPanNode S) :
    ∃ s', (n.calculateModulation c tid).calculateModulation c tid
      = { n.calculateModulation c tid with inner := s' } := by
  obtain ⟨s, x0, x1, x2, x3, x4, h⟩ := mpan_calculateModulation_shape c tid n
  obtain ⟨s', h'⟩ := mpan_calculateModulation_setState c tid hh n s x0 x1 x2 x3 x4
  exact ⟨s', by rw [h, h', ← h]⟩

/-- Without bound sources `calculateModulation()` leaves every accumulator neutral. -/
theorem mpan_calculateModulation_neutral (c : Collab S D) (tid : Patch.MainPanNode.TargetID) (n : MainPanNode S)
    (h : n.anySources = false) :
    (n.calculateModulation c tid).lfoAtten = 1 ∧
      (n.calculateModulation c tid).directMod = 0 ∧
      (n.calculateModulation c tid).envAtten = 1 ∧
      (n.calculateModulation c tid).edMod = 0 ∧
      (n.calculateModulation c tid).ldMod = 0 := by
  simp [calculateModulation, resetModulation, h]

/-- An evaluated slot claimed by the envelope hook: the node is unchanged apart from the
state the envelope hook leaves, whatever the LFO hook is. -/
theorem mpan_slotStep_env_claims (c : Collab S D) (tid : Patch.MainPanNode.TargetID) (n : MainPanNode S) (i : Nat) (d sv : ℚ)
    (h : slotLive tid.NONE (n.modNode.modtarget i) n.toNodeSupport i d sv)
    (he : (c.envHandleModulationValue (n.modNode.modtarget i) d sv n.inner).1 = true)
    (g : Int → ℚ → ℚ → S → Bool × S) :
    slotStep { c with lfoHandleModulationValue := g } tid n i
      = { n with inner := (c.envHandleModulationValue (n.modNode.modtarget i) d sv n.inner).2 } := by
  simp only [slotStep, offerSlot_env_claims c tid.NONE (n.modNode.modtarget i) i n.toNodeSupport d sv
    h he g]

/-- An evaluated slot declined by the envelope hook and claimed by the LFO hook: the node
is unchanged apart from the state the hooks leave. -/
theorem mpan_slotStep_lfo_claims (c : Collab S D) (tid : Patch.MainPanNode.TargetID) (n : MainPanNode S) (i : Nat) (d sv : ℚ)
    (h : slotLive tid.NONE (n.modNode.modtarget i) n.toNodeSupport i d sv)
    (he : (c.envHandleModulationValue (n.modNode.modtarget i) d sv n.inner).1 = false)
    (hl : (c.lfoHandleModulationValue (n.modNode.modtarget i) d sv
        (c.envHandleModulationValue (n.modNode.modtarget i) d sv n.inner).2).1 = true) :
    slotStep c tid n i
      = { n with inner := (c.lfoHandleModulationValue (n.modNode.modtarget i) d sv
        (c.envHandleModulationValue (n.modNode.modtarget i) d sv n.inner).2).2 } := by
  simp only [slotStep, offerSlot_lfo_claims c tid.NONE (n.modNode.modtarget i) i n.toNodeSupport d sv
    h he hl]

/-- An evaluated slot with the target `DEPTH_ATTEN` that both hooks decline: the node-local
switch multiplies the attenuation factor into `envAtten`. -/
theorem mpan_slotStep_declined (c : Collab S D) (tid : Patch.MainPanNode.TargetID) (n : MainPanNode S) (i : Nat) (d sv : ℚ)
    (h : slotLive tid.NONE (n.modNode.modtarget i) n.toNodeSupport i d sv)
    (he : (c.envHandleModulationValue (n.modNode.modtarget i) d sv n.inner).1 = false)
    (hl : (c.lfoHandleModulationValue (n.modNode.modtarget i) d sv
        (c.envHandleModulationValue (n.modNode.modtarget i) d sv n.inner).2).1 = false)
    (ht : n.modNode.modtarget i = tid.DEPTH_ATTEN) :
    slotStep c tid n i
      = { n with
          inner := (c.lfoHandleModulationValue (n.modNode.modtarget i) d sv
        (c.envHandleModulationValue (n.modNode.modtarget i) d sv n.inner).2).2
          envAtten := n.envAtten * attenFactor d sv } := by
  have hd := tid.distinct
  simp only [List.nodup_cons, List.mem_cons, List.mem_singleton, not_or] at hd
  simp only [slotStep, offerSlot_declined c tid.NONE (n.modNode.modtarget i) i n.toNodeSupport d sv
    h he hl]
  rw [ht]
  split_ifs <;> simp_all

end MainPanNode

namespace FineTuneNode
variable {S D : Type}

/-- When the hooks decide by target, one slot iteration acts on the node-local members in the
same way whatever the collaborators' state is. -/
theorem ftune_slotStep_setInner (c : Collab S D) (tid : Patch.FineTuneNode.TargetID) (hh : hooksDecideByTarget c)
    (m : FineTuneNode S) (s : S) (i : Nat) :
    ∃ s', slotStep c tid { m with inner := s } i = { slotStep c tid m i with inner := s' } := by
  have key := offerSlot_fst_inner c hh tid.NONE (m.modNode.modtarget i) i m.toNodeSupport s
  simp only [slotStep]
  rcases h1 : offerSlot c tid.NONE (m.modNode.modtarget i) i { m.toNodeSupport with inner := s }
    with ⟨o1, s1⟩
  rcases h2 : offerSlot c tid.NONE (m.modNode.modtarget i) i m.toNodeSupport with ⟨o2, s2⟩
  rw [h1, h2] at key
  simp only at key
  subst key
  cases o1 with
  | none => exact ⟨_, rfl⟩
  | some q =>
    obtain ⟨d, sv⟩ := q
    simp only
    split_ifs <;> exact ⟨_, rfl⟩

/-- The function `calculateModulation()` overwrites the accumulators before the slots are
evaluated: the prior accumulator values do not reach the result. -/
theorem ftune_calculateModulation_reset (c : Collab S D) (tid : Patch.FineTuneNode.TargetID) (n : FineTuneNode S) (x0 x1 x2 x3 x4 x5 : ℚ) :
    ({ n with lfoAtten := x0, directMod := x1, directCoarseMod := x2, envAtten := x3, edMod := x4, ldMod := x5 } : FineTuneNode S).calculateModulation c tid
      = n.calculateModulation c tid := by
  simp only [calculateModulation, resetModulation]

/-- When the hooks decide by target, the node-local result of `calculateModulation()` does
not depend on the prior accumulators nor on the collaborators' prior state. -/
theorem ftune_calculateModulation_setState (c : Collab S D) (tid : Patch.FineTuneNode.TargetID) (hh : hooksDecideByTarget c)
    (n : FineTuneNode S) (s : S) (x0 x1 x2 x3 x4 x5 : ℚ) :
    ∃ s', ({ n with inner := s, lfoAtten := x0, directMod := x1, directCoarseMod := x2, envAtten := x3, edMod := x4, ldMod := x5 } : FineTuneNode S).calculateModulation c tid
      = { n.calculateModulation c tid with inner := s' } := by
  simp only [calculateModulation, resetModulation]
  split_ifs
  · exact ⟨_, rfl⟩
  · exact foldl_sim (fun (a b : FineTuneNode S) => ∃ s', b = { a with inner := s' }) (slotStep c tid)
      (by
        rintro a b i ⟨t, rfl⟩
        exact ftune_slotStep_setInner c tid hh a t i)
      (List.range c.numModsPer)
      ({ n with inner := c.lfoResetMod (c.envResetMod n.inner), lfoAtten := 1, directMod := 0, directCoarseMod := 0, envAtten := 1, edMod := 0, ldMod := 0 } : FineTuneNode S)
      ({ n with inner := c.lfoResetMod (c.envResetMod s), lfoAtten := 1, directMod := 0, directCoarseMod := 0, envAtten := 1, edMod := 0, ldMod := 0 } : FineTuneNode S)
      ⟨_, rfl⟩

/-- When the hooks decide by target, a second `calculateModulation()` in a row leaves the
node-local members as the first one left them. -/
theorem ftune_calculateModulation_twice (c : Collab S D) (tid : Patch.FineTuneNode.TargetID) (hh : hooksDecideByTarget c)
    (n : FineTuneNode S) :
    ∃ s', (n.calculateModulation c tid).calculateModulation c tid
      = { n.calculateModulation c tid with inner := s' } := by
  obtain ⟨s, x0, x1, x2, x3, x4, x5, h⟩ := ftune_calculateModulation_shape c tid n
  obtain ⟨s', h'⟩ := ftune_calculateModulation_setState c tid hh n s x0 x1 x2 x3 x4 x5
  exact ⟨s', by rw [h, h', ← h]⟩

/-- Without bound sources `calculateModulation()` leaves every accumulator neutral. -/
theorem ftune_calculateModulation_neutral (c : Collab S D) (tid : Patch.FineTuneNode.TargetID) (n : FineTuneNode S)
    (h : n.anySources = false) :
    (n.calculateModulation c tid).lfoAtten = 1 ∧
      (n.calculateModulation c tid).directMod = 0 ∧
      (n.calculateModulation c tid).directCoarseMod = 0 ∧
      (n.calculateModulation c tid).envAtten = 1 ∧
      (n.calculateModulation c tid).edMod = 0 ∧
      (n.calculateModulation c tid).ldMod = 0 := by
  simp [calculateModulation, resetModulation, h]

/-- An evaluated slot claimed by the envelope hook: the node is unchanged apart from the
state the envelope hook leaves, whatever the LFO hook is. -/
theorem ftune_slotStep_env_claims (c : Collab S D) (tid : Patch.FineTuneNode.TargetID) (n : FineTuneNode S) (i : Nat) (d sv : ℚ)
    (h : slotLive tid.NONE (n.modNode.modtarget i) n.toNodeSupport i d sv)
    (he : (c.envHandleModulationValue (n.modNode.modtarget i) d sv n.inner).1 = true)
    (g : Int → ℚ → ℚ → S → Bool × S) :
    slotStep { c with lfoHandleModulationValue := g } tid n i
      = { n with inner := (c.envHandleModulationValue (n.modNode.modtarget i) d sv n.inner).2 } := by
  simp only [slotStep, offerSlot_env_claims c tid.NONE (n.modNode.modtarget i) i n.toNodeSupport d sv
    h he g]

/-- An evaluated slot declined by the envelope hook and claimed by the LFO hook: the node
is unchanged apart from the state the hooks leave. -/
theorem ftune_slotStep_lfo_claims (c : Collab S D) (tid : Patch.FineTuneNode.TargetID) (n : FineTuneNode S) (i : Nat) (d sv : ℚ)
    (h : slotLive tid.NONE (n.modNode.modtarget i) n.toNodeSupport i d sv)
    (he : (c.envHandleModulationValue (n.modNode.modtarget i) d sv n.inner).1 = false)
    (hl : (c.lfoHandleModulationValue (n.modNode.modtarget i) d sv
        (c.envHandleModulationValue (n.modNode.modtarget i) d sv n.inner).2).1 = true) :
    slotStep c tid n i
      = { n with inner := (c.lfoHandleModulationValue (n.modNode.modtarget i) d sv
        (c.envHandleModulationValue (n.modNode.modtarget i) d sv n.inner).2).2 } := by
  simp only [slotStep, offerSlot_lfo_claims c tid.NONE (n.modNode.modtarget i) i n.toNodeSupport d sv
    h he hl]

/-- An evaluated slot with the target `DEPTH_ATTEN` that both hooks decline: the node-local
switch multiplies the attenuation factor into `envAtten`. -/
theorem ftune_slotStep_declined (c : Collab S D) (tid : Patch.FineTuneNode.TargetID) (n : FineTuneNode S) (i : Nat) (d sv : ℚ)
    (h : slotLive tid.NONE (n.modNode.modtarget i) n.toNodeSupport i d sv)
    (he : (c.envHandleModulationValue (n.modNode.modtarget i) d sv n.inner).1 = false)
    (hl : (c.lfoHandleModulationValue (n.modNode.modtarget i) d sv
        (c.envHandleModulationValue (n.modNode.modtarget i) d sv n.inner).2).1 = false)
    (ht : n.modNode.modtarget i = tid.DEPTH_ATTEN) :
    slotStep c tid n i
      = { n with
          inner := (c.lfoHandleModulationValue (n.modNode.modtarget i) d sv
        (c.envHandleModulationValue (n.modNode.modtarget i) d sv n.inner).2).2
          envAtten := n.envAtten * attenFactor d sv } := by
  have hd := tid.distinct
  simp only [List.nodup_cons, List.mem_cons, List.mem_singleton, not_or] at hd
  simp only [slotStep, offerSlot_declined c tid.NONE (n.modNode.modtarget i) i n.toNodeSupport d sv
    h he hl]
  rw [ht]
  split_ifs <;> simp_all

end FineTuneNode

namespace OutputNode
variable {S D : Type}

/-- When the hooks decide by target, one slot iteration acts on the node-local members in the
same way whatever the collaborators' state is. -/
theorem outn_slotStep_setInner (c : Collab S D) (tid : Patch.OutputNode.TargetID) (hh : hooksDecideByTarget c)
    (m : OutputNode S) (s : S) (i : Nat) :
    ∃ s', slotStep c tid { m with inner := s } i = { slotStep c tid m i with inner := s' } := by
  have key := offerSlot_fst_inner c hh tid.NONE (m.outputNode.modtarget i) i m.toNodeSupport s
  simp only [slotStep]
  rcases h1 : offerSlot c tid.NONE (m.outputNode.modtarget i) i { m.toNodeSupport with inner := s }
    with ⟨o1, s1⟩
  rcases h2 : offerSlot c tid.NONE (m.outputNode.modtarget i) i m.toNodeSupport with ⟨o2, s2⟩
  rw [h1, h2] at key
  simp only at key
  subst key
  cases o1 with
  | none => exact ⟨_, rfl⟩
  | some q =>
    obtain ⟨d, sv⟩ := q
    simp only
    split_ifs <;> exact ⟨_, rfl⟩

/-- The function `calculateModulation()` overwrites the accumulators before the slots are
evaluated: the prior accumulator values do not reach the result. -/
theorem outn_calculateModulation_reset (c : Collab S D) (tid : Patch.OutputNode.TargetID) (n : OutputNode S) (x0 x1 x2 x3 : ℚ) :
    ({ n with levMod := x0, panMod := x1, depthAtten := x2, lfoAtten := x3 } : OutputNode S).calculateModulation c tid
      = n.calculateModulation c tid := by
  simp only [calculateModulation, resetModulation]

/-- When the hooks decide by target, the node-local result of `calculateModulation()` does
not depend on the prior accumulators nor on the collaborators' prior state. -/
theorem outn_calculateModulation_setState (c : Collab S D) (tid : Patch.OutputNode.TargetID) (hh : hooksDecideByTarget c)
    (n : OutputNode S) (s : S) (x0 x1 x2 x3 : ℚ) :
    ∃ s', ({ n with inner := s, levMod := x0, panMod := x1, depthAtten := x2, lfoAtten := x3 } : OutputNode S).calculateModulation c tid
      = { n.calculateModulation c tid with inner := s' } := by
  simp only [calculateModulation, resetModulation]
  split_ifs
  · exact ⟨_, rfl⟩
  · exact foldl_sim (fun (a b : OutputNode S) => ∃ s', b = { a with inner := s' }) (slotStep c tid)
      (by
        rintro a b i ⟨t, rfl⟩
        exact outn_slotStep_setInner c tid hh a t i)
      (List.range c.numModsPer)
      ({ n with inner := c.lfoResetMod (c.envResetMod n.inner), levMod := 0, panMod := 0, depthAtten := 1, lfoAtten := 1 } : OutputNode S)
      ({ n with inner := c.lfoResetMod (c.envResetMod s), levMod := 0, panMod := 0, depthAtten := 1, lfoAtten := 1 } : OutputNode S)
      ⟨_, rfl⟩

/-- When the hooks decide by target, a second `calculateModulation()` in a row leaves the
node-local members as the first one left them. -/
theorem outn_calculateModulation_twice (c : Collab S D) (tid : Patch.OutputNode.TargetID) (hh : hooksDecideByTarget c)
    (n : OutputNode S) :
    ∃ s', (n.calculateModulation c tid).calculateModulation c tid
      = { n.calculateModulation c tid with inner := s' } := by
  obtain ⟨s, x0, x1, x2, x3, h⟩ := outn_calculateModulation_shape c tid n
  obtain ⟨s', h'⟩ := outn_calculateModulation_setState c tid hh n s x0 x1 x2 x3
  exact ⟨s', by rw [h, h', ← h]⟩

/-- Without bound sources `calculateModulation()` leaves every accumulator neutral. -/
theorem outn_calculateModulation_neutral (c : Collab S D) (tid : Patch.OutputNode.TargetID) (n : OutputNode S)
    (h : n.anySources = false) :
    (n.calculateModulation c tid).levMod = 0 ∧
      (n.calculateModulation c tid).panMod = 0 ∧
      (n.calculateModulation c tid).depthAtten = 1 ∧
      (n.calculateModulation c tid).lfoAtten = 1 := by
  simp [calculateModulation, resetModulation, h]

/-- An evaluated slot claimed by the envelope hook: the node is unchanged apart from the
state the envelope hook leaves, whatever the LFO hook is. -/
theorem outn_slotStep_env_claims (c : Collab S D) (tid : Patch.OutputNode.TargetID) (n : OutputNode S) (i : Nat) (d sv : ℚ)
    (h : slotLive tid.NONE (n.outputNode.modtarget i) n.toNodeSupport i d sv)
    (he : (c.envHandleModulationValue (n.outputNode.modtarget i) d sv n.inner).1 = true)
    (g : Int → ℚ → ℚ → S → Bool × S) :
    slotStep { c with lfoHandleModulationValue := g } tid n i
      = { n with inner := (c.envHandleModulationValue (n.outputNode.modtarget i) d sv n.inner).2 } := by
  simp only [slotStep, offerSlot_env_claims c tid.NONE (n.outputNode.modtarget i) i n.toNodeSupport d sv
    h he g]

/-- An evaluated slot declined by the envelope hook and claimed by the LFO hook: the node
is unchanged apart from the state the hooks leave. -/
theorem outn_slotStep_lfo_claims (c : Collab S D) (tid : Patch.OutputNode.TargetID) (n : OutputNode S) (i : Nat) (d sv : ℚ)
    (h : slotLive tid.NONE (n.outputNode.modtarget i) n.toNodeSupport i d sv)
    (he : (c.envHandleModulationValue (n.outputNode.modtarget i) d sv n.inner).1 = false)
    (hl : (c.lfoHandleModulationValue (n.outputNode.modtarget i) d sv
        (c.envHandleModulationValue (n.outputNode.modtarget i) d sv n.inner).2).1 = true) :
    slotStep c tid n i
      = { n with inner := (c.lfoHandleModulationValue (n.outputNode.modtarget i) d sv
        (c.envHandleModulationValue (n.outputNode.modtarget i) d sv n.inner).2).2 } := by
  simp only [slotStep, offerSlot_lfo_claims c tid.NONE (n.outputNode.modtarget i) i n.toNodeSupport d sv
    h he hl]

/-- An evaluated slot with the target `DEPTH_ATTEN` that both hooks decline: the node-local
switch multiplies the attenuation factor into `depthAtten`. -/
theorem outn_slotStep_declined (c : Collab S D) (tid : Patch.OutputNode.TargetID) (n : OutputNode S) (i : Nat) (d sv : ℚ)
    (h : slotLive tid.NONE (n.outputNode.modtarget i) n.toNodeSupport i d sv)
    (he : (c.envHandleModulationValue (n.outputNode.modtarget i) d sv n.inner).1 = false)
    (hl : (c.lfoHandleModulationValue (n.outputNode.modtarget i) d sv
        (c.envHandleModulationValue (n.outputNode.modtarget i) d sv n.inner).2).1 = false)
    (ht : n.outputNode.modtarget i = tid.DEPTH_ATTEN) :
    slotStep c tid n i
      = { n with
          inner := (c.lfoHandleModulationValue (n.outputNode.modtarget i) d sv
        (c.envHandleModulationValue (n.outputNode.modtarget i) d sv n.inner).2).2
          depthAtten := n.depthAtten * attenFactor d sv } := by
  have hd := tid.distinct
  simp only [List.nodup_cons, List.mem_cons, List.mem_singleton, not_or] at hd
  simp only [slotStep, offerSlot_declined c tid.NONE (n.outputNode.modtarget i) i n.toNodeSupport d sv
    h he hl]
  rw [ht]
  split_ifs <;> simp_all

end OutputNode

namespace MatrixNodeFrom
variable {S D : Type}

/-- The accumulators after `blockState` are those `calculateModulation()` computed. -/
theorem mfrom_blockState_accumulators (c : Collab S D) (tid : Patch.MatrixNode.TargetID)
    (stid : Patch.SelfNode.TargetID) (n : MatrixNodeFrom S) :
    (n.blockState c tid stid).applyMod = (n.calculateModulation c tid stid).applyMod ∧
      (n.blockState c tid stid).depthAtten = (n.calculateModulation c tid stid).depthAtten ∧
      (n.blockState c tid stid).lfoAtten = (n.calculateModulation c tid stid).lfoAtten := by
  simp only [blockState]
  split_ifs <;> exact ⟨rfl, rfl, rfl⟩

/-- The buffer `modlev` written out, with the parameters of the node. -/
theorem mfrom_modlev_eq (c : Collab S D) (tid : Patch.MatrixNode.TargetID)
    (stid : Patch.SelfNode.TargetID) (n : MatrixNodeFrom S) (i : Nat) :
    (n.blockState c tid stid).modlev i =
      if (n.blockState c tid stid).envIsMult then
        (n.blockState c tid stid).applyMod
          + n.matrixNode.lfoToDepth * (n.blockState c tid stid).lfoAtten
            * (n.blockState c tid stid).lfo.outputBlock i
          + n.matrixNode.level * (n.blockState c tid stid).depthAtten
            * (n.blockState c tid stid).env.outputCache i
      else
        (n.blockState c tid stid).applyMod + n.matrixNode.level
          + n.matrixNode.lfoToDepth * (n.blockState c tid stid).lfoAtten
            * (n.blockState c tid stid).lfo.outputBlock i
          + n.matrixNode.envToLevel * (n.blockState c tid stid).depthAtten
            * (n.blockState c tid stid).env.outputCache i := by
  obtain ⟨-, -, -, f4, -⟩ := mfrom_blockState_frame c tid stid n
  simp only [modlev, f4]
  split_ifs <;> rfl

/-- With `applyMod = 0` and `depthAtten = 1` the buffer `modlev` is the one the
specification words. -/
theorem mfrom_modlev_eq_spec (b : MatrixNodeFrom S) (i : Nat) (h0 : b.applyMod = 0)
    (h1 : b.depthAtten = 1) : b.modlev i = b.specModlev i := by
  simp only [modlev, specModlev, h0, h1]
  split_ifs <;> ring

end MatrixNodeFrom

namespace OutputNode
variable {S D : Type}

/-- The rendered sample: the pan step applied to the gain times the prior buffer content
plus the samples of the mixers routed to the main bus. -/
theorem outn_renderBlock_panned (c : Collab S D) (tid : Patch.OutputNode.TargetID)
    (ptid : Patch.MainPanNode.TargetID) (ftid : Patch.FineTuneNode.TargetID)
    (vv : VoiceValues) (fromArr : List (MixerNode S D × OpSource)) (n : OutputNode S)
    (ch i : Nat) (hch : ch < 2) (hi : i < c.blockSize) :
    (n.renderBlock c tid ptid ftid vv fromArr).output ch i =
      panned c (panValue vv (n.blockState c tid ptid ftid fromArr))
        ((n.renderBlock c tid ptid ftid vv fromArr).finalEnvLevel i
          * (n.output 0 i + mainSum fromArr 0 i))
        ((n.renderBlock c tid ptid ftid vv fromArr).finalEnvLevel i
          * (n.output 1 i + mainSum fromArr 1 i)) ch := by
  rw [outn_renderBlock_output c tid ptid ftid vv fromArr n ch i hch hi]
  have h0 := sumMixers_apply c.blockSize fromArr n.output 0 i (by decide) hi
  have h1 := sumMixers_apply c.blockSize fromArr n.output 1 i (by decide) hi
  have h01 : ch = 0 ∨ ch = 1 := by omega
  have hne : ¬ (1 : Nat) = 0 := by decide
  simp only [gainPan, panned, mainSum, (outn_blockState_frame c tid ptid ftid fromArr n).2]
  rcases h01 with h | h <;> subst h
  · simp only [if_true]
    split_ifs <;> simp only [h0, h1] <;> ring
  · simp only [hne, if_false]
    split_ifs <;> simp only [h0, h1] <;> ring

/-- The function `attack()` clears the output buffer, whatever it held. -/
theorem outn_attack_output (c : Collab S D) (tid : Patch.OutputNode.TargetID)
    (ptid : Patch.MainPanNode.TargetID) (ftid : Patch.FineTuneNode.TargetID)
    (n n1 : OutputNode S) (h : n.attack c tid ptid ftid = some n1) :
    n1.output = fun _ _ => 0 := by
  unfold attack at h
  simp only [resetModulation] at h
  split at h
  · cases h
  · simp only [Option.some.injEq] at h
    subst h
    simp only [outn_calculateModulation_output]

/-- The function `attack()` returns when the rounded trigger parameter is representable. -/
theorem outn_attack_isSome (c : Collab S D) (tid : Patch.OutputNode.TargetID)
    (ptid : Patch.MainPanNode.TargetID) (ftid : Patch.FineTuneNode.TargetID)
    (n : OutputNode S) (h : inInt32 (cround n.outputNode.defaultTrigger) = true) :
    ∃ n1, n.attack c tid ptid ftid = some n1 := by
  unfold attack
  simp only [resetModulation, MatrixNodeFrom.castInt32_intCast _ h]
  exact ⟨_, rfl⟩

end OutputNode

namespace OutputNode
variable {S D : Type}

/-- The gain block and the pan value of `renderBlock()` on a node without bound sources,
with zero LFO depth, unity velocity response, centre pan and a level in `[0, 1]`. -/
theorem outn_plain_gain (c : Collab S D) (tid : Patch.OutputNode.TargetID)
    (ptid : Patch.MainPanNode.TargetID) (ftid : Patch.FineTuneNode.TargetID)
    (vv : VoiceValues) (fromArr : List (MixerNode S D × OpSource)) (n : OutputNode S)
    (hsrc : n.anySources = false) (hlfo : n.outputNode.lfoDepth = 0)
    (hv : 1 - n.outputNode.velSensitivity * (1 - vv.velocityLag) = 1)
    (hpan : n.outputNode.pan = 0) (hne : vv.noteExpressionPanBipolar = 0)
    (hpm : (n.panModNode.modProcess c ptid).level = 0)
    (hl0 : 0 ≤ n.outputNode.level) (hl1 : n.outputNode.level ≤ 1)
    (i : Nat) (hi : i < c.blockSize) :
    (n.renderBlock c tid ptid ftid vv fromArr).finalEnvLevel i =
        15 / 100 * n.outputNode.level ^ 3 *
          (n.blockState c tid ptid ftid fromArr).env.outputCache i ∧
      panValue vv (n.blockState c tid ptid ftid fromArr) = 0 := by
  obtain ⟨b1, b2, b3, b4, b5, -, b7⟩ :=
    outn_blockState_of_not_anySources c tid ptid ftid fromArr n hsrc
  have hL : clamp (n.outputNode.level + 0) 0 1 = n.outputNode.level := by
    rw [add_zero]; exact clamp_eq_self _ _ _ hl0 hl1
  have hL3 : clamp (1 * n.outputNode.level ^ 3) 0 1 = n.outputNode.level ^ 3 := by
    rw [clamp_eq_self]
    · ring
    · positivity
    · have : n.outputNode.level * n.outputNode.level ≤ 1 := mul_le_one₀ hl1 hl0 hl1
      nlinarith
  constructor
  · rw [outn_renderBlock_finalEnvLevel, outn_gainState_finalEnvLevel c.blockSize vv _ i hi]
    simp only [levelGain, b1, b2, b4, b5, hlfo, hv, hL, hL3]
    ring
  · simp only [panValue, b3, b5, b7, hpan, hne, hpm]
    norm_num [clamp]

end OutputNode

namespace MatrixNodeFrom
variable {S D : Type}

theorem mfrom_slotStep_setScale (c : Collab S D) (tid : Patch.MatrixNode.TargetID)
    (stid : Patch.SelfNode.TargetID) (k : Int) (n : MatrixNodeFrom S) (i : Nat) :
    slotStep c tid stid { n with rmScale := k } i =
      { slotStep c tid stid n i with rmScale := k } := by
  simp only [slotStep]
  split <;> (try split_ifs) <;> rfl

theorem mfrom_calculateModulation_setScale (c : Collab S D) (tid : Patch.MatrixNode.TargetID)
    (stid : Patch.SelfNode.TargetID) (k : Int) (n : MatrixNodeFrom S) :
    calculateModulation c tid stid { n with rmScale := k } =
      { calculateModulation c tid stid n with rmScale := k } := by
  simp only [calculateModulation, resetModulation]
  split_ifs
  · rfl
  · exact foldl_comm (slotStep c tid stid) (fun a => { a with rmScale := k })
      (fun a i => mfrom_slotStep_setScale c tid stid k a i) (List.range c.numModsPer)
      ({ n with inner := c.lfoResetMod (c.envResetMod n.inner), applyMod := 0,
                depthAtten := 1, lfoAtten := 1 } : MatrixNodeFrom S)

theorem mfrom_blockState_setScale (c : Collab S D) (tid : Patch.MatrixNode.TargetID)
    (stid : Patch.SelfNode.TargetID) (k : Int) (n : MatrixNodeFrom S) :
    blockState c tid stid { n with rmScale := k } =
      { blockState c tid stid n with rmScale := k } := by
  simp only [blockState, mfrom_calculateModulation_setScale, checkLfoUsed]
  split_ifs <;> rfl

/-- The ring-modulation branch of `applyBlock()` with a scale selector other than 1 and 2,
as one expression. -/
theorem mfrom_applyBlock_ring_default (c : Collab S D) (tid : Patch.MatrixNode.TargetID)
    (stid : Patch.SelfNode.TargetID) (n : MatrixNodeFrom S) (onto src : OpSource)
    (ha : n.active = true) (hm : n.modMode = 1) (h1 : n.rmScale ≠ 1) (h2 : n.rmScale ≠ 2) :
    n.applyBlock c tid stid onto src =
      some (n.blockState c tid stid,
        { onto with rmLevel := fun i =>
            if i < c.blockSize then
              onto.rmLevel i + (n.blockState c tid stid).modlev i * (src.output i - 1)
            else onto.rmLevel i }) := by
  obtain ⟨f1, f2, -, -, -⟩ := mfrom_blockState_frame c tid stid n
  simp only [applyBlock, ha, Bool.not_true, Bool.false_eq_true, if_false, f1, f2, hm, h1, h2,
    if_true]

/-- In the ring-modulation branch `applyBlock()` returns and leaves every member of the
destination operator other than `rmLevel` as it was. -/
theorem mfrom_applyBlock_ring_frame (c : Collab S D) (tid : Patch.MatrixNode.TargetID)
    (stid : Patch.SelfNode.TargetID) (n : MatrixNodeFrom S) (onto src : OpSource)
    (ha : n.active = true) (hm : n.modMode = 1) :
    ∃ r, n.applyBlock c tid stid onto src = some r ∧
      r.2 = { onto with rmLevel := r.2.rmLevel } := by
  obtain ⟨f1, f2, -, -, -⟩ := mfrom_blockState_frame c tid stid n
  simp only [applyBlock, ha, Bool.not_true, Bool.false_eq_true, if_false, f1, f2, hm, if_true]
  split_ifs <;> exact ⟨_, rfl, rfl⟩

/-- In the two frequency-modulation branches `applyBlock()` returns and leaves every member
of the destination operator other than `fmAmount` as it was. -/
theorem mfrom_applyBlock_fm_frame (c : Collab S D) (tid : Patch.MatrixNode.TargetID)
    (stid : Patch.SelfNode.TargetID) (n : MatrixNodeFrom S) (onto src : OpSource)
    (ha : n.active = true) (hm : n.modMode = 2 ∨ n.modMode = 3) :
    ∃ r, n.applyBlock c tid stid onto src = some r ∧
      r.2 = { onto with fmAmount := r.2.fmAmount } := by
  obtain ⟨f1, -, -, -, -⟩ := mfrom_blockState_frame c tid stid n
  rcases hm with hm | hm
  · simp only [applyBlock, ha, Bool.not_true, Bool.false_eq_true, if_false, f1, hm]
    exact ⟨_, rfl, rfl⟩
  · simp only [applyBlock, ha, Bool.not_true, Bool.false_eq_true, if_false, f1, hm]
    exact ⟨_, rfl, rfl⟩

/-- In the phase-modulation branch a returning `applyBlock()` leaves every member of the
destination operator other than `phaseInput` as it was. -/
theorem mfrom_applyBlock_phase_frame (c : Collab S D) (tid : Patch.MatrixNode.TargetID)
    (stid : Patch.SelfNode.TargetID) (n : MatrixNodeFrom S) (onto src : OpSource)
    (ha : n.active = true) (h1 : n.modMode ≠ 1) (h2 : n.modMode ≠ 2) (h3 : n.modMode ≠ 3)
    (r : MatrixNodeFrom S × OpSource) (hr : n.applyBlock c tid stid onto src = some r) :
    r.2 = { onto with phaseInput := r.2.phaseInput } := by
  obtain ⟨f1, -, -, -, -⟩ := mfrom_blockState_frame c tid stid n
  simp only [applyBlock, ha, Bool.not_true, Bool.false_eq_true, if_false, f1, h1, h2, h3] at hr
  split at hr
  · cases hr
    rfl
  · cases hr

end MatrixNodeFrom

namespace OutputNode
variable {S D : Type}

/-- The block that follows `attack()`: for an output node with no bound sources, zero LFO
depth, unity velocity response, zero pan contributions and a level in `[0, 1]`, whose mixer
array holds one mixer node routed to main while every other mixer node is not routed to main
or holds the all-zero output of an inactive node, and whose output buffer is all-zero on
entry, `renderBlock()` leaves `output[c][i] = 0.15 * level^3 * envelope[i] *
mixer.output[c][i]` for both channels and every sample of the block. -/
theorem outn_single_mixer_first_block (c : Collab S D) (tout : Patch.OutputNode.TargetID)
    (tp : Patch.MainPanNode.TargetID) (tf : Patch.FineTuneNode.TargetID) (vv : VoiceValues)
    (n : OutputNode S) (pre post : List (MixerNode S D × OpSource))
    (m : MixerNode S D × OpSource)
    (hm : m.2.operatorOutputsToMain = true)
    (hothers : ∀ x ∈ pre ++ post,
      x.2.operatorOutputsToMain = false ∨ ∀ ch i, x.1.output ch i = 0)
    (hsrc : n.anySources = false) (hlfo : n.outputNode.lfoDepth = 0)
    (hv : 1 - n.outputNode.velSensitivity * (1 - vv.velocityLag) = 1)
    (hpan : n.outputNode.pan = 0) (hne : vv.noteExpressionPanBipolar = 0)
    (hpm : (n.panModNode.modProcess c tp).level = 0)
    (hl0 : 0 ≤ n.outputNode.level) (hl1 : n.outputNode.level ≤ 1)
    (hz : ∀ ch i, n.output ch i = 0) :
    ∀ ch, ch < 2 → ∀ i, i < c.blockSize →
      (n.renderBlock c tout tp tf vv (pre ++ m :: post)).output ch i =
        15 / 100 * n.outputNode.level ^ 3 *
          (n.blockState c tout tp tf (pre ++ m :: post)).env.outputCache i *
          m.1.output ch i := by
  intro ch hch i hi
  have hsum : ∀ l : List (MixerNode S D × OpSource),
      (∀ x ∈ l, x.2.operatorOutputsToMain = false ∨ ∀ ch i, x.1.output ch i = 0) →
      ((l.filter (fun m => m.2.operatorOutputsToMain)).map (fun m => m.1.output ch i)).sum
        = 0 := by
    intro l hl
    apply List.sum_eq_zero
    intro y hy
    obtain ⟨x, hx, rfl⟩ := List.mem_map.mp hy
    obtain ⟨hx1, hx2⟩ := List.mem_filter.mp hx
    rcases hl x hx1 with h | h
    · rw [h] at hx2; cases hx2
    · exact h ch i
  rw [OutputNode.outn_renderBlock_plain c tout tp tf vv (pre ++ m :: post) n hsrc hlfo hv hpan
    hne hpm hl0 hl1 ch i hch hi, hz ch i, List.filter_append, List.map_append, List.sum_append,
    List.filter_cons_of_pos (by simpa using hm), List.map_cons, List.sum_cons,
    hsum pre (fun x hx => hothers x (List.mem_append_left _ hx)),
    hsum post (fun x hx => hothers x (List.mem_append_right _ hx))]
  ring

end OutputNode

/-- The first block of `plainOutputNode` (level 1, envelope 1) with one routed mixer node
of output 1 leaves `3/20` in `output[0][0]`. -/
theorem Demo.single_mixer_first_block :
    (Demo.plainOutputNode.renderBlock Demo.collab Demo.outputIds Demo.panIds Demo.fineIds
      Demo.voice ([] ++ (Demo.loudMixerNode, Demo.op) :: [])).output 0 0 = 3 / 20 := by
  rw [OutputNode.outn_single_mixer_first_block Demo.collab Demo.outputIds Demo.panIds Demo.fineIds
    Demo.voice Demo.plainOutputNode [] [] (Demo.loudMixerNode, Demo.op) rfl
    (fun x hx => by simp at hx) rfl rfl (by norm_num [Demo.plainOutputNode, Demo.outputNode])
    rfl rfl rfl (by norm_num [Demo.plainOutputNode, Demo.outputNode])
    (by norm_num [Demo.plainOutputNode, Demo.outputNode]) (fun _ _ => rfl) 0 (by decide) 0
    (by decide)]
  norm_num [Demo.plainOutputNode, Demo.outputNode, Demo.loudMixerNode, Demo.plainSupport,
    Demo.collab, OutputNode.blockState, OutputNode.calculateModulation,
    OutputNode.resetModulation]

/-! # The claims -/

section claims
variable {S D : Type}

/-- C1: on every node with `anySources` set, after `calculateModulation()` each attenuation
accumulator (`depthAtten` / `envAtten` for target `DEPTH_ATTEN`, `lfoAtten` for
`LFO_DEPTH_ATTEN`, and on the mixer `lfoPanAtten` for `LFO_DEPTH_PAN_ATTEN`) equals the
product of `1 - depth * (1 - clamp(source, 0, 1))` over the slots with that target that have
a bound source, a bound depth and are claimed by neither hook (`resolvedSlots`, whose members
`offerSlot_eq_some_iff` characterises; the guard of the loop also requires the target to
differ from `NONE`); the empty product is 1. -/
theorem C1_attenuation_is_product (c : Collab S D)
    (tm : Patch.MatrixNode.TargetID) (ts : Patch.SelfNode.TargetID)
    (tx : Patch.MixerNode.TargetID) (tp : Patch.MainPanNode.TargetID)
    (tf : Patch.FineTuneNode.TargetID) (tout : Patch.OutputNode.TargetID)
    (nm : MatrixNodeFrom S) (ns : MatrixNodeSelf S) (nx : MixerNode S D)
    (np : MainPanNode S) (nf : FineTuneNode S) (nout : OutputNode S)
    (hm : nm.anySources = true) (hs : ns.anySources = true) (hx : nx.anySources = true)
    (hp : np.anySources = true) (hf : nf.anySources = true) (hout : nout.anySources = true) :
    ((nm.calculateModulation c tm ts).depthAtten =
        attenProduct nm.matrixNode.modtarget tm.DEPTH_ATTEN
          (resolvedSlots c ts.NONE nm.matrixNode.modtarget nm.toNodeSupport) ∧
      (nm.calculateModulation c tm ts).lfoAtten =
        attenProduct nm.matrixNode.modtarget tm.LFO_DEPTH_ATTEN
          (resolvedSlots c ts.NONE nm.matrixNode.modtarget nm.toNodeSupport)) ∧
    ((ns.calculateModulation c ts).depthAtten =
        attenProduct ns.selfNode.modtarget ts.DEPTH_ATTEN
          (resolvedSlots c ts.NONE ns.selfNode.modtarget ns.toNodeSupport) ∧
      (ns.calculateModulation c ts).lfoAtten =
        attenProduct ns.selfNode.modtarget ts.LFO_DEPTH_ATTEN
          (resolvedSlots c ts.NONE ns.selfNode.modtarget ns.toNodeSupport)) ∧
    ((nx.calculateModulation c tx).depthAtten =
        attenProduct nx.mixerNode.modtarget tx.DEPTH_ATTEN
          (resolvedSlots c tx.NONE nx.mixerNode.modtarget nx.toNodeSupport) ∧
      (nx.calculateModulation c tx).lfoAtten =
        attenProduct nx.mixerNode.modtarget tx.LFO_DEPTH_ATTEN
          (resolvedSlots c tx.NONE nx.mixerNode.modtarget nx.toNodeSupport) ∧
      (nx.calculateModulation c tx).lfoPanAtten =
        attenProduct nx.mixerNode.modtarget tx.LFO_DEPTH_PAN_ATTEN
          (resolvedSlots c tx.NONE nx.mixerNode.modtarget nx.toNodeSupport)) ∧
    ((np.calculateModulation c tp).envAtten =
        attenProduct np.modNode.modtarget tp.DEPTH_ATTEN
          (resolvedSlots c tp.NONE np.modNode.modtarget np.toNodeSupport) ∧
      (np.calculateModulation c tp).lfoAtten =
        attenProduct np.modNode.modtarget tp.LFO_DEPTH_ATTEN
          (resolvedSlots c tp.NONE np.modNode.modtarget np.toNodeSupport)) ∧
    ((nf.calculateModulation c tf).envAtten =
        attenProduct nf.modNode.modtarget tf.DEPTH_ATTEN
          (resolvedSlots c tf.NONE nf.modNode.modtarget nf.toNodeSupport) ∧
      (nf.calculateModulation c tf).lfoAtten =
        attenProduct nf.modNode.modtarget tf.LFO_DEPTH_ATTEN
          (resolvedSlots c tf.NONE nf.modNode.modtarget nf.toNodeSupport)) ∧
    ((nout.calculateModulation c tout).depthAtten =
        attenProduct nout.outputNode.modtarget tout.DEPTH_ATTEN
          (resolvedSlots c tout.NONE nout.outputNode.modtarget nout.toNodeSupport) ∧
      (nout.calculateModulation c tout).lfoAtten =
        attenProduct nout.outputNode.modtarget tout.LFO_DEPTH_ATTEN
          (resolvedSlots c tout.NONE nout.outputNode.modtarget nout.toNodeSupport)) :=
  ⟨⟨MatrixNodeFrom.mfrom_calculateModulation_depthAtten c tm ts nm hm,
      MatrixNodeFrom.mfrom_calculateModulation_lfoAtten c tm ts nm hm⟩,
    ⟨MatrixNodeSelf.mself_calculateModulation_depthAtten c ts ns hs,
      MatrixNodeSelf.mself_calculateModulation_lfoAtten c ts ns hs⟩,
    ⟨MixerNode.mixer_calculateModulation_depthAtten c tx nx hx,
      MixerNode.mixer_calculateModulation_lfoAtten c tx nx hx,
      MixerNode.mixer_calculateModulation_lfoPanAtten c tx nx hx⟩,
    ⟨MainPanNode.mpan_calculateModulation_envAtten c tp np hp,
      MainPanNode.mpan_calculateModulation_lfoAtten c tp np hp⟩,
    ⟨FineTuneNode.ftune_calculateModulation_envAtten c tf nf hf,
      FineTuneNode.ftune_calculateModulation_lfoAtten c tf nf hf⟩,
    ⟨OutputNode.outn_calculateModulation_depthAtten c tout nout hout,
      OutputNode.outn_calculateModulation_lfoAtten c tout nout hout⟩⟩

/-- Witness of C1 on six concrete nodes with three bound slots each (sources 1/2, 2, 1/4 and
depths 1/2, 1, 1/2): the depth attenuation of the inter-operator node is
`(1 - 1/2 * 1/2) * (1 - 1/2 * 3/4) = 15/32` and the LFO-pan attenuation of the mixer is
`1 - 1/2 * 3/4 = 5/8`. -/
theorem C1_attenuation_is_product_witness :
    (Demo.fromNode.calculateModulation Demo.collab Demo.matrixIds Demo.selfIds).depthAtten
        = 15 / 32 ∧
      (Demo.mixerNode.calculateModulation Demo.collab Demo.mixerIds).lfoPanAtten = 5 / 8 := by
  have h := C1_attenuation_is_product Demo.collab Demo.matrixIds Demo.selfIds Demo.mixerIds
    Demo.panIds Demo.fineIds Demo.outputIds Demo.fromNode Demo.selfNode Demo.mixerNode
    Demo.panNode Demo.fineNode Demo.outputNode rfl rfl rfl rfl rfl rfl
  refine ⟨h.1.1.trans ?_, h.2.2.1.2.2.trans ?_⟩
  · simp only [resolvedSlots, Demo.collab, Demo.range_three, localSlots, offerSlot,
      Demo.fromNode, Demo.boundSupport, Demo.targets, Demo.matrixIds, Demo.selfIds]
    norm_num [attenProduct, attenFactor, clamp, Demo.targets]
  · simp only [resolvedSlots, Demo.collab, Demo.range_three, localSlots, offerSlot,
      Demo.mixerNode, Demo.boundSupport, Demo.mixerTargets, Demo.mixerIds]
    norm_num [attenProduct, attenFactor, clamp, Demo.mixerTargets]

/-- C2: on every node, if every bound depth of a slot with an attenuation target lies in
`[0, 1]`, then after `calculateModulation()` every attenuation accumulator (`depthAtten` /
`envAtten`, `lfoAtten`, and the mixer's `lfoPanAtten`) lies in `[0, 1]`, whatever the source
values are and whether or not `anySources` is set. -/
theorem C2_attenuation_in_unit_interval (c : Collab S D)
    (tm : Patch.MatrixNode.TargetID) (ts : Patch.SelfNode.TargetID)
    (tx : Patch.MixerNode.TargetID) (tp : Patch.MainPanNode.TargetID)
    (tf : Patch.FineTuneNode.TargetID) (tout : Patch.OutputNode.TargetID)
    (nm : MatrixNodeFrom S) (ns : MatrixNodeSelf S) (nx : MixerNode S D)
    (np : MainPanNode S) (nf : FineTuneNode S) (nout : OutputNode S)
    (hm : attenDepthsInUnit c.numModsPer nm.depthPointers nm.matrixNode.modtarget
      [tm.DEPTH_ATTEN, tm.LFO_DEPTH_ATTEN])
    (hs : attenDepthsInUnit c.numModsPer ns.depthPointers ns.selfNode.modtarget
      [ts.DEPTH_ATTEN, ts.LFO_DEPTH_ATTEN])
    (hx : attenDepthsInUnit c.numModsPer nx.depthPointers nx.mixerNode.modtarget
      [tx.DEPTH_ATTEN, tx.LFO_DEPTH_ATTEN, tx.LFO_DEPTH_PAN_ATTEN])
    (hp : attenDepthsInUnit c.numModsPer np.depthPointers np.modNode.modtarget
      [tp.DEPTH_ATTEN, tp.LFO_DEPTH_ATTEN])
    (hf : attenDepthsInUnit c.numModsPer nf.depthPointers nf.modNode.modtarget
      [tf.DEPTH_ATTEN, tf.LFO_DEPTH_ATTEN])
    (hout : attenDepthsInUnit c.numModsPer nout.depthPointers nout.outputNode.modtarget
      [tout.DEPTH_ATTEN, tout.LFO_DEPTH_ATTEN]) :
    ((0 ≤ (nm.calculateModulation c tm ts).depthAtten ∧
        (nm.calculateModulation c tm ts).depthAtten ≤ 1) ∧
      (0 ≤ (nm.calculateModulation c tm ts).lfoAtten ∧
        (nm.calculateModulation c tm ts).lfoAtten ≤ 1)) ∧
    ((0 ≤ (ns.calculateModulation c ts).depthAtten ∧
        (ns.calculateModulation c ts).depthAtten ≤ 1) ∧
      (0 ≤ (ns.calculateModulation c ts).lfoAtten ∧
        (ns.calculateModulation c ts).lfoAtten ≤ 1)) ∧
    ((0 ≤ (nx.calculateModulation c tx).depthAtten ∧
        (nx.calculateModulation c tx).depthAtten ≤ 1) ∧
      (0 ≤ (nx.calculateModulation c tx).lfoAtten ∧
        (nx.calculateModulation c tx).lfoAtten ≤ 1) ∧
      (0 ≤ (nx.calculateModulation c tx).lfoPanAtten ∧
        (nx.calculateModulation c tx).lfoPanAtten ≤ 1)) ∧
    ((0 ≤ (np.calculateModulation c tp).envAtten ∧
        (np.calculateModulation c tp).envAtten ≤ 1) ∧
      (0 ≤ (np.calculateModulation c tp).lfoAtten ∧
        (np.calculateModulation c tp).lfoAtten ≤ 1)) ∧
    ((0 ≤ (nf.calculateModulation c tf).envAtten ∧
        (nf.calculateModulation c tf).envAtten ≤ 1) ∧
      (0 ≤ (nf.calculateModulation c tf).lfoAtten ∧
        (nf.calculateModulation c tf).lfoAtten ≤ 1)) ∧
    ((0 ≤ (nout.calculateModulation c tout).depthAtten ∧
        (nout.calculateModulation c tout).depthAtten ≤ 1) ∧
      (0 ≤ (nout.calculateModulation c tout).lfoAtten ∧
        (nout.calculateModulation c tout).lfoAtten ≤ 1)) :=
  ⟨⟨MatrixNodeFrom.mfrom_calculateModulation_depthAtten_mem c tm ts nm _ (by simp) hm,
      MatrixNodeFrom.mfrom_calculateModulation_lfoAtten_mem c tm ts nm _ (by simp) hm⟩,
    ⟨MatrixNodeSelf.mself_calculateModulation_depthAtten_mem c ts ns _ (by simp) hs,
      MatrixNodeSelf.mself_calculateModulation_lfoAtten_mem c ts ns _ (by simp) hs⟩,
    ⟨MixerNode.mixer_calculateModulation_depthAtten_mem c tx nx _ (by simp) hx,
      MixerNode.mixer_calculateModulation_lfoAtten_mem c tx nx _ (by simp) hx,
      MixerNode.mixer_calculateModulation_lfoPanAtten_mem c tx nx _ (by simp) hx⟩,
    ⟨MainPanNode.mpan_calculateModulation_envAtten_mem c tp np _ (by simp) hp,
      MainPanNode.mpan_calculateModulation_lfoAtten_mem c tp np _ (by simp) hp⟩,
    ⟨FineTuneNode.ftune_calculateModulation_envAtten_mem c tf nf _ (by simp) hf,
      FineTuneNode.ftune_calculateModulation_lfoAtten_mem c tf nf _ (by simp) hf⟩,
    ⟨OutputNode.outn_calculateModulation_depthAtten_mem c tout nout _ (by simp) hout,
      OutputNode.outn_calculateModulation_lfoAtten_mem c tout nout _ (by simp) hout⟩⟩

/-- Witness of C2 on the six concrete nodes, whose second slot has the source value 2,
outside `[0, 1]`: the depth attenuation of the inter-operator node lies in `[0, 1]`. -/
theorem C2_attenuation_in_unit_interval_witness :
    0 ≤ (Demo.fromNode.calculateModulation Demo.collab Demo.matrixIds Demo.selfIds).depthAtten ∧
      (Demo.fromNode.calculateModulation Demo.collab Demo.matrixIds Demo.selfIds).depthAtten
        ≤ 1 :=
  (C2_attenuation_in_unit_interval Demo.collab Demo.matrixIds Demo.selfIds Demo.mixerIds
    Demo.panIds Demo.fineIds Demo.outputIds Demo.fromNode Demo.selfNode Demo.mixerNode
    Demo.panNode Demo.fineNode Demo.outputNode (Demo.bound_depths_in_unit _ _ _)
    (Demo.bound_depths_in_unit _ _ _) (Demo.bound_depths_in_unit _ _ _)
    (Demo.bound_depths_in_unit _ _ _) (Demo.bound_depths_in_unit _ _ _)
    (Demo.bound_depths_in_unit _ _ _)).1.1

/-- C3: when the `active` flag of an inter-operator node or of a feedback node is false,
`applyBlock()` returns with the node and the destination operator exactly as they were: all
samples of `phaseInput`, `fmAmount`, `rmLevel` and `feedbackLevel` are unchanged. -/
theorem C3_inactive_applyBlock_is_noop (c : Collab S D) (tm : Patch.MatrixNode.TargetID)
    (ts : Patch.SelfNode.TargetID) (nm : MatrixNodeFrom S) (ns : MatrixNodeSelf S)
    (onto src : OpSource) (hm : nm.active = false) (hs : ns.active = false) :
    nm.applyBlock c tm ts onto src = some (nm, onto) ∧
      ns.applyBlock c ts onto = some (ns, onto) := by
  constructor
  · simp [MatrixNodeFrom.applyBlock, hm]
  · simp [MatrixNodeSelf.applyBlock, hs]

/-- Witness of C3 on an inactive inter-operator node and an inactive feedback node. -/
theorem C3_inactive_applyBlock_is_noop_witness :
    Demo.idleFromNode.applyBlock Demo.collab Demo.matrixIds Demo.selfIds Demo.op Demo.op
        = some (Demo.idleFromNode, Demo.op) ∧
      Demo.idleSelfNode.applyBlock Demo.collab Demo.selfIds Demo.op
        = some (Demo.idleSelfNode, Demo.op) :=
  C3_inactive_applyBlock_is_noop Demo.collab Demo.matrixIds Demo.selfIds Demo.idleFromNode
    Demo.idleSelfNode Demo.op Demo.op rfl rfl

/-- C4: for a mixer node whose `active` parameter is not above 0.5 and any prior node state,
`attack()` followed by `renderBlock()` leaves every sample of `output[0]` and `output[1]` at
zero, and so does any number of further repetitions of `attack()` and `renderBlock()`,
whatever the voice values and the operator of each repetition are. -/
theorem C4_inactive_mixer_renders_zero (c : Collab S D) (tid : Patch.MixerNode.TargetID)
    (wfs : SinTable.WaveForm) (n : MixerNode S D) (xs : List (VoiceValues × OpSource))
    (x : VoiceValues × OpSource) (h : n.mixerNode.active ≤ 1 / 2) :
    ∀ ch i, ((xs ++ [x]).foldl (MixerNode.attackRender c tid wfs) n).output ch i = 0 := by
  intro ch i
  have hm := MixerNode.foldl_attackRender_mixerNode c tid wfs xs n h
  rw [List.foldl_append, List.foldl_cons, List.foldl_nil,
    (MixerNode.attackRender_of_inactive c tid wfs _ x (by rw [hm]; exact h)).1]

/-- Witness of C4 on a mixer node whose buffer holds 1 in every sample before the first
of three notes. -/
theorem C4_inactive_mixer_renders_zero_witness :
    (([(Demo.voice, Demo.op), (Demo.voice, Demo.op)] ++ [(Demo.voice, Demo.op)]).foldl
        (MixerNode.attackRender Demo.collab Demo.mixerIds Demo.waveForms)
        Demo.staleMixerNode).output 0 0 = 0 ∧
      (([(Demo.voice, Demo.op), (Demo.voice, Demo.op)] ++ [(Demo.voice, Demo.op)]).foldl
        (MixerNode.attackRender Demo.collab Demo.mixerIds Demo.waveForms)
        Demo.staleMixerNode).output 1 1 = 0 :=
  ⟨C4_inactive_mixer_renders_zero Demo.collab Demo.mixerIds Demo.waveForms
      Demo.staleMixerNode [(Demo.voice, Demo.op), (Demo.voice, Demo.op)] (Demo.voice, Demo.op)
      (by norm_num [Demo.staleMixerNode]) 0 0,
    C4_inactive_mixer_renders_zero Demo.collab Demo.mixerIds Demo.waveForms
      Demo.staleMixerNode [(Demo.voice, Demo.op), (Demo.voice, Demo.op)] (Demo.voice, Demo.op)
      (by norm_num [Demo.staleMixerNode]) 1 1⟩


/-- C5: for an active inter-operator node in mode 1 (ring modulation), `applyBlock()` returns
and adds to every sample `onto.rmLevel[i]` of the block exactly `modlev[i] * f(from.output[i])`
with `f(s) = s - 1` for scale 0, `|s| - 1` for scale 1 and `0.5 * (s + 1) - 1` for scale 2.
With `modlev[i] = 1` the amount added is `-1/2` for (scale 0, source `1/2`), `-1/2` for
(scale 1, source `-1/2`) and `-1/4` for (scale 2, source `1/2`). -/
theorem C5_ring_modulation_adds_modlev_times_shape (c : Collab S D)
    (tm : Patch.MatrixNode.TargetID) (ts : Patch.SelfNode.TargetID) (n : MatrixNodeFrom S)
    (onto src : OpSource) (ha : n.active = true) (hm : n.modMode = 1) :
    ∃ r, n.applyBlock c tm ts onto src = some r ∧
      (n.rmScale = 0 → ∀ i, i < c.blockSize → r.2.rmLevel i =
        onto.rmLevel i + (n.blockState c tm ts).modlev i * (src.output i - 1)) ∧
      (n.rmScale = 1 → ∀ i, i < c.blockSize → r.2.rmLevel i =
        onto.rmLevel i + (n.blockState c tm ts).modlev i * (|src.output i| - 1)) ∧
      (n.rmScale = 2 → ∀ i, i < c.blockSize → r.2.rmLevel i =
        onto.rmLevel i + (n.blockState c tm ts).modlev i * (1 / 2 * (src.output i + 1) - 1)) ∧
      (∀ i, i < c.blockSize → (n.blockState c tm ts).modlev i = 1 →
        (n.rmScale = 0 → src.output i = 1 / 2 → r.2.rmLevel i = onto.rmLevel i + -(1 / 2)) ∧
        (n.rmScale = 1 → src.output i = -(1 / 2) → r.2.rmLevel i = onto.rmLevel i + -(1 / 2)) ∧
        (n.rmScale = 2 → src.output i = 1 / 2 → r.2.rmLevel i = onto.rmLevel i + -(1 / 4))) := by
  obtain ⟨f1, f2, -, -, -⟩ := MatrixNodeFrom.mfrom_blockState_frame c tm ts n
  by_cases s2 : n.rmScale = 2
  · refine ⟨_, by
      simp only [MatrixNodeFrom.applyBlock, ha, Bool.not_true, Bool.false_eq_true, if_false,
        f1, f2, hm, s2, if_true]; rfl, ?_, ?_, ?_, ?_⟩
    · intro h; rw [s2] at h; cases h
    · intro h; rw [s2] at h; cases h
    · intro _ i hi; simp only [hi, if_true]
    · intro i hi hl
      refine ⟨fun h => (by rw [s2] at h; cases h), fun h => (by rw [s2] at h; cases h), ?_⟩
      intro _ ho
      simp only [hi, if_true, hl, ho]
      norm_num
  · by_cases s1 : n.rmScale = 1
    · refine ⟨_, by
        simp only [MatrixNodeFrom.applyBlock, ha, Bool.not_true, Bool.false_eq_true, if_false,
          f1, f2, hm, s2, s1, if_true]; rfl, ?_, ?_, ?_, ?_⟩
      · intro h; rw [s1] at h; cases h
      · intro _ i hi; simp only [hi, if_true]
      · intro h; exact absurd h s2
      · intro i hi hl
        refine ⟨fun h => (by rw [s1] at h; cases h), ?_, fun h => absurd h s2⟩
        intro _ ho
        simp only [hi, if_true, hl, ho]
        norm_num [abs_of_nonneg]
    · refine ⟨_, by
        simp only [MatrixNodeFrom.applyBlock, ha, Bool.not_true, Bool.false_eq_true, if_false,
          f1, f2, hm, s2, s1, if_true]; rfl, ?_, ?_, ?_, ?_⟩
      · intro _ i hi; simp only [hi, if_true]
      · intro h; exact absurd h s1
      · intro h; exact absurd h s2
      · intro i hi hl
        refine ⟨?_, fun h => absurd h s1, fun h => absurd h s2⟩
        intro _ ho
        simp only [hi, if_true, hl, ho]
        norm_num

/-- Witness of C5: ring modulation with scale 0, `modlev = 1` and source `1/2` takes an
`rmLevel` sample from 0 to `-1/2`. -/
theorem C5_ring_modulation_adds_modlev_times_shape_witness :
    ∃ r, Demo.rmNode.applyBlock Demo.collab Demo.matrixIds Demo.selfIds Demo.op Demo.op
        = some r ∧ r.2.rmLevel 0 = -(1 / 2) := by
  obtain ⟨r, hr, -, -, -, h⟩ := C5_ring_modulation_adds_modlev_times_shape Demo.collab
    Demo.matrixIds Demo.selfIds Demo.rmNode Demo.op Demo.op rfl rfl
  refine ⟨r, hr, ?_⟩
  rw [(h 0 (by decide) (MatrixNodeFrom.mfrom_plain_modlev Demo.rmNode rfl rfl 0)).1 rfl rfl]
  norm_num [Demo.op]

/-- C6: for an active inter-operator node in mode 0 with overdrive factor 10, on a block that
stays inside the `int32_t` range, `applyBlock()` returns and increases every `phaseInput`
sample whose `modlev` is 1 and whose source sample is 1 by exactly
`round((1 << 27) * 10) = 1342177280`, a value inside the signed 32-bit range. -/
theorem C6_phase_delta_at_full_overdrive (c : Collab S D) (tm : Patch.MatrixNode.TargetID)
    (ts : Patch.SelfNode.TargetID) (n : MatrixNodeFrom S) (onto src : OpSource) (j : Nat)
    (ha : n.active = true) (hm : n.modMode = 0) (ho : n.overdriveFactor = 10)
    (hr : MatrixNodeFrom.phaseInRange c.blockSize (n.blockState c tm ts) onto src)
    (hj : j < c.blockSize) (hl : (n.blockState c tm ts).modlev j = 1)
    (hs : src.output j = 1) :
    ∃ r, n.applyBlock c tm ts onto src = some r ∧
      r.2.phaseInput j = onto.phaseInput j + 1342177280 ∧
      cround (((1 <<< 27 : Nat) : ℚ) * 10) = 1342177280 ∧
      inInt32 1342177280 = true := by
  obtain ⟨-, -, f3, -, -⟩ := MatrixNodeFrom.mfrom_blockState_frame c tm ts n
  refine ⟨_, MatrixNodeFrom.mfrom_applyBlock_phase c tm ts n onto src ha (by rw [hm]; decide)
    (by rw [hm]; decide) (by rw [hm]; decide) hr, ?_, ?_, by decide⟩
  · simp only [hj, if_true, MatrixNodeFrom.phaseProduct, f3, ho, hl, hs]
    rw [show ((1 <<< 27 : Nat) : ℚ) * (10 * (1 * 1)) = ((1342177280 : Int) : ℚ) by
      norm_num [Nat.shiftLeft_eq], truncToInt_intCast]
  · rw [show ((1 <<< 27 : Nat) : ℚ) * 10 = ((1342177280 : Int) : ℚ) by
      norm_num [Nat.shiftLeft_eq]]
    unfold cround
    rw [if_pos (by norm_num), Int.floor_eq_iff]
    constructor <;> norm_num

/-- Witness of C6 on a node with overdrive factor 10, `modlev = 1` and a source that is 1 in
every sample, with `phaseInput` starting at 0. -/
theorem C6_phase_delta_at_full_overdrive_witness :
    ∃ r, Demo.pmOverdriveNode.applyBlock Demo.collab Demo.matrixIds Demo.selfIds Demo.op
        Demo.unitOp = some r ∧ r.2.phaseInput 0 = 1342177280 := by
  obtain ⟨r, hr, h, -⟩ := C6_phase_delta_at_full_overdrive Demo.collab Demo.matrixIds
    Demo.selfIds Demo.pmOverdriveNode Demo.op Demo.unitOp 0 rfl rfl rfl
    Demo.pmOverdrive_inRange (by decide)
    (MatrixNodeFrom.mfrom_plain_modlev Demo.pmOverdriveNode rfl rfl 0) rfl
  exact ⟨r, hr, by rw [h]; rfl⟩


/-- C7, as stated, fails: on a node with `modlev = 1`, overdrive factor 1 and the source
sample `7 / 2^29` the product `(1 << 27) * overdrive * modlev * source` is `7/4`, whose
nearest integer is 2, but `applyBlock()` adds 1 to `phaseInput[0]`. -/
theorem C7_counterexample_phase_delta_is_not_rounded :
    ∃ r, Demo.pmNode.applyBlock Demo.collab Demo.matrixIds Demo.selfIds Demo.op Demo.quietOp
        = some r ∧
      r.2.phaseInput 0 = Demo.op.phaseInput 0 + 1 ∧
      cround ((Demo.pmNode.blockState Demo.collab Demo.matrixIds Demo.selfIds).phaseProduct
        Demo.quietOp 0) = 2 ∧
      r.2.phaseInput 0 ≠ Demo.op.phaseInput 0 +
        cround ((Demo.pmNode.blockState Demo.collab Demo.matrixIds Demo.selfIds).phaseProduct
          Demo.quietOp 0) := by
  refine ⟨_, MatrixNodeFrom.mfrom_applyBlock_phase Demo.collab Demo.matrixIds Demo.selfIds
    Demo.pmNode Demo.op Demo.quietOp rfl (by decide) (by decide) (by decide) Demo.pm_inRange,
    ?_, ?_, ?_⟩
  · simp only [Demo.pm_phaseProduct, truncToInt_seven_quarters]
    rfl
  · rw [Demo.pm_phaseProduct, cround_seven_quarters]
  · simp only [Demo.pm_phaseProduct, truncToInt_seven_quarters, cround_seven_quarters]
    decide

/-- C7 (amended): for an active inter-operator node in mode 0, on a block that stays inside
the `int32_t` range, `applyBlock()` returns and adds to every `phaseInput[j]` of the block
the product `(1 << 27) * (overdrive * (modlev[j] * source[j]))` truncated toward zero. -/
theorem C7_phase_delta_is_truncated_product (c : Collab S D) (tm : Patch.MatrixNode.TargetID)
    (ts : Patch.SelfNode.TargetID) (n : MatrixNodeFrom S) (onto src : OpSource)
    (ha : n.active = true) (hm : n.modMode = 0)
    (hr : MatrixNodeFrom.phaseInRange c.blockSize (n.blockState c tm ts) onto src) :
    ∃ r, n.applyBlock c tm ts onto src = some r ∧
      ∀ j, j < c.blockSize → r.2.phaseInput j =
        onto.phaseInput j + truncToInt ((n.blockState c tm ts).phaseProduct src j) := by
  refine ⟨_, MatrixNodeFrom.mfrom_applyBlock_phase c tm ts n onto src ha (by rw [hm]; decide)
    (by rw [hm]; decide) (by rw [hm]; decide) hr, ?_⟩
  intro j hj
  simp only [hj, if_true]

/-- Witness of the amended C7: with `modlev = 1`, overdrive factor 1 and source `7 / 2^29`
the sample `phaseInput[0]` goes from 0 to 1. -/
theorem C7_phase_delta_is_truncated_product_witness :
    ∃ r, Demo.pmNode.applyBlock Demo.collab Demo.matrixIds Demo.selfIds Demo.op Demo.quietOp
        = some r ∧ r.2.phaseInput 0 = 1 := by
  obtain ⟨r, hr, h⟩ := C7_phase_delta_is_truncated_product Demo.collab Demo.matrixIds
    Demo.selfIds Demo.pmNode Demo.op Demo.quietOp rfl rfl Demo.pm_inRange
  refine ⟨r, hr, ?_⟩
  rw [h 0 (by decide), Demo.pm_phaseProduct, truncToInt_seven_quarters]
  rfl

/-- C8, as stated, fails: on a feedback node with `modlev = 7 / 2^26` and the overdrive flag
clear the product `(1 << 24) * modlev * overdrive` is `7/4`, whose nearest integer is 2, but
after `attack()` the call `applyBlock()` writes 1 to `feedbackLevel[0]`. -/
theorem C8_counterexample_feedback_is_not_rounded :
    ∃ r, (Demo.fbNode.attack Demo.collab Demo.selfIds).applyBlock Demo.collab Demo.selfIds
        Demo.op = some r ∧
      r.2.feedbackLevel 0 = 1 ∧
      cround (((1 <<< 24 : Nat) : ℚ) *
        ((Demo.fbNode.attack Demo.collab Demo.selfIds).blockState Demo.collab
          Demo.selfIds).modlev 0 *
        (if Demo.fbNode.selfNode.overdrive > 1 / 2 then 10 else 1)) = 2 := by
  obtain ⟨a1, -, a3⟩ := MatrixNodeSelf.mself_attack_of_active Demo.collab Demo.selfIds
    Demo.fbNode (by norm_num [Demo.fbNode, Demo.selfNode])
  obtain ⟨f1, -, -⟩ := MatrixNodeSelf.mself_blockState_frame Demo.collab Demo.selfIds
    (Demo.fbNode.attack Demo.collab Demo.selfIds)
  have hp : ∀ j, ((Demo.fbNode.attack Demo.collab Demo.selfIds).blockState Demo.collab
      Demo.selfIds).feedbackProduct j = 7 / 4 := by
    intro j
    rw [MatrixNodeSelf.feedbackProduct, f1, a3]
    exact Demo.fb_product j
  refine ⟨_, MatrixNodeSelf.mself_applyBlock_active Demo.collab Demo.selfIds _ Demo.op a1
    (fun j _ => by rw [hp, truncToInt_seven_quarters]; decide), ?_, ?_⟩
  · simp only [hp, truncToInt_seven_quarters]
    rfl
  · rw [Demo.fb_product, cround_seven_quarters]

/-- C8 (amended): when the `active` parameter of a feedback node is above 0.5, then after
`attack()`, on a block whose converted samples stay inside the `int32_t` range,
`applyBlock()` returns and overwrites every `feedbackLevel[j]` of the block with the product
`(1 << 24) * modlev[j] * overdrive` truncated toward zero, where `overdrive` is 10 when the
overdrive parameter was above 0.5 at `attack()` and 1 otherwise; the previous contents of
`feedbackLevel` do not enter the result. -/
theorem C8_feedback_level_is_truncated_product (c : Collab S D) (ts : Patch.SelfNode.TargetID)
    (n : MatrixNodeSelf S) (onto : OpSource) (ha : n.selfNode.active > 1 / 2)
    (hr : ∀ j, j < c.blockSize → inInt32 (truncToInt (((1 <<< 24 : Nat) : ℚ) *
      ((n.attack c ts).blockState c ts).modlev j *
      (if n.selfNode.overdrive > 1 / 2 then 10 else 1))) = true) :
    ∃ r, (n.attack c ts).applyBlock c ts onto = some r ∧
      ∀ j, j < c.blockSize → r.2.feedbackLevel j =
        truncToInt (((1 <<< 24 : Nat) : ℚ) * ((n.attack c ts).blockState c ts).modlev j *
          (if n.selfNode.overdrive > 1 / 2 then 10 else 1)) := by
  obtain ⟨a1, -, a3⟩ := MatrixNodeSelf.mself_attack_of_active c ts n ha
  obtain ⟨f1, -, -⟩ := MatrixNodeSelf.mself_blockState_frame c ts (n.attack c ts)
  have hp : ∀ j, ((n.attack c ts).blockState c ts).feedbackProduct j =
      ((1 <<< 24 : Nat) : ℚ) * ((n.attack c ts).blockState c ts).modlev j *
        (if n.selfNode.overdrive > 1 / 2 then 10 else 1) := by
    intro j
    rw [MatrixNodeSelf.feedbackProduct, f1, a3]
  refine ⟨_, MatrixNodeSelf.mself_applyBlock_active c ts _ onto a1
    (fun j hj => by rw [hp]; exact hr j hj), ?_⟩
  intro j hj
  simp only [hj, if_true, hp]

/-- Witness of the amended C8: with `modlev = 7 / 2^26` and the overdrive flag clear, the
sample `feedbackLevel[0]`, which held 99, becomes 1. -/
theorem C8_feedback_level_is_truncated_product_witness :
    ∃ r, (Demo.fbNode.attack Demo.collab Demo.selfIds).applyBlock Demo.collab Demo.selfIds
        Demo.usedOp = some r ∧ r.2.feedbackLevel 0 = 1 := by
  obtain ⟨r, hr, h⟩ := C8_feedback_level_is_truncated_product Demo.collab Demo.selfIds
    Demo.fbNode Demo.usedOp (by norm_num [Demo.fbNode, Demo.selfNode])
    (fun j _ => by rw [Demo.fb_product, truncToInt_seven_quarters]; decide)
  refine ⟨r, hr, ?_⟩
  rw [h 0 (by decide), Demo.fb_product, truncToInt_seven_quarters]


/-- C9 (the code departs from the claim): `OutputNode::renderBlock()` adds the mixer rows to
`output` without clearing it first.  The node `plainOutputNode` is the state `attack()`
leaves: no bound sources, zero LFO depth, centre pan, unity velocity response, level 1,
envelope 1, and its only mixer node is routed to main with output 1.  The first
`renderBlock()` leaves the claimed `0.15 * 1^3 * 1 * 1 = 3/20` in `output[0][0]`; the second
`renderBlock()` of the same note, on the same parameters and the same mixer output, finds
that `3/20` still in the buffer and leaves `0.15 * (3/20 + 1) = 69/400`, where the claimed
sample is again `3/20`. -/
theorem C9_second_block_adds_first_block :
    (Demo.plainOutputNode.attack Demo.collab Demo.outputIds Demo.panIds Demo.fineIds
        = some Demo.plainOutputNode ∧
      Demo.secondBlockNode = Demo.plainOutputNode.renderBlock Demo.collab Demo.outputIds
        Demo.panIds Demo.fineIds Demo.voice Demo.mixers) ∧
    (Demo.secondBlockNode.anySources = false ∧
      Demo.secondBlockNode.outputNode.lfoDepth = 0 ∧
      Demo.secondBlockNode.outputNode.pan = 0 ∧
      1 - Demo.secondBlockNode.outputNode.velSensitivity * (1 - Demo.voice.velocityLag) = 1 ∧
      Demo.mixers = [(Demo.loudMixerNode, Demo.op)] ∧
      Demo.op.operatorOutputsToMain = true) ∧
    (Demo.plainOutputNode.renderBlock Demo.collab Demo.outputIds Demo.panIds Demo.fineIds
      Demo.voice Demo.mixers).output 0 0 = 3 / 20 ∧
    (Demo.secondBlockNode.renderBlock Demo.collab Demo.outputIds Demo.panIds Demo.fineIds
      Demo.voice Demo.mixers).output 0 0 = 69 / 400 ∧
    15 / 100 * Demo.secondBlockNode.outputNode.level ^ 3 *
      (Demo.secondBlockNode.blockState Demo.collab Demo.outputIds Demo.panIds Demo.fineIds
        Demo.mixers).env.outputCache 0 * Demo.loudMixerNode.output 0 0 = 3 / 20 := by
  obtain ⟨h1, h2, h3, h4, h5⟩ := Demo.secondBlock_facts
  have hlev : Demo.plainOutputNode.outputNode.level = 1 := rfl
  refine ⟨⟨Demo.plainOutputNode_attack, rfl⟩, ⟨h1, by rw [h2]; rfl, by rw [h2]; rfl,
    by rw [h2]; norm_num [Demo.plainOutputNode, Demo.outputNode], rfl, rfl⟩, h4, ?_, ?_⟩
  · rw [OutputNode.outn_renderBlock_plain Demo.collab Demo.outputIds Demo.panIds Demo.fineIds
      Demo.voice Demo.mixers Demo.secondBlockNode h1 (by rw [h2]; rfl)
      (by rw [h2]; norm_num [Demo.plainOutputNode, Demo.outputNode]) (by rw [h2]; rfl) rfl
      (by rw [h3]; rfl) (by rw [h2, hlev]; norm_num) (by rw [h2, hlev]) 0 0 (by decide)
      (by decide), h2, hlev, h4, h5]
    norm_num [Demo.mixers, Demo.op, Demo.loudMixerNode]
  · rw [h2, hlev, h5]
    norm_num [Demo.loudMixerNode]

/-- C10: for an active mixer node whose patch node has `isMutedDueToSoloAway` set, after
`renderBlock()` every sample of `output[0]` and `output[1]` is zero, whatever the level, pan,
envelope, LFO, operator output and DC-blocker state are. -/
theorem C10_muted_mixer_renders_zero (c : Collab S D) (tid : Patch.MixerNode.TargetID)
    (vv : VoiceValues) (n : MixerNode S D) (src : OpSource) (ha : n.active = true)
    (hm : n.mixerNode.isMutedDueToSoloAway = true) :
    ∀ ch i, (n.renderBlock c tid vv src).output ch i = 0 := by
  intro ch i
  rw [MixerNode.mixer_renderBlock_muted c tid vv n src ha hm]

/-- Witness of C10 on an active, muted mixer node with level 1 and an operator output of 1/2,
whose buffer held 1 in every sample. -/
theorem C10_muted_mixer_renders_zero_witness :
    (Demo.mutedMixerNode.renderBlock Demo.collab Demo.mixerIds Demo.voice
        Demo.op).output 0 0 = 0 ∧
      (Demo.mutedMixerNode.renderBlock Demo.collab Demo.mixerIds Demo.voice
        Demo.op).output 1 1 = 0 :=
  ⟨C10_muted_mixer_renders_zero Demo.collab Demo.mixerIds Demo.voice Demo.mutedMixerNode
      Demo.op rfl rfl 0 0,
    C10_muted_mixer_renders_zero Demo.collab Demo.mixerIds Demo.voice Demo.mutedMixerNode
      Demo.op rfl rfl 1 1⟩

/-- C11: after `attack()` on an inter-operator node whose `active` parameter is above 0.5,
the overdrive factor is 10 when the overdrive flag is set and the rounded mode is 2, 3 when
the flag is set and the rounded mode is 3, and 1 whenever the flag is not set; in mode 2
`applyBlock()` then returns and adds `factor * modlev[j] * source[j]` to every
`fmAmount[j]` of the block, and in mode 3 it adds `twoToThe(factor * modlev[j] * source[j])
- 1`, where `twoToThe` is the power-of-two table of `MonoValues`. -/
theorem C11_overdrive_factor_and_fm_update (c : Collab S D) (tm : Patch.MatrixNode.TargetID)
    (ts : Patch.SelfNode.TargetID) (n : MatrixNodeFrom S) (onto src : OpSource)
    (ha : n.matrixNode.active > 1 / 2)
    (hm : inInt32 (cround n.matrixNode.modulationMode) = true)
    (hs : inInt32 (cround n.matrixNode.modulationScale) = true) :
    ∃ n1, n.attack c tm ts = some n1 ∧
      n1.modMode = cround n.matrixNode.modulationMode ∧
      (n.matrixNode.overdrive > 1 / 2 → n1.modMode = 2 → n1.overdriveFactor = 10) ∧
      (n.matrixNode.overdrive > 1 / 2 → n1.modMode = 3 → n1.overdriveFactor = 3) ∧
      (¬ n.matrixNode.overdrive > 1 / 2 → n1.overdriveFactor = 1) ∧
      (n1.modMode = 2 → ∃ r, n1.applyBlock c tm ts onto src = some r ∧
        ∀ j, j < c.blockSize → r.2.fmAmount j = onto.fmAmount j +
          n1.overdriveFactor * (n1.blockState c tm ts).modlev j * src.output j) ∧
      (n1.modMode = 3 → ∃ r, n1.applyBlock c tm ts onto src = some r ∧
        ∀ j, j < c.blockSize → r.2.fmAmount j = onto.fmAmount j +
          (c.twoToThe (n1.overdriveFactor * (n1.blockState c tm ts).modlev j * src.output j)
            - 1)) := by
  obtain ⟨n1, h1, a1, a2, -, -, a5⟩ :=
    MatrixNodeFrom.mfrom_attack_of_active c tm ts n ha hm hs
  refine ⟨n1, h1, a2, ?_, ?_, ?_, ?_, ?_⟩
  · intro ho h2
    rw [a5, ← a2, h2, if_neg (by decide), if_pos ho]
  · intro ho h3
    rw [a5, ← a2, h3, if_pos rfl, if_pos ho]
  · intro ho
    rw [a5, if_neg ho, if_neg ho]
    split_ifs <;> rfl
  · intro h2
    obtain ⟨r, hr, -, -, -, -, h⟩ :=
      MatrixNodeFrom.mfrom_applyBlock_linear c tm ts n1 onto src a1 h2
    exact ⟨r, hr, fun j hj => by rw [h j hj, mul_assoc]⟩
  · intro h3
    obtain ⟨r, hr, -, -, -, -, h⟩ :=
      MatrixNodeFrom.mfrom_applyBlock_exponential c tm ts n1 onto src a1 h3
    exact ⟨r, hr, fun j hj => by rw [h j hj, mul_assoc]⟩

/-- Witness of C11 on a node whose patch selects mode 2 with the overdrive flag set: after
`attack()` the factor is 10 and `applyBlock()` adds `10 * modlev[0] * source[0]` to
`fmAmount[0]`. -/
theorem C11_overdrive_factor_and_fm_update_witness :
    ∃ n1, Demo.fmNode.attack Demo.collab Demo.matrixIds Demo.selfIds = some n1 ∧
      n1.overdriveFactor = 10 ∧
      ∃ r, n1.applyBlock Demo.collab Demo.matrixIds Demo.selfIds Demo.op Demo.op = some r ∧
        r.2.fmAmount 0 = Demo.op.fmAmount 0 +
          n1.overdriveFactor * (n1.blockState Demo.collab Demo.matrixIds Demo.selfIds).modlev 0
            * Demo.op.output 0 := by
  have hmode : cround Demo.fmNode.matrixNode.modulationMode = 2 := cround_two
  have hscale : cround Demo.fmNode.matrixNode.modulationScale = 0 := cround_zero
  obtain ⟨n1, h1, a2, h10, -, -, hfm, -⟩ := C11_overdrive_factor_and_fm_update Demo.collab
    Demo.matrixIds Demo.selfIds Demo.fmNode Demo.op Demo.op
    (by norm_num [Demo.fmNode, Demo.pmNode, Demo.fromNode])
    (by rw [hmode]; decide) (by rw [hscale]; decide)
  obtain ⟨r, hr, h⟩ := hfm (a2.trans hmode)
  exact ⟨n1, h1, h10 (by norm_num [Demo.fmNode]) (a2.trans hmode), r, hr, h 0 (by decide)⟩

/-- C12: for an active inter-operator node whose rounded mode selector is none of 1, 2, 3
(negative values and values from 4 on included), `applyBlock()` performs the mode-0 update:
it leaves the operator that the same node with mode 0 leaves (and is undefined exactly when
that one is), `fmAmount` and `rmLevel` are unchanged, and on a block inside the `int32_t`
range it returns with every `phaseInput[j]` increased by the truncated product. -/
theorem C12_unrecognised_mode_is_phase_modulation (c : Collab S D)
    (tm : Patch.MatrixNode.TargetID) (ts : Patch.SelfNode.TargetID) (n : MatrixNodeFrom S)
    (onto src : OpSource) (ha : n.active = true) (h1 : n.modMode ≠ 1) (h2 : n.modMode ≠ 2)
    (h3 : n.modMode ≠ 3) :
    (n.applyBlock c tm ts onto src).map Prod.snd =
        (MatrixNodeFrom.applyBlock c tm ts { n with modMode := 0 } onto src).map Prod.snd ∧
      (∀ r, n.applyBlock c tm ts onto src = some r →
        r.2.fmAmount = onto.fmAmount ∧ r.2.rmLevel = onto.rmLevel) ∧
      (MatrixNodeFrom.phaseInRange c.blockSize (n.blockState c tm ts) onto src →
        ∃ r, n.applyBlock c tm ts onto src = some r ∧
          ∀ j, j < c.blockSize → r.2.phaseInput j =
            onto.phaseInput j + truncToInt ((n.blockState c tm ts).phaseProduct src j)) := by
  refine ⟨MatrixNodeFrom.mfrom_applyBlock_default_eq_mode0 c tm ts n onto src ha h1 h2 h3,
    ?_, ?_⟩
  · intro r hr
    obtain ⟨g1, g2, -, -⟩ :=
      MatrixNodeFrom.mfrom_applyBlock_default_frame c tm ts n onto src ha h1 h2 h3 r hr
    exact ⟨g1, g2⟩
  · intro hrange
    refine ⟨_, MatrixNodeFrom.mfrom_applyBlock_phase c tm ts n onto src ha h1 h2 h3 hrange, ?_⟩
    intro j hj
    simp only [hj, if_true]

/-- Witness of C12 on a node with mode selector 7, `modlev = 1`, overdrive factor 1 and the
source `7 / 2^29`: `phaseInput[0]` goes from 0 to 1, as in mode 0, and `fmAmount` stays. -/
theorem C12_unrecognised_mode_is_phase_modulation_witness :
    ∃ r, Demo.oddModeNode.applyBlock Demo.collab Demo.matrixIds Demo.selfIds Demo.op
        Demo.quietOp = some r ∧ r.2.phaseInput 0 = 1 ∧ r.2.fmAmount = Demo.op.fmAmount := by
  obtain ⟨-, hf, hp⟩ := C12_unrecognised_mode_is_phase_modulation Demo.collab Demo.matrixIds
    Demo.selfIds Demo.oddModeNode Demo.op Demo.quietOp rfl (by decide) (by decide) (by decide)
  obtain ⟨r, hr, h⟩ := hp (MatrixNodeFrom.mfrom_plain_inRange Demo.oddModeNode rfl rfl rfl)
  refine ⟨r, hr, ?_, (hf r hr).1⟩
  rw [h 0 (by decide), MatrixNodeFrom.mfrom_plain_phaseProduct Demo.oddModeNode rfl rfl rfl,
    truncToInt_seven_quarters]
  rfl

/-- C13: in `calculateModulation()` of every node, a slot `k` whose source is unbound, whose
depth is unbound or whose target is `NONE` is passed over before either hook is consulted
(`offerSlot` yields no value and the collaborators' state it was given, whatever the hooks
are); and when slot `k` is inert in one of these three ways, or has a target that both hooks
decline, leaving their state as it is, and that is none of the `case` labels of the node,
the node state after `calculateModulation()` (all accumulators included) is the state the
same pass yields with slot `k` absent.  The function is total, so no fault is raised. -/
theorem C13_inert_slot_is_absent (c : Collab S D)
    (tm : Patch.MatrixNode.TargetID) (ts : Patch.SelfNode.TargetID)
    (tx : Patch.MixerNode.TargetID) (tp : Patch.MainPanNode.TargetID)
    (tf : Patch.FineTuneNode.TargetID) (tout : Patch.OutputNode.TargetID)
    (nm : MatrixNodeFrom S) (ns : MatrixNodeSelf S) (nx : MixerNode S D)
    (np : MainPanNode S) (nf : FineTuneNode S) (nout : OutputNode S) (k : Nat)
    (hm : slotInert c ts.NONE (nm.matrixNode.modtarget k)
      [tm.DIRECT, tm.DEPTH_ATTEN, tm.LFO_DEPTH_ATTEN] (nm.sourcePointers k)
      (nm.depthPointers k))
    (hs : slotInert c ts.NONE (ns.selfNode.modtarget k)
      [ts.DIRECT, ts.DEPTH_ATTEN, ts.LFO_DEPTH_ATTEN] (ns.sourcePointers k)
      (ns.depthPointers k))
    (hx : slotInert c tx.NONE (nx.mixerNode.modtarget k)
      [tx.DIRECT, tx.PAN, tx.DEPTH_ATTEN, tx.LFO_DEPTH_ATTEN, tx.LFO_DEPTH_PAN_ATTEN]
      (nx.sourcePointers k) (nx.depthPointers k))
    (hp : slotInert c tp.NONE (np.modNode.modtarget k)
      [tp.DIRECT, tp.ENVDEP_DIR, tp.LFODEP_DIR, tp.DEPTH_ATTEN, tp.LFO_DEPTH_ATTEN]
      (np.sourcePointers k) (np.depthPointers k))
    (hf : slotInert c tf.NONE (nf.modNode.modtarget k)
      [tf.DIRECT, tf.ENVDEP_DIR, tf.LFODEP_DIR, tf.DEPTH_ATTEN, tf.LFO_DEPTH_ATTEN, tf.COARSE]
      (nf.sourcePointers k) (nf.depthPointers k))
    (hout : slotInert c tout.NONE (nout.outputNode.modtarget k)
      [tout.PAN, tout.DIRECT, tout.DEPTH_ATTEN, tout.LFO_DEPTH_ATTEN]
      (nout.sourcePointers k) (nout.depthPointers k)) :
    (∀ (noneId t : Int) (sup : NodeSupport S),
        (sup.sourcePointers k = none ∨ sup.depthPointers k = none ∨ t = noneId) →
        offerSlot c noneId t k sup = (none, sup.inner)) ∧
      nm.calculateModulation c tm ts = nm.calculateModulationWithout c tm ts k ∧
      ns.calculateModulation c ts = ns.calculateModulationWithout c ts k ∧
      nx.calculateModulation c tx = nx.calculateModulationWithout c tx k ∧
      np.calculateModulation c tp = np.calculateModulationWithout c tp k ∧
      nf.calculateModulation c tf = nf.calculateModulationWithout c tf k ∧
      nout.calculateModulation c tout = nout.calculateModulationWithout c tout k :=
  ⟨fun noneId t sup h => offerSlot_skip c noneId t k sup h,
    MatrixNodeFrom.mfrom_calculateModulation_without c tm ts nm k hm,
    MatrixNodeSelf.mself_calculateModulation_without c ts ns k hs,
    MixerNode.mixer_calculateModulation_without c tx nx k hx,
    MainPanNode.mpan_calculateModulation_without c tp np k hp,
    FineTuneNode.ftune_calculateModulation_without c tf nf k hf,
    OutputNode.outn_calculateModulation_without c tout nout k hout⟩

/-- C13 witness, at slot 1 of six nodes: an unbound source (inter-operator node), an unbound
depth (feedback node), the target `NONE` (mixer) and the target 99, which neither hook
claims and no node recognises (main pan, fine tune, output). -/
theorem C13_inert_slot_is_absent_witness :
    Demo.gapFromNode.calculateModulation Demo.collab Demo.matrixIds Demo.selfIds
        = Demo.gapFromNode.calculateModulationWithout Demo.collab Demo.matrixIds Demo.selfIds 1 ∧
      Demo.noDepthSelfNode.calculateModulation Demo.collab Demo.selfIds
        = Demo.noDepthSelfNode.calculateModulationWithout Demo.collab Demo.selfIds 1 ∧
      Demo.noneSlotMixerNode.calculateModulation Demo.collab Demo.mixerIds
        = Demo.noneSlotMixerNode.calculateModulationWithout Demo.collab Demo.mixerIds 1 ∧
      Demo.oddPanNode.calculateModulation Demo.collab Demo.panIds
        = Demo.oddPanNode.calculateModulationWithout Demo.collab Demo.panIds 1 ∧
      Demo.oddFineNode.calculateModulation Demo.collab Demo.fineIds
        = Demo.oddFineNode.calculateModulationWithout Demo.collab Demo.fineIds 1 ∧
      Demo.oddOutputNode.calculateModulation Demo.collab Demo.outputIds
        = Demo.oddOutputNode.calculateModulationWithout Demo.collab Demo.outputIds 1 :=
  (C13_inert_slot_is_absent Demo.collab Demo.matrixIds Demo.selfIds Demo.mixerIds Demo.panIds
    Demo.fineIds Demo.outputIds Demo.gapFromNode Demo.noDepthSelfNode Demo.noneSlotMixerNode
    Demo.oddPanNode Demo.oddFineNode Demo.oddOutputNode 1
    (Or.inl rfl) (Or.inr (Or.inl rfl)) (Or.inr (Or.inr (Or.inl rfl)))
    (Or.inr (Or.inr (Or.inr ⟨fun _ _ _ => rfl, fun _ _ _ => rfl, by decide⟩)))
    (Or.inr (Or.inr (Or.inr ⟨fun _ _ _ => rfl, fun _ _ _ => rfl, by decide⟩)))
    (Or.inr (Or.inr (Or.inr ⟨fun _ _ _ => rfl, fun _ _ _ => rfl, by decide⟩)))).2

/-- C14: for an active mixer node the mono signal before panning is `vSum[j] = amp[j] *
in[j]` for every sample `j`, where `in` is the operator output (DC-blocked when
`from.rmAssigned || doBlock`), `lv = clamp(level + levMod, 0, 1) * depthAtten`, and `amp[j]`
is `lv * env[j] + lfoAtten * lfoToLevel * lfo[j]` when the envelope is a multiplier and
`lv + envToLevel * env[j] + lfoAtten * lfoToLevel * lfo[j]` otherwise (`ampSignal`); when the
node is not muted this `vSum` is what the panning step writes to `output`. -/
theorem C14_mixer_mono_signal (c : Collab S D) (tid : Patch.MixerNode.TargetID)
    (vv : VoiceValues) (n : MixerNode S D) (src : OpSource) (ha : n.active = true) :
    (∀ j, (MixerNode.lfoStage c.blockSize
        (MixerNode.dcStage c (n.blockState c tid) src).1).vSum
          (MixerNode.dcStage c (n.blockState c tid) src).2 j =
        MixerNode.ampSignal c.blockSize (n.blockState c tid) j *
          MixerNode.inputSignal c (n.blockState c tid) src j) ∧
      (n.mixerNode.isMutedDueToSoloAway = false →
        (n.renderBlock c tid vv src).output =
          MixerNode.panStage c vv
            (MixerNode.lfoStage c.blockSize (MixerNode.dcStage c (n.blockState c tid) src).1)
            src
            ((MixerNode.lfoStage c.blockSize
              (MixerNode.dcStage c (n.blockState c tid) src).1).vSum
                (MixerNode.dcStage c (n.blockState c tid) src).2)) :=
  ⟨fun j => MixerNode.mixer_vSum_eq c (n.blockState c tid) src j,
    fun hm => MixerNode.mixer_renderBlock_output c tid vv n src ha hm⟩

/-- Witness of C14 on an active mixer node with level 1, envelope 1, no LFO depth and an
operator output of 1/2: `vSum[0] = 1 * 1/2`. -/
theorem C14_mixer_mono_signal_witness :
    (MixerNode.lfoStage Demo.collab.blockSize
      (MixerNode.dcStage Demo.collab (Demo.plainMixerNode.blockState Demo.collab Demo.mixerIds)
        Demo.op).1).vSum
      (MixerNode.dcStage Demo.collab (Demo.plainMixerNode.blockState Demo.collab Demo.mixerIds)
        Demo.op).2 0 = 1 / 2 := by
  obtain ⟨s1, s2, -⟩ := MixerNode.mixer_plain_signals Demo.plainMixerNode rfl
    ⟨rfl, rfl, rfl, rfl⟩ rfl 0
  rw [(C14_mixer_mono_signal Demo.collab Demo.mixerIds Demo.voice Demo.plainMixerNode Demo.op
    rfl).1 0, s1, s2]
  norm_num

/-- C15: for an active mixer node the pan value `pn` of `renderBlock()` is
`clamp(pan + lfoPanAtten * lfoToPan * lfo[blockSize - 1] + (uniPanShift if the operator
participates in unison pan, else 0) + panMod, -1, 1)` (`panValue`), and the argument
`(pn + 1) / 2` of the pan law lies in `[0, 1]`; when the node is not muted and `pn = 0`,
`output[0][i] = output[1][i] = vSum[i]` for every sample of the block, and when `pn ≠ 0`
the rows are `vSum[i]` times the entries 0 and 3 of `monoEqualPower((pn + 1) / 2)`. -/
theorem C15_mixer_pan (c : Collab S D) (tid : Patch.MixerNode.TargetID)
    (vv : VoiceValues) (n : MixerNode S D) (src : OpSource) (ha : n.active = true) :
    (MixerNode.lfoStage c.blockSize (MixerNode.dcStage c (n.blockState c tid) src).1).pn
        c.blockSize vv src = MixerNode.panValue c.blockSize vv (n.blockState c tid) src ∧
      (0 ≤ (MixerNode.panValue c.blockSize vv (n.blockState c tid) src + 1) * (1 / 2) ∧
        (MixerNode.panValue c.blockSize vv (n.blockState c tid) src + 1) * (1 / 2) ≤ 1) ∧
      (n.mixerNode.isMutedDueToSoloAway = false →
        MixerNode.panValue c.blockSize vv (n.blockState c tid) src = 0 →
        ∀ i, i < c.blockSize →
          (n.renderBlock c tid vv src).output 0 i =
            MixerNode.ampSignal c.blockSize (n.blockState c tid) i *
              MixerNode.inputSignal c (n.blockState c tid) src i ∧
          (n.renderBlock c tid vv src).output 1 i =
            MixerNode.ampSignal c.blockSize (n.blockState c tid) i *
              MixerNode.inputSignal c (n.blockState c tid) src i) ∧
      (n.mixerNode.isMutedDueToSoloAway = false →
        MixerNode.panValue c.blockSize vv (n.blockState c tid) src ≠ 0 →
        ∀ i, i < c.blockSize →
          (n.renderBlock c tid vv src).output 0 i =
            MixerNode.ampSignal c.blockSize (n.blockState c tid) i *
              MixerNode.inputSignal c (n.blockState c tid) src i *
              c.monoEqualPower
                ((MixerNode.panValue c.blockSize vv (n.blockState c tid) src + 1) * (1 / 2)) 0 ∧
          (n.renderBlock c tid vv src).output 1 i =
            MixerNode.ampSignal c.blockSize (n.blockState c tid) i *
              MixerNode.inputSignal c (n.blockState c tid) src i *
              c.monoEqualPower
                ((MixerNode.panValue c.blockSize vv (n.blockState c tid) src + 1) * (1 / 2))
                3) := by
  have hpn := MixerNode.mixer_pn_eq c vv (n.blockState c tid) src
  have hvs := MixerNode.mixer_vSum_eq c (n.blockState c tid) src
  obtain ⟨p0, p1⟩ := clamp_mem
    (((n.blockState c tid).mixerNode.pan + (n.blockState c tid).lfoPanAtten *
      (n.blockState c tid).mixerNode.lfoToPan *
      MixerNode.lfoSignal c.blockSize (n.blockState c tid) (c.blockSize - 1)
      + (if src.unisonParticipatesPan then vv.uniPanShift else 0)
      + (n.blockState c tid).panMod)) (-1) 1 (by norm_num)
  refine ⟨hpn, ⟨?_, ?_⟩, ?_, ?_⟩
  · unfold MixerNode.panValue; linarith
  · unfold MixerNode.panValue; linarith
  · intro hm h0 i hi
    rw [MixerNode.mixer_renderBlock_output c tid vv n src ha hm]
    simp [MixerNode.panStage, hpn, h0, mech.copy_from_to, hi, hvs]
  · intro hm h0 i hi
    rw [MixerNode.mixer_renderBlock_output c tid vv n src ha hm]
    simp [MixerNode.panStage, hpn, h0, mech.mul_block_const, hi, hvs]

/-- Witness of C15: a centred mixer node (level 1, envelope 1, operator output 1/2) leaves
`1/2` in both rows; the same node with pan 1 has `pn = 1`. -/
theorem C15_mixer_pan_witness :
    ((Demo.plainMixerNode.renderBlock Demo.collab Demo.mixerIds Demo.voice Demo.op).output 0 0
        = 1 / 2 ∧
      (Demo.plainMixerNode.renderBlock Demo.collab Demo.mixerIds Demo.voice Demo.op).output 1 0
        = 1 / 2) ∧
    (MixerNode.lfoStage Demo.collab.blockSize (MixerNode.dcStage Demo.collab
      (Demo.rightMixerNode.blockState Demo.collab Demo.mixerIds) Demo.op).1).pn
        Demo.collab.blockSize Demo.voice Demo.op = 1 := by
  obtain ⟨s1, s2, s3⟩ := MixerNode.mixer_plain_signals Demo.plainMixerNode rfl
    ⟨rfl, rfl, rfl, rfl⟩ rfl 0
  obtain ⟨-, -, t3⟩ := MixerNode.mixer_plain_signals Demo.rightMixerNode rfl
    ⟨rfl, rfl, rfl, rfl⟩ rfl 0
  have hc := (C15_mixer_pan Demo.collab Demo.mixerIds Demo.voice Demo.plainMixerNode Demo.op
    rfl).2.2.1 rfl (by rw [s3]; norm_num [clamp, Demo.plainMixerNode, Demo.mixerNode]) 0
    (by decide)
  have hr := (C15_mixer_pan Demo.collab Demo.mixerIds Demo.voice Demo.rightMixerNode Demo.op
    rfl).1
  refine ⟨⟨?_, ?_⟩, ?_⟩
  · rw [hc.1, s1, s2]; norm_num
  · rw [hc.2, s1, s2]; norm_num
  · rw [hr, t3]; norm_num [clamp, Demo.rightMixerNode]

/-- C16 (the code departs from the claim): `MixerNode::attack()` sets `doBlock` for the
waveforms TX3, TX4, TX7, TX8, SPIKY_TX4, SPIKY_TX8 and never clears it.  A mixer node whose
earlier note was attacked with a `TX3` operator keeps `doBlock` set through the `attack()` of
the next note, played on an operator with none of the listed waveforms and no ring modulation
assigned; in the following `renderBlock()` the operator output 1/2 is run through the DC
blocker (here a blocker whose filtered block is zero), so that the signal `in` and the node
output are 0 instead of the raw operator output. -/
theorem C16_doBlock_survives_attack :
    Demo.plainMixerNode.doBlock = 0 ∧
      Demo.afterTxNoteMixerNode.doBlock = 1 ∧
      Demo.op.waveForm ∉ [Demo.waveForms.TX3, Demo.waveForms.TX4, Demo.waveForms.TX7,
        Demo.waveForms.TX8, Demo.waveForms.SPIKY_TX4, Demo.waveForms.SPIKY_TX8] ∧
      Demo.op.rmAssigned = false ∧
      Demo.nextNoteMixerNode.active = true ∧
      Demo.nextNoteMixerNode.doBlock = 1 ∧
      Demo.op.output 0 = 1 / 2 ∧
      MixerNode.inputSignal Demo.dcCollab
        (Demo.nextNoteMixerNode.blockState Demo.dcCollab Demo.mixerIds) Demo.op 0 = 0 ∧
      (Demo.nextNoteMixerNode.renderBlock Demo.dcCollab Demo.mixerIds Demo.voice
        Demo.op).output 0 0 = 0 := by
  have hp : Demo.plainMixerNode.mixerNode.active > 1 / 2 := by
    norm_num [Demo.plainMixerNode, Demo.mixerNode]
  obtain ⟨a1, a2, a3⟩ := MixerNode.mixer_attack_of_active Demo.dcCollab Demo.mixerIds
    Demo.waveForms Demo.plainMixerNode Demo.txOp hp
  have h1 : Demo.afterTxNoteMixerNode.doBlock = 1 := by
    rw [Demo.afterTxNoteMixerNode, a3]
    simp [Demo.txOp, Demo.waveForms]
  have hq : Demo.afterTxNoteMixerNode.mixerNode.active > 1 / 2 := by
    rw [Demo.afterTxNoteMixerNode, a2]; exact hp
  obtain ⟨b1, b2, b3⟩ := MixerNode.mixer_attack_of_active Demo.dcCollab Demo.mixerIds
    Demo.waveForms Demo.afterTxNoteMixerNode Demo.op hq
  have h2 : Demo.nextNoteMixerNode.doBlock = 1 := by
    rw [Demo.nextNoteMixerNode, b3, h1]
    simp [Demo.op, Demo.waveForms]
  have h3 : MixerNode.inputSignal Demo.dcCollab
      (Demo.nextNoteMixerNode.blockState Demo.dcCollab Demo.mixerIds) Demo.op 0 = 0 := by
    have hf := (MixerNode.mixer_blockState_frame Demo.dcCollab Demo.mixerIds
      Demo.nextNoteMixerNode).2.2.1
    rw [h2] at hf
    simp only [MixerNode.inputSignal, hf]
    simp [Demo.dcCollab]
  refine ⟨rfl, h1, by simp [Demo.op, Demo.waveForms], rfl, b1, h2, rfl, h3, ?_⟩
  exact MixerNode.mixer_renderBlock_of_input_zero Demo.dcCollab Demo.mixerIds Demo.voice
    Demo.nextNoteMixerNode Demo.op b1 0 (by decide) h3

/-- C17 (counterexample to the claim as written): a main-pan node without bound sources
whose `lfoDepth` is 1e-9, a non-zero static depth, is not active after `attack()`. -/
theorem C17_counterexample_small_depth_is_inactive :
    Demo.faintPanNode.modNode.lfoDepth ≠ 0 ∧
      (Demo.faintPanNode.attack Demo.collab Demo.panIds).active = false := by
  refine ⟨by norm_num [Demo.faintPanNode, Demo.idlePanNode, Demo.panNode], ?_⟩
  rw [(MainPanNode.mpan_attack_active Demo.collab Demo.panIds Demo.faintPanNode).1]
  have h1 : |Demo.faintPanNode.modNode.lfoDepth| < 1 / 100000000 := by
    rw [abs_lt]
    norm_num [Demo.faintPanNode, Demo.idlePanNode, Demo.panNode]
  have h2 : |Demo.faintPanNode.modNode.envDepth| < 1 / 100000000 := by
    rw [abs_lt]
    norm_num [Demo.faintPanNode, Demo.idlePanNode, Demo.panNode]
  rw [if_pos ⟨h1, h2⟩]
  simp [boundAtAttack, Demo.collab, Demo.faintPanNode, Demo.idlePanNode, Demo.plainSupport]

/-- C17 (amended): after `attack()` a main-pan node is active exactly when `|lfoDepth|` or
`|envDepth|` is at least 1e-8 or one of the `numModsPer` source pointers is bound after
`bindModulation()`; a fine-tune node likewise, with `|lfoCoarseDepth|` and
`|envCoarseDepth|` in addition.  When the node is not active, `level` (and `coarseLevel`)
is 0 after `attack()` followed by any number `k` of `modProcess()` calls. -/
theorem C17_scalar_node_active_iff_threshold (c : Collab S D)
    (ptid : Patch.MainPanNode.TargetID) (ftid : Patch.FineTuneNode.TargetID)
    (p : MainPanNode S) (f : FineTuneNode S) (k : Nat) :
    ((p.attack c ptid).active = true ↔
        (1 / 100000000 ≤ |p.modNode.lfoDepth| ∨ 1 / 100000000 ≤ |p.modNode.envDepth| ∨
          anySourceBound c.numModsPer (boundAtAttack c p.toNodeSupport))) ∧
      ((f.attack c ftid).active = true ↔
        (1 / 100000000 ≤ |f.modNode.lfoDepth| ∨ 1 / 100000000 ≤ |f.modNode.envDepth| ∨
          1 / 100000000 ≤ |f.modNode.lfoCoarseDepth| ∨
          1 / 100000000 ≤ |f.modNode.envCoarseDepth| ∨
          anySourceBound c.numModsPer (boundAtAttack c f.toNodeSupport))) ∧
      ((p.attack c ptid).active = false →
        ((MainPanNode.modProcess c ptid)^[k] (p.attack c ptid)).level = 0) ∧
      ((f.attack c ftid).active = false →
        ((FineTuneNode.modProcess c ftid)^[k] (f.attack c ftid)).level = 0 ∧
          ((FineTuneNode.modProcess c ftid)^[k] (f.attack c ftid)).coarseLevel = 0) := by
  obtain ⟨pa, -, pl⟩ := MainPanNode.mpan_attack_active c ptid p
  obtain ⟨fa, -, fl, fc⟩ := FineTuneNode.ftune_attack_active c ftid f
  have hany : ∀ s : NodeSupport S,
      ((List.range c.numModsPer).any (fun i => (s.sourcePointers i).isSome) = true ↔
        anySourceBound c.numModsPer s) := by
    intro s
    simp only [List.any_eq_true, List.mem_range, anySourceBound]
  refine ⟨?_, ?_, ?_, ?_⟩
  · rw [pa]
    split_ifs with h
    · rw [hany]
      constructor
      · intro hb; exact Or.inr (Or.inr hb)
      · rintro (h1 | h1 | h1)
        · exact absurd h.1 (not_lt.mpr h1)
        · exact absurd h.2 (not_lt.mpr h1)
        · exact h1
    · refine ⟨fun _ => ?_, fun _ => rfl⟩
      by_contra hc
      push_neg at hc
      exact h ⟨hc.1, hc.2.1⟩
  · rw [fa]
    split_ifs with h
    · rw [hany]
      constructor
      · intro hb; exact Or.inr (Or.inr (Or.inr (Or.inr hb)))
      · rintro (h1 | h1 | h1 | h1 | h1)
        · exact absurd h.1 (not_lt.mpr h1)
        · exact absurd h.2.1 (not_lt.mpr h1)
        · exact absurd h.2.2.1 (not_lt.mpr h1)
        · exact absurd h.2.2.2 (not_lt.mpr h1)
        · exact h1
    · refine ⟨fun _ => ?_, fun _ => rfl⟩
      by_contra hc
      push_neg at hc
      exact h ⟨hc.1, hc.2.1, hc.2.2.1, hc.2.2.2.1⟩
  · intro hi
    rw [MainPanNode.mpan_modProcess_iterate_of_inactive c ptid _ hi k]
    exact pl
  · intro hi
    rw [FineTuneNode.ftune_modProcess_iterate_of_inactive c ftid _ hi k]
    exact ⟨fl, fc⟩

/-- C17 witness: the main-pan node with three bound slots is active after `attack()`; the
fine-tune node whose only non-zero depth is 1e-9 and which has no bound slot is not, and its
`level` and `coarseLevel` are 0 after `attack()` and three `modProcess()` calls. -/
theorem C17_scalar_node_active_iff_threshold_witness :
    (Demo.panNode.attack Demo.collab Demo.panIds).active = true ∧
      (Demo.faintFineNode.attack Demo.collab Demo.fineIds).active = false ∧
      ((FineTuneNode.modProcess Demo.collab Demo.fineIds)^[3]
        (Demo.faintFineNode.attack Demo.collab Demo.fineIds)).level = 0 ∧
      ((FineTuneNode.modProcess Demo.collab Demo.fineIds)^[3]
        (Demo.faintFineNode.attack Demo.collab Demo.fineIds)).coarseLevel = 0 := by
  have h := C17_scalar_node_active_iff_threshold Demo.collab Demo.panIds Demo.fineIds
    Demo.panNode Demo.faintFineNode 3
  have hp : (Demo.panNode.attack Demo.collab Demo.panIds).active = true :=
    h.1.mpr (Or.inr (Or.inr ⟨0, by decide, rfl⟩))
  have hf : (Demo.faintFineNode.attack Demo.collab Demo.fineIds).active = false := by
    rw [← Bool.not_eq_true, h.2.1]
    have a1 : |Demo.faintFineNode.modNode.lfoDepth| < 1 / 100000000 := by
      rw [abs_lt]; norm_num [Demo.faintFineNode, Demo.idleFineNode, Demo.fineNode]
    have a2 : |Demo.faintFineNode.modNode.envDepth| < 1 / 100000000 := by
      rw [abs_lt]; norm_num [Demo.faintFineNode, Demo.idleFineNode, Demo.fineNode]
    have a3 : |Demo.faintFineNode.modNode.lfoCoarseDepth| < 1 / 100000000 := by
      rw [abs_lt]; norm_num [Demo.faintFineNode, Demo.idleFineNode, Demo.fineNode]
    have a4 : |Demo.faintFineNode.modNode.envCoarseDepth| < 1 / 100000000 := by
      rw [abs_lt]; norm_num [Demo.faintFineNode, Demo.idleFineNode, Demo.fineNode]
    rintro (h1 | h1 | h1 | h1 | ⟨i, -, h1⟩)
    · exact absurd a1 (not_lt.mpr h1)
    · exact absurd a2 (not_lt.mpr h1)
    · exact absurd a3 (not_lt.mpr h1)
    · exact absurd a4 (not_lt.mpr h1)
    · simp [boundAtAttack, Demo.collab, Demo.faintFineNode, Demo.idleFineNode,
        Demo.plainSupport] at h1
  exact ⟨hp, hf, (h.2.2.2 hf).1, (h.2.2.2 hf).2⟩

/-- C18: on an active fine-tune node `modProcess()` stores
`level = directMod + e*(envDepth + edMod)*envAtten + l*(lfoDepth + ldMod)*lfoAtten` and
`coarseLevel = 24*(directCoarseMod + e*(envCoarseDepth + edMod)*envAtten
+ l*(lfoCoarseDepth + ldMod)*lfoAtten)`, where `e` is the envelope's `outBlock0`, `l` is
the last LFO sample of the block, times `e` when the LFO is enveloped, and the modulation
members are those computed by `calculateModulation()` in this call; on an active main-pan
node `level` is given by the first formula. -/
theorem C18_scalar_node_levels (c : Collab S D)
    (ptid : Patch.MainPanNode.TargetID) (ftid : Patch.FineTuneNode.TargetID)
    (p : MainPanNode S) (f : FineTuneNode S) (hp : p.active = true) (hf : f.active = true) :
    (f.modProcess c ftid).level =
        (f.blockState c ftid).directMod
          + (f.blockState c ftid).env.outBlock0
            * (f.modNode.envDepth + (f.blockState c ftid).edMod) * (f.blockState c ftid).envAtten
          + FineTuneNode.lfoLast c.blockSize (f.blockState c ftid)
            * (f.modNode.lfoDepth + (f.blockState c ftid).ldMod)
            * (f.blockState c ftid).lfoAtten ∧
      (f.modProcess c ftid).coarseLevel =
        24 * ((f.blockState c ftid).directCoarseMod
          + (f.blockState c ftid).env.outBlock0
            * (f.modNode.envCoarseDepth + (f.blockState c ftid).edMod)
            * (f.blockState c ftid).envAtten
          + FineTuneNode.lfoLast c.blockSize (f.blockState c ftid)
            * (f.modNode.lfoCoarseDepth + (f.blockState c ftid).ldMod)
            * (f.blockState c ftid).lfoAtten) ∧
      (p.modProcess c ptid).level =
        (p.blockState c ptid).directMod
          + (p.blockState c ptid).env.outBlock0
            * (p.modNode.envDepth + (p.blockState c ptid).edMod) * (p.blockState c ptid).envAtten
          + MainPanNode.lfoLast c.blockSize (p.blockState c ptid)
            * (p.modNode.lfoDepth + (p.blockState c ptid).ldMod)
            * (p.blockState c ptid).lfoAtten := by
  obtain ⟨f1, f2⟩ := FineTuneNode.ftune_modProcess_of_active c ftid f hf
  refine ⟨f1, ?_, MainPanNode.mpan_modProcess_of_active c ptid p hp⟩
  rw [f2, mul_comm]

/-- C18 witness: nodes with envelope scalar 1/2, an enveloped LFO whose last sample is 1/2,
fine depths 1/2 (envelope) and 1 (LFO), coarse depths 1 and 2, and slots that add 1/4 to
`directMod`, 2 to `edMod` and 1/8 to `directCoarseMod`: both `level`s are 7/4 and
`coarseLevel` is 51. -/
theorem C18_scalar_node_levels_witness :
    Demo.livelyPanNode.active = true ∧ Demo.livelyFineNode.active = true ∧
      (Demo.livelyFineNode.modProcess Demo.collab Demo.fineIds).level = 7 / 4 ∧
      (Demo.livelyFineNode.modProcess Demo.collab Demo.fineIds).coarseLevel = 51 ∧
      (Demo.livelyPanNode.modProcess Demo.collab Demo.panIds).level = 7 / 4 := by
  have h := C18_scalar_node_levels Demo.collab Demo.panIds Demo.fineIds Demo.livelyPanNode
    Demo.livelyFineNode rfl rfl
  refine ⟨rfl, rfl, h.1.trans ?_, h.2.1.trans ?_, h.2.2.trans ?_⟩
  · simp only [FineTuneNode.blockState, FineTuneNode.calculateModulation,
      FineTuneNode.resetModulation, FineTuneNode.lfoLast, Demo.collab, Demo.range_three,
      List.foldl, FineTuneNode.slotStep, offerSlot, Demo.livelyFineNode, Demo.fineNode,
      Demo.livelySupport, Demo.boundSupport, Demo.scalarTargets, Demo.fineIds]
    norm_num [Demo.scalarTargets]
  · simp only [FineTuneNode.blockState, FineTuneNode.calculateModulation,
      FineTuneNode.resetModulation, FineTuneNode.lfoLast, Demo.collab, Demo.range_three,
      List.foldl, FineTuneNode.slotStep, offerSlot, Demo.livelyFineNode, Demo.fineNode,
      Demo.livelySupport, Demo.boundSupport, Demo.scalarTargets, Demo.fineIds]
    norm_num [Demo.scalarTargets]
  · simp only [MainPanNode.blockState, MainPanNode.calculateModulation,
      MainPanNode.resetModulation, MainPanNode.lfoLast, Demo.collab, Demo.range_three,
      List.foldl, MainPanNode.slotStep, offerSlot, Demo.livelyPanNode, Demo.panNode,
      Demo.livelySupport, Demo.boundSupport, Demo.scalarTargets, Demo.panIds]
    norm_num [Demo.scalarTargets]

/-- C19: `OutputNode::renderBlock()` reads the buffers of exactly the mixer nodes whose
operator has `operatorOutputsToMain`.  For two mixer arrays with the same flags whose flagged
mixers have the same output buffers, whatever the other mixers hold, the resulting node
state is the same; the buffer before gain and pan holds, in sample `i` of channel `ch`, the
previous content plus the sample of every flagged mixer, each once; and the rendered sample
is the gain block and the pan matrix applied to that buffer. -/
theorem C19_output_sums_flagged_mixers (c : Collab S D) (tid : Patch.OutputNode.TargetID)
    (ptid : Patch.MainPanNode.TargetID) (ftid : Patch.FineTuneNode.TargetID)
    (vv : VoiceValues) (arr1 arr2 : List (MixerNode S D × OpSource)) (n : OutputNode S)
    (ch i : Nat) (hch : ch < 2) (hi : i < c.blockSize)
    (h : List.Forall₂ (fun a b => a.2.operatorOutputsToMain = b.2.operatorOutputsToMain ∧
      (a.2.operatorOutputsToMain = true → a.1.output = b.1.output)) arr1 arr2) :
    n.renderBlock c tid ptid ftid vv arr1 = n.renderBlock c tid ptid ftid vv arr2 ∧
      (n.blockState c tid ptid ftid arr1).output ch i =
        n.output ch i + ((arr1.filter (fun m => m.2.operatorOutputsToMain)).map
          (fun m => m.1.output ch i)).sum ∧
      (n.renderBlock c tid ptid ftid vv arr1).output ch i =
        OutputNode.gainPan c vv (n.blockState c tid ptid ftid arr1)
          (n.renderBlock c tid ptid ftid vv arr1).finalEnvLevel ch i := by
  refine ⟨?_, ?_, OutputNode.outn_renderBlock_output c tid ptid ftid vv arr1 n ch i hch hi⟩
  · have hb := OutputNode.outn_blockState_congr c tid ptid ftid arr1 arr2 n
      (OutputNode.sumMixers_congr c.blockSize arr1 arr2 h)
    simp only [OutputNode.renderBlock, hb]
  · rw [(OutputNode.outn_blockState_frame c tid ptid ftid arr1 n).2,
      OutputNode.sumMixers_apply c.blockSize arr1 n.output ch i hch hi]

/-- C19 witness: the arrays `mixersA` and `mixersB` differ in the buffer of the mixer that
is not routed to the main bus; the rendered node is the same, and the buffer before gain
and pan holds the one flagged sample, 1. -/
theorem C19_output_sums_flagged_mixers_witness :
    Demo.plainOutputNode.renderBlock Demo.collab Demo.outputIds Demo.panIds Demo.fineIds
        Demo.voice Demo.mixersA
      = Demo.plainOutputNode.renderBlock Demo.collab Demo.outputIds Demo.panIds Demo.fineIds
        Demo.voice Demo.mixersB ∧
      (Demo.plainOutputNode.blockState Demo.collab Demo.outputIds Demo.panIds Demo.fineIds
        Demo.mixersA).output 0 0 = 1 := by
  have h := C19_output_sums_flagged_mixers Demo.collab Demo.outputIds Demo.panIds Demo.fineIds
    Demo.voice Demo.mixersA Demo.mixersB Demo.plainOutputNode 0 0 (by decide) (by decide)
    (List.Forall₂.cons ⟨rfl, fun _ => rfl⟩
      (List.Forall₂.cons ⟨rfl, fun hh => absurd hh (by decide)⟩ List.Forall₂.nil))
  refine ⟨h.1, h.2.1.trans ?_⟩
  norm_num [Demo.mixersA, Demo.plainOutputNode, Demo.outputNode, Demo.loudMixerNode, Demo.op,
    Demo.sideOp]

/-- C20: in `OutputNode::renderBlock()` sample `i` of the gain block is
`finalEnvLevel[i] = g * (depthAtten * env[i] + lfoDepth * lfoAtten * lfo[i])`, where
`g = 0.15 * clamp(v * L^3, 0, 1)`, `L = clamp(level + levMod, 0, 1)`,
`v = 1 - velSensitivity * (1 - velocityLag)`, `lfo[i]` is the LFO sample, times `env[i]`
when the LFO is enveloped, and the modulation members are those computed in this call;
and `0 ≤ g ≤ 0.15` whatever the parameters, modulation and velocity are. -/
theorem C20_output_gain (c : Collab S D) (tid : Patch.OutputNode.TargetID)
    (ptid : Patch.MainPanNode.TargetID) (ftid : Patch.FineTuneNode.TargetID)
    (vv : VoiceValues) (fromArr : List (MixerNode S D × OpSource)) (n : OutputNode S)
    (i : Nat) (hi : i < c.blockSize) :
    (n.renderBlock c tid ptid ftid vv fromArr).finalEnvLevel i =
        OutputNode.levelGain vv (n.blockState c tid ptid ftid fromArr) *
          ((n.blockState c tid ptid ftid fromArr).depthAtten *
              (n.blockState c tid ptid ftid fromArr).env.outputCache i
            + n.outputNode.lfoDepth * (n.blockState c tid ptid ftid fromArr).lfoAtten *
              OutputNode.lfoSignal c.blockSize (n.blockState c tid ptid ftid fromArr) i) ∧
      0 ≤ OutputNode.levelGain vv (n.blockState c tid ptid ftid fromArr) ∧
      OutputNode.levelGain vv (n.blockState c tid ptid ftid fromArr) ≤ 15 / 100 := by
  refine ⟨?_, OutputNode.outn_levelGain_mem vv _⟩
  rw [OutputNode.outn_renderBlock_finalEnvLevel,
    OutputNode.outn_gainState_finalEnvLevel c.blockSize vv _ i hi,
    (OutputNode.outn_blockState_frame c tid ptid ftid fromArr n).1]

/-- C20 witness: level 1/2, velocity sensitivity 1/2 at lagged velocity 1/2, envelope 1/2,
enveloped LFO 1 with depth 1: `g = 0.15 * (3/4) * (1/8) = 9/640` and the first gain sample
is `g * (1/2 + 1/2) = 9/640`. -/
theorem C20_output_gain_witness :
    (Demo.softOutputNode.renderBlock Demo.collab Demo.outputIds Demo.panIds Demo.fineIds
        Demo.softVoice Demo.mixers).finalEnvLevel 0 = 9 / 640 ∧
      OutputNode.levelGain Demo.softVoice
        (Demo.softOutputNode.blockState Demo.collab Demo.outputIds Demo.panIds Demo.fineIds
          Demo.mixers) = 9 / 640 := by
  have h := C20_output_gain Demo.collab Demo.outputIds Demo.panIds Demo.fineIds Demo.softVoice
    Demo.mixers Demo.softOutputNode 0 (by decide)
  have hg : OutputNode.levelGain Demo.softVoice
      (Demo.softOutputNode.blockState Demo.collab Demo.outputIds Demo.panIds Demo.fineIds
        Demo.mixers) = 9 / 640 := by
    norm_num [OutputNode.levelGain, OutputNode.blockState, OutputNode.calculateModulation,
      OutputNode.resetModulation, Demo.softOutputNode, Demo.plainOutputNode, Demo.outputNode,
      Demo.plainSupport, Demo.collab, Demo.softVoice, Demo.voice, clamp]
  refine ⟨h.1.trans ?_, hg⟩
  rw [hg]
  norm_num [OutputNode.lfoSignal, OutputNode.blockState, OutputNode.calculateModulation,
    OutputNode.resetModulation, Demo.softOutputNode, Demo.plainOutputNode, Demo.outputNode,
    Demo.plainSupport, Demo.collab]

/-- C21 (counterexample to the claim as written): on a node whose envelope is a multiplier,
with level 1, envelope 1, no LFO depth and two `DEPTH_ATTEN` slots that leave
`depthAtten = 15/32`, the modulation level of sample 0 is `15/32`, not `level * env[0] = 1`;
in linear-FM mode with source 1/2 the call adds `15/64` to `fmAmount[0]`. -/
theorem C21_counterexample_modlev_has_depthAtten :
    (Demo.multFromNode.blockState Demo.collab Demo.matrixIds Demo.selfIds).envIsMult = true ∧
      (Demo.multFromNode.blockState Demo.collab Demo.matrixIds Demo.selfIds).modlev 0
        = 15 / 32 ∧
      (Demo.multFromNode.blockState Demo.collab Demo.matrixIds Demo.selfIds).specModlev 0
        = 1 ∧
      ∃ r, Demo.multFromNode.applyBlock Demo.collab Demo.matrixIds Demo.selfIds Demo.op Demo.op
          = some r ∧ r.2.fmAmount 0 = 15 / 64 := by
  have hb : (Demo.multFromNode.blockState Demo.collab Demo.matrixIds Demo.selfIds).modlev 0
      = 15 / 32 := by
    simp only [MatrixNodeFrom.blockState, MatrixNodeFrom.calculateModulation,
      MatrixNodeFrom.resetModulation, MatrixNodeFrom.modlev, Demo.collab, Demo.range_three,
      List.foldl, MatrixNodeFrom.slotStep, offerSlot, Demo.multFromNode, Demo.fromNode,
      Demo.multSupport, Demo.boundSupport, Demo.targets, Demo.matrixIds, Demo.selfIds]
    norm_num [attenFactor, clamp, Demo.targets]
  refine ⟨?_, hb, ?_, ?_⟩
  · simp only [MatrixNodeFrom.blockState, MatrixNodeFrom.calculateModulation,
      MatrixNodeFrom.resetModulation, Demo.collab, Demo.range_three,
      List.foldl, MatrixNodeFrom.slotStep, offerSlot, Demo.multFromNode, Demo.fromNode,
      Demo.multSupport, Demo.boundSupport, Demo.targets, Demo.matrixIds, Demo.selfIds]
    norm_num [Demo.targets]
  · simp only [MatrixNodeFrom.blockState, MatrixNodeFrom.calculateModulation,
      MatrixNodeFrom.resetModulation, MatrixNodeFrom.specModlev, Demo.collab, Demo.range_three,
      List.foldl, MatrixNodeFrom.slotStep, offerSlot, Demo.multFromNode, Demo.fromNode,
      Demo.multSupport, Demo.boundSupport, Demo.targets, Demo.matrixIds, Demo.selfIds]
    norm_num [attenFactor, clamp, Demo.targets]
  · obtain ⟨r, hr, -, -, -, -, h⟩ := MatrixNodeFrom.mfrom_applyBlock_linear Demo.collab
      Demo.matrixIds Demo.selfIds Demo.multFromNode Demo.op Demo.op rfl rfl
    refine ⟨r, hr, ?_⟩
    rw [h 0 (by decide), hb]
    norm_num [Demo.op, Demo.multFromNode, Demo.fromNode]

/-- C21 (amended): for an active inter-operator node and every sample `i`, the modulation
level `applyBlock()` computes is
`applyMod + lfoToDepth * lfoAtten * lfo[i] + level * depthAtten * env[i]` when the envelope
is a multiplier and
`applyMod + level + lfoToDepth * lfoAtten * lfo[i] + envToLevel * depthAtten * env[i]`
otherwise, with the accumulators of this call's `calculateModulation()`; it is the buffer
the update uses (shown on the linear-FM update), and it is the formula without `applyMod`
and `depthAtten` whenever `applyMod = 0` and `depthAtten = 1`, in particular when no source
is bound. -/
theorem C21_modlev_formula (c : Collab S D) (tm : Patch.MatrixNode.TargetID)
    (ts : Patch.SelfNode.TargetID) (n : MatrixNodeFrom S) (onto src : OpSource) (i : Nat)
    (ha : n.active = true) (hi : i < c.blockSize) :
    ((n.blockState c tm ts).envIsMult = true →
        (n.blockState c tm ts).modlev i =
          (n.blockState c tm ts).applyMod
            + n.matrixNode.lfoToDepth * (n.blockState c tm ts).lfoAtten
              * (n.blockState c tm ts).lfo.outputBlock i
            + n.matrixNode.level * (n.blockState c tm ts).depthAtten
              * (n.blockState c tm ts).env.outputCache i) ∧
      ((n.blockState c tm ts).envIsMult = false →
        (n.blockState c tm ts).modlev i =
          (n.blockState c tm ts).applyMod + n.matrixNode.level
            + n.matrixNode.lfoToDepth * (n.blockState c tm ts).lfoAtten
              * (n.blockState c tm ts).lfo.outputBlock i
            + n.matrixNode.envToLevel * (n.blockState c tm ts).depthAtten
              * (n.blockState c tm ts).env.outputCache i) ∧
      (n.modMode = 2 → ∃ r, n.applyBlock c tm ts onto src = some r ∧
        r.2.fmAmount i = onto.fmAmount i +
          n.overdriveFactor * ((n.blockState c tm ts).modlev i * src.output i)) ∧
      ((n.blockState c tm ts).applyMod = 0 → (n.blockState c tm ts).depthAtten = 1 →
        (n.blockState c tm ts).modlev i = (n.blockState c tm ts).specModlev i) ∧
      (n.anySources = false →
        (n.blockState c tm ts).modlev i = (n.blockState c tm ts).specModlev i) := by
  have hm := MatrixNodeFrom.mfrom_modlev_eq c tm ts n i
  obtain ⟨b1, b2, -⟩ := MatrixNodeFrom.mfrom_blockState_accumulators c tm ts n
  refine ⟨fun h => ?_, fun h => ?_, fun h2 => ?_, fun h0 h1 => ?_, fun hs => ?_⟩
  · rw [hm, if_pos h]
  · rw [hm, if_neg (by rw [h]; exact Bool.false_ne_true)]
  · obtain ⟨r, hr, -, -, -, -, h⟩ :=
      MatrixNodeFrom.mfrom_applyBlock_linear c tm ts n onto src ha h2
    exact ⟨r, hr, h i hi⟩
  · exact MatrixNodeFrom.mfrom_modlev_eq_spec _ i h0 h1
  · obtain ⟨z0, z1, -⟩ := MatrixNodeFrom.mfrom_calculateModulation_neutral c tm ts n hs
    exact MatrixNodeFrom.mfrom_modlev_eq_spec _ i (b1.trans z0) (b2.trans z1)

/-- C21 witness: on the node of the counterexample (envelope a multiplier, level 1,
envelope 1, `applyMod = 0`, `depthAtten = 15/32`) the level of sample 0 is
`0 + 0 + 1 * 15/32 * 1 = 15/32`. -/
theorem C21_modlev_formula_witness :
    (Demo.multFromNode.blockState Demo.collab Demo.matrixIds Demo.selfIds).modlev 0
      = 15 / 32 := by
  have h := (C21_modlev_formula Demo.collab Demo.matrixIds Demo.selfIds Demo.multFromNode
    Demo.op Demo.op 0 rfl (by decide)).1
  have he : (Demo.multFromNode.blockState Demo.collab Demo.matrixIds Demo.selfIds).envIsMult
      = true := by
    simp only [MatrixNodeFrom.blockState, MatrixNodeFrom.calculateModulation,
      MatrixNodeFrom.resetModulation, Demo.collab, Demo.range_three,
      List.foldl, MatrixNodeFrom.slotStep, offerSlot, Demo.multFromNode, Demo.fromNode,
      Demo.multSupport, Demo.boundSupport, Demo.targets, Demo.matrixIds, Demo.selfIds]
    norm_num [Demo.targets]
  rw [h he]
  simp only [MatrixNodeFrom.blockState, MatrixNodeFrom.calculateModulation,
    MatrixNodeFrom.resetModulation, Demo.collab, Demo.range_three,
    List.foldl, MatrixNodeFrom.slotStep, offerSlot, Demo.multFromNode, Demo.fromNode,
    Demo.multSupport, Demo.boundSupport, Demo.targets, Demo.matrixIds, Demo.selfIds]
  norm_num [attenFactor, clamp, Demo.targets]

/-- C22: `calculateModulation()` of every node overwrites its accumulators before the slots
are evaluated.  For any prior accumulator values `x0 … x5` the node after the call is the
same; without bound sources every additive accumulator is 0 and every multiplicative one is
1 after the call; and when the two hooks decide from the slot alone whether they claim it, a
second call in a row leaves every node-local member as the first call left it. -/
theorem C22_calculateModulation_resets (c : Collab S D)
    (tm : Patch.MatrixNode.TargetID) (ts : Patch.SelfNode.TargetID)
    (tx : Patch.MixerNode.TargetID) (tp : Patch.MainPanNode.TargetID)
    (tf : Patch.FineTuneNode.TargetID) (tout : Patch.OutputNode.TargetID)
    (nm : MatrixNodeFrom S) (ns : MatrixNodeSelf S) (nx : MixerNode S D)
    (np : MainPanNode S) (nf : FineTuneNode S) (nout : OutputNode S)
    (x0 x1 x2 x3 x4 x5 : ℚ) :
    (({ nm with applyMod := x0,
                      depthAtten := x1,
                      lfoAtten := x2 } :
          MatrixNodeFrom S).calculateModulation c tm ts
        = nm.calculateModulation c tm ts ∧
      ({ ns with fbMod := x0,
                      depthAtten := x1,
                      lfoAtten := x2 } :
          MatrixNodeSelf S).calculateModulation c ts
        = ns.calculateModulation c ts ∧
      ({ nx with levMod := x0,
                      depthAtten := x1,
                      lfoAtten := x2,
                      lfoPanAtten := x3,
                      panMod := x4 } :
          MixerNode S D).calculateModulation c tx
        = nx.calculateModulation c tx ∧
      ({ np with lfoAtten := x0,
                      directMod := x1,
                      envAtten := x2,
                      edMod := x3,
                      ldMod := x4 } :
          MainPanNode S).calculateModulation c tp
        = np.calculateModulation c tp ∧
      ({ nf with lfoAtten := x0,
                      directMod := x1,
                      directCoarseMod := x2,
                      envAtten := x3,
                      edMod := x4,
                      ldMod := x5 } :
          FineTuneNode S).calculateModulation c tf
        = nf.calculateModulation c tf ∧
      ({ nout with levMod := x0,
                      panMod := x1,
                      depthAtten := x2,
                      lfoAtten := x3 } :
          OutputNode S).calculateModulation c tout
        = nout.calculateModulation c tout) ∧
      (hooksDecideByTarget c →
        (∃ s, (nm.calculateModulation c tm ts).calculateModulation c tm ts
          = { nm.calculateModulation c tm ts with inner := s }) ∧
        (∃ s, (ns.calculateModulation c ts).calculateModulation c ts
          = { ns.calculateModulation c ts with inner := s }) ∧
        (∃ s, (nx.calculateModulation c tx).calculateModulation c tx
          = { nx.calculateModulation c tx with inner := s }) ∧
        (∃ s, (np.calculateModulation c tp).calculateModulation c tp
          = { np.calculateModulation c tp with inner := s }) ∧
        (∃ s, (nf.calculateModulation c tf).calculateModulation c tf
          = { nf.calculateModulation c tf with inner := s }) ∧
        (∃ s, (nout.calculateModulation c tout).calculateModulation c tout
          = { nout.calculateModulation c tout with inner := s })) ∧
      (nm.anySources = false →
        (nm.calculateModulation c tm ts).applyMod = 0 ∧
        (nm.calculateModulation c tm ts).depthAtten = 1 ∧
        (nm.calculateModulation c tm ts).lfoAtten = 1) ∧
      (ns.anySources = false →
        (ns.calculateModulation c ts).fbMod = 0 ∧
        (ns.calculateModulation c ts).depthAtten = 1 ∧
        (ns.calculateModulation c ts).lfoAtten = 1) ∧
      (nx.anySources = false →
        (nx.calculateModulation c tx).levMod = 0 ∧
        (nx.calculateModulation c tx).depthAtten = 1 ∧
        (nx.calculateModulation c tx).lfoAtten = 1 ∧
        (nx.calculateModulation c tx).lfoPanAtten = 1 ∧
        (nx.calculateModulation c tx).panMod = 0) ∧
      (np.anySources = false →
        (np.calculateModulation c tp).lfoAtten = 1 ∧
        (np.calculateModulation c tp).directMod = 0 ∧
        (np.calculateModulation c tp).envAtten = 1 ∧
        (np.calculateModulation c tp).edMod = 0 ∧
        (np.calculateModulation c tp).ldMod = 0) ∧
      (nf.anySources = false →
        (nf.calculateModulation c tf).lfoAtten = 1 ∧
        (nf.calculateModulation c tf).directMod = 0 ∧
        (nf.calculateModulation c tf).directCoarseMod = 0 ∧
        (nf.calculateModulation c tf).envAtten = 1 ∧
        (nf.calculateModulation c tf).edMod = 0 ∧
        (nf.calculateModulation c tf).ldMod = 0) ∧
      (nout.anySources = false →
        (nout.calculateModulation c tout).levMod = 0 ∧
        (nout.calculateModulation c tout).panMod = 0 ∧
        (nout.calculateModulation c tout).depthAtten = 1 ∧
        (nout.calculateModulation c tout).lfoAtten = 1) :=
  ⟨⟨MatrixNodeFrom.mfrom_calculateModulation_reset c tm ts nm x0 x1 x2,
      MatrixNodeSelf.mself_calculateModulation_reset c ts ns x0 x1 x2,
      MixerNode.mixer_calculateModulation_reset c tx nx x0 x1 x2 x3 x4,
      MainPanNode.mpan_calculateModulation_reset c tp np x0 x1 x2 x3 x4,
      FineTuneNode.ftune_calculateModulation_reset c tf nf x0 x1 x2 x3 x4 x5,
      OutputNode.outn_calculateModulation_reset c tout nout x0 x1 x2 x3⟩,
    fun hh => ⟨MatrixNodeFrom.mfrom_calculateModulation_twice c tm ts hh nm,
      MatrixNodeSelf.mself_calculateModulation_twice c ts hh ns,
      MixerNode.mixer_calculateModulation_twice c tx hh nx,
      MainPanNode.mpan_calculateModulation_twice c tp hh np,
      FineTuneNode.ftune_calculateModulation_twice c tf hh nf,
      OutputNode.outn_calculateModulation_twice c tout hh nout⟩,
    MatrixNodeFrom.mfrom_calculateModulation_neutral c tm ts nm,
    MatrixNodeSelf.mself_calculateModulation_neutral c ts ns,
    MixerNode.mixer_calculateModulation_neutral c tx nx,
    MainPanNode.mpan_calculateModulation_neutral c tp np,
    FineTuneNode.ftune_calculateModulation_neutral c tf nf,
    OutputNode.outn_calculateModulation_neutral c tout nout⟩

/-- C22 witness: prior accumulator values 5, 7, 9 do not reach the result on the
inter-operator node with three bound slots; a second call in a row reproduces the node-local
members of the first; and the mixer node without bound slots ends with `levMod = 0` and
`depthAtten = 1`. -/
theorem C22_calculateModulation_resets_witness :
    ({ Demo.fromNode with applyMod := 5, depthAtten := 7, lfoAtten := 9 } :
        MatrixNodeFrom Unit).calculateModulation Demo.collab Demo.matrixIds Demo.selfIds
      = Demo.fromNode.calculateModulation Demo.collab Demo.matrixIds Demo.selfIds ∧
    (∃ s, (Demo.fromNode.calculateModulation Demo.collab Demo.matrixIds
        Demo.selfIds).calculateModulation Demo.collab Demo.matrixIds Demo.selfIds
      = { Demo.fromNode.calculateModulation Demo.collab Demo.matrixIds Demo.selfIds with
          inner := s }) ∧
    (Demo.plainMixerNode.calculateModulation Demo.collab Demo.mixerIds).levMod = 0 ∧
    (Demo.plainMixerNode.calculateModulation Demo.collab Demo.mixerIds).depthAtten = 1 := by
  have h := C22_calculateModulation_resets Demo.collab Demo.matrixIds Demo.selfIds
    Demo.mixerIds Demo.panIds Demo.fineIds Demo.outputIds Demo.fromNode Demo.selfNode
    Demo.plainMixerNode Demo.panNode Demo.fineNode Demo.outputNode 5 7 9 0 0 0
  have hh : hooksDecideByTarget Demo.collab := ⟨fun _ _ _ _ _ => rfl, fun _ _ _ _ _ => rfl⟩
  exact ⟨h.1.1, (h.2.1 hh).1, (h.2.2.2.2.1 rfl).1, (h.2.2.2.2.1 rfl).2.1⟩

/-- C23: slot resolution is first handler wins, on every node.  For an evaluated slot `i`
(source bound to `sv`, depth bound to `d`, target not `NONE`): if the envelope hook claims
the target, the iteration leaves the node as it was apart from the state the envelope hook
returns, whatever the LFO hook `g` is; if the envelope hook declines and the LFO hook
claims, the node is as it was apart from the state the two hooks return; and the node-local
switch runs when both decline, here shown on the target `DEPTH_ATTEN`, whose factor is then
multiplied into the attenuation accumulator.  The first two cases hold for every target
value, the case labels of the switch included. -/
theorem C23_first_handler_wins (c : Collab S D)
    (tm : Patch.MatrixNode.TargetID) (ts : Patch.SelfNode.TargetID)
    (tx : Patch.MixerNode.TargetID) (tp : Patch.MainPanNode.TargetID)
    (tf : Patch.FineTuneNode.TargetID) (tout : Patch.OutputNode.TargetID)
    (nm : MatrixNodeFrom S) (ns : MatrixNodeSelf S) (nx : MixerNode S D)
    (np : MainPanNode S) (nf : FineTuneNode S) (nout : OutputNode S) (i : Nat) :
    (∀ d sv, slotLive ts.NONE (nm.matrixNode.modtarget i) nm.toNodeSupport i d sv →
        ((c.envHandleModulationValue (nm.matrixNode.modtarget i) d sv nm.inner).1 = true →
          ∀ g, MatrixNodeFrom.slotStep { c with lfoHandleModulationValue := g } tm ts nm i
            = { nm with
                inner :=
                  (c.envHandleModulationValue (nm.matrixNode.modtarget i) d sv nm.inner).2 }) ∧
        ((c.envHandleModulationValue (nm.matrixNode.modtarget i) d sv nm.inner).1 = false →
          (c.lfoHandleModulationValue (nm.matrixNode.modtarget i) d sv
              (c.envHandleModulationValue (nm.matrixNode.modtarget i) d sv nm.inner).2
            ).1 = true →
          MatrixNodeFrom.slotStep c tm ts nm i
            = { nm with inner := (c.lfoHandleModulationValue (nm.matrixNode.modtarget i) d sv
              (c.envHandleModulationValue (nm.matrixNode.modtarget i) d sv nm.inner).2
            ).2 }) ∧
        ((c.envHandleModulationValue (nm.matrixNode.modtarget i) d sv nm.inner).1 = false →
          (c.lfoHandleModulationValue (nm.matrixNode.modtarget i) d sv
              (c.envHandleModulationValue (nm.matrixNode.modtarget i) d sv nm.inner).2
            ).1 = false →
          nm.matrixNode.modtarget i = tm.DEPTH_ATTEN →
          MatrixNodeFrom.slotStep c tm ts nm i
            = { nm with
                inner := (c.lfoHandleModulationValue (nm.matrixNode.modtarget i) d sv
              (c.envHandleModulationValue (nm.matrixNode.modtarget i) d sv nm.inner).2
            ).2
                depthAtten := nm.depthAtten * attenFactor d sv })) ∧
    (∀ d sv, slotLive ts.NONE (ns.selfNode.modtarget i) ns.toNodeSupport i d sv →
        ((c.envHandleModulationValue (ns.selfNode.modtarget i) d sv ns.inner).1 = true →
          ∀ g, MatrixNodeSelf.slotStep { c with lfoHandleModulationValue := g } ts ns i
            = { ns with
                inner :=
                  (c.envHandleModulationValue (ns.selfNode.modtarget i) d sv ns.inner).2 }) ∧
        ((c.envHandleModulationValue (ns.selfNode.modtarget i) d sv ns.inner).1 = false →
          (c.lfoHandleModulationValue (ns.selfNode.modtarget i) d sv
              (c.envHandleModulationValue (ns.selfNode.modtarget i) d sv ns.inner).2
            ).1 = true →
          MatrixNodeSelf.slotStep c ts ns i
            = { ns with inner := (c.lfoHandleModulationValue (ns.selfNode.modtarget i) d sv
              (c.envHandleModulationValue (ns.selfNode.modtarget i) d sv ns.inner).2
            ).2 }) ∧
        ((c.envHandleModulationValue (ns.selfNode.modtarget i) d sv ns.inner).1 = false →
          (c.lfoHandleModulationValue (ns.selfNode.modtarget i) d sv
              (c.envHandleModulationValue (ns.selfNode.modtarget i) d sv ns.inner).2
            ).1 = false →
          ns.selfNode.modtarget i = ts.DEPTH_ATTEN →
          MatrixNodeSelf.slotStep c ts ns i
            = { ns with
                inner := (c.lfoHandleModulationValue (ns.selfNode.modtarget i) d sv
              (c.envHandleModulationValue (ns.selfNode.modtarget i) d sv ns.inner).2
            ).2
                depthAtten := ns.depthAtten * attenFactor d sv })) ∧
    (∀ d sv, slotLive tx.NONE (nx.mixerNode.modtarget i) nx.toNodeSupport i d sv →
        ((c.envHandleModulationValue (nx.mixerNode.modtarget i) d sv nx.inner).1 = true →
          ∀ g, MixerNode.slotStep { c with lfoHandleModulationValue := g } tx nx i
            = { nx with
                inner :=
                  (c.envHandleModulationValue (nx.mixerNode.modtarget i) d sv nx.inner).2 }) ∧
        ((c.envHandleModulationValue (nx.mixerNode.modtarget i) d sv nx.inner).1 = false →
          (c.lfoHandleModulationValue (nx.mixerNode.modtarget i) d sv
              (c.envHandleModulationValue (nx.mixerNode.modtarget i) d sv nx.inner).2
            ).1 = true →
          MixerNode.slotStep c tx nx i
            = { nx with inner := (c.lfoHandleModulationValue (nx.mixerNode.modtarget i) d sv
              (c.envHandleModulationValue (nx.mixerNode.modtarget i) d sv nx.inner).2
            ).2 }) ∧
        ((c.envHandleModulationValue (nx.mixerNode.modtarget i) d sv nx.inner).1 = false →
          (c.lfoHandleModulationValue (nx.mixerNode.modtarget i) d sv
              (c.envHandleModulationValue (nx.mixerNode.modtarget i) d sv nx.inner).2
            ).1 = false →
          nx.mixerNode.modtarget i = tx.DEPTH_ATTEN →
          MixerNode.slotStep c tx nx i
            = { nx with
                inner := (c.lfoHandleModulationValue (nx.mixerNode.modtarget i) d sv
              (c.envHandleModulationValue (nx.mixerNode.modtarget i) d sv nx.inner).2
            ).2
                depthAtten := nx.depthAtten * attenFactor d sv })) ∧
    (∀ d sv, slotLive tp.NONE (np.modNode.modtarget i) np.toNodeSupport i d sv →
        ((c.envHandleModulationValue (np.modNode.modtarget i) d sv np.inner).1 = true →
          ∀ g, MainPanNode.slotStep { c with lfoHandleModulationValue := g } tp np i
            = { np with
                inner :=
                  (c.envHandleModulationValue (np.modNode.modtarget i) d sv np.inner).2 }) ∧
        ((c.envHandleModulationValue (np.modNode.modtarget i) d sv np.inner).1 = false →
          (c.lfoHandleModulationValue (np.modNode.modtarget i) d sv
              (c.envHandleModulationValue (np.modNode.modtarget i) d sv np.inner).2
            ).1 = true →
          MainPanNode.slotStep c tp np i
            = { np with inner := (c.lfoHandleModulationValue (np.modNode.modtarget i) d sv
              (c.envHandleModulationValue (np.modNode.modtarget i) d sv np.inner).2
            ).2 }) ∧
        ((c.envHandleModulationValue (np.modNode.modtarget i) d sv np.inner).1 = false →
          (c.lfoHandleModulationValue (np.modNode.modtarget i) d sv
              (c.envHandleModulationValue (np.modNode.modtarget i) d sv np.inner).2
            ).1 = false →
          np.modNode.modtarget i = tp.DEPTH_ATTEN →
          MainPanNode.slotStep c tp np i
            = { np with
                inner := (c.lfoHandleModulationValue (np.modNode.modtarget i) d sv
              (c.envHandleModulationValue (np.modNode.modtarget i) d sv np.inner).2
            ).2
                envAtten := np.envAtten * attenFactor d sv })) ∧
    (∀ d sv, slotLive tf.NONE (nf.modNode.modtarget i) nf.toNodeSupport i d sv →
        ((c.envHandleModulationValue (nf.modNode.modtarget i) d sv nf.inner).1 = true →
          ∀ g, FineTuneNode.slotStep { c with lfoHandleModulationValue := g } tf nf i
            = { nf with
                inner :=
                  (c.envHandleModulationValue (nf.modNode.modtarget i) d sv nf.inner).2 }) ∧
        ((c.envHandleModulationValue (nf.modNode.modtarget i) d sv nf.inner).1 = false →
          (c.lfoHandleModulationValue (nf.modNode.modtarget i) d sv
              (c.envHandleModulationValue (nf.modNode.modtarget i) d sv nf.inner).2
            ).1 = true →
          FineTuneNode.slotStep c tf nf i
            = { nf with inner := (c.lfoHandleModulationValue (nf.modNode.modtarget i) d sv
              (c.envHandleModulationValue (nf.modNode.modtarget i) d sv nf.inner).2
            ).2 }) ∧
        ((c.envHandleModulationValue (nf.modNode.modtarget i) d sv nf.inner).1 = false →
          (c.lfoHandleModulationValue (nf.modNode.modtarget i) d sv
              (c.envHandleModulationValue (nf.modNode.modtarget i) d sv nf.inner).2
            ).1 = false →
          nf.modNode.modtarget i = tf.DEPTH_ATTEN →
          FineTuneNode.slotStep c tf nf i
            = { nf with
                inner := (c.lfoHandleModulationValue (nf.modNode.modtarget i) d sv
              (c.envHandleModulationValue (nf.modNode.modtarget i) d sv nf.inner).2
            ).2
                envAtten := nf.envAtten * attenFactor d sv })) ∧
    (∀ d sv, slotLive tout.NONE (nout.outputNode.modtarget i) nout.toNodeSupport i d sv →
        ((c.envHandleModulationValue (nout.outputNode.modtarget i) d sv nout.inner).1 = true →
          ∀ g, OutputNode.slotStep { c with lfoHandleModulationValue := g } tout nout i
            = { nout with
                inner :=
                  (c.envHandleModulationValue (nout.outputNode.modtarget i) d sv nout.inner).2 }) ∧
        ((c.envHandleModulationValue (nout.outputNode.modtarget i) d sv nout.inner).1 = false →
          (c.lfoHandleModulationValue (nout.outputNode.modtarget i) d sv
              (c.envHandleModulationValue (nout.outputNode.modtarget i) d sv nout.inner).2
            ).1 = true →
          OutputNode.slotStep c tout nout i
            = { nout with inner := (c.lfoHandleModulationValue (nout.outputNode.modtarget i) d sv
              (c.envHandleModulationValue (nout.outputNode.modtarget i) d sv nout.inner).2
            ).2 }) ∧
        ((c.envHandleModulationValue (nout.outputNode.modtarget i) d sv nout.inner).1 = false →
          (c.lfoHandleModulationValue (nout.outputNode.modtarget i) d sv
              (c.envHandleModulationValue (nout.outputNode.modtarget i) d sv nout.inner).2
            ).1 = false →
          nout.outputNode.modtarget i = tout.DEPTH_ATTEN →
          OutputNode.slotStep c tout nout i
            = { nout with
                inner := (c.lfoHandleModulationValue (nout.outputNode.modtarget i) d sv
              (c.envHandleModulationValue (nout.outputNode.modtarget i) d sv nout.inner).2
            ).2
                depthAtten := nout.depthAtten * attenFactor d sv })) :=
  ⟨fun d sv h =>
      ⟨fun he g => MatrixNodeFrom.mfrom_slotStep_env_claims c tm ts nm i d sv h he g,
        fun he hl => MatrixNodeFrom.mfrom_slotStep_lfo_claims c tm ts nm i d sv h he hl,
        fun he hl ht => MatrixNodeFrom.mfrom_slotStep_declined c tm ts nm i d sv h he hl ht⟩,
    fun d sv h =>
      ⟨fun he g => MatrixNodeSelf.mself_slotStep_env_claims c ts ns i d sv h he g,
        fun he hl => MatrixNodeSelf.mself_slotStep_lfo_claims c ts ns i d sv h he hl,
        fun he hl ht => MatrixNodeSelf.mself_slotStep_declined c ts ns i d sv h he hl ht⟩,
    fun d sv h =>
      ⟨fun he g => MixerNode.mixer_slotStep_env_claims c tx nx i d sv h he g,
        fun he hl => MixerNode.mixer_slotStep_lfo_claims c tx nx i d sv h he hl,
        fun he hl ht => MixerNode.mixer_slotStep_declined c tx nx i d sv h he hl ht⟩,
    fun d sv h =>
      ⟨fun he g => MainPanNode.mpan_slotStep_env_claims c tp np i d sv h he g,
        fun he hl => MainPanNode.mpan_slotStep_lfo_claims c tp np i d sv h he hl,
        fun he hl ht => MainPanNode.mpan_slotStep_declined c tp np i d sv h he hl ht⟩,
    fun d sv h =>
      ⟨fun he g => FineTuneNode.ftune_slotStep_env_claims c tf nf i d sv h he g,
        fun he hl => FineTuneNode.ftune_slotStep_lfo_claims c tf nf i d sv h he hl,
        fun he hl ht => FineTuneNode.ftune_slotStep_declined c tf nf i d sv h he hl ht⟩,
    fun d sv h =>
      ⟨fun he g => OutputNode.outn_slotStep_env_claims c tout nout i d sv h he g,
        fun he hl => OutputNode.outn_slotStep_lfo_claims c tout nout i d sv h he hl,
        fun he hl ht => OutputNode.outn_slotStep_declined c tout nout i d sv h he hl ht⟩⟩

/-- C23 witness, with hooks that claim the targets 20 (`DEPTH_ATTEN`) and 30
(`LFO_DEPTH_ATTEN`): slot 0 (target 20) and slot 1 (target 30) leave the inter-operator node
as it was; with hooks that claim neither, slot 0 multiplies `depthAtten` by
`1 - 1/2 * (1 - 1/2) = 3/4`. -/
theorem C23_first_handler_wins_witness :
    MatrixNodeFrom.slotStep Demo.greedyCollab Demo.matrixIds Demo.selfIds Demo.fromNode 0
        = Demo.fromNode ∧
      MatrixNodeFrom.slotStep Demo.greedyCollab Demo.matrixIds Demo.selfIds Demo.fromNode 1
        = Demo.fromNode ∧
      (MatrixNodeFrom.slotStep Demo.collab Demo.matrixIds Demo.selfIds Demo.fromNode
        0).depthAtten = 3 / 4 := by
  have h0 := (C23_first_handler_wins Demo.greedyCollab Demo.matrixIds Demo.selfIds
    Demo.mixerIds Demo.panIds Demo.fineIds Demo.outputIds Demo.fromNode Demo.selfNode
    Demo.mixerNode Demo.panNode Demo.fineNode Demo.outputNode 0).1 (1 / 2) (1 / 2)
    ⟨rfl, rfl, by decide⟩
  have h1 := (C23_first_handler_wins Demo.greedyCollab Demo.matrixIds Demo.selfIds
    Demo.mixerIds Demo.panIds Demo.fineIds Demo.outputIds Demo.fromNode Demo.selfNode
    Demo.mixerNode Demo.panNode Demo.fineNode Demo.outputNode 1).1 1 2
    ⟨rfl, rfl, by decide⟩
  have h2 := (C23_first_handler_wins Demo.collab Demo.matrixIds Demo.selfIds
    Demo.mixerIds Demo.panIds Demo.fineIds Demo.outputIds Demo.fromNode Demo.selfNode
    Demo.mixerNode Demo.panNode Demo.fineNode Demo.outputNode 0).1 (1 / 2) (1 / 2)
    ⟨rfl, rfl, by decide⟩
  refine ⟨h0.1 rfl Demo.greedyCollab.lfoHandleModulationValue, h1.2.1 rfl rfl, ?_⟩
  rw [h2.2.2 rfl rfl rfl]
  norm_num [attenFactor, clamp, Demo.fromNode]

/-- C24: `OutputNode::renderBlock()` sums into the output buffer without clearing it.  For
every prior buffer content, sample `i` of channel `ch` after the call is the pan step applied
to `gain[i] * (output_before[0][i] + sum)` and `gain[i] * (output_before[1][i] + sum)`,
with `gain = finalEnvLevel` and the sums taken over the mixers routed to the main bus; so a
second `renderBlock()` without an `attack()` in between starts from the output of the first;
and `attack()` returns when the rounded trigger parameter is representable and leaves the
buffer all-zero, so that the first block after it starts from zero. -/
theorem C24_output_buffer_accumulates (c : Collab S D) (tid : Patch.OutputNode.TargetID)
    (ptid : Patch.MainPanNode.TargetID) (ftid : Patch.FineTuneNode.TargetID)
    (vv vv2 : VoiceValues) (arr arr2 : List (MixerNode S D × OpSource)) (n : OutputNode S)
    (ch i : Nat) (hch : ch < 2) (hi : i < c.blockSize) :
    (n.renderBlock c tid ptid ftid vv arr).output ch i =
        OutputNode.panned c (OutputNode.panValue vv (n.blockState c tid ptid ftid arr))
          ((n.renderBlock c tid ptid ftid vv arr).finalEnvLevel i
            * (n.output 0 i + OutputNode.mainSum arr 0 i))
          ((n.renderBlock c tid ptid ftid vv arr).finalEnvLevel i
            * (n.output 1 i + OutputNode.mainSum arr 1 i)) ch ∧
      ((n.renderBlock c tid ptid ftid vv arr).renderBlock c tid ptid ftid vv2 arr2).output ch i =
        OutputNode.panned c
          (OutputNode.panValue vv2
            ((n.renderBlock c tid ptid ftid vv arr).blockState c tid ptid ftid arr2))
          (((n.renderBlock c tid ptid ftid vv arr).renderBlock c tid ptid ftid vv2
              arr2).finalEnvLevel i
            * ((n.renderBlock c tid ptid ftid vv arr).output 0 i
              + OutputNode.mainSum arr2 0 i))
          (((n.renderBlock c tid ptid ftid vv arr).renderBlock c tid ptid ftid vv2
              arr2).finalEnvLevel i
            * ((n.renderBlock c tid ptid ftid vv arr).output 1 i
              + OutputNode.mainSum arr2 1 i)) ch ∧
      (inInt32 (cround n.outputNode.defaultTrigger) = true →
        ∃ n1, n.attack c tid ptid ftid = some n1) ∧
      (∀ n1, n.attack c tid ptid ftid = some n1 →
        n1.output = (fun _ _ => 0) ∧
        (n1.renderBlock c tid ptid ftid vv arr).output ch i =
          OutputNode.panned c (OutputNode.panValue vv (n1.blockState c tid ptid ftid arr))
            ((n1.renderBlock c tid ptid ftid vv arr).finalEnvLevel i
              * OutputNode.mainSum arr 0 i)
            ((n1.renderBlock c tid ptid ftid vv arr).finalEnvLevel i
              * OutputNode.mainSum arr 1 i) ch) := by
  refine ⟨OutputNode.outn_renderBlock_panned c tid ptid ftid vv arr n ch i hch hi,
    OutputNode.outn_renderBlock_panned c tid ptid ftid vv2 arr2 _ ch i hch hi,
    OutputNode.outn_attack_isSome c tid ptid ftid n, ?_⟩
  intro n1 h1
  have hz := OutputNode.outn_attack_output c tid ptid ftid n n1 h1
  refine ⟨hz, ?_⟩
  rw [OutputNode.outn_renderBlock_panned c tid ptid ftid vv arr n1 ch i hch hi, hz]
  simp only [zero_add]

/-- C24 witness: the node `plainOutputNode` (level 1, centre pan, envelope 1) with one mixer
of output 1 routed to the main bus.  The first block leaves `0.15 * (0 + 1) = 3/20` in
`output[0][0]`, the second block `0.15 * (3/20 + 1) = 69/400`. -/
theorem C24_output_buffer_accumulates_witness :
    (Demo.plainOutputNode.renderBlock Demo.collab Demo.outputIds Demo.panIds Demo.fineIds
        Demo.voice Demo.mixers).output 0 0 = 3 / 20 ∧
      ((Demo.plainOutputNode.renderBlock Demo.collab Demo.outputIds Demo.panIds Demo.fineIds
        Demo.voice Demo.mixers).renderBlock Demo.collab Demo.outputIds Demo.panIds Demo.fineIds
        Demo.voice Demo.mixers).output 0 0 = 69 / 400 := by
  obtain ⟨h1, h2, h3, h4, h5⟩ := Demo.secondBlock_facts
  have hlev : Demo.plainOutputNode.outputNode.level = 1 := rfl
  obtain ⟨g1, g2⟩ := OutputNode.outn_plain_gain Demo.collab Demo.outputIds Demo.panIds
    Demo.fineIds Demo.voice Demo.mixers Demo.secondBlockNode h1 (by rw [h2]; rfl)
    (by rw [h2]; norm_num [Demo.plainOutputNode, Demo.outputNode]) (by rw [h2]; rfl) rfl
    (by rw [h3]; rfl) (by rw [h2, hlev]; norm_num) (by rw [h2, hlev]) 0 (by decide)
  have h : (Demo.secondBlockNode.renderBlock Demo.collab Demo.outputIds Demo.panIds
      Demo.fineIds Demo.voice Demo.mixers).output 0 0 =
      OutputNode.panned Demo.collab
        (OutputNode.panValue Demo.voice (Demo.secondBlockNode.blockState Demo.collab
          Demo.outputIds Demo.panIds Demo.fineIds Demo.mixers))
        ((Demo.secondBlockNode.renderBlock Demo.collab Demo.outputIds Demo.panIds Demo.fineIds
          Demo.voice Demo.mixers).finalEnvLevel 0
          * (Demo.secondBlockNode.output 0 0 + OutputNode.mainSum Demo.mixers 0 0))
        ((Demo.secondBlockNode.renderBlock Demo.collab Demo.outputIds Demo.panIds Demo.fineIds
          Demo.voice Demo.mixers).finalEnvLevel 0
          * (Demo.secondBlockNode.output 1 0 + OutputNode.mainSum Demo.mixers 1 0)) 0 :=
    (C24_output_buffer_accumulates Demo.collab Demo.outputIds Demo.panIds
      Demo.fineIds Demo.voice Demo.voice Demo.mixers Demo.mixers Demo.plainOutputNode 0 0
      (by decide) (by decide)).2.1
  refine ⟨h4, ?_⟩
  show (Demo.secondBlockNode.renderBlock Demo.collab Demo.outputIds Demo.panIds
    Demo.fineIds Demo.voice Demo.mixers).output 0 0 = 69 / 400
  rw [h, g2, g1, h2, hlev, h4, h5]
  norm_num [OutputNode.panned, OutputNode.mainSum, Demo.mixers, Demo.op, Demo.loudMixerNode]

/-- C25: for an active inter-operator node `applyBlock()` writes one accumulator of the
destination operator.  In mode 1 it returns with every member other than `rmLevel` as it
was; in modes 2 and 3, every member other than `fmAmount`; in every other mode it returns
when the block stays inside the `int32_t` range, and whenever it returns every member other
than `phaseInput` is as it was (`feedbackLevel` and the `output` buffer are among the
members left alone in all three cases; the source operator is only read).  In mode 1 a
scale selector other than 1 and 2 gives the scale-0 update `modlev[i] * (from.output[i] - 1)`
and the operator the same node with scale 0 leaves. -/
theorem C25_applyBlock_writes_one_accumulator (c : Collab S D)
    (tm : Patch.MatrixNode.TargetID) (ts : Patch.SelfNode.TargetID) (n : MatrixNodeFrom S)
    (onto src : OpSource) (ha : n.active = true) :
    (n.modMode = 1 → ∃ r, n.applyBlock c tm ts onto src = some r ∧
        r.2 = { onto with rmLevel := r.2.rmLevel }) ∧
      (n.modMode = 2 ∨ n.modMode = 3 → ∃ r, n.applyBlock c tm ts onto src = some r ∧
        r.2 = { onto with fmAmount := r.2.fmAmount }) ∧
      (n.modMode ≠ 1 → n.modMode ≠ 2 → n.modMode ≠ 3 →
        (MatrixNodeFrom.phaseInRange c.blockSize (n.blockState c tm ts) onto src →
          ∃ r, n.applyBlock c tm ts onto src = some r) ∧
        ∀ r, n.applyBlock c tm ts onto src = some r →
          r.2 = { onto with phaseInput := r.2.phaseInput }) ∧
      (n.modMode = 1 → n.rmScale ≠ 1 → n.rmScale ≠ 2 →
        (∃ r, n.applyBlock c tm ts onto src = some r ∧
          ∀ i, i < c.blockSize → r.2.rmLevel i =
            onto.rmLevel i + (n.blockState c tm ts).modlev i * (src.output i - 1)) ∧
        (n.applyBlock c tm ts onto src).map Prod.snd =
          (MatrixNodeFrom.applyBlock c tm ts { n with rmScale := 0 } onto src).map
            Prod.snd) := by
  refine ⟨fun hm => MatrixNodeFrom.mfrom_applyBlock_ring_frame c tm ts n onto src ha hm,
    fun hm => MatrixNodeFrom.mfrom_applyBlock_fm_frame c tm ts n onto src ha hm,
    fun h1 h2 h3 => ⟨fun hr => ⟨_, MatrixNodeFrom.mfrom_applyBlock_phase c tm ts n onto src ha
      h1 h2 h3 hr⟩, fun r hr => MatrixNodeFrom.mfrom_applyBlock_phase_frame c tm ts n onto src
      ha h1 h2 h3 r hr⟩, fun hm h1 h2 => ?_⟩
  have e1 := MatrixNodeFrom.mfrom_applyBlock_ring_default c tm ts n onto src ha hm h1 h2
  have e0 := MatrixNodeFrom.mfrom_applyBlock_ring_default c tm ts { n with rmScale := 0 }
    onto src ha hm (show (0 : Int) ≠ 1 by decide) (show (0 : Int) ≠ 2 by decide)
  refine ⟨⟨_, e1, fun i hi => by simp only [hi, if_true]⟩, ?_⟩
  rw [e1, e0, MatrixNodeFrom.mfrom_blockState_setScale c tm ts 0 n]
  rfl

/-- C25 witness: ring modulation with the scale selector 5, `modlev = 1` and source 1/2.
The call returns with `rmLevel[0] = 0 + 1 * (1/2 - 1) = -1/2` and with `phaseInput`,
`fmAmount`, `feedbackLevel` and `output` as they were. -/
theorem C25_applyBlock_writes_one_accumulator_witness :
    ∃ r, Demo.oddScaleNode.applyBlock Demo.collab Demo.matrixIds Demo.selfIds Demo.op Demo.op
        = some r ∧ r.2.rmLevel 0 = -(1 / 2) ∧ r.2.phaseInput = Demo.op.phaseInput ∧
      r.2.fmAmount = Demo.op.fmAmount ∧ r.2.feedbackLevel = Demo.op.feedbackLevel ∧
      r.2.output = Demo.op.output := by
  have h := C25_applyBlock_writes_one_accumulator Demo.collab Demo.matrixIds Demo.selfIds
    Demo.oddScaleNode Demo.op Demo.op rfl
  obtain ⟨r, hr, hv⟩ := (h.2.2.2 rfl (by decide) (by decide)).1
  obtain ⟨r', hr', hf⟩ := h.1 rfl
  rw [hr] at hr'
  cases hr'
  refine ⟨r, hr, ?_, ?_, ?_, ?_, ?_⟩
  · rw [hv 0 (by decide), MatrixNodeFrom.mfrom_plain_modlev Demo.oddScaleNode rfl rfl 0]
    norm_num [Demo.op]
  · rw [hf]
  · rw [hf]
  · rw [hf]
  · rw [hf]

end claims

end SixSines
